import Mathlib

/-!
# GPS navigation message decoder (`gps_navigation_message.cc`)

A shallow embedding of `Gps_Navigation_Message` and a verification of its
bit-field reader, frame unpacker, subframe state machine, consistency
validator, snapshot accessors and conversion to UTC.

Conventions of the embedding.

* `std::bitset<300>` is a function `Nat → Bool`; an access is checked against
  the size, an access outside `0..299` is the fault `out_of_range`.
* `uint64_t` is a `Nat` reduced modulo `2^64` after every shift; `int64_t`
  accumulators are kept as their 64-bit two's-complement pattern and read
  back with `toInt64`; `int32_t` values are `Int`, narrowed with `toInt32`.
* `double` is an abstract type `D` with a multiplication and a conversion
  from the integers; for `utc_time` it is an ordered field with a floor
  function, so that the arithmetic is exact.
* the field descriptors and scale constants of `GPS_L1_CA.h`, a header that is
  not among the sources, are parameters of the decoder (`Constants`); the
  theorems hold for every table that passes the static validation
  `Constants.Valid`, and `sample_constants` is one such table.
* the members of `Gps_Navigation_Message` are those the source file refers to,
  with the types its casts give them; a snapshot record holds the members its
  accessor assigns.
* a member function is a function from the state before the call to the
  returned value and the state after it.
-/

namespace GpsNav

/-! ## Bit-field reader -/

/-- Modelled from the spec: the constant `GPS_SUBFRAME_BITS` of `GPS_L1_CA.h`,
a header that is not among the sources; a subframe has 300 bits. -/
def GPS_SUBFRAME_BITS : Int := 300

/-- Modelled from the spec: the constant `GPS_WORD_BITS` of `GPS_L1_CA.h`, a
header that is not among the sources; each of the ten 32-bit wire words carries
30 data bits and 2 padding bits. -/
def GPS_WORD_BITS : Nat := 30

/-- A `std::bitset<GPS_SUBFRAME_BITS>`: bit `i` of the subframe. -/
abbrev Frame := Nat → Bool

/-- A `std::vector<std::pair<int32_t, int32_t>>`: spans `(offset, length)`. -/
abbrev Descriptor := List (Int × Int)

/-- The ways a call can leave the defined behaviour of the program. -/
inductive Fault
  | out_of_range
  deriving DecidableEq, Repr

/-- A value, or the fault that prevented its computation. -/
abbrev Result := Except Fault

deriving instance DecidableEq for Except

/-- Checked access `bits.test(pos)` (and `bits[pos]`): `pos` is a `size_t`
obtained from an `int32_t`, so a negative value is out of range as well. -/
def Frame.test (bits : Frame) (pos : Int) : Result Bool :=
  if 0 ≤ pos ∧ pos < GPS_SUBFRAME_BITS then pure (bits pos.toNat)
  else throw Fault.out_of_range

/-- One step `value = (value << 1) | bit` on a 64-bit accumulator. -/
def shift_or (value : Nat) (bit : Bool) : Nat :=
  ((value <<< 1) % 2 ^ 64) ||| (if bit then 1 else 0)

/-- The inner loop `for (j = 0; j < p.second; ++j)` over one span. -/
def read_span (bits : Frame) (value : Nat) (p : Int × Int) : Result Nat :=
  (List.range p.2.toNat).foldlM
    (fun value (j : Nat) => do
      let b ← bits.test (GPS_SUBFRAME_BITS - p.1 - (j : Int))
      pure (shift_or value b))
    value

/-- The outer loop `for (const auto& p : parameter)`. -/
def read_spans (bits : Frame) (value : Nat) (parameter : Descriptor) : Result Nat :=
  parameter.foldlM (read_span bits) value

/-- Reading of a 64-bit pattern as an `int64_t`. -/
def toInt64 (u : Nat) : Int :=
  if u % 2 ^ 64 < 2 ^ 63 then ((u % 2 ^ 64 : Nat) : Int) else ((u % 2 ^ 64 : Nat) : Int) - 2 ^ 64

/-- Narrowing `static_cast<int32_t>(x)` of an integer value. -/
def toInt32 (x : Int) : Int :=
  (x + 2 ^ 31) % 2 ^ 32 - 2 ^ 31

/-- The function `Gps_Navigation_Message::read_navigation_bool`. -/
def read_navigation_bool (bits : Frame) (parameter : Descriptor) : Result Bool :=
  match parameter with
  | [] => throw Fault.out_of_range
  | p0 :: _ => bits.test (GPS_SUBFRAME_BITS - p0.1)

/-- The function `Gps_Navigation_Message::read_navigation_unsigned`. -/
def read_navigation_unsigned (bits : Frame) (parameter : Descriptor) : Result Nat :=
  read_spans bits 0 parameter

/-- The function `Gps_Navigation_Message::read_navigation_signed`; the seed
`-1LL` is the pattern `2^64 - 1`. -/
def read_navigation_signed (bits : Frame) (parameter : Descriptor) : Result Int :=
  match parameter with
  | [] => throw Fault.out_of_range
  | p0 :: _ => do
    let b0 ← bits.test (GPS_SUBFRAME_BITS - p0.1)
    let value ← read_spans bits (if b0 then 2 ^ 64 - 1 else 0) parameter
    pure (toInt64 value)

/-! ## Reference reading of a field -/

/-- Every span of the descriptor lies inside the frame. -/
def InRange (parameter : Descriptor) : Prop :=
  ∀ p ∈ parameter, 1 ≤ p.1 ∧ p.1 + p.2 - 1 ≤ 300

instance (parameter : Descriptor) : Decidable (InRange parameter) := by
  unfold InRange; infer_instance

/-- Number of bits a descriptor covers (a span of length `≤ 0` covers none). -/
def total_length (parameter : Descriptor) : Nat :=
  (parameter.map (fun p => p.2.toNat)).sum

/-- Frame indices of one span, in reading order. -/
def span_positions (p : Int × Int) : List Int :=
  (List.range p.2.toNat).map (fun (j : Nat) => 300 - p.1 - (j : Int))

/-- Frame indices of a descriptor, span by span in descriptor order. -/
def field_positions : Descriptor → List Int
  | [] => []
  | p :: ps => span_positions p ++ field_positions ps

/-- The frame bits of a descriptor, in reading order. -/
def field_bits (bits : Frame) (parameter : Descriptor) : List Bool :=
  (field_positions parameter).map (fun i => bits i.toNat)

/-- The natural number with the given binary numeral, most significant first. -/
def binary_value (l : List Bool) : Nat :=
  l.foldl (fun acc b => 2 * acc + (if b then 1 else 0)) 0

/-! ## Reference encoder of a field -/

/-- The `n`-bit pattern of `v`, most significant bit first (two's complement
when `v` is negative). -/
def bit_pattern (n : Nat) (v : Int) : List Bool :=
  (List.range n).map (fun (k : Nat) => (v % 2 ^ n).toNat.testBit (n - 1 - k))

/-- Assignments `bits[pos] = b`, one after the other. -/
def write_bits (bits : Frame) : List (Int × Bool) → Frame
  | [] => bits
  | (i, b) :: rest => write_bits (Function.update bits i.toNat b) rest

/-- Encoder used to state the round trip: the pattern of `v` over the total
width of the descriptor is written, most significant bit first, at the frame
indices of the descriptor's spans. -/
def write_navigation (bits : Frame) (parameter : Descriptor) (v : Int) : Frame :=
  write_bits bits ((field_positions parameter).zip (bit_pattern (total_length parameter) v))

/-- No frame index is covered by two spans of the descriptor. -/
def NonOverlapping (parameter : Descriptor) : Prop :=
  (field_positions parameter).Nodup

instance (parameter : Descriptor) : Decidable (NonOverlapping parameter) := by
  unfold NonOverlapping; infer_instance

/-- The all-zero frame, a default-constructed `std::bitset`. -/
def zero_frame : Frame := fun _ => false

/-! ## Field descriptors and scale constants (`GPS_L1_CA.h`) -/

/-- Names of the field descriptors of `GPS_L1_CA.h` used by the decoder. -/
inductive Field
  | TOW | INTEGRITY_STATUS_FLAG | ALERT_FLAG | ANTI_SPOOFING_FLAG | SUBFRAME_ID
  | GPS_WEEK | CA_OR_P_ON_L2 | SV_ACCURACY | SV_HEALTH | L2_P_DATA_FLAG
  | T_GD | IODC | T_OC | A_F2 | A_F1 | A_F0
  | IODE_SF2 | C_RS | DELTA_N | M_0 | C_UC | ECCENTRICITY | C_US | SQRT_A | T_OE
  | FIT_INTERVAL_FLAG | AODO
  | C_IC | OMEGA_0 | C_IS | I_0 | C_RC | OMEGA | OMEGA_DOT | IODE_SF3 | I_DOT
  | SV_DATA_ID | SV_PAGE
  | ALM_MZERO | ALM_ECC | ALM_SQUAREA | ALM_OMEGAZERO | ALM_OMEGA | ALM_OMEGADOT
  | ALM_DELTAI | ALM_AF0 | ALM_AF1 | ALM_TOA | ALM_SVHEALTH
  | ALPHA_0 | ALPHA_1 | ALPHA_2 | ALPHA_3 | BETA_0 | BETA_1 | BETA_2 | BETA_3
  | A_1 | A_0 | T_OT | WN_T | DELTAT_LS | WN_LSF | DN | DELTAT_LSF
  | T_OA | WN_A
  | HEALTH_SV1 | HEALTH_SV2 | HEALTH_SV3 | HEALTH_SV4 | HEALTH_SV5 | HEALTH_SV6
  | HEALTH_SV7 | HEALTH_SV8 | HEALTH_SV9 | HEALTH_SV10 | HEALTH_SV11 | HEALTH_SV12
  | HEALTH_SV13 | HEALTH_SV14 | HEALTH_SV15 | HEALTH_SV16 | HEALTH_SV17 | HEALTH_SV18
  | HEALTH_SV19 | HEALTH_SV20 | HEALTH_SV21 | HEALTH_SV22 | HEALTH_SV23 | HEALTH_SV24
  | HEALTH_SV25 | HEALTH_SV26 | HEALTH_SV27 | HEALTH_SV28 | HEALTH_SV29 | HEALTH_SV30
  | HEALTH_SV31 | HEALTH_SV32
  deriving DecidableEq

/-- The constants of `GPS_L1_CA.h` the decoder refers to: `desc F` is the
descriptor named `F`, `lsb F` the `double` constant `F_LSB` and `ilsb F` the
integer constant `F_LSB` of a field kept in an `int32_t`. -/
structure Constants (D : Type) where
  desc : Field → Descriptor
  lsb : Field → D
  ilsb : Field → Int

/-- The descriptor has a first span, of length at least one. -/
def NonEmptyFirst : Descriptor → Prop
  | [] => False
  | p0 :: _ => 1 ≤ p0.2

instance (parameter : Descriptor) : Decidable (NonEmptyFirst parameter) := by
  cases parameter <;> unfold NonEmptyFirst <;> infer_instance

/-- Static validation of the table against the frame length: every descriptor
lies inside the frame and starts with a non-empty span. -/
def Constants.Valid {D : Type} (K : Constants D) : Prop :=
  ∀ f : Field, InRange (K.desc f) ∧ NonEmptyFirst (K.desc f)

/-! ## Decoder state -/

/-- The data members of `Gps_Navigation_Message` used in
`gps_navigation_message.cc`. -/
structure Gps_Navigation_Message (D : Type) where
  d_TOW : Int
  d_TOW_SF1 : Int
  d_TOW_SF2 : Int
  d_TOW_SF3 : Int
  d_TOW_SF4 : Int
  d_TOW_SF5 : Int
  b_integrity_status_flag : Bool
  b_alert_flag : Bool
  b_antispoofing_flag : Bool
  i_GPS_week : Int
  i_SV_accuracy : Int
  i_SV_health : Int
  b_L2_P_data_flag : Bool
  i_code_on_L2 : Int
  d_TGD : D
  d_IODC : Int
  d_Toc : Int
  d_A_f0 : D
  d_A_f1 : D
  d_A_f2 : D
  d_IODE_SF2 : Int
  d_Crs : D
  d_Delta_n : D
  d_M_0 : D
  d_Cuc : D
  d_e_eccentricity : D
  d_Cus : D
  d_sqrt_A : D
  d_Toe : Int
  b_fit_interval_flag : Bool
  i_AODO : Int
  d_Cic : D
  d_OMEGA0 : D
  d_Cis : D
  d_i_0 : D
  d_Crc : D
  d_OMEGA : D
  d_OMEGA_DOT : D
  d_IODE_SF3 : Int
  d_IDOT : D
  a_M_0 : D
  a_ecc : D
  a_sqrtA : D
  a_OMEGA_0 : D
  a_omega : D
  a_OMEGAdot : D
  a_delta_i : D
  a_af0 : D
  a_af1 : D
  a_PRN : Int
  i_Toa : Int
  i_WN_A : Int
  SV_Health : Int
  flag_almanac_valid : Bool
  flag_almanac_week_valid : Bool
  d_alpha0 : D
  d_alpha1 : D
  d_alpha2 : D
  d_alpha3 : D
  d_beta0 : D
  d_beta1 : D
  d_beta2 : D
  d_beta3 : D
  d_A1 : D
  d_A0 : D
  d_t_OT : Int
  i_WN_T : Int
  d_DeltaT_LS : Int
  i_WN_LSF : Int
  i_DN : Int
  d_DeltaT_LSF : Int
  flag_iono_valid : Bool
  flag_utc_model_valid : Bool
  almanacHealth : Nat → Int
  satelliteBlock : Nat → String
  i_satellite_PRN : Nat
  d_spare1 : D
  d_spare2 : D
  b_valid_ephemeris_set_flag : Bool

/-! ## Frame unpacker -/

/-- The copy `memcpy(&gps_word, &subframe[i * 4], 4)` on a little-endian host;
a read past the end of the buffer is a fault. -/
def read_word (subframe : List (Fin 256)) (i : Nat) : Result Nat :=
  match subframe[i * 4]?, subframe[i * 4 + 1]?, subframe[i * 4 + 2]?, subframe[i * 4 + 3]? with
  | some b0, some b1, some b2, some b3 =>
    pure (b0.val + 256 * b1.val + 65536 * b2.val + 16777216 * b3.val)
  | _, _, _, _ => throw Fault.out_of_range

/-- The inner loop `subframe_bits[GPS_WORD_BITS * (9 - i) + j] = word_bits[j]`
for `j = 0 .. GPS_WORD_BITS - 1`. -/
def unpack_word (subframe_bits : Frame) (i : Nat) (gps_word : Nat) : Frame :=
  (List.range GPS_WORD_BITS).foldl
    (fun sb (j : Nat) => Function.update sb (GPS_WORD_BITS * (9 - i) + j) (gps_word.testBit j))
    subframe_bits

/-- The unpack loop at the start of `subframe_decoder`. -/
def unpack (subframe : List (Fin 256)) : Result Frame :=
  (List.range 10).foldlM
    (fun subframe_bits (i : Nat) => do
      let gps_word ← read_word subframe i
      pure (unpack_word subframe_bits i gps_word))
    zero_frame

/-- The 32-bit word `i` of the input, bytes `4i .. 4i+3` in little-endian order
(missing bytes count as zero). -/
def word (subframe : List (Fin 256)) (i : Nat) : Nat :=
  (subframe.getD (i * 4) 0).val + 256 * (subframe.getD (i * 4 + 1) 0).val
    + 65536 * (subframe.getD (i * 4 + 2) 0).val + 16777216 * (subframe.getD (i * 4 + 3) 0).val

/-- The frame determined by ten words: word `i` fills indices
`30 * (9 - i) .. 30 * (9 - i) + 29`. -/
def frame_of_words (w : Nat → Nat) : Frame :=
  fun k => decide (k < 300) && (w (9 - k / 30)).testBit (k % 30)

/-! ## Subframe decoder -/

section Decoder

variable {D : Type} [Mul D] [IntCast D]

/-- The expression `static_cast<int32_t>(read_navigation_unsigned(bits, F))`. -/
def read_i32 (K : Constants D) (bits : Frame) (f : Field) : Result Int := do
  let u ← read_navigation_unsigned bits (K.desc f)
  pure (toInt32 (u : Int))

/-- The expression `static_cast<double>(read_navigation_unsigned(bits, F)) * F_LSB`. -/
def read_scaled_unsigned (K : Constants D) (bits : Frame) (f : Field) : Result D := do
  let u ← read_navigation_unsigned bits (K.desc f)
  pure ((((u : Nat) : Int) : D) * K.lsb f)

/-- The expression `static_cast<double>(read_navigation_signed(bits, F)) * F_LSB`. -/
def read_scaled_signed (K : Constants D) (bits : Frame) (f : Field) : Result D := do
  let v ← read_navigation_signed bits (K.desc f)
  pure ((v : D) * K.lsb f)

/-- The expression `static_cast<int32_t>(read_navigation_signed(bits, F))`. -/
def read_i32_signed (K : Constants D) (bits : Frame) (f : Field) : Result Int := do
  let v ← read_navigation_signed bits (K.desc f)
  pure (toInt32 v)

/-- The expression `read_navigation_bool(bits, F)`. -/
def read_flag (K : Constants D) (bits : Frame) (f : Field) : Result Bool :=
  read_navigation_bool bits (K.desc f)

/-- The statements `x = static_cast<int32_t>(read_navigation_unsigned(bits, F));
x = x * c;` on an `int32_t`. -/
def read_i32_times (K : Constants D) (bits : Frame) (f : Field) (c : Int) : Result Int := do
  let x ← read_i32 K bits f
  pure (toInt32 (x * c))

/-- Body of `case 1` of `subframe_decoder`. -/
def decode_subframe_1 (K : Constants D) (bits : Frame) (s : Gps_Navigation_Message D) :
    Result (Gps_Navigation_Message D) := do
  let tow ← read_i32_times K bits .TOW 6
  let integrity ← read_flag K bits .INTEGRITY_STATUS_FLAG
  let alert ← read_flag K bits .ALERT_FLAG
  let antispoofing ← read_flag K bits .ANTI_SPOOFING_FLAG
  let week ← read_i32 K bits .GPS_WEEK
  let accuracy ← read_i32 K bits .SV_ACCURACY
  let health ← read_i32 K bits .SV_HEALTH
  let l2p ← read_flag K bits .L2_P_DATA_FLAG
  let code_on_L2 ← read_i32 K bits .CA_OR_P_ON_L2
  let tgd ← read_scaled_signed K bits .T_GD
  let iodc ← read_i32 K bits .IODC
  let toc ← read_i32_times K bits .T_OC (K.ilsb .T_OC)
  let af0 ← read_scaled_signed K bits .A_F0
  let af1 ← read_scaled_signed K bits .A_F1
  let af2 ← read_scaled_signed K bits .A_F2
  pure { s with
    d_TOW_SF1 := tow, d_TOW := tow,
    b_integrity_status_flag := integrity, b_alert_flag := alert,
    b_antispoofing_flag := antispoofing,
    i_GPS_week := week, i_SV_accuracy := accuracy, i_SV_health := health,
    b_L2_P_data_flag := l2p, i_code_on_L2 := code_on_L2,
    d_TGD := tgd, d_IODC := iodc, d_Toc := toc,
    d_A_f0 := af0, d_A_f1 := af1, d_A_f2 := af2 }

/-- Body of `case 2` of `subframe_decoder`. -/
def decode_subframe_2 (K : Constants D) (bits : Frame) (s : Gps_Navigation_Message D) :
    Result (Gps_Navigation_Message D) := do
  let tow ← read_i32_times K bits .TOW 6
  let integrity ← read_flag K bits .INTEGRITY_STATUS_FLAG
  let alert ← read_flag K bits .ALERT_FLAG
  let antispoofing ← read_flag K bits .ANTI_SPOOFING_FLAG
  let iode ← read_i32 K bits .IODE_SF2
  let crs ← read_scaled_signed K bits .C_RS
  let delta_n ← read_scaled_signed K bits .DELTA_N
  let m0 ← read_scaled_signed K bits .M_0
  let cuc ← read_scaled_signed K bits .C_UC
  let ecc ← read_scaled_unsigned K bits .ECCENTRICITY
  let cus ← read_scaled_signed K bits .C_US
  let sqrtA ← read_scaled_unsigned K bits .SQRT_A
  let toe ← read_i32_times K bits .T_OE (K.ilsb .T_OE)
  let fit ← read_flag K bits .FIT_INTERVAL_FLAG
  let aodo ← read_i32_times K bits .AODO (K.ilsb .AODO)
  pure { s with
    d_TOW_SF2 := tow, d_TOW := tow,
    b_integrity_status_flag := integrity, b_alert_flag := alert,
    b_antispoofing_flag := antispoofing,
    d_IODE_SF2 := iode, d_Crs := crs, d_Delta_n := delta_n, d_M_0 := m0, d_Cuc := cuc,
    d_e_eccentricity := ecc, d_Cus := cus, d_sqrt_A := sqrtA, d_Toe := toe,
    b_fit_interval_flag := fit, i_AODO := aodo }

/-- Body of `case 3` of `subframe_decoder`. -/
def decode_subframe_3 (K : Constants D) (bits : Frame) (s : Gps_Navigation_Message D) :
    Result (Gps_Navigation_Message D) := do
  let tow ← read_i32_times K bits .TOW 6
  let integrity ← read_flag K bits .INTEGRITY_STATUS_FLAG
  let alert ← read_flag K bits .ALERT_FLAG
  let antispoofing ← read_flag K bits .ANTI_SPOOFING_FLAG
  let cic ← read_scaled_signed K bits .C_IC
  let omega0 ← read_scaled_signed K bits .OMEGA_0
  let cis ← read_scaled_signed K bits .C_IS
  let i0 ← read_scaled_signed K bits .I_0
  let crc ← read_scaled_signed K bits .C_RC
  let omega ← read_scaled_signed K bits .OMEGA
  let omega_dot ← read_scaled_signed K bits .OMEGA_DOT
  let iode ← read_i32 K bits .IODE_SF3
  let idot ← read_scaled_signed K bits .I_DOT
  pure { s with
    d_TOW_SF3 := tow, d_TOW := tow,
    b_integrity_status_flag := integrity, b_alert_flag := alert,
    b_antispoofing_flag := antispoofing,
    d_Cic := cic, d_OMEGA0 := omega0, d_Cis := cis, d_i_0 := i0, d_Crc := crc,
    d_OMEGA := omega, d_OMEGA_DOT := omega_dot, d_IODE_SF3 := iode, d_IDOT := idot }

/-- The almanac block of `case 4` (pages 25 to 32, non-zero data ID). -/
def decode_almanac_4 (K : Constants D) (bits : Frame) (SV_page : Int)
    (s : Gps_Navigation_Message D) : Result (Gps_Navigation_Message D) := do
  let m0 ← read_scaled_signed K bits .ALM_MZERO
  let ecc ← read_scaled_unsigned K bits .ALM_ECC
  let sqrtA ← read_scaled_unsigned K bits .ALM_SQUAREA
  let omega0 ← read_scaled_signed K bits .ALM_OMEGAZERO
  let omega ← read_scaled_signed K bits .ALM_OMEGA
  let omega_dot ← read_scaled_signed K bits .ALM_OMEGADOT
  let delta_i ← read_scaled_signed K bits .ALM_DELTAI
  let af0 ← read_scaled_signed K bits .ALM_AF0
  let af1 ← read_scaled_signed K bits .ALM_AF1
  let toa ← read_i32_times K bits .ALM_TOA (K.ilsb .ALM_TOA)
  pure { s with
    a_M_0 := m0, a_ecc := ecc, a_sqrtA := sqrtA, a_OMEGA_0 := omega0, a_omega := omega,
    a_OMEGAdot := omega_dot, a_delta_i := delta_i, a_af0 := af0, a_af1 := af1,
    a_PRN := SV_page, i_Toa := toa, flag_almanac_valid := true }

/-- The block `if (SV_page == 56)` of `case 4`: ionospheric and UTC data. -/
def decode_page_18 (K : Constants D) (bits : Frame) (s : Gps_Navigation_Message D) :
    Result (Gps_Navigation_Message D) := do
  let alpha0 ← read_scaled_signed K bits .ALPHA_0
  let alpha1 ← read_scaled_signed K bits .ALPHA_1
  let alpha2 ← read_scaled_signed K bits .ALPHA_2
  let alpha3 ← read_scaled_signed K bits .ALPHA_3
  let beta0 ← read_scaled_signed K bits .BETA_0
  let beta1 ← read_scaled_signed K bits .BETA_1
  let beta2 ← read_scaled_signed K bits .BETA_2
  let beta3 ← read_scaled_signed K bits .BETA_3
  let a1 ← read_scaled_signed K bits .A_1
  let a0 ← read_scaled_signed K bits .A_0
  let tot ← read_i32_times K bits .T_OT (K.ilsb .T_OT)
  let wn_t ← read_i32 K bits .WN_T
  let dt_ls ← read_i32_signed K bits .DELTAT_LS
  let wn_lsf ← read_i32 K bits .WN_LSF
  let dn ← read_i32 K bits .DN
  let dt_lsf ← read_i32_signed K bits .DELTAT_LSF
  pure { s with
    d_alpha0 := alpha0, d_alpha1 := alpha1, d_alpha2 := alpha2, d_alpha3 := alpha3,
    d_beta0 := beta0, d_beta1 := beta1, d_beta2 := beta2, d_beta3 := beta3,
    d_A1 := a1, d_A0 := a0, d_t_OT := tot, i_WN_T := wn_t, d_DeltaT_LS := dt_ls,
    i_WN_LSF := wn_lsf, i_DN := dn, d_DeltaT_LSF := dt_lsf,
    flag_iono_valid := true, flag_utc_model_valid := true }

/-- The assignment `almanacHealth[v] = static_cast<int32_t>(read_navigation_unsigned(bits, F))`. -/
def set_health (K : Constants D) (bits : Frame) (v : Nat) (f : Field)
    (s : Gps_Navigation_Message D) : Result (Gps_Navigation_Message D) := do
  let h ← read_i32 K bits f
  pure { s with almanacHealth := Function.update s.almanacHealth v h }

/-- The block `if (SV_page == 63)` of `case 4`: health of PRN 25 to 32. -/
def decode_page_25_sf4 (K : Constants D) (bits : Frame) (s : Gps_Navigation_Message D) :
    Result (Gps_Navigation_Message D) := do
  let s ← set_health K bits 25 .HEALTH_SV25 s
  let s ← set_health K bits 26 .HEALTH_SV26 s
  let s ← set_health K bits 27 .HEALTH_SV27 s
  let s ← set_health K bits 28 .HEALTH_SV28 s
  let s ← set_health K bits 29 .HEALTH_SV29 s
  let s ← set_health K bits 30 .HEALTH_SV30 s
  let s ← set_health K bits 31 .HEALTH_SV31 s
  set_health K bits 32 .HEALTH_SV32 s

/-- Body of `case 4` of `subframe_decoder`. -/
def decode_subframe_4 (K : Constants D) (bits : Frame) (s : Gps_Navigation_Message D) :
    Result (Gps_Navigation_Message D) := do
  let tow ← read_i32_times K bits .TOW 6
  let integrity ← read_flag K bits .INTEGRITY_STATUS_FLAG
  let alert ← read_flag K bits .ALERT_FLAG
  let antispoofing ← read_flag K bits .ANTI_SPOOFING_FLAG
  let s := { s with
    d_TOW_SF4 := tow, d_TOW := tow,
    b_integrity_status_flag := integrity, b_alert_flag := alert,
    b_antispoofing_flag := antispoofing }
  let SV_data_ID ← read_i32 K bits .SV_DATA_ID
  let SV_page ← read_i32 K bits .SV_PAGE
  let s ← (if SV_page > 24 ∧ SV_page < 33 then
      (if SV_data_ID ≠ 0 then decode_almanac_4 K bits SV_page s else pure s)
    else pure s)
  let s ← (if SV_page = 56 then decode_page_18 K bits s else pure s)
  (if SV_page = 63 then decode_page_25_sf4 K bits s else pure s)

/-- The almanac block of `case 5` (pages 1 to 24, non-zero data ID). -/
def decode_almanac_5 (K : Constants D) (bits : Frame) (SV_page_5 : Int)
    (s : Gps_Navigation_Message D) : Result (Gps_Navigation_Message D) := do
  let m0 ← read_scaled_signed K bits .ALM_MZERO
  let ecc ← read_scaled_unsigned K bits .ALM_ECC
  let sqrtA ← read_scaled_unsigned K bits .ALM_SQUAREA
  let omega0 ← read_scaled_signed K bits .ALM_OMEGAZERO
  let omega ← read_scaled_signed K bits .ALM_OMEGA
  let omega_dot ← read_scaled_signed K bits .ALM_OMEGADOT
  let delta_i ← read_scaled_signed K bits .ALM_DELTAI
  let af0 ← read_scaled_signed K bits .ALM_AF0
  let af1 ← read_scaled_signed K bits .ALM_AF1
  let toa ← read_i32_times K bits .ALM_TOA (K.ilsb .ALM_TOA)
  let health ← read_i32 K bits .ALM_SVHEALTH
  pure { s with
    a_M_0 := m0, a_ecc := ecc, a_sqrtA := sqrtA, a_OMEGA_0 := omega0, a_omega := omega,
    a_OMEGAdot := omega_dot, a_delta_i := delta_i, a_af0 := af0, a_af1 := af1,
    a_PRN := SV_page_5, i_Toa := toa, SV_Health := health, flag_almanac_valid := true }

/-- The block `if (SV_page_5 == 51)` of `case 5`: almanac reference time and
week, health of PRN 1 to 24. -/
def decode_page_25_sf5 (K : Constants D) (bits : Frame) (s : Gps_Navigation_Message D) :
    Result (Gps_Navigation_Message D) := do
  let toa ← read_i32_times K bits .T_OA (K.ilsb .T_OA)
  let wn_a ← read_i32 K bits .WN_A
  let s := { s with i_Toa := toa, i_WN_A := wn_a, flag_almanac_week_valid := true }
  let s ← set_health K bits 1 .HEALTH_SV1 s
  let s ← set_health K bits 2 .HEALTH_SV2 s
  let s ← set_health K bits 3 .HEALTH_SV3 s
  let s ← set_health K bits 4 .HEALTH_SV4 s
  let s ← set_health K bits 5 .HEALTH_SV5 s
  let s ← set_health K bits 6 .HEALTH_SV6 s
  let s ← set_health K bits 7 .HEALTH_SV7 s
  let s ← set_health K bits 8 .HEALTH_SV8 s
  let s ← set_health K bits 9 .HEALTH_SV9 s
  let s ← set_health K bits 10 .HEALTH_SV10 s
  let s ← set_health K bits 11 .HEALTH_SV11 s
  let s ← set_health K bits 12 .HEALTH_SV12 s
  let s ← set_health K bits 13 .HEALTH_SV13 s
  let s ← set_health K bits 14 .HEALTH_SV14 s
  let s ← set_health K bits 15 .HEALTH_SV15 s
  let s ← set_health K bits 16 .HEALTH_SV16 s
  let s ← set_health K bits 17 .HEALTH_SV17 s
  let s ← set_health K bits 18 .HEALTH_SV18 s
  let s ← set_health K bits 19 .HEALTH_SV19 s
  let s ← set_health K bits 20 .HEALTH_SV20 s
  let s ← set_health K bits 21 .HEALTH_SV21 s
  let s ← set_health K bits 22 .HEALTH_SV22 s
  let s ← set_health K bits 23 .HEALTH_SV23 s
  set_health K bits 24 .HEALTH_SV24 s

/-- Body of `case 5` of `subframe_decoder`. -/
def decode_subframe_5 (K : Constants D) (bits : Frame) (s : Gps_Navigation_Message D) :
    Result (Gps_Navigation_Message D) := do
  let tow ← read_i32_times K bits .TOW 6
  let integrity ← read_flag K bits .INTEGRITY_STATUS_FLAG
  let alert ← read_flag K bits .ALERT_FLAG
  let antispoofing ← read_flag K bits .ANTI_SPOOFING_FLAG
  let s := { s with
    d_TOW_SF5 := tow, d_TOW := tow,
    b_integrity_status_flag := integrity, b_alert_flag := alert,
    b_antispoofing_flag := antispoofing }
  let SV_data_ID_5 ← read_i32 K bits .SV_DATA_ID
  let SV_page_5 ← read_i32 K bits .SV_PAGE
  let s ← (if SV_page_5 > 0 ∧ SV_page_5 < 25 then
      (if SV_data_ID_5 ≠ 0 then decode_almanac_5 K bits SV_page_5 s else pure s)
    else pure s)
  (if SV_page_5 = 51 then decode_page_25_sf5 K bits s else pure s)

/-- The `switch (subframe_ID)` of `subframe_decoder`. -/
def decode_switch (K : Constants D) (bits : Frame) (subframe_ID : Int)
    (s : Gps_Navigation_Message D) : Result (Gps_Navigation_Message D) :=
  if subframe_ID = 1 then decode_subframe_1 K bits s
  else if subframe_ID = 2 then decode_subframe_2 K bits s
  else if subframe_ID = 3 then decode_subframe_3 K bits s
  else if subframe_ID = 4 then decode_subframe_4 K bits s
  else if subframe_ID = 5 then decode_subframe_5 K bits s
  else pure s

/-- The function `Gps_Navigation_Message::subframe_decoder`: the returned
identifier and the state after the call. -/
def subframe_decoder (K : Constants D) (s : Gps_Navigation_Message D)
    (subframe : List (Fin 256)) : Result (Int × Gps_Navigation_Message D) := do
  let subframe_bits ← unpack subframe
  let subframe_ID ← read_i32 K subframe_bits .SUBFRAME_ID
  let s ← decode_switch K subframe_bits subframe_ID s
  pure (subframe_ID, s)

end Decoder

/-- The function `Gps_Navigation_Message::satellite_validation`: the returned
value and the state after the call. -/
def satellite_validation {D : Type} (s : Gps_Navigation_Message D) : Bool × Gps_Navigation_Message D :=
  let s0 := { s with b_valid_ephemeris_set_flag := false }
  if s0.d_TOW_SF1 ≠ 0 ∧ s0.d_TOW_SF2 ≠ 0 ∧ s0.d_TOW_SF3 ≠ 0 then
    if s0.d_IODE_SF2 = s0.d_IODE_SF3 ∧ Int.land s0.d_IODC 0xFF = s0.d_IODE_SF2 ∧ s0.d_IODE_SF2 ≠ -1 then
      (true, { s0 with b_valid_ephemeris_set_flag := true })
    else (false, s0)
  else (false, s0)

/-! ## Values read from a frame by a validated descriptor -/

/-- The accumulator of `read_navigation_unsigned` after all spans. -/
def raw_unsigned (bits : Frame) (parameter : Descriptor) : Nat :=
  (field_bits bits parameter).foldl shift_or 0

/-- The bit at the first position of the first span. -/
def lead_bit (bits : Frame) : Descriptor → Bool
  | [] => false
  | p0 :: _ => bits (300 - p0.1).toNat

/-- The value of `read_navigation_signed` after all spans. -/
def raw_signed (bits : Frame) (parameter : Descriptor) : Int :=
  toInt64 ((field_bits bits parameter).foldl shift_or
    (if lead_bit bits parameter then 2 ^ 64 - 1 else 0))

/-- The identifier `subframe_decoder` decodes from a 40-byte input. -/
def subframe_id {D : Type} (K : Constants D) (subframe : List (Fin 256)) : Int :=
  toInt32 (raw_unsigned (frame_of_words (word subframe)) (K.desc .SUBFRAME_ID))

/-- The unsigned value of field `f` in a 40-byte input. -/
def field_unsigned {D : Type} (K : Constants D) (subframe : List (Fin 256)) (f : Field) : Nat :=
  raw_unsigned (frame_of_words (word subframe)) (K.desc f)

/-- A sequence of `subframe_decoder` calls, the state threaded through. -/
def decode_all {D : Type} [Mul D] [IntCast D] (K : Constants D) :
    Gps_Navigation_Message D → List (List (Fin 256)) → Result (Gps_Navigation_Message D)
  | s, [] => pure s
  | s, f :: fs => do
    let r ← subframe_decoder K s f
    decode_all K r.2 fs

/-! ## A table of constants

The values of IS-GPS-200 (20.3.3) for the descriptors, with the subframe bits
numbered from 1, and the scale factors of its tables; `π` is the value
`3.1415926535898` the interface specification prescribes. -/

/-- The constant `GNSS_PI`. -/
def GNSS_PI : ℚ := 31415926535898 / 10000000000000

/-- Descriptors of the sample table. -/
def sample_desc : Field → Descriptor
  | .TOW => [(31, 17)]
  | .INTEGRITY_STATUS_FLAG => [(23, 1)]
  | .ALERT_FLAG => [(48, 1)]
  | .ANTI_SPOOFING_FLAG => [(49, 1)]
  | .SUBFRAME_ID => [(50, 3)]
  | .GPS_WEEK => [(61, 10)]
  | .CA_OR_P_ON_L2 => [(71, 2)]
  | .SV_ACCURACY => [(73, 4)]
  | .SV_HEALTH => [(77, 6)]
  | .L2_P_DATA_FLAG => [(91, 1)]
  | .T_GD => [(197, 8)]
  | .IODC => [(83, 2), (211, 8)]
  | .T_OC => [(219, 16)]
  | .A_F2 => [(241, 8)]
  | .A_F1 => [(249, 16)]
  | .A_F0 => [(271, 22)]
  | .IODE_SF2 => [(61, 8)]
  | .C_RS => [(69, 16)]
  | .DELTA_N => [(91, 16)]
  | .M_0 => [(107, 8), (121, 24)]
  | .C_UC => [(151, 16)]
  | .ECCENTRICITY => [(167, 8), (181, 24)]
  | .C_US => [(211, 16)]
  | .SQRT_A => [(227, 8), (241, 24)]
  | .T_OE => [(271, 16)]
  | .FIT_INTERVAL_FLAG => [(287, 1)]
  | .AODO => [(288, 5)]
  | .C_IC => [(61, 16)]
  | .OMEGA_0 => [(77, 8), (91, 24)]
  | .C_IS => [(121, 16)]
  | .I_0 => [(137, 8), (151, 24)]
  | .C_RC => [(181, 16)]
  | .OMEGA => [(197, 8), (211, 24)]
  | .OMEGA_DOT => [(241, 24)]
  | .IODE_SF3 => [(271, 8)]
  | .I_DOT => [(279, 14)]
  | .SV_DATA_ID => [(61, 2)]
  | .SV_PAGE => [(63, 6)]
  | .ALM_MZERO => [(241, 24)]
  | .ALM_ECC => [(69, 16)]
  | .ALM_SQUAREA => [(151, 24)]
  | .ALM_OMEGAZERO => [(181, 24)]
  | .ALM_OMEGA => [(211, 24)]
  | .ALM_OMEGADOT => [(121, 16)]
  | .ALM_DELTAI => [(99, 16)]
  | .ALM_AF0 => [(271, 8), (290, 3)]
  | .ALM_AF1 => [(279, 11)]
  | .ALM_TOA => [(91, 8)]
  | .ALM_SVHEALTH => [(137, 8)]
  | .ALPHA_0 => [(69, 8)]
  | .ALPHA_1 => [(77, 8)]
  | .ALPHA_2 => [(91, 8)]
  | .ALPHA_3 => [(99, 8)]
  | .BETA_0 => [(107, 8)]
  | .BETA_1 => [(121, 8)]
  | .BETA_2 => [(129, 8)]
  | .BETA_3 => [(137, 8)]
  | .A_1 => [(151, 24)]
  | .A_0 => [(181, 24), (211, 8)]
  | .T_OT => [(219, 8)]
  | .WN_T => [(227, 8)]
  | .DELTAT_LS => [(241, 8)]
  | .WN_LSF => [(249, 8)]
  | .DN => [(257, 8)]
  | .DELTAT_LSF => [(271, 8)]
  | .T_OA => [(69, 8)]
  | .WN_A => [(77, 8)]
  | .HEALTH_SV1 => [(91, 6)]
  | .HEALTH_SV2 => [(97, 6)]
  | .HEALTH_SV3 => [(103, 6)]
  | .HEALTH_SV4 => [(109, 6)]
  | .HEALTH_SV5 => [(121, 6)]
  | .HEALTH_SV6 => [(127, 6)]
  | .HEALTH_SV7 => [(133, 6)]
  | .HEALTH_SV8 => [(139, 6)]
  | .HEALTH_SV9 => [(151, 6)]
  | .HEALTH_SV10 => [(157, 6)]
  | .HEALTH_SV11 => [(163, 6)]
  | .HEALTH_SV12 => [(169, 6)]
  | .HEALTH_SV13 => [(181, 6)]
  | .HEALTH_SV14 => [(187, 6)]
  | .HEALTH_SV15 => [(193, 6)]
  | .HEALTH_SV16 => [(199, 6)]
  | .HEALTH_SV17 => [(211, 6)]
  | .HEALTH_SV18 => [(217, 6)]
  | .HEALTH_SV19 => [(223, 6)]
  | .HEALTH_SV20 => [(229, 6)]
  | .HEALTH_SV21 => [(241, 6)]
  | .HEALTH_SV22 => [(247, 6)]
  | .HEALTH_SV23 => [(253, 6)]
  | .HEALTH_SV24 => [(259, 6)]
  | .HEALTH_SV25 => [(229, 6)]
  | .HEALTH_SV26 => [(241, 6)]
  | .HEALTH_SV27 => [(247, 6)]
  | .HEALTH_SV28 => [(253, 6)]
  | .HEALTH_SV29 => [(259, 6)]
  | .HEALTH_SV30 => [(271, 6)]
  | .HEALTH_SV31 => [(277, 6)]
  | .HEALTH_SV32 => [(283, 6)]

/-- Scale factors of the sample table for the fields kept in a `double`. -/
def sample_lsb : Field → ℚ
  | .T_GD => 1 / 2 ^ 31
  | .A_F2 => 1 / 2 ^ 55
  | .A_F1 => 1 / 2 ^ 43
  | .A_F0 => 1 / 2 ^ 31
  | .C_RS => 1 / 2 ^ 5
  | .DELTA_N => GNSS_PI / 2 ^ 43
  | .M_0 => GNSS_PI / 2 ^ 31
  | .C_UC => 1 / 2 ^ 29
  | .ECCENTRICITY => 1 / 2 ^ 33
  | .C_US => 1 / 2 ^ 29
  | .SQRT_A => 1 / 2 ^ 19
  | .C_IC => 1 / 2 ^ 29
  | .OMEGA_0 => GNSS_PI / 2 ^ 31
  | .C_IS => 1 / 2 ^ 29
  | .I_0 => GNSS_PI / 2 ^ 31
  | .C_RC => 1 / 2 ^ 5
  | .OMEGA => GNSS_PI / 2 ^ 31
  | .OMEGA_DOT => GNSS_PI / 2 ^ 43
  | .I_DOT => GNSS_PI / 2 ^ 43
  | .ALM_MZERO => GNSS_PI / 2 ^ 23
  | .ALM_ECC => 1 / 2 ^ 21
  | .ALM_SQUAREA => 1 / 2 ^ 11
  | .ALM_OMEGAZERO => GNSS_PI / 2 ^ 23
  | .ALM_OMEGA => GNSS_PI / 2 ^ 23
  | .ALM_OMEGADOT => GNSS_PI / 2 ^ 38
  | .ALM_DELTAI => GNSS_PI / 2 ^ 19
  | .ALM_AF0 => 1 / 2 ^ 20
  | .ALM_AF1 => 1 / 2 ^ 38
  | .ALPHA_0 => 1 / 2 ^ 30
  | .ALPHA_1 => 1 / 2 ^ 27
  | .ALPHA_2 => 1 / 2 ^ 24
  | .ALPHA_3 => 1 / 2 ^ 24
  | .BETA_0 => 2 ^ 11
  | .BETA_1 => 2 ^ 14
  | .BETA_2 => 2 ^ 16
  | .BETA_3 => 2 ^ 16
  | .A_1 => 1 / 2 ^ 50
  | .A_0 => 1 / 2 ^ 30
  | _ => 1

/-- Scale factors of the sample table for the fields kept in an `int32_t`. -/
def sample_ilsb : Field → Int
  | .T_OC => 16
  | .T_OE => 16
  | .AODO => 900
  | .ALM_TOA => 4096
  | .T_OT => 4096
  | .T_OA => 4096
  | _ => 1

/-- The sample table. -/
def sample_constants : Constants ℚ :=
  { desc := sample_desc, lsb := sample_lsb, ilsb := sample_ilsb }

/-- A decoder state with every member zero, false or empty. -/
def zero_state : Gps_Navigation_Message ℚ :=
  { d_TOW := 0, d_TOW_SF1 := 0, d_TOW_SF2 := 0, d_TOW_SF3 := 0, d_TOW_SF4 := 0, d_TOW_SF5 := 0,
    b_integrity_status_flag := false, b_alert_flag := false, b_antispoofing_flag := false,
    i_GPS_week := 0, i_SV_accuracy := 0, i_SV_health := 0, b_L2_P_data_flag := false,
    i_code_on_L2 := 0, d_TGD := 0, d_IODC := 0, d_Toc := 0, d_A_f0 := 0, d_A_f1 := 0,
    d_A_f2 := 0, d_IODE_SF2 := 0, d_Crs := 0, d_Delta_n := 0, d_M_0 := 0, d_Cuc := 0,
    d_e_eccentricity := 0, d_Cus := 0, d_sqrt_A := 0, d_Toe := 0, b_fit_interval_flag := false,
    i_AODO := 0, d_Cic := 0, d_OMEGA0 := 0, d_Cis := 0, d_i_0 := 0, d_Crc := 0, d_OMEGA := 0,
    d_OMEGA_DOT := 0, d_IODE_SF3 := 0, d_IDOT := 0, a_M_0 := 0, a_ecc := 0, a_sqrtA := 0,
    a_OMEGA_0 := 0, a_omega := 0, a_OMEGAdot := 0, a_delta_i := 0, a_af0 := 0, a_af1 := 0,
    a_PRN := 0, i_Toa := 0, i_WN_A := 0, SV_Health := 0, flag_almanac_valid := false,
    flag_almanac_week_valid := false, d_alpha0 := 0, d_alpha1 := 0, d_alpha2 := 0,
    d_alpha3 := 0, d_beta0 := 0, d_beta1 := 0, d_beta2 := 0, d_beta3 := 0, d_A1 := 0,
    d_A0 := 0, d_t_OT := 0, i_WN_T := 0, d_DeltaT_LS := 0, i_WN_LSF := 0, i_DN := 0,
    d_DeltaT_LSF := 0, flag_iono_valid := false, flag_utc_model_valid := false,
    almanacHealth := fun _ => 0, satelliteBlock := fun _ => "", i_satellite_PRN := 0,
    d_spare1 := 0, d_spare2 := 0, b_valid_ephemeris_set_flag := false }

/-- A 40-byte input whose ten words are all zero. -/
def zero_subframe : List (Fin 256) := List.replicate 40 0

/-- The unsigned value of the field named `f` in an input of `subframe_decoder`:
the frame is unpacked and the descriptor read. -/
def decoded_field {D : Type} (K : Constants D) (subframe : List (Fin 256)) (f : Field) :
    Result Nat := do
  let subframe_bits ← unpack subframe
  read_navigation_unsigned subframe_bits (K.desc f)

/-- A frame used in the examples: bit `k` is set when `k` is a multiple of 3. -/
def sample_frame : Frame := fun k => k % 3 == 0

/-- A 40-byte input whose second word carries the identifier `id` in bits 8 to
10 and the value 1 in the TOW field (bits 13 to 29); every other bit is 0. -/
def sample_subframe (id : Fin 8) : List (Fin 256) :=
  [0, 0, 0, 0, 0, (0x20 : Fin 256) + Fin.castLE (by decide) id, 0, 0]
    ++ List.replicate 32 0

/-- The input `sample_subframe id` with bits 30 and 31 of the first word set. -/
def sample_subframe_padded (id : Fin 8) : List (Fin 256) :=
  [0, 0, 0, 0xC0, 0, (0x20 : Fin 256) + Fin.castLE (by decide) id, 0, 0]
    ++ List.replicate 32 0

/-! ## Snapshot records and accessors -/

/-- The members of `Gps_Ephemeris` that `get_ephemeris` assigns; each has the
type of the decoder member copied into it. -/
structure Gps_Ephemeris (D : Type) where
  PRN : Nat
  tow : Int
  Crs : D
  delta_n : D
  M_0 : D
  Cuc : D
  ecc : D
  Cus : D
  sqrtA : D
  toe : Int
  toc : Int
  Cic : D
  OMEGA_0 : D
  Cis : D
  i_0 : D
  Crc : D
  omega : D
  OMEGAdot : D
  idot : D
  code_on_L2 : Int
  WN : Int
  L2_P_data_flag : Bool
  SV_accuracy : Int
  SV_health : Int
  TGD : D
  IODC : Int
  IODE_SF2 : Int
  IODE_SF3 : Int
  AODO : Int
  fit_interval_flag : Bool
  spare1 : D
  spare2 : D
  af0 : D
  af1 : D
  af2 : D
  integrity_status_flag : Bool
  alert_flag : Bool
  antispoofing_flag : Bool

/-- The members of `Gps_Almanac` that `get_almanac` assigns. -/
structure Gps_Almanac (D : Type) where
  SV_health : Int
  PRN : Int
  delta_i : D
  toa : Int
  WNa : Int
  M_0 : D
  ecc : D
  sqrtA : D
  OMEGA_0 : D
  omega : D
  OMEGAdot : D
  af0 : D
  af1 : D

/-- The members of `Gps_Iono` that `get_iono` assigns. -/
structure Gps_Iono (D : Type) where
  alpha0 : D
  alpha1 : D
  alpha2 : D
  alpha3 : D
  beta0 : D
  beta1 : D
  beta2 : D
  beta3 : D
  valid : Bool

/-- The members of `Gps_Utc_Model` that `get_utc_model` assigns. -/
structure Gps_Utc_Model (D : Type) where
  valid : Bool
  A1 : D
  A0 : D
  tot : Int
  WN_T : Int
  DeltaT_LS : Int
  WN_LSF : Int
  DN : Int
  DeltaT_LSF : Int

/-- The function `Gps_Navigation_Message::get_ephemeris`, a `const` member: the
returned record and the state after the call, which is the state before it. -/
def get_ephemeris {D : Type} (s : Gps_Navigation_Message D) :
    Gps_Ephemeris D × Gps_Navigation_Message D :=
  ({ PRN := s.i_satellite_PRN,
     tow := s.d_TOW,
     Crs := s.d_Crs,
     delta_n := s.d_Delta_n,
     M_0 := s.d_M_0,
     Cuc := s.d_Cuc,
     ecc := s.d_e_eccentricity,
     Cus := s.d_Cus,
     sqrtA := s.d_sqrt_A,
     toe := s.d_Toe,
     toc := s.d_Toc,
     Cic := s.d_Cic,
     OMEGA_0 := s.d_OMEGA0,
     Cis := s.d_Cis,
     i_0 := s.d_i_0,
     Crc := s.d_Crc,
     omega := s.d_OMEGA,
     OMEGAdot := s.d_OMEGA_DOT,
     idot := s.d_IDOT,
     code_on_L2 := s.i_code_on_L2,
     WN := s.i_GPS_week,
     L2_P_data_flag := s.b_L2_P_data_flag,
     SV_accuracy := s.i_SV_accuracy,
     SV_health := s.i_SV_health,
     TGD := s.d_TGD,
     IODC := s.d_IODC,
     IODE_SF2 := s.d_IODE_SF2,
     IODE_SF3 := s.d_IODE_SF3,
     AODO := s.i_AODO,
     fit_interval_flag := s.b_fit_interval_flag,
     spare1 := s.d_spare1,
     spare2 := s.d_spare2,
     af0 := s.d_A_f0,
     af1 := s.d_A_f1,
     af2 := s.d_A_f2,
     integrity_status_flag := s.b_integrity_status_flag,
     alert_flag := s.b_alert_flag,
     antispoofing_flag := s.b_antispoofing_flag }, s)

/-- The function `Gps_Navigation_Message::get_almanac`: the returned record and
the state after the call. -/
def get_almanac {D : Type} (s : Gps_Navigation_Message D) :
    Gps_Almanac D × Gps_Navigation_Message D :=
  ({ SV_health := s.SV_Health,
     PRN := s.a_PRN,
     delta_i := s.a_delta_i,
     toa := s.i_Toa,
     WNa := s.i_WN_A,
     M_0 := s.a_M_0,
     ecc := s.a_ecc,
     sqrtA := s.a_sqrtA,
     OMEGA_0 := s.a_OMEGA_0,
     omega := s.a_omega,
     OMEGAdot := s.a_OMEGAdot,
     af0 := s.a_af0,
     af1 := s.a_af1 },
   { s with flag_almanac_valid := false })

/-- The function `Gps_Navigation_Message::get_iono`: the returned record and the
state after the call. -/
def get_iono {D : Type} (s : Gps_Navigation_Message D) :
    Gps_Iono D × Gps_Navigation_Message D :=
  ({ alpha0 := s.d_alpha0,
     alpha1 := s.d_alpha1,
     alpha2 := s.d_alpha2,
     alpha3 := s.d_alpha3,
     beta0 := s.d_beta0,
     beta1 := s.d_beta1,
     beta2 := s.d_beta2,
     beta3 := s.d_beta3,
     valid := s.flag_iono_valid },
   { s with flag_iono_valid := false })

/-- The function `Gps_Navigation_Message::get_utc_model`: the returned record
and the state after the call. -/
def get_utc_model {D : Type} (s : Gps_Navigation_Message D) :
    Gps_Utc_Model D × Gps_Navigation_Message D :=
  ({ valid := s.flag_utc_model_valid,
     A1 := s.d_A1,
     A0 := s.d_A0,
     tot := s.d_t_OT,
     WN_T := s.i_WN_T,
     DeltaT_LS := s.d_DeltaT_LS,
     WN_LSF := s.i_WN_LSF,
     DN := s.i_DN,
     DeltaT_LSF := s.d_DeltaT_LSF },
   { s with flag_utc_model_valid := false })

/-- The function `Gps_Navigation_Message::almanac_validation`, a `const`
member: the returned value and the state after the call, which is the state
before it. -/
def almanac_validation {D : Type} (s : Gps_Navigation_Message D) :
    Bool × Gps_Navigation_Message D :=
  (s.flag_almanac_valid && decide (s.i_WN_A > 0), s)

/-! ## The state a decode produces when no read faults -/

section PostState

variable {D : Type} [Mul D] [IntCast D]

/-- Value of `static_cast<int32_t>(read_navigation_unsigned(bits, F))`. -/
def i32_value (K : Constants D) (bits : Frame) (f : Field) : Int :=
  toInt32 (raw_unsigned bits (K.desc f))

/-- Value of an `int32_t` member after `x = (int32_t) read(F); x = x * c;`. -/
def i32_times_value (K : Constants D) (bits : Frame) (f : Field) (c : Int) : Int :=
  toInt32 (toInt32 (raw_unsigned bits (K.desc f)) * c)

/-- Value of `static_cast<int32_t>(read_navigation_signed(bits, F))`. -/
def i32_signed_value (K : Constants D) (bits : Frame) (f : Field) : Int :=
  toInt32 (raw_signed bits (K.desc f))

/-- Value of `static_cast<double>(read_navigation_unsigned(bits, F)) * F_LSB`. -/
def scaled_unsigned_value (K : Constants D) (bits : Frame) (f : Field) : D :=
  (((raw_unsigned bits (K.desc f) : Nat) : Int) : D) * K.lsb f

/-- Value of `static_cast<double>(read_navigation_signed(bits, F)) * F_LSB`. -/
def scaled_signed_value (K : Constants D) (bits : Frame) (f : Field) : D :=
  (raw_signed bits (K.desc f) : D) * K.lsb f

/-- Value of `read_navigation_bool(bits, F)`. -/
def flag_value (K : Constants D) (bits : Frame) (f : Field) : Bool :=
  lead_bit bits (K.desc f)

/-- State after `case 1`. -/
def subframe_1_state (K : Constants D) (bits : Frame) (s : Gps_Navigation_Message D) :
    Gps_Navigation_Message D :=
  { s with
    d_TOW_SF1 := i32_times_value K bits .TOW 6, d_TOW := i32_times_value K bits .TOW 6,
    b_integrity_status_flag := flag_value K bits .INTEGRITY_STATUS_FLAG,
    b_alert_flag := flag_value K bits .ALERT_FLAG,
    b_antispoofing_flag := flag_value K bits .ANTI_SPOOFING_FLAG,
    i_GPS_week := i32_value K bits .GPS_WEEK,
    i_SV_accuracy := i32_value K bits .SV_ACCURACY,
    i_SV_health := i32_value K bits .SV_HEALTH,
    b_L2_P_data_flag := flag_value K bits .L2_P_DATA_FLAG,
    i_code_on_L2 := i32_value K bits .CA_OR_P_ON_L2,
    d_TGD := scaled_signed_value K bits .T_GD,
    d_IODC := i32_value K bits .IODC,
    d_Toc := i32_times_value K bits .T_OC (K.ilsb .T_OC),
    d_A_f0 := scaled_signed_value K bits .A_F0,
    d_A_f1 := scaled_signed_value K bits .A_F1,
    d_A_f2 := scaled_signed_value K bits .A_F2 }

/-- State after `case 2`. -/
def subframe_2_state (K : Constants D) (bits : Frame) (s : Gps_Navigation_Message D) :
    Gps_Navigation_Message D :=
  { s with
    d_TOW_SF2 := i32_times_value K bits .TOW 6, d_TOW := i32_times_value K bits .TOW 6,
    b_integrity_status_flag := flag_value K bits .INTEGRITY_STATUS_FLAG,
    b_alert_flag := flag_value K bits .ALERT_FLAG,
    b_antispoofing_flag := flag_value K bits .ANTI_SPOOFING_FLAG,
    d_IODE_SF2 := i32_value K bits .IODE_SF2,
    d_Crs := scaled_signed_value K bits .C_RS,
    d_Delta_n := scaled_signed_value K bits .DELTA_N,
    d_M_0 := scaled_signed_value K bits .M_0,
    d_Cuc := scaled_signed_value K bits .C_UC,
    d_e_eccentricity := scaled_unsigned_value K bits .ECCENTRICITY,
    d_Cus := scaled_signed_value K bits .C_US,
    d_sqrt_A := scaled_unsigned_value K bits .SQRT_A,
    d_Toe := i32_times_value K bits .T_OE (K.ilsb .T_OE),
    b_fit_interval_flag := flag_value K bits .FIT_INTERVAL_FLAG,
    i_AODO := i32_times_value K bits .AODO (K.ilsb .AODO) }

/-- State after `case 3`. -/
def subframe_3_state (K : Constants D) (bits : Frame) (s : Gps_Navigation_Message D) :
    Gps_Navigation_Message D :=
  { s with
    d_TOW_SF3 := i32_times_value K bits .TOW 6, d_TOW := i32_times_value K bits .TOW 6,
    b_integrity_status_flag := flag_value K bits .INTEGRITY_STATUS_FLAG,
    b_alert_flag := flag_value K bits .ALERT_FLAG,
    b_antispoofing_flag := flag_value K bits .ANTI_SPOOFING_FLAG,
    d_Cic := scaled_signed_value K bits .C_IC,
    d_OMEGA0 := scaled_signed_value K bits .OMEGA_0,
    d_Cis := scaled_signed_value K bits .C_IS,
    d_i_0 := scaled_signed_value K bits .I_0,
    d_Crc := scaled_signed_value K bits .C_RC,
    d_OMEGA := scaled_signed_value K bits .OMEGA,
    d_OMEGA_DOT := scaled_signed_value K bits .OMEGA_DOT,
    d_IODE_SF3 := i32_value K bits .IODE_SF3,
    d_IDOT := scaled_signed_value K bits .I_DOT }

/-- State after the almanac block of `case 4`. -/
def almanac_4_state (K : Constants D) (bits : Frame) (SV_page : Int)
    (s : Gps_Navigation_Message D) : Gps_Navigation_Message D :=
  { s with
    a_M_0 := scaled_signed_value K bits .ALM_MZERO,
    a_ecc := scaled_unsigned_value K bits .ALM_ECC,
    a_sqrtA := scaled_unsigned_value K bits .ALM_SQUAREA,
    a_OMEGA_0 := scaled_signed_value K bits .ALM_OMEGAZERO,
    a_omega := scaled_signed_value K bits .ALM_OMEGA,
    a_OMEGAdot := scaled_signed_value K bits .ALM_OMEGADOT,
    a_delta_i := scaled_signed_value K bits .ALM_DELTAI,
    a_af0 := scaled_signed_value K bits .ALM_AF0,
    a_af1 := scaled_signed_value K bits .ALM_AF1,
    a_PRN := SV_page,
    i_Toa := i32_times_value K bits .ALM_TOA (K.ilsb .ALM_TOA),
    flag_almanac_valid := true }

/-- State after the almanac block of `case 5`. -/
def almanac_5_state (K : Constants D) (bits : Frame) (SV_page_5 : Int)
    (s : Gps_Navigation_Message D) : Gps_Navigation_Message D :=
  { s with
    a_M_0 := scaled_signed_value K bits .ALM_MZERO,
    a_ecc := scaled_unsigned_value K bits .ALM_ECC,
    a_sqrtA := scaled_unsigned_value K bits .ALM_SQUAREA,
    a_OMEGA_0 := scaled_signed_value K bits .ALM_OMEGAZERO,
    a_omega := scaled_signed_value K bits .ALM_OMEGA,
    a_OMEGAdot := scaled_signed_value K bits .ALM_OMEGADOT,
    a_delta_i := scaled_signed_value K bits .ALM_DELTAI,
    a_af0 := scaled_signed_value K bits .ALM_AF0,
    a_af1 := scaled_signed_value K bits .ALM_AF1,
    a_PRN := SV_page_5,
    i_Toa := i32_times_value K bits .ALM_TOA (K.ilsb .ALM_TOA),
    SV_Health := i32_value K bits .ALM_SVHEALTH,
    flag_almanac_valid := true }

/-- State after the block `if (SV_page == 56)`. -/
def page_18_state (K : Constants D) (bits : Frame) (s : Gps_Navigation_Message D) :
    Gps_Navigation_Message D :=
  { s with
    d_alpha0 := scaled_signed_value K bits .ALPHA_0,
    d_alpha1 := scaled_signed_value K bits .ALPHA_1,
    d_alpha2 := scaled_signed_value K bits .ALPHA_2,
    d_alpha3 := scaled_signed_value K bits .ALPHA_3,
    d_beta0 := scaled_signed_value K bits .BETA_0,
    d_beta1 := scaled_signed_value K bits .BETA_1,
    d_beta2 := scaled_signed_value K bits .BETA_2,
    d_beta3 := scaled_signed_value K bits .BETA_3,
    d_A1 := scaled_signed_value K bits .A_1,
    d_A0 := scaled_signed_value K bits .A_0,
    d_t_OT := i32_times_value K bits .T_OT (K.ilsb .T_OT),
    i_WN_T := i32_value K bits .WN_T,
    d_DeltaT_LS := i32_signed_value K bits .DELTAT_LS,
    i_WN_LSF := i32_value K bits .WN_LSF,
    i_DN := i32_value K bits .DN,
    d_DeltaT_LSF := i32_signed_value K bits .DELTAT_LSF,
    flag_iono_valid := true, flag_utc_model_valid := true }

/-- State after one assignment `almanacHealth[v] = ...`. -/
def health_state (K : Constants D) (bits : Frame) (v : Nat) (f : Field)
    (s : Gps_Navigation_Message D) : Gps_Navigation_Message D :=
  { s with almanacHealth := Function.update s.almanacHealth v (i32_value K bits f) }

/-- State after the block `if (SV_page == 63)` of `case 4`. -/
def page_25_sf4_state (K : Constants D) (bits : Frame) (s : Gps_Navigation_Message D) :
    Gps_Navigation_Message D :=
  health_state K bits 32 .HEALTH_SV32 (health_state K bits 31 .HEALTH_SV31
    (health_state K bits 30 .HEALTH_SV30 (health_state K bits 29 .HEALTH_SV29
    (health_state K bits 28 .HEALTH_SV28 (health_state K bits 27 .HEALTH_SV27
    (health_state K bits 26 .HEALTH_SV26 (health_state K bits 25 .HEALTH_SV25 s)))))))

/-- State after the block `if (SV_page_5 == 51)` of `case 5`. -/
def page_25_sf5_state (K : Constants D) (bits : Frame) (s : Gps_Navigation_Message D) :
    Gps_Navigation_Message D :=
  health_state K bits 24 .HEALTH_SV24 (health_state K bits 23 .HEALTH_SV23
    (health_state K bits 22 .HEALTH_SV22 (health_state K bits 21 .HEALTH_SV21
    (health_state K bits 20 .HEALTH_SV20 (health_state K bits 19 .HEALTH_SV19
    (health_state K bits 18 .HEALTH_SV18 (health_state K bits 17 .HEALTH_SV17
    (health_state K bits 16 .HEALTH_SV16 (health_state K bits 15 .HEALTH_SV15
    (health_state K bits 14 .HEALTH_SV14 (health_state K bits 13 .HEALTH_SV13
    (health_state K bits 12 .HEALTH_SV12 (health_state K bits 11 .HEALTH_SV11
    (health_state K bits 10 .HEALTH_SV10 (health_state K bits 9 .HEALTH_SV9
    (health_state K bits 8 .HEALTH_SV8 (health_state K bits 7 .HEALTH_SV7
    (health_state K bits 6 .HEALTH_SV6 (health_state K bits 5 .HEALTH_SV5
    (health_state K bits 4 .HEALTH_SV4 (health_state K bits 3 .HEALTH_SV3
    (health_state K bits 2 .HEALTH_SV2 (health_state K bits 1 .HEALTH_SV1
      { s with
        i_Toa := i32_times_value K bits .T_OA (K.ilsb .T_OA),
        i_WN_A := i32_value K bits .WN_A,
        flag_almanac_week_valid := true })))))))))))))))))))))))

/-- State after the statements `case 4` starts with, up to the page dispatch. -/
def header_4_state (K : Constants D) (bits : Frame) (s : Gps_Navigation_Message D) :
    Gps_Navigation_Message D :=
  { s with
    d_TOW_SF4 := i32_times_value K bits .TOW 6, d_TOW := i32_times_value K bits .TOW 6,
    b_integrity_status_flag := flag_value K bits .INTEGRITY_STATUS_FLAG,
    b_alert_flag := flag_value K bits .ALERT_FLAG,
    b_antispoofing_flag := flag_value K bits .ANTI_SPOOFING_FLAG }

/-- State after the statements `case 5` starts with, up to the page dispatch. -/
def header_5_state (K : Constants D) (bits : Frame) (s : Gps_Navigation_Message D) :
    Gps_Navigation_Message D :=
  { s with
    d_TOW_SF5 := i32_times_value K bits .TOW 6, d_TOW := i32_times_value K bits .TOW 6,
    b_integrity_status_flag := flag_value K bits .INTEGRITY_STATUS_FLAG,
    b_alert_flag := flag_value K bits .ALERT_FLAG,
    b_antispoofing_flag := flag_value K bits .ANTI_SPOOFING_FLAG }

/-- State after the statement `if (SV_page > 24 && SV_page < 33) ...` of `case 4`. -/
def almanac_4_step (K : Constants D) (bits : Frame) (s : Gps_Navigation_Message D) :
    Gps_Navigation_Message D :=
  if i32_value K bits .SV_PAGE > 24 ∧ i32_value K bits .SV_PAGE < 33 then
    (if i32_value K bits .SV_DATA_ID ≠ 0 then
      almanac_4_state K bits (i32_value K bits .SV_PAGE) s else s)
  else s

/-- State after the statement `if (SV_page == 56) ...` of `case 4`. -/
def page_18_step (K : Constants D) (bits : Frame) (s : Gps_Navigation_Message D) :
    Gps_Navigation_Message D :=
  if i32_value K bits .SV_PAGE = 56 then page_18_state K bits s else s

/-- State after the statement `if (SV_page == 63) ...` of `case 4`. -/
def page_25_sf4_step (K : Constants D) (bits : Frame) (s : Gps_Navigation_Message D) :
    Gps_Navigation_Message D :=
  if i32_value K bits .SV_PAGE = 63 then page_25_sf4_state K bits s else s

/-- State after the statement `if ((SV_page_5 > 0) && (SV_page_5 < 25)) ...` of
`case 5`. -/
def almanac_5_step (K : Constants D) (bits : Frame) (s : Gps_Navigation_Message D) :
    Gps_Navigation_Message D :=
  if i32_value K bits .SV_PAGE > 0 ∧ i32_value K bits .SV_PAGE < 25 then
    (if i32_value K bits .SV_DATA_ID ≠ 0 then
      almanac_5_state K bits (i32_value K bits .SV_PAGE) s else s)
  else s

/-- State after the statement `if (SV_page_5 == 51) ...` of `case 5`. -/
def page_25_sf5_step (K : Constants D) (bits : Frame) (s : Gps_Navigation_Message D) :
    Gps_Navigation_Message D :=
  if i32_value K bits .SV_PAGE = 51 then page_25_sf5_state K bits s else s

/-- State after `case 4`. -/
def subframe_4_state (K : Constants D) (bits : Frame) (s : Gps_Navigation_Message D) :
    Gps_Navigation_Message D :=
  page_25_sf4_step K bits (page_18_step K bits (almanac_4_step K bits
    (header_4_state K bits s)))

/-- State after `case 5`. -/
def subframe_5_state (K : Constants D) (bits : Frame) (s : Gps_Navigation_Message D) :
    Gps_Navigation_Message D :=
  page_25_sf5_step K bits (almanac_5_step K bits (header_5_state K bits s))

/-- State after the `switch (subframe_ID)`. -/
def switch_state (K : Constants D) (bits : Frame) (subframe_ID : Int)
    (s : Gps_Navigation_Message D) : Gps_Navigation_Message D :=
  if subframe_ID = 1 then subframe_1_state K bits s
  else if subframe_ID = 2 then subframe_2_state K bits s
  else if subframe_ID = 3 then subframe_3_state K bits s
  else if subframe_ID = 4 then subframe_4_state K bits s
  else if subframe_ID = 5 then subframe_5_state K bits s
  else s

end PostState

/-! ## Relations between a member and a field of the frame -/

section FieldValues

variable {D : Type} [Mul D] [IntCast D]

/-- The member `x` is the unsigned reading of field `f`. -/
def IsUnsigned (K : Constants D) (bits : Frame) (f : Field) (x : Int) : Prop :=
  ∃ u : Nat, read_navigation_unsigned bits (K.desc f) = Except.ok u ∧ x = (u : Int)

/-- The member `x` is the signed reading of field `f`. -/
def IsSigned (K : Constants D) (bits : Frame) (f : Field) (x : Int) : Prop :=
  ∃ v : Int, read_navigation_signed bits (K.desc f) = Except.ok v ∧ x = v

/-- The member `x` is the unsigned reading of field `f` times the integer
constant `F_LSB`. -/
def IsUnsignedTimes (K : Constants D) (bits : Frame) (f : Field) (x : Int) : Prop :=
  ∃ u : Nat, read_navigation_unsigned bits (K.desc f) = Except.ok u ∧ x = (u : Int) * K.ilsb f

/-- The member `x` is the unsigned reading of field `f`, converted to `double`,
times the constant `F_LSB`. -/
def IsScaledUnsigned (K : Constants D) (bits : Frame) (f : Field) (x : D) : Prop :=
  ∃ u : Nat, read_navigation_unsigned bits (K.desc f) = Except.ok u
    ∧ x = (((u : Nat) : Int) : D) * K.lsb f

/-- The member `x` is the signed reading of field `f`, converted to `double`,
times the constant `F_LSB`. -/
def IsScaledSigned (K : Constants D) (bits : Frame) (f : Field) (x : D) : Prop :=
  ∃ v : Int, read_navigation_signed bits (K.desc f) = Except.ok v ∧ x = (v : D) * K.lsb f

/-- The product of any value of field `f` with its integer scale factor fits an
`int32_t`. -/
def Constants.ProductFits (K : Constants D) (f : Field) : Prop :=
  2 ^ total_length (K.desc f) * (K.ilsb f).natAbs ≤ 2 ^ 31

end FieldValues

instance {D : Type} (K : Constants D) (f : Field) : Decidable (K.ProductFits f) := by
  unfold Constants.ProductFits; infer_instance

/-! ## Sample inputs of the paged subframes -/

/-- A 40-byte input as `sample_subframe id` whose third word also carries the
data identifier `data_id` in bits 28 to 29 and the page selector `page` in bits
22 to 27; every other bit is 0. -/
def page_subframe (id : Fin 8) (data_id : Fin 4) (page : Fin 64) : List (Fin 256) :=
  [0, 0, 0, 0, 0, (0x20 : Fin 256) + Fin.castLE (by decide) id, 0, 0, 0, 0,
    ⟨(page.val % 4) * 64, by omega⟩, ⟨data_id.val * 16 + page.val / 4, by omega⟩]
    ++ List.replicate 28 0

/-- A state in which the three ephemeris subframes have been seen with equal
issue-of-data values. -/
def ready_state : Gps_Navigation_Message ℚ :=
  { zero_state with d_TOW_SF1 := 6, d_TOW_SF2 := 6, d_TOW_SF3 := 6 }

/-- A 40-byte input of type 1 for the sample table: identifier 1, `TOW` 1, the
week number 5 in `GPS_WEEK` (bits 20 to 29 of the third word) and the 22-bit
pattern of -1 in `A_F0` (bits 8 to 29 of the tenth word); every other bit is 0. -/
def week_subframe : List (Fin 256) :=
  [0, 0, 0, 0, 0, 0x21, 0, 0, 0, 0, 0x50, 0] ++ List.replicate 24 0 ++ [0, 0xFF, 0xFF, 0x3F]

/-! ## Frames that agree on a field -/

/-- Two frames hold the same bit at every frame index the descriptor covers. -/
def AgreeOn (bits1 bits2 : Frame) (parameter : Descriptor) : Prop :=
  ∀ i ∈ field_positions parameter, bits1 i.toNat = bits2 i.toNat

instance (bits1 bits2 : Frame) (parameter : Descriptor) :
    Decidable (AgreeOn bits1 bits2 parameter) := by
  unfold AgreeOn; infer_instance

/-- The fields the almanac block of `case 4` and the almanac block of `case 5`
both read. -/
def almanac_fields : List Field :=
  [.ALM_MZERO, .ALM_ECC, .ALM_SQUAREA, .ALM_OMEGAZERO, .ALM_OMEGA, .ALM_OMEGADOT,
    .ALM_DELTAI, .ALM_AF0, .ALM_AF1, .ALM_TOA]

/-! ## Conversion of GPS time to UTC (`utc_time`)

The arithmetic on `double` is exact here: `D` is an ordered field with a floor
function. The `int32_t` expressions are narrowed with `toInt32`. -/

/-- The value `x` is representable in an `int32_t`. -/
def FitsInt32 (x : Int) : Prop := -2 ^ 31 ≤ x ∧ x < 2 ^ 31

instance (x : Int) : Decidable (FitsInt32 x) := by
  unfold FitsInt32; infer_instance

section UtcTime

variable {D : Type} [LinearOrderedField D] [FloorRing D]

/-- The integer part of `x`, the fraction discarded: the value of
`static_cast<int32_t>(x)` for a `double` within the range of `int32_t`, and the
quotient the C library uses in `fmod`. -/
def trunc (x : D) : Int :=
  if 0 ≤ x then ⌊x⌋ else ⌈x⌉

/-- The C library function `fmod` on exact values: `x - n * y` with `n` the
quotient `x / y` truncated toward zero, so that for `y ≠ 0` the result has the
sign of `x` and a magnitude less than that of `y`. For `y = 0` the library
returns no number; here the value is `x`. -/
def fmod (x y : D) : D :=
  x - ((trunc (x / y) : Int) : D) * y

/-- The expression assigned to `Delta_t_UTC` in `utc_time`, with `leap` the
member `d_DeltaT_LS` or `d_DeltaT_LSF`. -/
def Delta_t_UTC (s : Gps_Navigation_Message D) (leap : Int) (gpstime_corrected : D) : D :=
  (leap : D) + s.d_A0
    + s.d_A1 * (gpstime_corrected - (s.d_t_OT : D)
        + 604800 * ((toInt32 (s.i_GPS_week - s.i_WN_T) : Int) : D))

/-- The value of `t_utc_daytime` at the end of `utc_time`; `in_window` is the
value after the first `if` of the same-week branch, which the second `if` may
overwrite. -/
def t_utc_daytime (s : Gps_Navigation_Message D) (gpstime_corrected : D) : D :=
  let weeksToLeapSecondEvent : Int := toInt32 (s.i_WN_LSF - s.i_GPS_week)
  if weeksToLeapSecondEvent ≥ 0 then
    let secondOfLeapSecondEvent : Int := toInt32 (toInt32 (toInt32 (s.i_DN * 24) * 60) * 60)
    if weeksToLeapSecondEvent > 0 then
      fmod (gpstime_corrected - Delta_t_UTC s s.d_DeltaT_LS gpstime_corrected) 86400
    else
      let in_window : D :=
        if |gpstime_corrected - (secondOfLeapSecondEvent : D)| > 21600 then
          fmod (gpstime_corrected - Delta_t_UTC s s.d_DeltaT_LS gpstime_corrected) 86400
        else
          let W : Int :=
            toInt32 (toInt32 (trunc
              (fmod (gpstime_corrected - Delta_t_UTC s s.d_DeltaT_LS gpstime_corrected - 43200)
                86400)) + 43200)
          fmod (W : D) ((toInt32 (toInt32 (86400 + s.d_DeltaT_LSF) - s.d_DeltaT_LS) : Int) : D)
      if gpstime_corrected - (secondOfLeapSecondEvent : D) > 21600 then
        fmod (gpstime_corrected - Delta_t_UTC s s.d_DeltaT_LSF gpstime_corrected) 86400
      else in_window
  else
    fmod (gpstime_corrected - Delta_t_UTC s s.d_DeltaT_LSF gpstime_corrected) 86400

/-- The function `Gps_Navigation_Message::utc_time`, a `const` member: the
returned value and the state after the call, which is the state before it. -/
def utc_time (s : Gps_Navigation_Message D) (gpstime_corrected : D) :
    D × Gps_Navigation_Message D :=
  let secondsOfWeekBeforeToday : D := 43200 * ((⌊gpstime_corrected / 43200⌋ : Int) : D)
  (secondsOfWeekBeforeToday + t_utc_daytime s gpstime_corrected, s)

end UtcTime

/-- A state with a UTC model as decoded from page 18: 17 leap seconds before the
event and 18 after it, effective on day 7 of week `WN_LSF`; the current week
and the reference week are 100, the polynomial coefficients are zero. -/
def utc_state (WN_LSF : Int) : Gps_Navigation_Message ℚ :=
  { zero_state with
    i_GPS_week := 100, i_WN_T := 100, i_WN_LSF := WN_LSF, i_DN := 7,
    d_DeltaT_LS := 17, d_DeltaT_LSF := 18 }

/-! ## The health table pages -/

/-- The pairs `(v, HEALTH_SVv)` of the assignments
`almanacHealth[v] = ... HEALTH_SVv` in the block `if (SV_page == 63)` of
`case 4`, in source order. -/
def health_fields_4 : List (Nat × Field) :=
  [(25, .HEALTH_SV25), (26, .HEALTH_SV26), (27, .HEALTH_SV27), (28, .HEALTH_SV28),
    (29, .HEALTH_SV29), (30, .HEALTH_SV30), (31, .HEALTH_SV31), (32, .HEALTH_SV32)]

/-- The pairs `(v, HEALTH_SVv)` of the assignments
`almanacHealth[v] = ... HEALTH_SVv` in the block `if (SV_page_5 == 51)` of
`case 5`, in source order. -/
def health_fields_5 : List (Nat × Field) :=
  [(1, .HEALTH_SV1), (2, .HEALTH_SV2), (3, .HEALTH_SV3), (4, .HEALTH_SV4),
    (5, .HEALTH_SV5), (6, .HEALTH_SV6), (7, .HEALTH_SV7), (8, .HEALTH_SV8),
    (9, .HEALTH_SV9), (10, .HEALTH_SV10), (11, .HEALTH_SV11), (12, .HEALTH_SV12),
    (13, .HEALTH_SV13), (14, .HEALTH_SV14), (15, .HEALTH_SV15), (16, .HEALTH_SV16),
    (17, .HEALTH_SV17), (18, .HEALTH_SV18), (19, .HEALTH_SV19), (20, .HEALTH_SV20),
    (21, .HEALTH_SV21), (22, .HEALTH_SV22), (23, .HEALTH_SV23), (24, .HEALTH_SV24)]

section HealthTable

variable {D : Type}

/-- The table `almanacHealth` after the assignments of a list of pairs, one
after the other. -/
def health_update (K : Constants D) (bits : Frame) (table : List (Nat × Field))
    (almanacHealth : Nat → Int) : Nat → Int :=
  table.foldl (fun h p => Function.update h p.1 (i32_value K bits p.2)) almanacHealth

/-- The state after the assignments of a list of pairs, one after the other. -/
def health_states (K : Constants D) (bits : Frame) (table : List (Nat × Field))
    (s : Gps_Navigation_Message D) : Gps_Navigation_Message D :=
  table.foldl (fun s p => health_state K bits p.1 p.2 s) s

end HealthTable

/-! ## The ephemeris-consistency property -/

/-- When `b_valid_ephemeris_set_flag` is set, the two issue-of-data-ephemeris
values agree with each other and with the low byte of the issue-of-data-clock
value, and the three ephemeris subframes have been seen. -/
def EphemerisConsistent {D : Type} (s : Gps_Navigation_Message D) : Prop :=
  s.b_valid_ephemeris_set_flag = true →
    (s.d_IODE_SF2 = s.d_IODE_SF3 ∧ s.d_IODE_SF3 = Int.land s.d_IODC 0xFF
      ∧ s.d_TOW_SF1 ≠ 0 ∧ s.d_TOW_SF2 ≠ 0 ∧ s.d_TOW_SF3 ≠ 0)

instance {D : Type} (s : Gps_Navigation_Message D) : Decidable (EphemerisConsistent s) := by
  unfold EphemerisConsistent; infer_instance

/-- The members `EphemerisConsistent` reads. -/
def ephemeris_view {D : Type} (s : Gps_Navigation_Message D) :
    Bool × Int × Int × Int × Int × Int × Int :=
  (s.b_valid_ephemeris_set_flag, s.d_IODE_SF2, s.d_IODE_SF3, s.d_IODC, s.d_TOW_SF1,
    s.d_TOW_SF2, s.d_TOW_SF3)

/-- A 40-byte input of type 2 for the sample table: identifier 2, `TOW` 1 and
the value 1 in `IODE_SF2` (bits 22 to 29 of the third word); every other bit
is 0. -/
def issue_subframe : List (Fin 256) :=
  [0, 0, 0, 0, 0, 0x22, 0, 0, 0, 0, 0x40, 0] ++ List.replicate 28 0

/-! ## The consistency validator without the sentinel test -/

/-- The function `satellite_validation` with the conjunct `d_IODE_SF2 != -1`
dropped from its inner condition, everything else as in the source. -/
def satellite_validation_without_sentinel {D : Type} (s : Gps_Navigation_Message D) :
    Bool × Gps_Navigation_Message D :=
  let s0 := { s with b_valid_ephemeris_set_flag := false }
  if s0.d_TOW_SF1 ≠ 0 ∧ s0.d_TOW_SF2 ≠ 0 ∧ s0.d_TOW_SF3 ≠ 0 then
    if s0.d_IODE_SF2 = s0.d_IODE_SF3 ∧ Int.land s0.d_IODC 0xFF = s0.d_IODE_SF2 then
      (true, { s0 with b_valid_ephemeris_set_flag := true })
    else (false, s0)
  else (false, s0)

/-! ## Members followed across calls -/

/-- The five per-type transmission times and `d_TOW`. -/
def tow_view {D : Type} (s : Gps_Navigation_Message D) : Int × Int × Int × Int × Int × Int :=
  (s.d_TOW_SF1, s.d_TOW_SF2, s.d_TOW_SF3, s.d_TOW_SF4, s.d_TOW_SF5, s.d_TOW)

/-- The almanac validity flag and the almanac vehicle number. -/
def almanac_view {D : Type} (s : Gps_Navigation_Message D) : Bool × Int :=
  (s.flag_almanac_valid, s.a_PRN)

/-! ## Sequences of calls on one object -/

/-- One call of a public member function that may change or read the decoded
state: `subframe_decoder` on an input, a validator, or an accessor. -/
inductive Call where
  | subframe_decoder (subframe : List (Fin 256))
  | satellite_validation
  | almanac_validation
  | get_ephemeris
  | get_almanac
  | get_iono
  | get_utc_model

/-- The input of a `subframe_decoder` call has the 40 bytes the function reads. -/
def Call.WellFormed : Call → Prop
  | .subframe_decoder subframe => subframe.length = 40
  | _ => True

instance (c : Call) : Decidable c.WellFormed := by
  cases c <;> unfold Call.WellFormed <;> infer_instance

/-- The state after one call, the returned value dropped. -/
def Call.run {D : Type} [Mul D] [IntCast D] (K : Constants D) (s : Gps_Navigation_Message D) :
    Call → Result (Gps_Navigation_Message D)
  | .subframe_decoder subframe => do
      let r ← GpsNav.subframe_decoder K s subframe
      pure r.2
  | .satellite_validation => pure (GpsNav.satellite_validation s).2
  | .almanac_validation => pure (GpsNav.almanac_validation s).2
  | .get_ephemeris => pure (GpsNav.get_ephemeris s).2
  | .get_almanac => pure (GpsNav.get_almanac s).2
  | .get_iono => pure (GpsNav.get_iono s).2
  | .get_utc_model => pure (GpsNav.get_utc_model s).2

/-- The state after a sequence of calls, first call first. -/
def run_calls {D : Type} [Mul D] [IntCast D] (K : Constants D) :
    Gps_Navigation_Message D → List Call → Result (Gps_Navigation_Message D)
  | s, [] => pure s
  | s, c :: cs => do
      let s1 ← c.run K s
      run_calls K s1 cs

/-- A valid almanac record carries a vehicle number of the health table. -/
def AlmanacNumbered {D : Type} (s : Gps_Navigation_Message D) : Prop :=
  s.flag_almanac_valid = true → 1 ≤ s.a_PRN ∧ s.a_PRN ≤ 32

/-! ## States that differ in the time of week and the status flags only -/

/-- The state `x` is the state `y` except for `d_TOW` and the three status
flags, the four members every decode of type 1 to 5 writes. -/
def EqualUpToTime {D : Type} (x y : Gps_Navigation_Message D) : Prop :=
  x = { y with
    d_TOW := x.d_TOW,
    b_integrity_status_flag := x.b_integrity_status_flag,
    b_alert_flag := x.b_alert_flag,
    b_antispoofing_flag := x.b_antispoofing_flag }

/-- The states `x` and `z` hold the same `d_TOW` and the same three status flags. -/
def SameTime {D : Type} (x z : Gps_Navigation_Message D) : Prop :=
  x.d_TOW = z.d_TOW ∧ x.b_integrity_status_flag = z.b_integrity_status_flag
    ∧ x.b_alert_flag = z.b_alert_flag ∧ x.b_antispoofing_flag = z.b_antispoofing_flag

/-! # Theorems -/
theorem shift_or_eq (v : Nat) (b : Bool) :
    shift_or v b = (2 * v + (if b then 1 else 0)) % 2 ^ 64 := by
  unfold shift_or
  have h1 : (v <<< 1) % 2 ^ 64 = (v % 2 ^ 63) <<< 1 := by
    simp only [Nat.shiftLeft_eq]; omega
  rw [h1]
  have hb : (if b then 1 else 0 : Nat) < 2 ^ 1 := by cases b <;> simp
  rw [Nat.shiftLeft_eq, Nat.mul_comm, ← Nat.mul_add_lt_is_or hb]
  cases b <;> simp <;> omega

@[simp] theorem ok_bind {ε α β : Type} (x : α) (f : α → Except ε β) :
    (Except.ok x >>= f) = f x := rfl

@[simp] theorem error_bind {ε α β : Type} (e : ε) (f : α → Except ε β) :
    (Except.error e >>= f) = Except.error e := rfl

@[simp] theorem pure_eq_ok {ε α : Type} (x : α) : (pure x : Except ε α) = Except.ok x := rfl

@[simp] theorem throw_eq_error {ε α : Type} (e : ε) : (throw e : Except ε α) = Except.error e := rfl

theorem test_in_range (bits : Frame) (pos : Int) (h0 : 0 ≤ pos) (h1 : pos < 300) :
    bits.test pos = Except.ok (bits pos.toNat) := by
  simp [Frame.test, GPS_SUBFRAME_BITS, h0, h1]

theorem read_loop_eq (bits : Frame) (o : Int) (js : List Nat)
    (h : ∀ j ∈ js, 0 ≤ 300 - o - (j : Int) ∧ 300 - o - (j : Int) < 300) (v : Nat) :
    js.foldlM (fun value (j : Nat) => do
        let b ← bits.test (GPS_SUBFRAME_BITS - o - (j : Int))
        pure (shift_or value b)) v
      = Except.ok ((js.map (fun (j : Nat) => bits (300 - o - (j : Int)).toNat)).foldl shift_or v) := by
  induction js generalizing v with
  | nil => rfl
  | cons j js ih =>
    have hj := h j (List.mem_cons_self _ _)
    have ht : bits.test (GPS_SUBFRAME_BITS - o - (j : Int)) = Except.ok (bits (300 - o - (j : Int)).toNat) :=
      test_in_range bits _ hj.1 hj.2
    simp only [List.foldlM_cons, ht, List.map_cons, List.foldl_cons, ok_bind, pure_eq_ok]
    exact ih (fun k hk => h k (List.mem_cons_of_mem _ hk)) _

theorem read_span_eq (bits : Frame) (p : Int × Int) (h1 : 1 ≤ p.1) (h2 : p.1 + p.2 - 1 ≤ 300)
    (v : Nat) :
    read_span bits v p = Except.ok (((span_positions p).map (fun i => bits i.toNat)).foldl shift_or v) := by
  unfold read_span span_positions
  rw [read_loop_eq, List.map_map]
  · rfl
  · intro j hj
    have := List.mem_range.1 hj
    omega

theorem read_spans_eq (bits : Frame) (parameter : Descriptor) (h : InRange parameter) (v : Nat) :
    read_spans bits v parameter = Except.ok ((field_bits bits parameter).foldl shift_or v) := by
  induction parameter generalizing v with
  | nil => rfl
  | cons p ps ih =>
    have hp := h p (List.mem_cons_self _ _)
    have hps : InRange ps := fun q hq => h q (List.mem_cons_of_mem _ hq)
    simp only [read_spans, List.foldlM_cons, read_span_eq bits p hp.1 hp.2, ok_bind]
    have := ih hps (List.foldl shift_or v (List.map (fun i => bits i.toNat) (span_positions p)))
    simp only [read_spans] at this
    simp [this, field_bits, field_positions, List.foldl_append]

theorem binary_value_append_one (l : List Bool) (b : Bool) :
    binary_value (l ++ [b]) = 2 * binary_value l + (if b then 1 else 0) := by
  simp [binary_value, List.foldl_append]

theorem foldl_value_eq (l : List Bool) (v : Nat) :
    l.foldl (fun acc b => 2 * acc + (if b then 1 else 0)) v = v * 2 ^ l.length + binary_value l := by
  induction l generalizing v with
  | nil => simp [binary_value]
  | cons b l ih =>
    simp only [List.foldl_cons, List.length_cons, binary_value]
    rw [ih, ih (2 * 0 + _)]
    ring

theorem binary_value_cons (b : Bool) (l : List Bool) :
    binary_value (b :: l) = (if b then 1 else 0) * 2 ^ l.length + binary_value l := by
  simp only [binary_value, List.foldl_cons]
  rw [foldl_value_eq]; simp [binary_value]

theorem binary_value_lt (l : List Bool) : binary_value l < 2 ^ l.length := by
  induction l with
  | nil => simp [binary_value]
  | cons b l ih =>
    rw [binary_value_cons, List.length_cons, pow_succ]
    cases b <;> simp <;> omega

theorem foldl_shift_or_eq (l : List Bool) (v : Nat) (hv : v < 2 ^ 64) :
    l.foldl shift_or v = (v * 2 ^ l.length + binary_value l) % 2 ^ 64 := by
  induction l generalizing v with
  | nil =>
    simp only [List.foldl_nil, List.length_nil, pow_zero, mul_one, binary_value, Nat.add_zero]
    exact (Nat.mod_eq_of_lt hv).symm
  | cons b l ih =>
    rw [List.foldl_cons, ih _ (by rw [shift_or_eq]; exact Nat.mod_lt _ (by norm_num)),
      shift_or_eq, binary_value_cons, List.length_cons]
    rw [Nat.add_mod, Nat.mul_mod, Nat.mod_mod, ← Nat.mul_mod, ← Nat.add_mod]
    congr 1
    ring

theorem field_positions_length (parameter : Descriptor) :
    (field_positions parameter).length = total_length parameter := by
  induction parameter with
  | nil => rfl
  | cons p ps ih => simp [field_positions, total_length, span_positions, ih] 

theorem field_bits_length (bits : Frame) (parameter : Descriptor) :
    (field_bits bits parameter).length = total_length parameter := by
  simp [field_bits, field_positions_length]


theorem read_unsigned_eq (bits : Frame) (parameter : Descriptor)
    (hr : InRange parameter) (hn : total_length parameter ≤ 64) :
    read_navigation_unsigned bits parameter = Except.ok (binary_value (field_bits bits parameter)) := by
  unfold read_navigation_unsigned
  rw [read_spans_eq bits parameter hr, foldl_shift_or_eq _ _ (by norm_num)]
  have h1 := binary_value_lt (field_bits bits parameter)
  rw [field_bits_length] at h1
  have h2 : 2 ^ total_length parameter ≤ 2 ^ 64 := Nat.pow_le_pow_right (by norm_num) hn
  rw [Nat.zero_mul, Nat.zero_add, Nat.mod_eq_of_lt (lt_of_lt_of_le h1 h2)]

theorem field_bits_cons_of_pos (bits : Frame) (p0 : Int × Int) (ps : Descriptor) (h1 : 1 ≤ p0.2) :
    ∃ l, field_bits bits (p0 :: ps) = bits (300 - p0.1).toNat :: l := by
  obtain ⟨k, hk⟩ : ∃ k, p0.2.toNat = k + 1 := ⟨p0.2.toNat - 1, by omega⟩
  refine ⟨(field_bits bits (p0 :: ps)).tail, ?_⟩
  simp only [field_bits, field_positions, span_positions, hk, List.range_succ_eq_map,
    List.map_cons, List.cons_append, Nat.cast_zero, sub_zero, List.tail_cons]

theorem signed_pattern_eq (b0 : Bool) (l : List Bool) (hn : (b0 :: l).length ≤ 64) :
    toInt64 ((b0 :: l).foldl shift_or (if b0 then 2 ^ 64 - 1 else 0))
      = if b0 then (binary_value (b0 :: l) : Int) - 2 ^ (b0 :: l).length
        else (binary_value (b0 :: l) : Int) := by
  have hv : (if b0 then 2 ^ 64 - 1 else 0 : Nat) < 2 ^ 64 := by cases b0 <;> norm_num
  rw [foldl_shift_or_eq _ _ hv, binary_value_cons, List.length_cons]
  have hw := binary_value_lt l
  have hQ : 2 ^ l.length ≤ 2 ^ 63 := Nat.pow_le_pow_right (by norm_num) (by simpa using hn)
  generalize binary_value l = w at hw ⊢
  have hP : 2 ^ (l.length + 1) = 2 ^ l.length * 2 := pow_succ _ _
  have hP2 : (2 : Int) ^ (l.length + 1) = ((2 ^ l.length : Nat) : Int) * 2 := by
    push_cast; exact pow_succ _ _
  rw [hP, hP2]
  generalize 2 ^ l.length = Q at hw hQ ⊢
  unfold toInt64
  cases b0
  · simp only [Bool.false_eq_true, if_false, Nat.zero_mul, Nat.zero_add]
    have e : w % 2 ^ 64 = w := Nat.mod_eq_of_lt (by omega)
    rw [e, e, if_pos (by omega)]
  · simp only [if_true, Nat.one_mul]
    have e : ((2 ^ 64 - 1) * (Q * 2) + (Q + w)) % 2 ^ 64 = 2 ^ 64 - Q * 2 + (Q + w) := by omega
    rw [Nat.mod_mod, e, if_neg (by omega)]
    push_cast
    omega

theorem read_signed_eq (bits : Frame) (p0 : Int × Int) (ps : Descriptor)
    (hr : InRange (p0 :: ps)) (h1 : 1 ≤ p0.2) (hn : total_length (p0 :: ps) ≤ 64) :
    read_navigation_signed bits (p0 :: ps)
      = Except.ok (if bits (300 - p0.1).toNat
          then (binary_value (field_bits bits (p0 :: ps)) : Int) - 2 ^ total_length (p0 :: ps)
          else (binary_value (field_bits bits (p0 :: ps)) : Int)) := by
  have hp := hr p0 (List.mem_cons_self _ _)
  have ht : bits.test (GPS_SUBFRAME_BITS - p0.1) = Except.ok (bits (300 - p0.1).toNat) :=
    test_in_range bits _ (by unfold GPS_SUBFRAME_BITS; omega) (by unfold GPS_SUBFRAME_BITS; omega)
  obtain ⟨l, hl⟩ := field_bits_cons_of_pos bits p0 ps h1
  have hlen := field_bits_length bits (p0 :: ps)
  simp only [read_navigation_signed, ht, read_spans_eq bits _ hr, ok_bind, pure_eq_ok]
  rw [hl] at hlen ⊢
  rw [signed_pattern_eq _ _ (by omega), hlen]

theorem signed_range (b0 : Bool) (l : List Bool) :
    (- 2 ^ ((b0 :: l).length - 1) : Int)
        ≤ (if b0 then (binary_value (b0 :: l) : Int) - 2 ^ (b0 :: l).length
            else (binary_value (b0 :: l) : Int))
      ∧ (if b0 then (binary_value (b0 :: l) : Int) - 2 ^ (b0 :: l).length
            else (binary_value (b0 :: l) : Int)) < 2 ^ ((b0 :: l).length - 1) := by
  rw [binary_value_cons, List.length_cons, Nat.add_sub_cancel, pow_succ]
  have hw := binary_value_lt l
  generalize binary_value l = w at hw ⊢
  have hQ : ((2 ^ l.length : Nat) : Int) = 2 ^ l.length := by push_cast; rfl
  have hw2 : (w : Int) < 2 ^ l.length := by rw [← hQ]; exact_mod_cast hw
  cases b0
  · simp only [Bool.false_eq_true, if_false, Nat.zero_mul, Nat.zero_add]
    constructor
    · have : (0 : Int) < 2 ^ l.length := by positivity
      omega
    · exact hw2
  · simp only [if_true, Nat.one_mul]
    push_cast
    constructor <;> linarith


theorem field_positions_mem (parameter : Descriptor) (hr : InRange parameter) (i : Int)
    (hi : i ∈ field_positions parameter) : 0 ≤ i ∧ i < 300 := by
  induction parameter with
  | nil => simp [field_positions] at hi
  | cons p ps ih =>
    have hp := hr p (List.mem_cons_self _ _)
    simp only [field_positions, List.mem_append] at hi
    rcases hi with hi | hi
    · simp only [span_positions, List.mem_map, List.mem_range] at hi
      obtain ⟨j, hj, rfl⟩ := hi
      omega
    · exact ih (fun q hq => hr q (List.mem_cons_of_mem _ hq)) hi

theorem write_bits_of_not_mem (ws : List (Int × Bool)) (bits : Frame) (i : Int) (h0 : 0 ≤ i)
    (hw : ∀ w ∈ ws, 0 ≤ w.1) (hi : ∀ w ∈ ws, w.1 ≠ i) :
    write_bits bits ws i.toNat = bits i.toNat := by
  induction ws generalizing bits with
  | nil => rfl
  | cons w ws ih =>
    obtain ⟨k, b⟩ := w
    have hk := hw (k, b) (List.mem_cons_self _ _)
    have hne := hi (k, b) (List.mem_cons_self _ _)
    simp only [write_bits]
    rw [ih _ (fun w hw2 => hw w (List.mem_cons_of_mem _ hw2))
      (fun w hw2 => hi w (List.mem_cons_of_mem _ hw2))]
    have : i.toNat ≠ k.toNat := by simp only at hk hne; omega
    simp [Function.update, this]

theorem write_read (ps : List Int) (vs : List Bool) (bits : Frame) (hnd : ps.Nodup)
    (h0 : ∀ i ∈ ps, 0 ≤ i) (hlen : ps.length = vs.length) :
    ps.map (fun i => write_bits bits (ps.zip vs) i.toNat) = vs := by
  induction ps generalizing vs bits with
  | nil =>
    cases vs with
    | nil => rfl
    | cons v vs => simp at hlen
  | cons p ps ih =>
    cases vs with
    | nil => simp at hlen
    | cons v vs =>
      have hp0 := h0 p (List.mem_cons_self _ _)
      have hps0 : ∀ i ∈ ps, 0 ≤ i := fun i hi => h0 i (List.mem_cons_of_mem _ hi)
      obtain ⟨hpn, hnd2⟩ := List.nodup_cons.1 hnd
      simp only [List.zip_cons_cons, write_bits, List.map_cons]
      congr 1
      · rw [write_bits_of_not_mem _ _ _ hp0]
        · simp
        · intro w hw; exact hps0 _ (List.of_mem_zip hw).1
        · intro w hw heq
          exact hpn (heq ▸ (List.of_mem_zip hw).1)
      · exact ih vs _ hnd2 hps0 (by simpa using hlen)

theorem bit_pattern_length (n : Nat) (v : Int) : (bit_pattern n v).length = n := by
  simp [bit_pattern]

theorem field_bits_write (bits : Frame) (parameter : Descriptor) (v : Int)
    (hr : InRange parameter) (hno : NonOverlapping parameter) :
    field_bits (write_navigation bits parameter v) parameter
      = bit_pattern (total_length parameter) v := by
  unfold field_bits write_navigation
  exact write_read _ _ bits hno (fun i hi => (field_positions_mem parameter hr i hi).1)
    (by rw [field_positions_length, bit_pattern_length])

theorem binary_value_testBit (x : Nat) (n : Nat) :
    binary_value ((List.range n).map (fun (k : Nat) => x.testBit (n - 1 - k))) = x % 2 ^ n := by
  induction n with
  | zero => simp [binary_value, Nat.mod_one]
  | succ n ih =>
    rw [List.range_succ_eq_map, List.map_cons, List.map_map, binary_value_cons]
    have e : ((fun (k : Nat) => x.testBit (n + 1 - 1 - k)) ∘ Nat.succ)
        = (fun (k : Nat) => x.testBit (n - 1 - k)) := by
      funext k; simp only [Function.comp, Nat.add_sub_cancel]
      congr 1; omega
    rw [e, ih, List.length_map, List.length_range, Nat.mod_pow_succ]
    simp only [Nat.add_sub_cancel, Nat.sub_zero, Nat.testBit_to_div_mod]
    have h2 : x / 2 ^ n % 2 = 0 ∨ x / 2 ^ n % 2 = 1 := by omega
    rcases h2 with h2 | h2 <;> simp [h2]; ring

theorem binary_value_bit_pattern (n : Nat) (v : Int) :
    binary_value (bit_pattern n v) = (v % 2 ^ n).toNat % 2 ^ n :=
  binary_value_testBit _ n

theorem emod_two_pow_toNat (n : Nat) (v : Int) :
    ((v % 2 ^ n).toNat : Int) = v % 2 ^ n := by
  have : (0 : Int) ≤ v % 2 ^ n := Int.emod_nonneg _ (by positivity)
  omega

theorem write_read_unsigned (bits : Frame) (parameter : Descriptor) (v : Nat)
    (hr : InRange parameter) (hno : NonOverlapping parameter)
    (hn : total_length parameter ≤ 64) (hv : v < 2 ^ total_length parameter) :
    read_navigation_unsigned (write_navigation bits parameter (v : Int)) parameter = Except.ok v := by
  rw [read_unsigned_eq _ _ hr hn, field_bits_write _ _ _ hr hno, binary_value_bit_pattern]
  congr 1
  have h1 : ((v : Int) % 2 ^ total_length parameter).toNat = v % 2 ^ total_length parameter := by
    have : ((v : Int) % 2 ^ total_length parameter) = ((v % 2 ^ total_length parameter : Nat) : Int) := by
      push_cast; rfl
    rw [this]; rfl
  rw [h1, Nat.mod_mod, Nat.mod_eq_of_lt hv]

theorem write_read_signed (bits : Frame) (p0 : Int × Int) (ps : Descriptor) (v : Int)
    (hr : InRange (p0 :: ps)) (hno : NonOverlapping (p0 :: ps)) (h1 : 1 ≤ p0.2)
    (hn : total_length (p0 :: ps) ≤ 64)
    (hlo : - 2 ^ (total_length (p0 :: ps) - 1) ≤ v) (hhi : v < 2 ^ (total_length (p0 :: ps) - 1)) :
    read_navigation_signed (write_navigation bits (p0 :: ps) v) (p0 :: ps) = Except.ok v := by
  rw [read_signed_eq _ _ _ hr h1 hn]
  obtain ⟨l, hl⟩ := field_bits_cons_of_pos (write_navigation bits (p0 :: ps) v) p0 ps h1
  have hfb := field_bits_write bits (p0 :: ps) v hr hno
  have hlen := field_bits_length (write_navigation bits (p0 :: ps) v) (p0 :: ps)
  have hu : (binary_value (field_bits (write_navigation bits (p0 :: ps) v) (p0 :: ps)) : Int)
      = v % 2 ^ total_length (p0 :: ps) := by
    rw [hfb, binary_value_bit_pattern]
    have h0 : (0 : Int) ≤ v % 2 ^ total_length (p0 :: ps) := Int.emod_nonneg _ (by positivity)
    have hlt : v % 2 ^ total_length (p0 :: ps) < 2 ^ total_length (p0 :: ps) :=
      Int.emod_lt_of_pos _ (by positivity)
    rw [Nat.mod_eq_of_lt]
    · omega
    · have : ((v % 2 ^ total_length (p0 :: ps)).toNat : Int) < ((2 ^ total_length (p0 :: ps) : Nat) : Int) := by
        push_cast; omega
      exact_mod_cast this
  rw [hu]
  have hcons := binary_value_cons (write_navigation bits (p0 :: ps) v (300 - p0.1).toNat) l
  rw [← hl] at hcons
  have hcons2 : (binary_value (field_bits (write_navigation bits (p0 :: ps) v) (p0 :: ps)) : Int)
      = ((if write_navigation bits (p0 :: ps) v (300 - p0.1).toNat = true then 1 else 0 : Nat) : Int)
          * 2 ^ l.length + (binary_value l : Int) := by
    rw [hcons]; push_cast; rfl
  rw [hu] at hcons2
  have hw := binary_value_lt l
  have hw2 : (binary_value l : Int) < 2 ^ l.length := by exact_mod_cast hw
  rw [hl, List.length_cons] at hlen
  rw [← hlen, Nat.add_sub_cancel] at hlo hhi
  rw [← hlen] at hcons2 ⊢
  have hP : (2 : Int) ^ (l.length + 1) = 2 ^ l.length * 2 := pow_succ _ _
  rw [hP] at hcons2 ⊢
  have hQ : (0 : Int) < 2 ^ l.length := by positivity
  have hw0 : (0 : Int) ≤ (binary_value l : Int) := Int.ofNat_nonneg _
  have hmod : v % (2 ^ l.length * 2) = if 0 ≤ v then v else v + 2 ^ l.length * 2 := by
    split
    · exact Int.emod_eq_of_lt (by assumption) (by linarith)
    · rw [← Int.add_emod_self]
      exact Int.emod_eq_of_lt (by linarith) (by linarith)
  rw [hmod] at hcons2 ⊢
  generalize (2 : Int) ^ l.length = Q at *
  generalize (binary_value l : Int) = w at *
  congr 1
  by_cases hb : write_navigation bits (p0 :: ps) v (300 - p0.1).toNat = true
  · simp only [hb, if_true] at hcons2 ⊢
    split at hcons2 <;> rename_i hv
    · push_cast at hcons2; linarith
    · rw [if_neg hv]; ring
  · simp only [hb, if_false] at hcons2 ⊢
    split at hcons2 <;> rename_i hv
    · simp [hv]
    · simp at hcons2; linarith

/-! ## The sample table is valid -/

theorem sample_constants_valid : sample_constants.Valid := by
  intro f
  cases f <;> decide

/-! ## Frame unpacker -/

theorem read_word_eq (subframe : List (Fin 256)) (hlen : subframe.length = 40) (i : Nat)
    (hi : i < 10) : read_word subframe i = Except.ok (word subframe i) := by
  unfold read_word word
  have h0 : i * 4 < subframe.length := by omega
  have h1 : i * 4 + 1 < subframe.length := by omega
  have h2 : i * 4 + 2 < subframe.length := by omega
  have h3 : i * 4 + 3 < subframe.length := by omega
  simp [List.getD, List.getElem?_eq_getElem, h0, h1, h2, h3]

theorem update_range_apply (f : Nat → Bool) (base n : Nat) (sb : Frame) (k : Nat) :
    (List.range n).foldl (fun sb (j : Nat) => Function.update sb (base + j) (f j)) sb k
      = if base ≤ k ∧ k < base + n then f (k - base) else sb k := by
  induction n with
  | zero =>
    have : ¬ (base ≤ k ∧ k < base + 0) := by omega
    rw [if_neg this]
    rfl
  | succ n ih =>
    rw [List.range_succ, List.foldl_append, List.foldl_cons, List.foldl_nil]
    by_cases hk : k = base + n
    · subst hk
      simp
    · rw [Function.update_noteq hk, ih]
      by_cases h1 : base ≤ k ∧ k < base + n
      · rw [if_pos h1, if_pos ⟨h1.1, by omega⟩]
      · rw [if_neg h1, if_neg (by omega)]

theorem unpack_word_apply (sb : Frame) (i w k : Nat) :
    unpack_word sb i w k
      = if 30 * (9 - i) ≤ k ∧ k < 30 * (9 - i) + 30 then w.testBit (k - 30 * (9 - i)) else sb k := by
  unfold unpack_word GPS_WORD_BITS
  exact update_range_apply (fun j => w.testBit j) (30 * (9 - i)) 30 sb k

theorem unpack_upto (subframe : List (Fin 256)) (hlen : subframe.length = 40) (m : Nat)
    (hm : m ≤ 10) :
    (List.range m).foldlM
        (fun subframe_bits (i : Nat) => do
          let gps_word ← read_word subframe i
          pure (unpack_word subframe_bits i gps_word))
        zero_frame
      = Except.ok (fun k => decide (30 * (10 - m) ≤ k ∧ k < 300)
          && (word subframe (9 - k / 30)).testBit (k % 30)) := by
  induction m with
  | zero =>
    simp only [List.range_zero, List.foldlM_nil, pure_eq_ok]
    congr 1
    funext k
    have : ¬ (30 * (10 - 0) ≤ k ∧ k < 300) := by omega
    simp [zero_frame, this]
  | succ m ih =>
    rw [List.range_succ, List.foldlM_append, ih (by omega)]
    simp only [ok_bind, List.foldlM_cons, List.foldlM_nil, read_word_eq subframe hlen m (by omega),
      pure_eq_ok]
    congr 1
    funext k
    rw [unpack_word_apply]
    by_cases h1 : 30 * (9 - m) ≤ k ∧ k < 30 * (9 - m) + 30
    · have e1 : 9 - k / 30 = m := by omega
      have e2 : k - 30 * (9 - m) = k % 30 := by omega
      have e3 : 30 * (10 - (m + 1)) ≤ k ∧ k < 300 := by omega
      rw [if_pos h1, e1, e2, decide_eq_true e3, Bool.true_and]
    · rw [if_neg h1]
      have e3 : (30 * (10 - (m + 1)) ≤ k ∧ k < 300) ↔ (30 * (10 - m) ≤ k ∧ k < 300) := by omega
      simp only [e3]

theorem unpack_eq (subframe : List (Fin 256)) (hlen : subframe.length = 40) :
    unpack subframe = Except.ok (frame_of_words (word subframe)) := by
  unfold unpack
  rw [unpack_upto subframe hlen 10 (le_refl _)]
  congr 1
  funext k
  simp [frame_of_words]

theorem frame_of_words_apply (w : Nat → Nat) (i j : Nat) (hi : i < 10) (hj : j < 30) :
    frame_of_words w (30 * (9 - i) + j) = (w i).testBit j := by
  have h1 : 30 * (9 - i) + j < 300 := by omega
  have h2 : 9 - (30 * (9 - i) + j) / 30 = i := by omega
  have h3 : (30 * (9 - i) + j) % 30 = j := by omega
  simp [frame_of_words, h1, h2, h3]

theorem frame_of_words_congr (w1 w2 : Nat → Nat)
    (h : ∀ i, i < 10 → w1 i % 2 ^ 30 = w2 i % 2 ^ 30) : frame_of_words w1 = frame_of_words w2 := by
  funext k
  unfold frame_of_words
  by_cases hk : k < 300
  · have hb : ∀ x : Nat, x.testBit (k % 30) = (x % 2 ^ 30).testBit (k % 30) := by
      intro x
      rw [Nat.testBit_mod_two_pow]
      have : k % 30 < 30 := Nat.mod_lt _ (by norm_num)
      simp [this]
    rw [hb (w1 _), hb (w2 _), h _ (by omega)]
  · simp [hk]

/-! ## Reads through a validated table never fault -/

theorem read_unsigned_ok (bits : Frame) (parameter : Descriptor) (hr : InRange parameter) :
    read_navigation_unsigned bits parameter = Except.ok (raw_unsigned bits parameter) :=
  read_spans_eq bits parameter hr 0

theorem raw_unsigned_eq (bits : Frame) (parameter : Descriptor)
    (hn : total_length parameter ≤ 64) :
    raw_unsigned bits parameter = binary_value (field_bits bits parameter) := by
  unfold raw_unsigned
  rw [foldl_shift_or_eq _ _ (by norm_num)]
  have h1 := binary_value_lt (field_bits bits parameter)
  rw [field_bits_length] at h1
  have h2 : 2 ^ total_length parameter ≤ 2 ^ 64 := Nat.pow_le_pow_right (by norm_num) hn
  rw [Nat.zero_mul, Nat.zero_add, Nat.mod_eq_of_lt (lt_of_lt_of_le h1 h2)]

theorem raw_unsigned_lt (bits : Frame) (parameter : Descriptor)
    (hn : total_length parameter ≤ 64) :
    raw_unsigned bits parameter < 2 ^ total_length parameter := by
  rw [raw_unsigned_eq bits parameter hn, ← field_bits_length bits parameter]
  exact binary_value_lt _

theorem lead_test_ok (bits : Frame) (p0 : Int × Int) (ps : Descriptor)
    (hr : InRange (p0 :: ps)) (hne : NonEmptyFirst (p0 :: ps)) :
    bits.test (GPS_SUBFRAME_BITS - p0.1) = Except.ok (bits (300 - p0.1).toNat) := by
  have hp := hr p0 (List.mem_cons_self _ _)
  have h1 : 1 ≤ p0.2 := hne
  exact test_in_range bits _ (by unfold GPS_SUBFRAME_BITS; omega)
    (by unfold GPS_SUBFRAME_BITS; omega)

theorem read_bool_ok (bits : Frame) (parameter : Descriptor) (hr : InRange parameter)
    (hne : NonEmptyFirst parameter) :
    read_navigation_bool bits parameter = Except.ok (lead_bit bits parameter) := by
  cases parameter with
  | nil => exact absurd hne (by simp [NonEmptyFirst])
  | cons p0 ps => exact lead_test_ok bits p0 ps hr hne

theorem read_signed_ok (bits : Frame) (parameter : Descriptor) (hr : InRange parameter)
    (hne : NonEmptyFirst parameter) :
    read_navigation_signed bits parameter = Except.ok (raw_signed bits parameter) := by
  cases parameter with
  | nil => exact absurd hne (by simp [NonEmptyFirst])
  | cons p0 ps =>
    simp only [read_navigation_signed, lead_test_ok bits p0 ps hr hne,
      read_spans_eq bits _ hr, ok_bind, pure_eq_ok, raw_signed, lead_bit]

section DecoderLemmas

variable {D : Type} [Mul D] [IntCast D]

omit [Mul D] [IntCast D] in
theorem read_i32_ok {K : Constants D} (hK : K.Valid) (bits : Frame) (f : Field) :
    read_i32 K bits f = Except.ok (toInt32 (raw_unsigned bits (K.desc f))) := by
  simp only [read_i32, read_unsigned_ok bits _ (hK f).1, ok_bind, pure_eq_ok]

omit [Mul D] [IntCast D] in
theorem read_i32_times_ok {K : Constants D} (hK : K.Valid) (bits : Frame) (f : Field) (c : Int) :
    read_i32_times K bits f c
      = Except.ok (toInt32 (toInt32 (raw_unsigned bits (K.desc f)) * c)) := by
  simp only [read_i32_times, read_i32_ok hK, ok_bind, pure_eq_ok]

theorem read_scaled_unsigned_ok {K : Constants D} (hK : K.Valid) (bits : Frame) (f : Field) :
    read_scaled_unsigned K bits f
      = Except.ok ((((raw_unsigned bits (K.desc f) : Nat) : Int) : D) * K.lsb f) := by
  simp only [read_scaled_unsigned, read_unsigned_ok bits _ (hK f).1, ok_bind, pure_eq_ok]

theorem read_scaled_signed_ok {K : Constants D} (hK : K.Valid) (bits : Frame) (f : Field) :
    read_scaled_signed K bits f = Except.ok ((raw_signed bits (K.desc f) : D) * K.lsb f) := by
  simp only [read_scaled_signed, read_signed_ok bits _ (hK f).1 (hK f).2, ok_bind, pure_eq_ok]

omit [Mul D] [IntCast D] in
theorem read_i32_signed_ok {K : Constants D} (hK : K.Valid) (bits : Frame) (f : Field) :
    read_i32_signed K bits f = Except.ok (toInt32 (raw_signed bits (K.desc f))) := by
  simp only [read_i32_signed, read_signed_ok bits _ (hK f).1 (hK f).2, ok_bind, pure_eq_ok]

omit [Mul D] [IntCast D] in
theorem read_flag_ok {K : Constants D} (hK : K.Valid) (bits : Frame) (f : Field) :
    read_flag K bits f = Except.ok (lead_bit bits (K.desc f)) :=
  read_bool_ok bits _ (hK f).1 (hK f).2

theorem bind_eq_of_eq_ok {α β : Type} {x : Result α} {a : α} (h : x = Except.ok a)
    (f : α → Result β) : (x >>= f) = f a := by
  subst h; rfl

theorem ok_of_bind {α β : Type} {x : Result α} {f : α → Result β}
    (hx : ∃ a, x = Except.ok a) (hf : ∀ a, ∃ b, f a = Except.ok b) :
    ∃ b, (x >>= f) = Except.ok b := by
  obtain ⟨a, rfl⟩ := hx
  exact hf a

theorem ok_of_ite {α : Type} {c : Prop} [Decidable c] {x y : Result α}
    (hx : ∃ a, x = Except.ok a) (hy : ∃ a, y = Except.ok a) :
    ∃ a, (if c then x else y) = Except.ok a := by
  split
  · exact hx
  · exact hy

omit [Mul D] [IntCast D] in
theorem read_i32_total {K : Constants D} (hK : K.Valid) (bits : Frame) (f : Field) :
    ∃ v, read_i32 K bits f = Except.ok v := ⟨_, read_i32_ok hK bits f⟩

omit [Mul D] [IntCast D] in
theorem read_i32_times_total {K : Constants D} (hK : K.Valid) (bits : Frame) (f : Field)
    (c : Int) : ∃ v, read_i32_times K bits f c = Except.ok v := ⟨_, read_i32_times_ok hK bits f c⟩

theorem read_scaled_unsigned_total {K : Constants D} (hK : K.Valid) (bits : Frame) (f : Field) :
    ∃ v, read_scaled_unsigned K bits f = Except.ok v := ⟨_, read_scaled_unsigned_ok hK bits f⟩

theorem read_scaled_signed_total {K : Constants D} (hK : K.Valid) (bits : Frame) (f : Field) :
    ∃ v, read_scaled_signed K bits f = Except.ok v := ⟨_, read_scaled_signed_ok hK bits f⟩

omit [Mul D] [IntCast D] in
theorem read_i32_signed_total {K : Constants D} (hK : K.Valid) (bits : Frame) (f : Field) :
    ∃ v, read_i32_signed K bits f = Except.ok v := ⟨_, read_i32_signed_ok hK bits f⟩

omit [Mul D] [IntCast D] in
theorem read_flag_total {K : Constants D} (hK : K.Valid) (bits : Frame) (f : Field) :
    ∃ v, read_flag K bits f = Except.ok v := ⟨_, read_flag_ok hK bits f⟩

omit [Mul D] [IntCast D] in
theorem set_health_total {K : Constants D} (hK : K.Valid) (bits : Frame) (v : Nat) (f : Field)
    (s : Gps_Navigation_Message D) : ∃ s1, set_health K bits v f s = Except.ok s1 := by
  unfold set_health
  exact ok_of_bind (read_i32_total hK bits f) (fun _ => ⟨_, rfl⟩)

theorem decode_subframe_1_total {K : Constants D} (hK : K.Valid) (bits : Frame)
    (s : Gps_Navigation_Message D) : ∃ s1, decode_subframe_1 K bits s = Except.ok s1 := by
  unfold decode_subframe_1
  repeat (first
    | exact ⟨_, rfl⟩
    | refine ok_of_bind (read_i32_total hK _ _) (fun _ => ?_)
    | refine ok_of_bind (read_i32_times_total hK _ _ _) (fun _ => ?_)
    | refine ok_of_bind (read_flag_total hK _ _) (fun _ => ?_)
    | refine ok_of_bind (read_scaled_signed_total hK _ _) (fun _ => ?_))

theorem decode_subframe_2_total {K : Constants D} (hK : K.Valid) (bits : Frame)
    (s : Gps_Navigation_Message D) : ∃ s1, decode_subframe_2 K bits s = Except.ok s1 := by
  unfold decode_subframe_2
  repeat (first
    | exact ⟨_, rfl⟩
    | refine ok_of_bind (read_i32_total hK _ _) (fun _ => ?_)
    | refine ok_of_bind (read_i32_times_total hK _ _ _) (fun _ => ?_)
    | refine ok_of_bind (read_flag_total hK _ _) (fun _ => ?_)
    | refine ok_of_bind (read_scaled_unsigned_total hK _ _) (fun _ => ?_)
    | refine ok_of_bind (read_scaled_signed_total hK _ _) (fun _ => ?_))

theorem decode_subframe_3_total {K : Constants D} (hK : K.Valid) (bits : Frame)
    (s : Gps_Navigation_Message D) : ∃ s1, decode_subframe_3 K bits s = Except.ok s1 := by
  unfold decode_subframe_3
  repeat (first
    | exact ⟨_, rfl⟩
    | refine ok_of_bind (read_i32_total hK _ _) (fun _ => ?_)
    | refine ok_of_bind (read_i32_times_total hK _ _ _) (fun _ => ?_)
    | refine ok_of_bind (read_flag_total hK _ _) (fun _ => ?_)
    | refine ok_of_bind (read_scaled_signed_total hK _ _) (fun _ => ?_))

theorem decode_almanac_4_total {K : Constants D} (hK : K.Valid) (bits : Frame) (page : Int)
    (s : Gps_Navigation_Message D) : ∃ s1, decode_almanac_4 K bits page s = Except.ok s1 := by
  unfold decode_almanac_4
  repeat (first
    | exact ⟨_, rfl⟩
    | refine ok_of_bind (read_i32_times_total hK _ _ _) (fun _ => ?_)
    | refine ok_of_bind (read_scaled_unsigned_total hK _ _) (fun _ => ?_)
    | refine ok_of_bind (read_scaled_signed_total hK _ _) (fun _ => ?_))

theorem decode_almanac_5_total {K : Constants D} (hK : K.Valid) (bits : Frame) (page : Int)
    (s : Gps_Navigation_Message D) : ∃ s1, decode_almanac_5 K bits page s = Except.ok s1 := by
  unfold decode_almanac_5
  repeat (first
    | exact ⟨_, rfl⟩
    | refine ok_of_bind (read_i32_total hK _ _) (fun _ => ?_)
    | refine ok_of_bind (read_i32_times_total hK _ _ _) (fun _ => ?_)
    | refine ok_of_bind (read_scaled_unsigned_total hK _ _) (fun _ => ?_)
    | refine ok_of_bind (read_scaled_signed_total hK _ _) (fun _ => ?_))

theorem decode_page_18_total {K : Constants D} (hK : K.Valid) (bits : Frame)
    (s : Gps_Navigation_Message D) : ∃ s1, decode_page_18 K bits s = Except.ok s1 := by
  unfold decode_page_18
  repeat (first
    | exact ⟨_, rfl⟩
    | refine ok_of_bind (read_i32_total hK _ _) (fun _ => ?_)
    | refine ok_of_bind (read_i32_times_total hK _ _ _) (fun _ => ?_)
    | refine ok_of_bind (read_i32_signed_total hK _ _) (fun _ => ?_)
    | refine ok_of_bind (read_scaled_signed_total hK _ _) (fun _ => ?_))

omit [Mul D] [IntCast D] in
theorem decode_page_25_sf4_total {K : Constants D} (hK : K.Valid) (bits : Frame)
    (s : Gps_Navigation_Message D) : ∃ s1, decode_page_25_sf4 K bits s = Except.ok s1 := by
  unfold decode_page_25_sf4
  repeat (first
    | exact set_health_total hK _ _ _ _
    | refine ok_of_bind (set_health_total hK _ _ _ _) (fun _ => ?_))

omit [Mul D] [IntCast D] in
theorem decode_page_25_sf5_total {K : Constants D} (hK : K.Valid) (bits : Frame)
    (s : Gps_Navigation_Message D) : ∃ s1, decode_page_25_sf5 K bits s = Except.ok s1 := by
  unfold decode_page_25_sf5
  refine ok_of_bind (read_i32_times_total hK _ _ _) (fun _ => ?_)
  refine ok_of_bind (read_i32_total hK _ _) (fun _ => ?_)
  repeat (first
    | exact set_health_total hK _ _ _ _
    | refine ok_of_bind (set_health_total hK _ _ _ _) (fun _ => ?_))

theorem decode_subframe_4_total {K : Constants D} (hK : K.Valid) (bits : Frame)
    (s : Gps_Navigation_Message D) : ∃ s1, decode_subframe_4 K bits s = Except.ok s1 := by
  unfold decode_subframe_4
  refine ok_of_bind (read_i32_times_total hK _ _ _) (fun _ => ?_)
  refine ok_of_bind (read_flag_total hK _ _) (fun _ => ?_)
  refine ok_of_bind (read_flag_total hK _ _) (fun _ => ?_)
  refine ok_of_bind (read_flag_total hK _ _) (fun _ => ?_)
  refine ok_of_bind (read_i32_total hK _ _) (fun _ => ?_)
  refine ok_of_bind (read_i32_total hK _ _) (fun _ => ?_)
  refine ok_of_bind ?_ (fun _ => ?_)
  · apply ok_of_ite
    · apply ok_of_ite
      · exact decode_almanac_4_total hK _ _ _
      · exact ⟨_, rfl⟩
    · exact ⟨_, rfl⟩
  refine ok_of_bind (ok_of_ite (decode_page_18_total hK _ _) ⟨_, rfl⟩) (fun _ => ?_)
  exact ok_of_ite (decode_page_25_sf4_total hK _ _) ⟨_, rfl⟩

theorem decode_subframe_5_total {K : Constants D} (hK : K.Valid) (bits : Frame)
    (s : Gps_Navigation_Message D) : ∃ s1, decode_subframe_5 K bits s = Except.ok s1 := by
  unfold decode_subframe_5
  refine ok_of_bind (read_i32_times_total hK _ _ _) (fun _ => ?_)
  refine ok_of_bind (read_flag_total hK _ _) (fun _ => ?_)
  refine ok_of_bind (read_flag_total hK _ _) (fun _ => ?_)
  refine ok_of_bind (read_flag_total hK _ _) (fun _ => ?_)
  refine ok_of_bind (read_i32_total hK _ _) (fun _ => ?_)
  refine ok_of_bind (read_i32_total hK _ _) (fun _ => ?_)
  refine ok_of_bind ?_ (fun _ => ?_)
  · apply ok_of_ite
    · apply ok_of_ite
      · exact decode_almanac_5_total hK _ _ _
      · exact ⟨_, rfl⟩
    · exact ⟨_, rfl⟩
  exact ok_of_ite (decode_page_25_sf5_total hK _ _) ⟨_, rfl⟩

theorem decode_switch_total {K : Constants D} (hK : K.Valid) (bits : Frame) (id : Int)
    (s : Gps_Navigation_Message D) : ∃ s1, decode_switch K bits id s = Except.ok s1 := by
  unfold decode_switch
  exact ok_of_ite (decode_subframe_1_total hK bits s)
    (ok_of_ite (decode_subframe_2_total hK bits s)
      (ok_of_ite (decode_subframe_3_total hK bits s)
        (ok_of_ite (decode_subframe_4_total hK bits s)
          (ok_of_ite (decode_subframe_5_total hK bits s) ⟨s, rfl⟩))))

theorem decode_switch_other (K : Constants D) (bits : Frame) (id : Int)
    (s : Gps_Navigation_Message D) (hid : ¬ (1 ≤ id ∧ id ≤ 5)) :
    decode_switch K bits id s = Except.ok s := by
  unfold decode_switch
  rw [if_neg (by omega), if_neg (by omega), if_neg (by omega), if_neg (by omega),
    if_neg (by omega)]
  rfl

theorem subframe_decoder_eq (K : Constants D) (s : Gps_Navigation_Message D)
    (subframe : List (Fin 256)) (hlen : subframe.length = 40)
    (hid : InRange (K.desc .SUBFRAME_ID)) :
    subframe_decoder K s subframe
      = (decode_switch K (frame_of_words (word subframe)) (subframe_id K subframe) s >>=
          fun s1 => Except.ok (subframe_id K subframe, s1)) := by
  have h1 := unpack_eq subframe hlen
  have h2 : read_i32 K (frame_of_words (word subframe)) .SUBFRAME_ID
      = Except.ok (subframe_id K subframe) := by
    unfold read_i32 subframe_id
    exact bind_eq_of_eq_ok (read_unsigned_ok _ _ hid) _
  unfold subframe_decoder
  exact (bind_eq_of_eq_ok h1 _).trans (bind_eq_of_eq_ok h2 _)

theorem subframe_decoder_total {K : Constants D} (hK : K.Valid) (s : Gps_Navigation_Message D)
    (subframe : List (Fin 256)) (hlen : subframe.length = 40) :
    ∃ s1, subframe_decoder K s subframe = Except.ok (subframe_id K subframe, s1) := by
  rw [subframe_decoder_eq K s subframe hlen (hK _).1]
  obtain ⟨s1, h1⟩ := decode_switch_total hK (frame_of_words (word subframe))
    (subframe_id K subframe) s
  exact ⟨s1, by rw [h1, ok_bind]⟩

end DecoderLemmas

/-! ## Unpacking followed by reading -/

theorem field_bits_single (bits : Frame) (o l : Nat) :
    field_bits bits [((o : Int), (l : Int))]
      = (List.range l).map (fun (j : Nat) => bits (300 - o - j)) := by
  simp only [field_bits, field_positions, span_positions, List.append_nil, List.map_map,
    Int.toNat_ofNat]
  apply List.map_congr_left
  intro j _
  simp only [Function.comp]
  congr 1
  omega

theorem binary_value_shift (x s l : Nat) :
    binary_value ((List.range l).map (fun (j : Nat) => x.testBit (s + (l - 1 - j))))
      = (x >>> s) % 2 ^ l := by
  rw [← binary_value_testBit (x >>> s) l]
  congr 1
  apply List.map_congr_left
  intro j _
  rw [Nat.testBit_shiftRight]

theorem read_unpacked_single (w : Nat → Nat) (o l : Nat) (ho : 1 ≤ o) (hl : 1 ≤ l)
    (hw : (o - 1) / 30 = (o + l - 2) / 30) (h9 : (o - 1) / 30 ≤ 9) :
    read_navigation_unsigned (frame_of_words w) [((o : Int), (l : Int))]
      = Except.ok ((w ((o - 1) / 30) >>> (30 - (o - 1) % 30 - l)) % 2 ^ l) := by
  have hr : InRange [((o : Int), (l : Int))] := by
    intro p hp
    simp only [List.mem_singleton] at hp
    subst hp
    simp only
    omega
  have hn : total_length [((o : Int), (l : Int))] ≤ 64 := by
    simp only [total_length, List.map_cons, List.map_nil, List.sum_cons, List.sum_nil,
      Int.toNat_ofNat]
    omega
  rw [read_unsigned_eq _ _ hr hn, field_bits_single,
    ← binary_value_shift (w ((o - 1) / 30)) (30 - (o - 1) % 30 - l) l]
  congr 2
  apply List.map_congr_left
  intro j hj
  have hj2 := List.mem_range.1 hj
  have h1 : 300 - o - j < 300 := by omega
  have h2 : 9 - (300 - o - j) / 30 = (o - 1) / 30 := by omega
  have h3 : (300 - o - j) % 30 = 30 - (o - 1) % 30 - l + (l - 1 - j) := by omega
  simp [frame_of_words, h1, h2, h3]

theorem toInt32_of_lt (u : Nat) (h : u < 2 ^ 31) : toInt32 (u : Int) = (u : Int) := by
  unfold toInt32
  have : (u : Int) < 2 ^ 31 := by exact_mod_cast h
  omega

theorem decoded_field_inv {D : Type} (K : Constants D) (subframe : List (Fin 256)) (f : Field)
    (u : Nat) (h : decoded_field K subframe f = Except.ok u) :
    ∃ bits, unpack subframe = Except.ok bits
      ∧ read_navigation_unsigned bits (K.desc f) = Except.ok u := by
  unfold decoded_field at h
  cases hb : unpack subframe with
  | error e => rw [hb] at h; cases h
  | ok bits => rw [hb] at h; exact ⟨bits, rfl, h⟩

theorem decoded_field_eq {D : Type} (K : Constants D) (subframe : List (Fin 256))
    (hlen : subframe.length = 40) (f : Field) (hr : InRange (K.desc f)) :
    decoded_field K subframe f = Except.ok (field_unsigned K subframe f) := by
  unfold decoded_field field_unsigned
  rw [unpack_eq subframe hlen]
  exact read_unsigned_ok _ _ hr

theorem land_255 (x : Int) : Int.land x 255 = x % 256 := by
  cases x with
  | ofNat n =>
    show ((n &&& 255 : Nat) : Int) = (n : Int) % 256
    have : n &&& 255 = n % 256 := Nat.and_pow_two_sub_one_eq_mod n 8
    rw [this]; rfl
  | negSucc m =>
    show ((Nat.ldiff 255 m : Nat) : Int) = Int.negSucc m % 256
    have h : Nat.ldiff 255 m = 2 ^ 8 - (m % 2 ^ 8 + 1) := by
      apply Nat.eq_of_testBit_eq
      intro i
      rw [Nat.testBit_two_pow_sub_succ (Nat.mod_lt _ (by norm_num)), Nat.testBit_mod_two_pow,
        Nat.testBit_ldiff]
      have : (255 : Nat) = 2 ^ 8 - 1 := by norm_num
      rw [this, Nat.testBit_two_pow_sub_one]
      by_cases hi : i < 8 <;> simp [hi]
    rw [h, Int.negSucc_eq]
    omega

theorem toInt32_emod (x : Int) : toInt32 x % 256 = x % 256 := by
  unfold toInt32
  omega

/-! ## Effect of ephemeris subframes on the fields the validator reads -/

section Ephemeris

variable {D : Type} [Mul D] [IntCast D]

theorem decode_subframe_1_key {K : Constants D} (hK : K.Valid) (bits : Frame)
    (s : Gps_Navigation_Message D) :
    ∃ s1, decode_subframe_1 K bits s = Except.ok s1
      ∧ s1.d_TOW_SF1 = toInt32 (toInt32 (raw_unsigned bits (K.desc .TOW)) * 6)
      ∧ s1.d_IODC = toInt32 (raw_unsigned bits (K.desc .IODC))
      ∧ s1.d_TOW_SF2 = s.d_TOW_SF2 ∧ s1.d_TOW_SF3 = s.d_TOW_SF3
      ∧ s1.d_IODE_SF2 = s.d_IODE_SF2 ∧ s1.d_IODE_SF3 = s.d_IODE_SF3 := by
  obtain ⟨s1, h⟩ := decode_subframe_1_total hK bits s
  refine ⟨s1, h, ?_⟩
  simp only [decode_subframe_1, read_i32_ok hK, read_i32_times_ok hK, read_flag_ok hK,
    read_scaled_signed_ok hK, ok_bind, pure_eq_ok, Except.ok.injEq] at h
  subst h
  exact ⟨rfl, rfl, rfl, rfl, rfl, rfl⟩

theorem decode_subframe_2_key {K : Constants D} (hK : K.Valid) (bits : Frame)
    (s : Gps_Navigation_Message D) :
    ∃ s1, decode_subframe_2 K bits s = Except.ok s1
      ∧ s1.d_TOW_SF2 = toInt32 (toInt32 (raw_unsigned bits (K.desc .TOW)) * 6)
      ∧ s1.d_IODE_SF2 = toInt32 (raw_unsigned bits (K.desc .IODE_SF2))
      ∧ s1.d_TOW_SF1 = s.d_TOW_SF1 ∧ s1.d_TOW_SF3 = s.d_TOW_SF3
      ∧ s1.d_IODC = s.d_IODC ∧ s1.d_IODE_SF3 = s.d_IODE_SF3 := by
  obtain ⟨s1, h⟩ := decode_subframe_2_total hK bits s
  refine ⟨s1, h, ?_⟩
  simp only [decode_subframe_2, read_i32_ok hK, read_i32_times_ok hK, read_flag_ok hK,
    read_scaled_signed_ok hK, read_scaled_unsigned_ok hK, ok_bind, pure_eq_ok,
    Except.ok.injEq] at h
  subst h
  exact ⟨rfl, rfl, rfl, rfl, rfl, rfl⟩

theorem decode_subframe_3_key {K : Constants D} (hK : K.Valid) (bits : Frame)
    (s : Gps_Navigation_Message D) :
    ∃ s1, decode_subframe_3 K bits s = Except.ok s1
      ∧ s1.d_TOW_SF3 = toInt32 (toInt32 (raw_unsigned bits (K.desc .TOW)) * 6)
      ∧ s1.d_IODE_SF3 = toInt32 (raw_unsigned bits (K.desc .IODE_SF3))
      ∧ s1.d_TOW_SF1 = s.d_TOW_SF1 ∧ s1.d_TOW_SF2 = s.d_TOW_SF2
      ∧ s1.d_IODC = s.d_IODC ∧ s1.d_IODE_SF2 = s.d_IODE_SF2 := by
  obtain ⟨s1, h⟩ := decode_subframe_3_total hK bits s
  refine ⟨s1, h, ?_⟩
  simp only [decode_subframe_3, read_i32_ok hK, read_i32_times_ok hK, read_flag_ok hK,
    read_scaled_signed_ok hK, ok_bind, pure_eq_ok, Except.ok.injEq] at h
  subst h
  exact ⟨rfl, rfl, rfl, rfl, rfl, rfl⟩

end Ephemeris

/-! ## Consistency validator and sequences of decodes -/

theorem satellite_validation_true_iff {D : Type} (s : Gps_Navigation_Message D) :
    (satellite_validation s).1 = true ↔
      (s.d_TOW_SF1 ≠ 0 ∧ s.d_TOW_SF2 ≠ 0 ∧ s.d_TOW_SF3 ≠ 0 ∧ s.d_IODE_SF2 = s.d_IODE_SF3
        ∧ Int.land s.d_IODC 0xFF = s.d_IODE_SF2 ∧ s.d_IODE_SF2 ≠ -1) := by
  unfold satellite_validation
  by_cases h1 : s.d_TOW_SF1 ≠ 0 ∧ s.d_TOW_SF2 ≠ 0 ∧ s.d_TOW_SF3 ≠ 0
  · by_cases h2 : s.d_IODE_SF2 = s.d_IODE_SF3 ∧ Int.land s.d_IODC 0xFF = s.d_IODE_SF2
        ∧ s.d_IODE_SF2 ≠ -1
    · simp only [if_pos h1, if_pos h2, true_iff]
      exact ⟨h1.1, h1.2.1, h1.2.2, h2⟩
    · simp only [if_pos h1, if_neg h2]
      constructor
      · intro h; cases h
      · intro h; exact absurd ⟨h.2.2.2.1, h.2.2.2.2⟩ h2
  · simp only [if_neg h1]
    constructor
    · intro h; cases h
    · intro h; exact absurd ⟨h.1, h.2.1, h.2.2.1⟩ h1

theorem satellite_validation_flag {D : Type} (s : Gps_Navigation_Message D) :
    (satellite_validation s).2.b_valid_ephemeris_set_flag = (satellite_validation s).1 := by
  unfold satellite_validation
  by_cases h1 : s.d_TOW_SF1 ≠ 0 ∧ s.d_TOW_SF2 ≠ 0 ∧ s.d_TOW_SF3 ≠ 0
  · by_cases h2 : s.d_IODE_SF2 = s.d_IODE_SF3 ∧ Int.land s.d_IODC 0xFF = s.d_IODE_SF2
        ∧ s.d_IODE_SF2 ≠ -1
    · simp only [if_pos h1, if_pos h2]
    · simp only [if_pos h1, if_neg h2]
  · simp only [if_neg h1]

section Sequences

variable {D : Type} [Mul D] [IntCast D]

theorem subframe_decoder_of_unpack (K : Constants D) (s : Gps_Navigation_Message D)
    (subframe : List (Fin 256)) (bits : Frame) (u : Nat)
    (hb : unpack subframe = Except.ok bits)
    (hu : read_navigation_unsigned bits (K.desc .SUBFRAME_ID) = Except.ok u) :
    subframe_decoder K s subframe
      = (decode_switch K bits (toInt32 u) s >>= fun s1 => Except.ok (toInt32 u, s1)) := by
  have h2 : read_i32 K bits .SUBFRAME_ID = Except.ok (toInt32 u) := by
    unfold read_i32
    exact bind_eq_of_eq_ok hu _
  unfold subframe_decoder
  exact (bind_eq_of_eq_ok hb _).trans (bind_eq_of_eq_ok h2 _)

omit [Mul D] [IntCast D] in
theorem decoded_field_raw {K : Constants D} (hK : K.Valid) (subframe : List (Fin 256))
    (bits : Frame) (hb : unpack subframe = Except.ok bits) (f : Field) (u : Nat)
    (h : decoded_field K subframe f = Except.ok u) : raw_unsigned bits (K.desc f) = u := by
  obtain ⟨bits2, hb2, hu⟩ := decoded_field_inv K subframe f u h
  rw [hb] at hb2
  cases hb2
  rw [read_unsigned_ok _ _ (hK f).1] at hu
  cases hu
  rfl

theorem tow_times_six (u : Nat) (h : u < 2 ^ 28) : toInt32 (toInt32 (u : Int) * 6) = 6 * (u : Int) := by
  unfold toInt32
  have : (u : Int) < 2 ^ 28 := by exact_mod_cast h
  omega

end Sequences

section Accumulation

variable {D : Type} [Mul D] [IntCast D]

theorem decode_all_cons (K : Constants D) (s s1 : Gps_Navigation_Message D) (i : Int)
    (f : List (Fin 256)) (fs : List (List (Fin 256)))
    (h : subframe_decoder K s f = Except.ok (i, s1)) :
    decode_all K s (f :: fs) = decode_all K s1 fs := by
  show (subframe_decoder K s f >>= fun r => decode_all K r.2 fs) = _
  rw [h]
  rfl

/-- Frames of type 1, 2 and 3 write disjoint parts of the state the validator
reads, so after any sequence of them each part holds the values of its type. -/
theorem decode_all_ephemeris (K : Constants D) (f1 f2 f3 : List (Fin 256))
    (T1 C T2 E2 T3 E3 : Int) (h12 : f1 ≠ f2) (h13 : f1 ≠ f3) (h23 : f2 ≠ f3)
    (st1 : ∀ s : Gps_Navigation_Message D, ∃ s1 i, subframe_decoder K s f1 = Except.ok (i, s1)
      ∧ s1.d_TOW_SF1 = T1 ∧ s1.d_IODC = C
      ∧ s1.d_TOW_SF2 = s.d_TOW_SF2 ∧ s1.d_TOW_SF3 = s.d_TOW_SF3
      ∧ s1.d_IODE_SF2 = s.d_IODE_SF2 ∧ s1.d_IODE_SF3 = s.d_IODE_SF3)
    (st2 : ∀ s : Gps_Navigation_Message D, ∃ s1 i, subframe_decoder K s f2 = Except.ok (i, s1)
      ∧ s1.d_TOW_SF2 = T2 ∧ s1.d_IODE_SF2 = E2
      ∧ s1.d_TOW_SF1 = s.d_TOW_SF1 ∧ s1.d_TOW_SF3 = s.d_TOW_SF3
      ∧ s1.d_IODC = s.d_IODC ∧ s1.d_IODE_SF3 = s.d_IODE_SF3)
    (st3 : ∀ s : Gps_Navigation_Message D, ∃ s1 i, subframe_decoder K s f3 = Except.ok (i, s1)
      ∧ s1.d_TOW_SF3 = T3 ∧ s1.d_IODE_SF3 = E3
      ∧ s1.d_TOW_SF1 = s.d_TOW_SF1 ∧ s1.d_TOW_SF2 = s.d_TOW_SF2
      ∧ s1.d_IODC = s.d_IODC ∧ s1.d_IODE_SF2 = s.d_IODE_SF2)
    (fs : List (List (Fin 256))) (hfs : ∀ f ∈ fs, f = f1 ∨ f = f2 ∨ f = f3)
    (s : Gps_Navigation_Message D) :
    ∃ s2, decode_all K s fs = Except.ok s2
      ∧ s2.d_TOW_SF1 = (if f1 ∈ fs then T1 else s.d_TOW_SF1)
      ∧ s2.d_IODC = (if f1 ∈ fs then C else s.d_IODC)
      ∧ s2.d_TOW_SF2 = (if f2 ∈ fs then T2 else s.d_TOW_SF2)
      ∧ s2.d_IODE_SF2 = (if f2 ∈ fs then E2 else s.d_IODE_SF2)
      ∧ s2.d_TOW_SF3 = (if f3 ∈ fs then T3 else s.d_TOW_SF3)
      ∧ s2.d_IODE_SF3 = (if f3 ∈ fs then E3 else s.d_IODE_SF3) := by
  induction fs generalizing s with
  | nil => exact ⟨s, rfl, by simp⟩
  | cons f fs ih =>
    have hrest : ∀ g ∈ fs, g = f1 ∨ g = f2 ∨ g = f3 := fun g hg => hfs g (List.mem_cons_of_mem _ hg)
    rcases hfs f (List.mem_cons_self _ _) with rfl | rfl | rfl
    · obtain ⟨s1, i, hd, a1, a2, a3, a4, a5, a6⟩ := st1 s
      obtain ⟨s2, hs2, b1, b2, b3, b4, b5, b6⟩ := ih hrest s1
      refine ⟨s2, by rw [decode_all_cons K s s1 i _ fs hd]; exact hs2, ?_⟩
      rw [b1, b2, b3, b4, b5, b6, a1, a2, a3, a4, a5, a6]
      simp [List.mem_cons, Ne.symm h12, Ne.symm h13]
    · obtain ⟨s1, i, hd, a1, a2, a3, a4, a5, a6⟩ := st2 s
      obtain ⟨s2, hs2, b1, b2, b3, b4, b5, b6⟩ := ih hrest s1
      refine ⟨s2, by rw [decode_all_cons K s s1 i _ fs hd]; exact hs2, ?_⟩
      rw [b1, b2, b3, b4, b5, b6, a1, a2, a3, a4, a5, a6]
      simp [List.mem_cons, h12, Ne.symm h23]
    · obtain ⟨s1, i, hd, a1, a2, a3, a4, a5, a6⟩ := st3 s
      obtain ⟨s2, hs2, b1, b2, b3, b4, b5, b6⟩ := ih hrest s1
      refine ⟨s2, by rw [decode_all_cons K s s1 i _ fs hd]; exact hs2, ?_⟩
      rw [b1, b2, b3, b4, b5, b6, a1, a2, a3, a4, a5, a6]
      simp [List.mem_cons, h13, h23]

theorem decode_step_1 {K : Constants D} (hK : K.Valid) (f : List (Fin 256))
    (hid : decoded_field K f .SUBFRAME_ID = Except.ok 1) (tow iodc : Nat)
    (ht : decoded_field K f .TOW = Except.ok tow) (hc : decoded_field K f .IODC = Except.ok iodc)
    (s : Gps_Navigation_Message D) :
    ∃ s1 i, subframe_decoder K s f = Except.ok (i, s1)
      ∧ s1.d_TOW_SF1 = toInt32 (toInt32 (tow : Int) * 6) ∧ s1.d_IODC = toInt32 (iodc : Int)
      ∧ s1.d_TOW_SF2 = s.d_TOW_SF2 ∧ s1.d_TOW_SF3 = s.d_TOW_SF3
      ∧ s1.d_IODE_SF2 = s.d_IODE_SF2 ∧ s1.d_IODE_SF3 = s.d_IODE_SF3 := by
  obtain ⟨bits, hb, hu⟩ := decoded_field_inv K f _ _ hid
  obtain ⟨s1, hs1, hk⟩ := decode_subframe_1_key hK bits s
  rw [decoded_field_raw hK f bits hb _ _ ht, decoded_field_raw hK f bits hb _ _ hc] at hk
  refine ⟨s1, 1, ?_, hk⟩
  rw [subframe_decoder_of_unpack K s f bits 1 hb hu]
  have e : toInt32 ((1 : Nat) : Int) = 1 := by decide
  rw [e]
  show (decode_subframe_1 K bits s >>= _) = _
  rw [hs1]
  rfl

theorem decode_step_2 {K : Constants D} (hK : K.Valid) (f : List (Fin 256))
    (hid : decoded_field K f .SUBFRAME_ID = Except.ok 2) (tow iode : Nat)
    (ht : decoded_field K f .TOW = Except.ok tow)
    (hc : decoded_field K f .IODE_SF2 = Except.ok iode)
    (s : Gps_Navigation_Message D) :
    ∃ s1 i, subframe_decoder K s f = Except.ok (i, s1)
      ∧ s1.d_TOW_SF2 = toInt32 (toInt32 (tow : Int) * 6) ∧ s1.d_IODE_SF2 = toInt32 (iode : Int)
      ∧ s1.d_TOW_SF1 = s.d_TOW_SF1 ∧ s1.d_TOW_SF3 = s.d_TOW_SF3
      ∧ s1.d_IODC = s.d_IODC ∧ s1.d_IODE_SF3 = s.d_IODE_SF3 := by
  obtain ⟨bits, hb, hu⟩ := decoded_field_inv K f _ _ hid
  obtain ⟨s1, hs1, hk⟩ := decode_subframe_2_key hK bits s
  rw [decoded_field_raw hK f bits hb _ _ ht, decoded_field_raw hK f bits hb _ _ hc] at hk
  refine ⟨s1, 2, ?_, hk⟩
  rw [subframe_decoder_of_unpack K s f bits 2 hb hu]
  have e : toInt32 ((2 : Nat) : Int) = 2 := by decide
  rw [e]
  show (decode_subframe_2 K bits s >>= _) = _
  rw [hs1]
  rfl

theorem decode_step_3 {K : Constants D} (hK : K.Valid) (f : List (Fin 256))
    (hid : decoded_field K f .SUBFRAME_ID = Except.ok 3) (tow iode : Nat)
    (ht : decoded_field K f .TOW = Except.ok tow)
    (hc : decoded_field K f .IODE_SF3 = Except.ok iode)
    (s : Gps_Navigation_Message D) :
    ∃ s1 i, subframe_decoder K s f = Except.ok (i, s1)
      ∧ s1.d_TOW_SF3 = toInt32 (toInt32 (tow : Int) * 6) ∧ s1.d_IODE_SF3 = toInt32 (iode : Int)
      ∧ s1.d_TOW_SF1 = s.d_TOW_SF1 ∧ s1.d_TOW_SF2 = s.d_TOW_SF2
      ∧ s1.d_IODC = s.d_IODC ∧ s1.d_IODE_SF2 = s.d_IODE_SF2 := by
  obtain ⟨bits, hb, hu⟩ := decoded_field_inv K f _ _ hid
  obtain ⟨s1, hs1, hk⟩ := decode_subframe_3_key hK bits s
  rw [decoded_field_raw hK f bits hb _ _ ht, decoded_field_raw hK f bits hb _ _ hc] at hk
  refine ⟨s1, 3, ?_, hk⟩
  rw [subframe_decoder_of_unpack K s f bits 3 hb hu]
  have e : toInt32 ((3 : Nat) : Int) = 3 := by decide
  rw [e]
  show (decode_subframe_3 K bits s >>= _) = _
  rw [hs1]
  rfl

omit [Mul D] [IntCast D] in
theorem decoded_field_lt {K : Constants D} (hK : K.Valid) (subframe : List (Fin 256)) (f : Field)
    (u : Nat) (h : decoded_field K subframe f = Except.ok u)
    (hn : total_length (K.desc f) ≤ 64) : u < 2 ^ total_length (K.desc f) := by
  obtain ⟨bits, hb, _⟩ := decoded_field_inv K subframe f u h
  rw [← decoded_field_raw hK subframe bits hb f u h]
  exact raw_unsigned_lt bits _ hn

theorem toInt32_of_lt_two_pow_32 (u v : Nat) (hu : u < 2 ^ 32) (hv : v < 256)
    (h : toInt32 (u : Int) = (v : Int)) : u = v := by
  unfold toInt32 at h
  have : (u : Int) < 2 ^ 32 := by exact_mod_cast hu
  omega

end Accumulation

/-! ## Bit-field reader: claims C1 to C3 -/

/-- C1: for every frame and every descriptor whose spans all satisfy
`1 ≤ offset` and `offset + length - 1 ≤ 300` and whose total length `n` is at
most 64, `read_navigation_unsigned` returns the natural number whose binary
numeral, most significant bit first, is the sequence of the frame bits at the
indices `300 - offset - j` taken span by span; this number is below `2 ^ n`. -/
theorem read_navigation_unsigned_reference (bits : Frame) (parameter : Descriptor)
    (hr : InRange parameter) (hn : total_length parameter ≤ 64) :
    read_navigation_unsigned bits parameter
        = Except.ok (binary_value (field_bits bits parameter))
      ∧ binary_value (field_bits bits parameter) < 2 ^ total_length parameter := by
  refine ⟨read_unsigned_eq bits parameter hr hn, ?_⟩
  have h := binary_value_lt (field_bits bits parameter)
  rwa [field_bits_length] at h

theorem read_navigation_unsigned_reference_witness :
    read_navigation_unsigned sample_frame [(83, 2), (211, 8)]
        = Except.ok (binary_value (field_bits sample_frame [(83, 2), (211, 8)]))
      ∧ binary_value (field_bits sample_frame [(83, 2), (211, 8)])
          < 2 ^ total_length [(83, 2), (211, 8)] :=
  read_navigation_unsigned_reference sample_frame [(83, 2), (211, 8)] (by decide) (by decide)

/-- C2: for every frame and every in-range descriptor with a non-empty first
span and total width `n ≤ 64`, with `u` the result of `read_navigation_unsigned`,
`read_navigation_signed` returns `u - 2 ^ n` when the leading bit of the first
span is 1 and `u` when it is 0; the result lies in `[-2^(n-1), 2^(n-1))` and is
congruent to `u` modulo `2 ^ n`. -/
theorem read_navigation_signed_twos_complement (bits : Frame) (p0 : Int × Int)
    (ps : Descriptor) (hr : InRange (p0 :: ps)) (h1 : 1 ≤ p0.2)
    (hn : total_length (p0 :: ps) ≤ 64) :
    ∃ (u : Nat) (r : Int),
      read_navigation_unsigned bits (p0 :: ps) = Except.ok u
      ∧ read_navigation_signed bits (p0 :: ps) = Except.ok r
      ∧ r = (if bits (300 - p0.1).toNat then (u : Int) - 2 ^ total_length (p0 :: ps)
              else (u : Int))
      ∧ - 2 ^ (total_length (p0 :: ps) - 1) ≤ r
      ∧ r < 2 ^ (total_length (p0 :: ps) - 1)
      ∧ r ≡ (u : Int) [ZMOD 2 ^ total_length (p0 :: ps)] := by
  refine ⟨_, _, read_unsigned_eq bits _ hr hn, read_signed_eq bits p0 ps hr h1 hn, rfl, ?_⟩
  obtain ⟨l, hl⟩ := field_bits_cons_of_pos bits p0 ps h1
  have hlen := field_bits_length bits (p0 :: ps)
  have hrange := signed_range (bits (300 - p0.1).toNat) l
  rw [← hl, hlen] at hrange
  refine ⟨hrange.1, hrange.2, ?_⟩
  split
  · exact Int.modEq_iff_dvd.2 ⟨1, by ring⟩
  · rfl

theorem read_navigation_signed_twos_complement_witness :
    ∃ (u : Nat) (r : Int),
      read_navigation_unsigned sample_frame ((83, 2) :: [(211, 8)]) = Except.ok u
      ∧ read_navigation_signed sample_frame ((83, 2) :: [(211, 8)]) = Except.ok r
      ∧ r = (if sample_frame (300 - ((83, 2) : Int × Int).1).toNat
              then (u : Int) - 2 ^ total_length ((83, 2) :: [(211, 8)]) else (u : Int))
      ∧ - 2 ^ (total_length ((83, 2) :: [(211, 8)]) - 1) ≤ r
      ∧ r < 2 ^ (total_length ((83, 2) :: [(211, 8)]) - 1)
      ∧ r ≡ (u : Int) [ZMOD 2 ^ total_length ((83, 2) :: [(211, 8)])] :=
  read_navigation_signed_twos_complement sample_frame (83, 2) [(211, 8)] (by decide) (by decide)
    (by decide)

/-- C3, as amended: for every descriptor with in-range, pairwise non-overlapping
spans of total width `n ≤ 64` and every frame, writing the `n`-bit pattern of a
value most significant bit first into the spans and reading it back with
`read_navigation_unsigned` returns `v` when `0 ≤ v < 2 ^ n`, and reading it back
with `read_navigation_signed` returns `v` when the first span of the descriptor
is not empty and `-2^(n-1) ≤ v < 2^(n-1)`. -/
theorem encode_decode_roundtrip (bits : Frame) (parameter : Descriptor) (vu : Nat) (vs : Int)
    (hr : InRange parameter) (hno : NonOverlapping parameter)
    (hn : total_length parameter ≤ 64) :
    (vu < 2 ^ total_length parameter →
        read_navigation_unsigned (write_navigation bits parameter (vu : Int)) parameter
          = Except.ok vu)
      ∧ (NonEmptyFirst parameter → - 2 ^ (total_length parameter - 1) ≤ vs →
          vs < 2 ^ (total_length parameter - 1) →
          read_navigation_signed (write_navigation bits parameter vs) parameter
            = Except.ok vs) := by
  refine ⟨write_read_unsigned bits parameter vu hr hno hn, ?_⟩
  intro hne hlo hhi
  cases parameter with
  | nil => exact absurd hne (by simp [NonEmptyFirst])
  | cons p0 ps => exact write_read_signed bits p0 ps vs hr hno hne hn hlo hhi

theorem encode_decode_roundtrip_witness :
    read_navigation_unsigned (write_navigation sample_frame [(83, 2), (211, 8)] ((529 : Nat) : Int))
          [(83, 2), (211, 8)] = Except.ok 529
      ∧ read_navigation_signed (write_navigation sample_frame [(83, 2), (211, 8)] (-3))
          [(83, 2), (211, 8)] = Except.ok (-3) :=
  ⟨(encode_decode_roundtrip sample_frame [(83, 2), (211, 8)] 529 (-3) (by decide) (by decide)
      (by decide)).1 (by decide),
   (encode_decode_roundtrip sample_frame [(83, 2), (211, 8)] 529 (-3) (by decide) (by decide)
      (by decide)).2 (by decide) (by decide) (by decide)⟩

/-- C3, counterexample: the descriptor `[(5, 0), (10, 8)]` has in-range,
non-overlapping spans of total width 8 and `-1` lies in `[-2^7, 2^7)`, yet after
the pattern of `-1` is written into the all-zero frame `read_navigation_signed`
returns 255: the sign is taken from frame bit 295, which no span covers. -/
theorem encode_decode_signed_empty_first_span :
    InRange [(5, 0), (10, 8)] ∧ NonOverlapping [(5, 0), (10, 8)]
      ∧ total_length [(5, 0), (10, 8)] = 8
      ∧ (- 2 ^ (total_length [(5, 0), (10, 8)] - 1) ≤ (-1 : Int))
      ∧ ((-1 : Int) < 2 ^ (total_length [(5, 0), (10, 8)] - 1))
      ∧ read_navigation_signed (write_navigation zero_frame [(5, 0), (10, 8)] (-1))
          [(5, 0), (10, 8)] = Except.ok 255
      ∧ read_navigation_signed (write_navigation zero_frame [(5, 0), (10, 8)] (-1))
          [(5, 0), (10, 8)] ≠ Except.ok (-1) := by
  decide

/-! ## Frame unpacker: claims C4 to C6 -/

/-- C4: for every 40-byte input, with word `i` the 32-bit integer read from
bytes `4i .. 4i+3` in little-endian order, the unpack loop produces a frame with
`frame[30 * (9 - i) + j] = bit j of word i` for `i < 10`, `j < 30`; every frame
index below 300 is of this form for exactly one pair `(i, j)`. -/
theorem unpack_places_bits (subframe : List (Fin 256)) (hlen : subframe.length = 40) :
    ∃ frame : Frame, unpack subframe = Except.ok frame
      ∧ (∀ i j : Nat, i < 10 → j < 30 →
          frame (30 * (9 - i) + j) = (word subframe i).testBit j)
      ∧ (∀ k : Nat, k < 300 →
          ∃! ij : Nat × Nat, ij.1 < 10 ∧ ij.2 < 30 ∧ k = 30 * (9 - ij.1) + ij.2) := by
  refine ⟨_, unpack_eq subframe hlen, ?_, ?_⟩
  · intro i j hi hj
    exact frame_of_words_apply _ i j hi hj
  · intro k hk
    refine ⟨(9 - k / 30, k % 30), ⟨by simp only; omega, by simp only; omega, by simp only; omega⟩, ?_⟩
    rintro ⟨i, j⟩ ⟨h1, h2, h3⟩
    simp only at h1 h2 h3
    simp only [Prod.mk.injEq]
    omega

theorem unpack_places_bits_witness :
    ∃ frame : Frame, unpack (sample_subframe 1) = Except.ok frame
      ∧ (∀ i j : Nat, i < 10 → j < 30 →
          frame (30 * (9 - i) + j) = (word (sample_subframe 1) i).testBit j)
      ∧ (∀ k : Nat, k < 300 →
          ∃! ij : Nat × Nat, ij.1 < 10 ∧ ij.2 < 30 ∧ k = 30 * (9 - ij.1) + ij.2) :=
  unpack_places_bits (sample_subframe 1) (by decide)

/-- C5: for every state and every two 40-byte inputs whose ten words agree on
their low 30 bits, `subframe_decoder` gives the same result, identifier and
post-state alike; with a validated table this result is a value, not a fault. -/
theorem padding_bits_ignored {D : Type} [Mul D] [IntCast D] (K : Constants D)
    (s : Gps_Navigation_Message D) (f1 f2 : List (Fin 256))
    (h1 : f1.length = 40) (h2 : f2.length = 40)
    (hw : ∀ i, i < 10 → word f1 i % 2 ^ 30 = word f2 i % 2 ^ 30) :
    subframe_decoder K s f1 = subframe_decoder K s f2
      ∧ (K.Valid → ∃ r, subframe_decoder K s f1 = Except.ok r
          ∧ subframe_decoder K s f2 = Except.ok r) := by
  have hu : unpack f1 = unpack f2 := by
    rw [unpack_eq f1 h1, unpack_eq f2 h2, frame_of_words_congr _ _ hw]
  have he : subframe_decoder K s f1 = subframe_decoder K s f2 := by
    unfold subframe_decoder
    rw [hu]
  refine ⟨he, fun hK => ?_⟩
  obtain ⟨s1, hs1⟩ := subframe_decoder_total hK s f1 h1
  exact ⟨_, hs1, he ▸ hs1⟩

theorem padding_bits_ignored_witness :
    subframe_decoder sample_constants zero_state (sample_subframe 1)
        = subframe_decoder sample_constants zero_state (sample_subframe_padded 1)
      ∧ ∃ r, subframe_decoder sample_constants zero_state (sample_subframe 1) = Except.ok r
          ∧ subframe_decoder sample_constants zero_state (sample_subframe_padded 1)
              = Except.ok r :=
  ⟨(padding_bits_ignored sample_constants zero_state (sample_subframe 1)
      (sample_subframe_padded 1) (by decide) (by decide) (by decide)).1,
   (padding_bits_ignored sample_constants zero_state (sample_subframe 1)
      (sample_subframe_padded 1) (by decide) (by decide) (by decide)).2 sample_constants_valid⟩

/-- C6: for every 40-byte input and every single-span descriptor `(o, l)` with
`1 ≤ o`, `1 ≤ l` that stays inside one word `w = (o-1) div 30 = (o+l-2) div 30`,
`w ≤ 9`, `read_navigation_unsigned` on the unpacked frame returns
`(word_w >> (30 - ((o-1) mod 30) - l)) mod 2 ^ l`. -/
theorem unpack_read_icd_numbering (subframe : List (Fin 256)) (o l : Nat)
    (hlen : subframe.length = 40) (ho : 1 ≤ o) (hl : 1 ≤ l)
    (hw : (o - 1) / 30 = (o + l - 2) / 30) (h9 : (o - 1) / 30 ≤ 9) :
    ∃ frame : Frame, unpack subframe = Except.ok frame
      ∧ read_navigation_unsigned frame [((o : Int), (l : Int))]
          = Except.ok ((word subframe ((o - 1) / 30) >>> (30 - (o - 1) % 30 - l)) % 2 ^ l) :=
  ⟨_, unpack_eq subframe hlen, read_unpacked_single _ o l ho hl hw h9⟩

theorem unpack_read_icd_numbering_witness :
    ∃ frame : Frame, unpack (sample_subframe 1) = Except.ok frame
      ∧ read_navigation_unsigned frame [(((50 : Nat) : Int), ((3 : Nat) : Int))]
          = Except.ok ((word (sample_subframe 1) ((50 - 1) / 30) >>> (30 - (50 - 1) % 30 - 3))
              % 2 ^ 3) :=
  unpack_read_icd_numbering (sample_subframe 1) 50 3 (by decide) (by decide) (by decide)
    (by decide) (by decide)

/-! ## Subframe decoder and consistency validator: claims C7 to C10 -/

/-- C7: with a validated table whose identifier field is at most 31 bits wide
(so that the narrowing to `int32_t` keeps its value), for every pre-state and
every 40-byte input `subframe_decoder` returns the value
`read_navigation_unsigned` reads from the unpacked frame at `SUBFRAME_ID`,
whatever the identifier and the page are; two runs from different states on the
same input return the same identifier. -/
theorem subframe_decoder_returns_identifier {D : Type} [Mul D] [IntCast D] {K : Constants D}
    (hK : K.Valid) (hw : total_length (K.desc .SUBFRAME_ID) ≤ 31)
    (s1 s2 : Gps_Navigation_Message D) (subframe : List (Fin 256))
    (hlen : subframe.length = 40) :
    ∃ (frame : Frame) (u : Nat) (t1 t2 : Gps_Navigation_Message D),
      unpack subframe = Except.ok frame
      ∧ read_navigation_unsigned frame (K.desc .SUBFRAME_ID) = Except.ok u
      ∧ subframe_decoder K s1 subframe = Except.ok ((u : Int), t1)
      ∧ subframe_decoder K s2 subframe = Except.ok ((u : Int), t2) := by
  obtain ⟨t1, h1⟩ := subframe_decoder_total hK s1 subframe hlen
  obtain ⟨t2, h2⟩ := subframe_decoder_total hK s2 subframe hlen
  have hlt : raw_unsigned (frame_of_words (word subframe)) (K.desc .SUBFRAME_ID) < 2 ^ 31 :=
    lt_of_lt_of_le (raw_unsigned_lt _ _ (by omega)) (Nat.pow_le_pow_right (by norm_num) hw)
  have hid : subframe_id K subframe
      = ((raw_unsigned (frame_of_words (word subframe)) (K.desc .SUBFRAME_ID) : Nat) : Int) :=
    toInt32_of_lt _ hlt
  rw [hid] at h1 h2
  exact ⟨_, _, t1, t2, unpack_eq subframe hlen, read_unsigned_ok _ _ (hK _).1, h1, h2⟩

theorem subframe_decoder_returns_identifier_witness :
    ∃ (frame : Frame) (u : Nat) (t1 t2 : Gps_Navigation_Message ℚ),
      unpack (sample_subframe 4) = Except.ok frame
      ∧ read_navigation_unsigned frame (sample_constants.desc .SUBFRAME_ID) = Except.ok u
      ∧ subframe_decoder sample_constants zero_state (sample_subframe 4) = Except.ok ((u : Int), t1)
      ∧ subframe_decoder sample_constants { zero_state with d_TOW := 6 } (sample_subframe 4)
          = Except.ok ((u : Int), t2) :=
  subframe_decoder_returns_identifier sample_constants_valid (by decide) zero_state
    { zero_state with d_TOW := 6 } (sample_subframe 4) (by decide)

/-- C8: for every pre-state and every input whose decoded identifier (the value
of the `SUBFRAME_ID` field, narrowed to `int32_t`) is outside `1..5`,
`subframe_decoder` returns that identifier and a post-state equal to the
pre-state. -/
theorem unknown_identifier_no_change {D : Type} [Mul D] [IntCast D] (K : Constants D)
    (s : Gps_Navigation_Message D) (subframe : List (Fin 256)) (u : Nat)
    (hu : decoded_field K subframe .SUBFRAME_ID = Except.ok u)
    (hid : ¬ (1 ≤ toInt32 (u : Int) ∧ toInt32 (u : Int) ≤ 5)) :
    subframe_decoder K s subframe = Except.ok (toInt32 (u : Int), s) := by
  obtain ⟨bits, hb, hr⟩ := decoded_field_inv K subframe _ _ hu
  rw [subframe_decoder_of_unpack K s subframe bits u hb hr, decode_switch_other K bits _ s hid]
  rfl

set_option maxRecDepth 100000 in
theorem unknown_identifier_no_change_witness :
    subframe_decoder sample_constants zero_state (sample_subframe 6)
      = Except.ok (toInt32 ((6 : Nat) : Int), zero_state) :=
  unknown_identifier_no_change sample_constants zero_state (sample_subframe 6) 6 (by decide)
    (by decide)

/-- C9: `satellite_validation` returns true if and only if `d_TOW_SF1`,
`d_TOW_SF2` and `d_TOW_SF3` are all non-zero, `d_IODE_SF2 = d_IODE_SF3`,
`(d_IODC & 0xFF) = d_IODE_SF2` and `d_IODE_SF2` is not `-1`; after the call
`b_valid_ephemeris_set_flag` equals the returned value, whatever it was before. -/
theorem satellite_validation_spec {D : Type} (s : Gps_Navigation_Message D) :
    ((satellite_validation s).1 = true ↔
        (s.d_TOW_SF1 ≠ 0 ∧ s.d_TOW_SF2 ≠ 0 ∧ s.d_TOW_SF3 ≠ 0 ∧ s.d_IODE_SF2 = s.d_IODE_SF3
          ∧ Int.land s.d_IODC 0xFF = s.d_IODE_SF2 ∧ s.d_IODE_SF2 ≠ -1))
      ∧ (satellite_validation s).2.b_valid_ephemeris_set_flag = (satellite_validation s).1 :=
  ⟨satellite_validation_true_iff s, satellite_validation_flag s⟩

/-- C10: with a validated table whose `TOW` field is at most 28 bits wide and
whose `IODE` fields are at most 32 bits wide, for every pre-state and every
three frames of type 1, 2 and 3, each with a non-zero `TOW` field, decoded in
any order, `satellite_validation` called on the resulting state returns true if
and only if the `IODE` field of the type 2 frame equals the `IODE` field of the
type 3 frame and the low 8 bits of the `IODC` field of the type 1 frame. -/
theorem ephemeris_consistency_end_to_end {D : Type} [Mul D] [IntCast D] {K : Constants D}
    (hK : K.Valid) (hT : total_length (K.desc .TOW) ≤ 28)
    (hE2 : total_length (K.desc .IODE_SF2) ≤ 32) (hE3 : total_length (K.desc .IODE_SF3) ≤ 32)
    (s : Gps_Navigation_Message D) (f1 f2 f3 : List (Fin 256)) (fs : List (List (Fin 256)))
    (hperm : fs.Perm [f1, f2, f3])
    (tow1 tow2 tow3 iodc iode2 iode3 : Nat)
    (hid1 : decoded_field K f1 .SUBFRAME_ID = Except.ok 1)
    (hid2 : decoded_field K f2 .SUBFRAME_ID = Except.ok 2)
    (hid3 : decoded_field K f3 .SUBFRAME_ID = Except.ok 3)
    (ht1 : decoded_field K f1 .TOW = Except.ok tow1) (hz1 : tow1 ≠ 0)
    (ht2 : decoded_field K f2 .TOW = Except.ok tow2) (hz2 : tow2 ≠ 0)
    (ht3 : decoded_field K f3 .TOW = Except.ok tow3) (hz3 : tow3 ≠ 0)
    (hc : decoded_field K f1 .IODC = Except.ok iodc)
    (he2 : decoded_field K f2 .IODE_SF2 = Except.ok iode2)
    (he3 : decoded_field K f3 .IODE_SF3 = Except.ok iode3) :
    ∃ s2, decode_all K s fs = Except.ok s2
      ∧ ((satellite_validation s2).1 = true ↔ (iode2 = iode3 ∧ iode2 = iodc % 256)) := by
  have h12 : f1 ≠ f2 := by
    rintro rfl; rw [hid1] at hid2; cases hid2
  have h13 : f1 ≠ f3 := by
    rintro rfl; rw [hid1] at hid3; cases hid3
  have h23 : f2 ≠ f3 := by
    rintro rfl; rw [hid2] at hid3; cases hid3
  have hmem : ∀ f, f ∈ fs ↔ f ∈ [f1, f2, f3] := fun f => hperm.mem_iff
  obtain ⟨s2, hs2, a1, a2, a3, a4, a5, a6⟩ :=
    decode_all_ephemeris K f1 f2 f3 _ _ _ _ _ _ h12 h13 h23
      (decode_step_1 hK f1 hid1 tow1 iodc ht1 hc)
      (decode_step_2 hK f2 hid2 tow2 iode2 ht2 he2)
      (decode_step_3 hK f3 hid3 tow3 iode3 ht3 he3)
      fs (fun f hf => by simpa using (hmem f).1 hf) s
  have m1 : f1 ∈ fs := (hmem f1).2 (by simp)
  have m2 : f2 ∈ fs := (hmem f2).2 (by simp)
  have m3 : f3 ∈ fs := (hmem f3).2 (by simp)
  rw [if_pos m1] at a1 a2
  rw [if_pos m2] at a3 a4
  rw [if_pos m3] at a5 a6
  have b1 := decoded_field_lt hK f1 _ _ ht1 (by omega)
  have b2 := decoded_field_lt hK f2 _ _ ht2 (by omega)
  have b3 := decoded_field_lt hK f3 _ _ ht3 (by omega)
  have c2 := lt_of_lt_of_le (decoded_field_lt hK f2 _ _ he2 (by omega))
    (Nat.pow_le_pow_right (by norm_num) hE2)
  have c3 := lt_of_lt_of_le (decoded_field_lt hK f3 _ _ he3 (by omega))
    (Nat.pow_le_pow_right (by norm_num) hE3)
  rw [tow_times_six _ (lt_of_lt_of_le b1 (Nat.pow_le_pow_right (by norm_num) hT))] at a1
  rw [tow_times_six _ (lt_of_lt_of_le b2 (Nat.pow_le_pow_right (by norm_num) hT))] at a3
  rw [tow_times_six _ (lt_of_lt_of_le b3 (Nat.pow_le_pow_right (by norm_num) hT))] at a5
  refine ⟨s2, hs2, ?_⟩
  rw [satellite_validation_true_iff, land_255, a1, a2, a3, a4, a5, a6, toInt32_emod]
  unfold toInt32
  have d2 : (iode2 : Int) < 2 ^ 32 := by exact_mod_cast c2
  have d3 : (iode3 : Int) < 2 ^ 32 := by exact_mod_cast c3
  omega

set_option maxRecDepth 100000 in
theorem ephemeris_consistency_end_to_end_witness :
    ∃ s2, decode_all sample_constants zero_state
          [sample_subframe 2, sample_subframe 3, sample_subframe 1] = Except.ok s2
      ∧ ((satellite_validation s2).1 = true ↔ (0 = 0 ∧ 0 = 0 % 256)) :=
  ephemeris_consistency_end_to_end sample_constants_valid (by decide) (by decide) (by decide)
    zero_state (sample_subframe 1) (sample_subframe 2) (sample_subframe 3)
    [sample_subframe 2, sample_subframe 3, sample_subframe 1]
    (by decide) 1 1 1 0 0 0
    (by decide) (by decide) (by decide) (by decide) (by decide) (by decide) (by decide)
    (by decide) (by decide) (by decide) (by decide) (by decide)

/-! ## The decoder computes the post-state functions -/

section PostStateLemmas

variable {D : Type} [Mul D] [IntCast D]

theorem ite_ok {α : Type} {c : Prop} [Decidable c] {x : Result α} {a b : α}
    (hx : x = Except.ok a) : (if c then x else pure b) = Except.ok (if c then a else b) := by
  split
  · exact hx
  · rfl

theorem decode_subframe_1_eq {K : Constants D} (hK : K.Valid) (bits : Frame)
    (s : Gps_Navigation_Message D) :
    decode_subframe_1 K bits s = Except.ok (subframe_1_state K bits s) := by
  simp only [decode_subframe_1, read_i32_ok hK, read_i32_times_ok hK, read_flag_ok hK,
    read_scaled_signed_ok hK, ok_bind, pure_eq_ok]
  rfl

theorem decode_subframe_2_eq {K : Constants D} (hK : K.Valid) (bits : Frame)
    (s : Gps_Navigation_Message D) :
    decode_subframe_2 K bits s = Except.ok (subframe_2_state K bits s) := by
  simp only [decode_subframe_2, read_i32_ok hK, read_i32_times_ok hK, read_flag_ok hK,
    read_scaled_signed_ok hK, read_scaled_unsigned_ok hK, ok_bind, pure_eq_ok]
  rfl

theorem decode_subframe_3_eq {K : Constants D} (hK : K.Valid) (bits : Frame)
    (s : Gps_Navigation_Message D) :
    decode_subframe_3 K bits s = Except.ok (subframe_3_state K bits s) := by
  simp only [decode_subframe_3, read_i32_ok hK, read_i32_times_ok hK, read_flag_ok hK,
    read_scaled_signed_ok hK, ok_bind, pure_eq_ok]
  rfl

theorem decode_almanac_4_eq {K : Constants D} (hK : K.Valid) (bits : Frame) (page : Int)
    (s : Gps_Navigation_Message D) :
    decode_almanac_4 K bits page s = Except.ok (almanac_4_state K bits page s) := by
  simp only [decode_almanac_4, read_i32_times_ok hK, read_scaled_signed_ok hK,
    read_scaled_unsigned_ok hK, ok_bind, pure_eq_ok]
  rfl

theorem decode_almanac_5_eq {K : Constants D} (hK : K.Valid) (bits : Frame) (page : Int)
    (s : Gps_Navigation_Message D) :
    decode_almanac_5 K bits page s = Except.ok (almanac_5_state K bits page s) := by
  simp only [decode_almanac_5, read_i32_ok hK, read_i32_times_ok hK, read_scaled_signed_ok hK,
    read_scaled_unsigned_ok hK, ok_bind, pure_eq_ok]
  rfl

theorem decode_page_18_eq {K : Constants D} (hK : K.Valid) (bits : Frame)
    (s : Gps_Navigation_Message D) :
    decode_page_18 K bits s = Except.ok (page_18_state K bits s) := by
  simp only [decode_page_18, read_i32_ok hK, read_i32_times_ok hK, read_scaled_signed_ok hK,
    read_i32_signed_ok hK, ok_bind, pure_eq_ok]
  rfl

omit [Mul D] [IntCast D] in
theorem set_health_eq {K : Constants D} (hK : K.Valid) (bits : Frame) (v : Nat) (f : Field)
    (s : Gps_Navigation_Message D) :
    set_health K bits v f s = Except.ok (health_state K bits v f s) := by
  unfold set_health
  exact bind_eq_of_eq_ok (read_i32_ok hK bits f) _

omit [Mul D] [IntCast D] in
theorem decode_page_25_sf4_eq {K : Constants D} (hK : K.Valid) (bits : Frame)
    (s : Gps_Navigation_Message D) :
    decode_page_25_sf4 K bits s = Except.ok (page_25_sf4_state K bits s) := by
  unfold decode_page_25_sf4 page_25_sf4_state
  iterate 7 refine (bind_eq_of_eq_ok (set_health_eq hK bits _ _ _) _).trans ?_
  exact set_health_eq hK bits _ _ _

omit [Mul D] [IntCast D] in
theorem decode_page_25_sf5_eq {K : Constants D} (hK : K.Valid) (bits : Frame)
    (s : Gps_Navigation_Message D) :
    decode_page_25_sf5 K bits s = Except.ok (page_25_sf5_state K bits s) := by
  unfold decode_page_25_sf5 page_25_sf5_state
  refine (bind_eq_of_eq_ok (read_i32_times_ok hK bits _ _) _).trans ?_
  refine (bind_eq_of_eq_ok (read_i32_ok hK bits _) _).trans ?_
  iterate 23 refine (bind_eq_of_eq_ok (set_health_eq hK bits _ _ _) _).trans ?_
  exact set_health_eq hK bits _ _ _

theorem almanac_4_step_eq {K : Constants D} (hK : K.Valid) (bits : Frame)
    (s : Gps_Navigation_Message D) :
    (if i32_value K bits .SV_PAGE > 24 ∧ i32_value K bits .SV_PAGE < 33 then
        (if i32_value K bits .SV_DATA_ID ≠ 0 then
          decode_almanac_4 K bits (i32_value K bits .SV_PAGE) s else pure s)
      else pure s) = Except.ok (almanac_4_step K bits s) :=
  ite_ok (ite_ok (decode_almanac_4_eq hK bits _ s))

theorem page_18_step_eq {K : Constants D} (hK : K.Valid) (bits : Frame)
    (s : Gps_Navigation_Message D) :
    (if i32_value K bits .SV_PAGE = 56 then decode_page_18 K bits s else pure s)
      = Except.ok (page_18_step K bits s) :=
  ite_ok (decode_page_18_eq hK bits s)

omit [Mul D] [IntCast D] in
theorem page_25_sf4_step_eq {K : Constants D} (hK : K.Valid) (bits : Frame)
    (s : Gps_Navigation_Message D) :
    (if i32_value K bits .SV_PAGE = 63 then decode_page_25_sf4 K bits s else pure s)
      = Except.ok (page_25_sf4_step K bits s) :=
  ite_ok (decode_page_25_sf4_eq hK bits s)

theorem almanac_5_step_eq {K : Constants D} (hK : K.Valid) (bits : Frame)
    (s : Gps_Navigation_Message D) :
    (if i32_value K bits .SV_PAGE > 0 ∧ i32_value K bits .SV_PAGE < 25 then
        (if i32_value K bits .SV_DATA_ID ≠ 0 then
          decode_almanac_5 K bits (i32_value K bits .SV_PAGE) s else pure s)
      else pure s) = Except.ok (almanac_5_step K bits s) :=
  ite_ok (ite_ok (decode_almanac_5_eq hK bits _ s))

omit [Mul D] [IntCast D] in
theorem page_25_sf5_step_eq {K : Constants D} (hK : K.Valid) (bits : Frame)
    (s : Gps_Navigation_Message D) :
    (if i32_value K bits .SV_PAGE = 51 then decode_page_25_sf5 K bits s else pure s)
      = Except.ok (page_25_sf5_step K bits s) :=
  ite_ok (decode_page_25_sf5_eq hK bits s)

theorem decode_subframe_4_eq {K : Constants D} (hK : K.Valid) (bits : Frame)
    (s : Gps_Navigation_Message D) :
    decode_subframe_4 K bits s = Except.ok (subframe_4_state K bits s) := by
  unfold decode_subframe_4 subframe_4_state
  refine (bind_eq_of_eq_ok (read_i32_times_ok hK bits _ _) _).trans ?_
  refine (bind_eq_of_eq_ok (read_flag_ok hK bits _) _).trans ?_
  refine (bind_eq_of_eq_ok (read_flag_ok hK bits _) _).trans ?_
  refine (bind_eq_of_eq_ok (read_flag_ok hK bits _) _).trans ?_
  refine (bind_eq_of_eq_ok (read_i32_ok hK bits _) _).trans ?_
  refine (bind_eq_of_eq_ok (read_i32_ok hK bits _) _).trans ?_
  refine (bind_eq_of_eq_ok (almanac_4_step_eq hK bits (header_4_state K bits s)) _).trans ?_
  refine (bind_eq_of_eq_ok (page_18_step_eq hK bits _) _).trans ?_
  exact page_25_sf4_step_eq hK bits _

theorem decode_subframe_5_eq {K : Constants D} (hK : K.Valid) (bits : Frame)
    (s : Gps_Navigation_Message D) :
    decode_subframe_5 K bits s = Except.ok (subframe_5_state K bits s) := by
  unfold decode_subframe_5 subframe_5_state
  refine (bind_eq_of_eq_ok (read_i32_times_ok hK bits _ _) _).trans ?_
  refine (bind_eq_of_eq_ok (read_flag_ok hK bits _) _).trans ?_
  refine (bind_eq_of_eq_ok (read_flag_ok hK bits _) _).trans ?_
  refine (bind_eq_of_eq_ok (read_flag_ok hK bits _) _).trans ?_
  refine (bind_eq_of_eq_ok (read_i32_ok hK bits _) _).trans ?_
  refine (bind_eq_of_eq_ok (read_i32_ok hK bits _) _).trans ?_
  refine (bind_eq_of_eq_ok (almanac_5_step_eq hK bits (header_5_state K bits s)) _).trans ?_
  exact page_25_sf5_step_eq hK bits _

theorem decode_switch_eq {K : Constants D} (hK : K.Valid) (bits : Frame) (id : Int)
    (s : Gps_Navigation_Message D) :
    decode_switch K bits id s = Except.ok (switch_state K bits id s) := by
  unfold decode_switch switch_state
  split
  · exact decode_subframe_1_eq hK bits s
  split
  · exact decode_subframe_2_eq hK bits s
  split
  · exact decode_subframe_3_eq hK bits s
  split
  · exact decode_subframe_4_eq hK bits s
  split
  · exact decode_subframe_5_eq hK bits s
  rfl

theorem subframe_decoder_state {K : Constants D} (hK : K.Valid)
    (s : Gps_Navigation_Message D) (subframe : List (Fin 256)) (bits : Frame)
    (hb : unpack subframe = Except.ok bits) :
    subframe_decoder K s subframe
      = Except.ok (i32_value K bits .SUBFRAME_ID,
          switch_state K bits (i32_value K bits .SUBFRAME_ID) s) := by
  rw [subframe_decoder_of_unpack K s subframe bits _ hb (read_unsigned_ok _ _ (hK _).1),
    decode_switch_eq hK]
  rfl

end PostStateLemmas

/-! ## Members written by a decode are the fields of the frame -/

theorem raw_signed_range (bits : Frame) (parameter : Descriptor) (hr : InRange parameter)
    (hne : NonEmptyFirst parameter) (hn : total_length parameter ≤ 64) :
    - 2 ^ (total_length parameter - 1) ≤ raw_signed bits parameter
      ∧ raw_signed bits parameter < 2 ^ (total_length parameter - 1) := by
  cases parameter with
  | nil => exact absurd hne (by simp [NonEmptyFirst])
  | cons p0 ps =>
    have h1 : 1 ≤ p0.2 := hne
    have e1 := read_signed_eq bits p0 ps hr h1 hn
    rw [read_signed_ok bits _ hr hne] at e1
    have e2 := Except.ok.inj e1
    obtain ⟨l, hl⟩ := field_bits_cons_of_pos bits p0 ps h1
    have hlen := field_bits_length bits (p0 :: ps)
    have hrange := signed_range (bits (300 - p0.1).toNat) l
    rw [← hl, hlen] at hrange
    rw [e2]
    exact hrange

theorem toInt32_of_range (x : Int) (h1 : - 2 ^ 31 ≤ x) (h2 : x < 2 ^ 31) : toInt32 x = x := by
  unfold toInt32
  omega

theorem toInt32_mul_of_fits (u : Nat) (c : Int) (n : Nat) (hu : u < 2 ^ n)
    (hf : 2 ^ n * c.natAbs ≤ 2 ^ 31) : toInt32 (toInt32 (u : Int) * c) = (u : Int) * c := by
  by_cases hc : c = 0
  · subst hc
    simp [toInt32]
  · have hc1 : 1 ≤ c.natAbs := Nat.one_le_iff_ne_zero.2 (Int.natAbs_ne_zero.2 hc)
    have hn : 2 ^ n ≤ 2 ^ 31 := le_trans (Nat.le_mul_of_pos_right _ hc1) hf
    have hu31 : u < 2 ^ 31 := lt_of_lt_of_le hu hn
    rw [toInt32_of_lt u hu31]
    have hp : u * c.natAbs < 2 ^ 31 :=
      lt_of_lt_of_le (Nat.mul_lt_mul_of_pos_right hu hc1) hf
    have habs : ((u : Int) * c).natAbs < 2 ^ 31 := by
      rw [Int.natAbs_mul, Int.natAbs_ofNat]; exact hp
    apply toInt32_of_range <;> omega

section FieldValueLemmas

variable {D : Type} [Mul D] [IntCast D]

omit [Mul D] [IntCast D] in
theorem isUnsigned_i32 {K : Constants D} (hK : K.Valid) (bits : Frame) (f : Field)
    (hw : total_length (K.desc f) ≤ 31) : IsUnsigned K bits f (i32_value K bits f) := by
  refine ⟨_, read_unsigned_ok bits _ (hK f).1, ?_⟩
  exact toInt32_of_lt _ (lt_of_lt_of_le (raw_unsigned_lt bits _ (by omega))
    (Nat.pow_le_pow_right (by norm_num) hw))

omit [Mul D] [IntCast D] in
theorem isSigned_i32 {K : Constants D} (hK : K.Valid) (bits : Frame) (f : Field)
    (hw : total_length (K.desc f) ≤ 32) : IsSigned K bits f (i32_signed_value K bits f) := by
  refine ⟨_, read_signed_ok bits _ (hK f).1 (hK f).2, ?_⟩
  obtain ⟨h1, h2⟩ := raw_signed_range bits _ (hK f).1 (hK f).2 (by omega)
  have hp : (2 : Int) ^ (total_length (K.desc f) - 1) ≤ 2 ^ 31 :=
    pow_le_pow_right₀ (by norm_num) (by omega)
  exact toInt32_of_range _ (by linarith) (by linarith)

omit [Mul D] [IntCast D] in
theorem isUnsignedTimes_i32 {K : Constants D} (hK : K.Valid) (bits : Frame) (f : Field)
    (hp : K.ProductFits f) :
    IsUnsignedTimes K bits f (i32_times_value K bits f (K.ilsb f)) := by
  refine ⟨_, read_unsigned_ok bits _ (hK f).1, ?_⟩
  by_cases hc : K.ilsb f = 0
  · unfold i32_times_value
    rw [hc]
    simp [toInt32]
  · have hc1 : 1 ≤ (K.ilsb f).natAbs := Nat.one_le_iff_ne_zero.2 (Int.natAbs_ne_zero.2 hc)
    have hn : 2 ^ total_length (K.desc f) ≤ 2 ^ 31 :=
      le_trans (Nat.le_mul_of_pos_right _ hc1) hp
    have hw : total_length (K.desc f) ≤ 31 := (Nat.pow_le_pow_iff_right (by norm_num)).1 hn
    exact toInt32_mul_of_fits _ _ _ (raw_unsigned_lt bits _ (by omega)) hp

theorem isScaledUnsigned_value {K : Constants D} (hK : K.Valid) (bits : Frame) (f : Field) :
    IsScaledUnsigned K bits f (scaled_unsigned_value K bits f) :=
  ⟨_, read_unsigned_ok bits _ (hK f).1, rfl⟩

theorem isScaledSigned_value {K : Constants D} (hK : K.Valid) (bits : Frame) (f : Field) :
    IsScaledSigned K bits f (scaled_signed_value K bits f) :=
  ⟨_, read_signed_ok bits _ (hK f).1 (hK f).2, rfl⟩

end FieldValueLemmas

/-! ## Members a block of the decoder leaves alone -/

section PassThrough

variable {D : Type} [Mul D] [IntCast D]

@[simp]
theorem subframe_1_state_flag_iono_valid (K : Constants D) (bits : Frame)
    (s : Gps_Navigation_Message D) :
    (subframe_1_state K bits s).flag_iono_valid = s.flag_iono_valid := by
  unfold subframe_1_state
  rfl

@[simp]
theorem subframe_1_state_flag_utc_model_valid (K : Constants D) (bits : Frame)
    (s : Gps_Navigation_Message D) :
    (subframe_1_state K bits s).flag_utc_model_valid = s.flag_utc_model_valid := by
  unfold subframe_1_state
  rfl

@[simp]
theorem subframe_1_state_flag_almanac_valid (K : Constants D) (bits : Frame)
    (s : Gps_Navigation_Message D) :
    (subframe_1_state K bits s).flag_almanac_valid = s.flag_almanac_valid := by
  unfold subframe_1_state
  rfl

@[simp]
theorem subframe_1_state_flag_almanac_week_valid (K : Constants D) (bits : Frame)
    (s : Gps_Navigation_Message D) :
    (subframe_1_state K bits s).flag_almanac_week_valid = s.flag_almanac_week_valid := by
  unfold subframe_1_state
  rfl

@[simp]
theorem subframe_1_state_i_WN_A (K : Constants D) (bits : Frame) (s : Gps_Navigation_Message D) :
    (subframe_1_state K bits s).i_WN_A = s.i_WN_A := by
  unfold subframe_1_state
  rfl

@[simp]
theorem subframe_1_state_SV_Health (K : Constants D) (bits : Frame) (s : Gps_Navigation_Message D) :
    (subframe_1_state K bits s).SV_Health = s.SV_Health := by
  unfold subframe_1_state
  rfl

@[simp]
theorem subframe_2_state_flag_iono_valid (K : Constants D) (bits : Frame)
    (s : Gps_Navigation_Message D) :
    (subframe_2_state K bits s).flag_iono_valid = s.flag_iono_valid := by
  unfold subframe_2_state
  rfl

@[simp]
theorem subframe_2_state_flag_utc_model_valid (K : Constants D) (bits : Frame)
    (s : Gps_Navigation_Message D) :
    (subframe_2_state K bits s).flag_utc_model_valid = s.flag_utc_model_valid := by
  unfold subframe_2_state
  rfl

@[simp]
theorem subframe_2_state_flag_almanac_valid (K : Constants D) (bits : Frame)
    (s : Gps_Navigation_Message D) :
    (subframe_2_state K bits s).flag_almanac_valid = s.flag_almanac_valid := by
  unfold subframe_2_state
  rfl

@[simp]
theorem subframe_2_state_flag_almanac_week_valid (K : Constants D) (bits : Frame)
    (s : Gps_Navigation_Message D) :
    (subframe_2_state K bits s).flag_almanac_week_valid = s.flag_almanac_week_valid := by
  unfold subframe_2_state
  rfl

@[simp]
theorem subframe_2_state_i_WN_A (K : Constants D) (bits : Frame) (s : Gps_Navigation_Message D) :
    (subframe_2_state K bits s).i_WN_A = s.i_WN_A := by
  unfold subframe_2_state
  rfl

@[simp]
theorem subframe_2_state_SV_Health (K : Constants D) (bits : Frame) (s : Gps_Navigation_Message D) :
    (subframe_2_state K bits s).SV_Health = s.SV_Health := by
  unfold subframe_2_state
  rfl

@[simp]
theorem subframe_3_state_flag_iono_valid (K : Constants D) (bits : Frame)
    (s : Gps_Navigation_Message D) :
    (subframe_3_state K bits s).flag_iono_valid = s.flag_iono_valid := by
  unfold subframe_3_state
  rfl

@[simp]
theorem subframe_3_state_flag_utc_model_valid (K : Constants D) (bits : Frame)
    (s : Gps_Navigation_Message D) :
    (subframe_3_state K bits s).flag_utc_model_valid = s.flag_utc_model_valid := by
  unfold subframe_3_state
  rfl

@[simp]
theorem subframe_3_state_flag_almanac_valid (K : Constants D) (bits : Frame)
    (s : Gps_Navigation_Message D) :
    (subframe_3_state K bits s).flag_almanac_valid = s.flag_almanac_valid := by
  unfold subframe_3_state
  rfl

@[simp]
theorem subframe_3_state_flag_almanac_week_valid (K : Constants D) (bits : Frame)
    (s : Gps_Navigation_Message D) :
    (subframe_3_state K bits s).flag_almanac_week_valid = s.flag_almanac_week_valid := by
  unfold subframe_3_state
  rfl

@[simp]
theorem subframe_3_state_i_WN_A (K : Constants D) (bits : Frame) (s : Gps_Navigation_Message D) :
    (subframe_3_state K bits s).i_WN_A = s.i_WN_A := by
  unfold subframe_3_state
  rfl

@[simp]
theorem subframe_3_state_SV_Health (K : Constants D) (bits : Frame) (s : Gps_Navigation_Message D) :
    (subframe_3_state K bits s).SV_Health = s.SV_Health := by
  unfold subframe_3_state
  rfl

omit [Mul D] [IntCast D] in
@[simp]
theorem header_4_state_flag_iono_valid (K : Constants D) (bits : Frame)
    (s : Gps_Navigation_Message D) :
    (header_4_state K bits s).flag_iono_valid = s.flag_iono_valid := by
  unfold header_4_state
  rfl

omit [Mul D] [IntCast D] in
@[simp]
theorem header_4_state_flag_utc_model_valid (K : Constants D) (bits : Frame)
    (s : Gps_Navigation_Message D) :
    (header_4_state K bits s).flag_utc_model_valid = s.flag_utc_model_valid := by
  unfold header_4_state
  rfl

omit [Mul D] [IntCast D] in
@[simp]
theorem header_4_state_flag_almanac_valid (K : Constants D) (bits : Frame)
    (s : Gps_Navigation_Message D) :
    (header_4_state K bits s).flag_almanac_valid = s.flag_almanac_valid := by
  unfold header_4_state
  rfl

omit [Mul D] [IntCast D] in
@[simp]
theorem header_4_state_flag_almanac_week_valid (K : Constants D) (bits : Frame)
    (s : Gps_Navigation_Message D) :
    (header_4_state K bits s).flag_almanac_week_valid = s.flag_almanac_week_valid := by
  unfold header_4_state
  rfl

omit [Mul D] [IntCast D] in
@[simp]
theorem header_4_state_i_WN_A (K : Constants D) (bits : Frame) (s : Gps_Navigation_Message D) :
    (header_4_state K bits s).i_WN_A = s.i_WN_A := by
  unfold header_4_state
  rfl

omit [Mul D] [IntCast D] in
@[simp]
theorem header_4_state_SV_Health (K : Constants D) (bits : Frame) (s : Gps_Navigation_Message D) :
    (header_4_state K bits s).SV_Health = s.SV_Health := by
  unfold header_4_state
  rfl

omit [Mul D] [IntCast D] in
@[simp]
theorem header_5_state_flag_iono_valid (K : Constants D) (bits : Frame)
    (s : Gps_Navigation_Message D) :
    (header_5_state K bits s).flag_iono_valid = s.flag_iono_valid := by
  unfold header_5_state
  rfl

omit [Mul D] [IntCast D] in
@[simp]
theorem header_5_state_flag_utc_model_valid (K : Constants D) (bits : Frame)
    (s : Gps_Navigation_Message D) :
    (header_5_state K bits s).flag_utc_model_valid = s.flag_utc_model_valid := by
  unfold header_5_state
  rfl

omit [Mul D] [IntCast D] in
@[simp]
theorem header_5_state_flag_almanac_valid (K : Constants D) (bits : Frame)
    (s : Gps_Navigation_Message D) :
    (header_5_state K bits s).flag_almanac_valid = s.flag_almanac_valid := by
  unfold header_5_state
  rfl

omit [Mul D] [IntCast D] in
@[simp]
theorem header_5_state_flag_almanac_week_valid (K : Constants D) (bits : Frame)
    (s : Gps_Navigation_Message D) :
    (header_5_state K bits s).flag_almanac_week_valid = s.flag_almanac_week_valid := by
  unfold header_5_state
  rfl

omit [Mul D] [IntCast D] in
@[simp]
theorem header_5_state_i_WN_A (K : Constants D) (bits : Frame) (s : Gps_Navigation_Message D) :
    (header_5_state K bits s).i_WN_A = s.i_WN_A := by
  unfold header_5_state
  rfl

omit [Mul D] [IntCast D] in
@[simp]
theorem header_5_state_SV_Health (K : Constants D) (bits : Frame) (s : Gps_Navigation_Message D) :
    (header_5_state K bits s).SV_Health = s.SV_Health := by
  unfold header_5_state
  rfl

@[simp]
theorem almanac_4_state_flag_iono_valid (K : Constants D) (bits : Frame) (page : Int)
    (s : Gps_Navigation_Message D) :
    (almanac_4_state K bits page s).flag_iono_valid = s.flag_iono_valid := by
  unfold almanac_4_state
  rfl

@[simp]
theorem almanac_4_state_flag_utc_model_valid (K : Constants D) (bits : Frame) (page : Int)
    (s : Gps_Navigation_Message D) :
    (almanac_4_state K bits page s).flag_utc_model_valid = s.flag_utc_model_valid := by
  unfold almanac_4_state
  rfl

@[simp]
theorem almanac_4_state_flag_almanac_week_valid (K : Constants D) (bits : Frame) (page : Int)
    (s : Gps_Navigation_Message D) :
    (almanac_4_state K bits page s).flag_almanac_week_valid = s.flag_almanac_week_valid := by
  unfold almanac_4_state
  rfl

@[simp]
theorem almanac_4_state_i_WN_A (K : Constants D) (bits : Frame) (page : Int)
    (s : Gps_Navigation_Message D) :
    (almanac_4_state K bits page s).i_WN_A = s.i_WN_A := by
  unfold almanac_4_state
  rfl

@[simp]
theorem almanac_4_state_SV_Health (K : Constants D) (bits : Frame) (page : Int)
    (s : Gps_Navigation_Message D) :
    (almanac_4_state K bits page s).SV_Health = s.SV_Health := by
  unfold almanac_4_state
  rfl

@[simp]
theorem almanac_5_state_flag_iono_valid (K : Constants D) (bits : Frame) (page : Int)
    (s : Gps_Navigation_Message D) :
    (almanac_5_state K bits page s).flag_iono_valid = s.flag_iono_valid := by
  unfold almanac_5_state
  rfl

@[simp]
theorem almanac_5_state_flag_utc_model_valid (K : Constants D) (bits : Frame) (page : Int)
    (s : Gps_Navigation_Message D) :
    (almanac_5_state K bits page s).flag_utc_model_valid = s.flag_utc_model_valid := by
  unfold almanac_5_state
  rfl

@[simp]
theorem almanac_5_state_flag_almanac_week_valid (K : Constants D) (bits : Frame) (page : Int)
    (s : Gps_Navigation_Message D) :
    (almanac_5_state K bits page s).flag_almanac_week_valid = s.flag_almanac_week_valid := by
  unfold almanac_5_state
  rfl

@[simp]
theorem almanac_5_state_i_WN_A (K : Constants D) (bits : Frame) (page : Int)
    (s : Gps_Navigation_Message D) :
    (almanac_5_state K bits page s).i_WN_A = s.i_WN_A := by
  unfold almanac_5_state
  rfl

@[simp]
theorem page_18_state_flag_almanac_valid (K : Constants D) (bits : Frame)
    (s : Gps_Navigation_Message D) :
    (page_18_state K bits s).flag_almanac_valid = s.flag_almanac_valid := by
  unfold page_18_state
  rfl

@[simp]
theorem page_18_state_flag_almanac_week_valid (K : Constants D) (bits : Frame)
    (s : Gps_Navigation_Message D) :
    (page_18_state K bits s).flag_almanac_week_valid = s.flag_almanac_week_valid := by
  unfold page_18_state
  rfl

@[simp]
theorem page_18_state_i_WN_A (K : Constants D) (bits : Frame) (s : Gps_Navigation_Message D) :
    (page_18_state K bits s).i_WN_A = s.i_WN_A := by
  unfold page_18_state
  rfl

@[simp]
theorem page_18_state_SV_Health (K : Constants D) (bits : Frame) (s : Gps_Navigation_Message D) :
    (page_18_state K bits s).SV_Health = s.SV_Health := by
  unfold page_18_state
  rfl

omit [Mul D] [IntCast D] in
@[simp]
theorem health_state_flag_iono_valid (K : Constants D) (bits : Frame) (v : Nat) (f : Field)
    (s : Gps_Navigation_Message D) :
    (health_state K bits v f s).flag_iono_valid = s.flag_iono_valid := by
  unfold health_state
  rfl

omit [Mul D] [IntCast D] in
@[simp]
theorem health_state_flag_utc_model_valid (K : Constants D) (bits : Frame) (v : Nat) (f : Field)
    (s : Gps_Navigation_Message D) :
    (health_state K bits v f s).flag_utc_model_valid = s.flag_utc_model_valid := by
  unfold health_state
  rfl

omit [Mul D] [IntCast D] in
@[simp]
theorem health_state_flag_almanac_valid (K : Constants D) (bits : Frame) (v : Nat) (f : Field)
    (s : Gps_Navigation_Message D) :
    (health_state K bits v f s).flag_almanac_valid = s.flag_almanac_valid := by
  unfold health_state
  rfl

omit [Mul D] [IntCast D] in
@[simp]
theorem health_state_flag_almanac_week_valid (K : Constants D) (bits : Frame) (v : Nat) (f : Field)
    (s : Gps_Navigation_Message D) :
    (health_state K bits v f s).flag_almanac_week_valid = s.flag_almanac_week_valid := by
  unfold health_state
  rfl

omit [Mul D] [IntCast D] in
@[simp]
theorem health_state_i_WN_A (K : Constants D) (bits : Frame) (v : Nat) (f : Field)
    (s : Gps_Navigation_Message D) :
    (health_state K bits v f s).i_WN_A = s.i_WN_A := by
  unfold health_state
  rfl

omit [Mul D] [IntCast D] in
@[simp]
theorem health_state_SV_Health (K : Constants D) (bits : Frame) (v : Nat) (f : Field)
    (s : Gps_Navigation_Message D) :
    (health_state K bits v f s).SV_Health = s.SV_Health := by
  unfold health_state
  rfl

omit [Mul D] [IntCast D] in
@[simp]
theorem header_4_state_a_M_0 (K : Constants D) (bits : Frame) (s : Gps_Navigation_Message D) :
    (header_4_state K bits s).a_M_0 = s.a_M_0 := by
  unfold header_4_state
  rfl

omit [Mul D] [IntCast D] in
@[simp]
theorem header_4_state_a_ecc (K : Constants D) (bits : Frame) (s : Gps_Navigation_Message D) :
    (header_4_state K bits s).a_ecc = s.a_ecc := by
  unfold header_4_state
  rfl

omit [Mul D] [IntCast D] in
@[simp]
theorem header_4_state_a_sqrtA (K : Constants D) (bits : Frame) (s : Gps_Navigation_Message D) :
    (header_4_state K bits s).a_sqrtA = s.a_sqrtA := by
  unfold header_4_state
  rfl

omit [Mul D] [IntCast D] in
@[simp]
theorem header_4_state_a_OMEGA_0 (K : Constants D) (bits : Frame) (s : Gps_Navigation_Message D) :
    (header_4_state K bits s).a_OMEGA_0 = s.a_OMEGA_0 := by
  unfold header_4_state
  rfl

omit [Mul D] [IntCast D] in
@[simp]
theorem header_4_state_a_omega (K : Constants D) (bits : Frame) (s : Gps_Navigation_Message D) :
    (header_4_state K bits s).a_omega = s.a_omega := by
  unfold header_4_state
  rfl

omit [Mul D] [IntCast D] in
@[simp]
theorem header_4_state_a_OMEGAdot (K : Constants D) (bits : Frame) (s : Gps_Navigation_Message D) :
    (header_4_state K bits s).a_OMEGAdot = s.a_OMEGAdot := by
  unfold header_4_state
  rfl

omit [Mul D] [IntCast D] in
@[simp]
theorem header_4_state_a_delta_i (K : Constants D) (bits : Frame) (s : Gps_Navigation_Message D) :
    (header_4_state K bits s).a_delta_i = s.a_delta_i := by
  unfold header_4_state
  rfl

omit [Mul D] [IntCast D] in
@[simp]
theorem header_4_state_a_af0 (K : Constants D) (bits : Frame) (s : Gps_Navigation_Message D) :
    (header_4_state K bits s).a_af0 = s.a_af0 := by
  unfold header_4_state
  rfl

omit [Mul D] [IntCast D] in
@[simp]
theorem header_4_state_a_af1 (K : Constants D) (bits : Frame) (s : Gps_Navigation_Message D) :
    (header_4_state K bits s).a_af1 = s.a_af1 := by
  unfold header_4_state
  rfl

omit [Mul D] [IntCast D] in
@[simp]
theorem header_4_state_a_PRN (K : Constants D) (bits : Frame) (s : Gps_Navigation_Message D) :
    (header_4_state K bits s).a_PRN = s.a_PRN := by
  unfold header_4_state
  rfl

omit [Mul D] [IntCast D] in
@[simp]
theorem header_4_state_i_Toa (K : Constants D) (bits : Frame) (s : Gps_Navigation_Message D) :
    (header_4_state K bits s).i_Toa = s.i_Toa := by
  unfold header_4_state
  rfl

omit [Mul D] [IntCast D] in
@[simp]
theorem header_5_state_a_M_0 (K : Constants D) (bits : Frame) (s : Gps_Navigation_Message D) :
    (header_5_state K bits s).a_M_0 = s.a_M_0 := by
  unfold header_5_state
  rfl

omit [Mul D] [IntCast D] in
@[simp]
theorem header_5_state_a_ecc (K : Constants D) (bits : Frame) (s : Gps_Navigation_Message D) :
    (header_5_state K bits s).a_ecc = s.a_ecc := by
  unfold header_5_state
  rfl

omit [Mul D] [IntCast D] in
@[simp]
theorem header_5_state_a_sqrtA (K : Constants D) (bits : Frame) (s : Gps_Navigation_Message D) :
    (header_5_state K bits s).a_sqrtA = s.a_sqrtA := by
  unfold header_5_state
  rfl

omit [Mul D] [IntCast D] in
@[simp]
theorem header_5_state_a_OMEGA_0 (K : Constants D) (bits : Frame) (s : Gps_Navigation_Message D) :
    (header_5_state K bits s).a_OMEGA_0 = s.a_OMEGA_0 := by
  unfold header_5_state
  rfl

omit [Mul D] [IntCast D] in
@[simp]
theorem header_5_state_a_omega (K : Constants D) (bits : Frame) (s : Gps_Navigation_Message D) :
    (header_5_state K bits s).a_omega = s.a_omega := by
  unfold header_5_state
  rfl

omit [Mul D] [IntCast D] in
@[simp]
theorem header_5_state_a_OMEGAdot (K : Constants D) (bits : Frame) (s : Gps_Navigation_Message D) :
    (header_5_state K bits s).a_OMEGAdot = s.a_OMEGAdot := by
  unfold header_5_state
  rfl

omit [Mul D] [IntCast D] in
@[simp]
theorem header_5_state_a_delta_i (K : Constants D) (bits : Frame) (s : Gps_Navigation_Message D) :
    (header_5_state K bits s).a_delta_i = s.a_delta_i := by
  unfold header_5_state
  rfl

omit [Mul D] [IntCast D] in
@[simp]
theorem header_5_state_a_af0 (K : Constants D) (bits : Frame) (s : Gps_Navigation_Message D) :
    (header_5_state K bits s).a_af0 = s.a_af0 := by
  unfold header_5_state
  rfl

omit [Mul D] [IntCast D] in
@[simp]
theorem header_5_state_a_af1 (K : Constants D) (bits : Frame) (s : Gps_Navigation_Message D) :
    (header_5_state K bits s).a_af1 = s.a_af1 := by
  unfold header_5_state
  rfl

omit [Mul D] [IntCast D] in
@[simp]
theorem header_5_state_a_PRN (K : Constants D) (bits : Frame) (s : Gps_Navigation_Message D) :
    (header_5_state K bits s).a_PRN = s.a_PRN := by
  unfold header_5_state
  rfl

omit [Mul D] [IntCast D] in
@[simp]
theorem header_5_state_i_Toa (K : Constants D) (bits : Frame) (s : Gps_Navigation_Message D) :
    (header_5_state K bits s).i_Toa = s.i_Toa := by
  unfold header_5_state
  rfl

omit [Mul D] [IntCast D] in
@[simp]
theorem page_25_sf4_state_flag_iono_valid (K : Constants D) (bits : Frame)
    (s : Gps_Navigation_Message D) :
    (page_25_sf4_state K bits s).flag_iono_valid = s.flag_iono_valid := by
  unfold page_25_sf4_state
  simp only [health_state_flag_iono_valid]

omit [Mul D] [IntCast D] in
@[simp]
theorem page_25_sf4_state_flag_utc_model_valid (K : Constants D) (bits : Frame)
    (s : Gps_Navigation_Message D) :
    (page_25_sf4_state K bits s).flag_utc_model_valid = s.flag_utc_model_valid := by
  unfold page_25_sf4_state
  simp only [health_state_flag_utc_model_valid]

omit [Mul D] [IntCast D] in
@[simp]
theorem page_25_sf4_state_flag_almanac_valid (K : Constants D) (bits : Frame)
    (s : Gps_Navigation_Message D) :
    (page_25_sf4_state K bits s).flag_almanac_valid = s.flag_almanac_valid := by
  unfold page_25_sf4_state
  simp only [health_state_flag_almanac_valid]

omit [Mul D] [IntCast D] in
@[simp]
theorem page_25_sf4_state_flag_almanac_week_valid (K : Constants D) (bits : Frame)
    (s : Gps_Navigation_Message D) :
    (page_25_sf4_state K bits s).flag_almanac_week_valid = s.flag_almanac_week_valid := by
  unfold page_25_sf4_state
  simp only [health_state_flag_almanac_week_valid]

omit [Mul D] [IntCast D] in
@[simp]
theorem page_25_sf4_state_i_WN_A (K : Constants D) (bits : Frame) (s : Gps_Navigation_Message D) :
    (page_25_sf4_state K bits s).i_WN_A = s.i_WN_A := by
  unfold page_25_sf4_state
  simp only [health_state_i_WN_A]

omit [Mul D] [IntCast D] in
@[simp]
theorem page_25_sf4_state_SV_Health (K : Constants D) (bits : Frame)
    (s : Gps_Navigation_Message D) :
    (page_25_sf4_state K bits s).SV_Health = s.SV_Health := by
  unfold page_25_sf4_state
  simp only [health_state_SV_Health]

omit [Mul D] [IntCast D] in
@[simp]
theorem page_25_sf5_state_flag_iono_valid (K : Constants D) (bits : Frame)
    (s : Gps_Navigation_Message D) :
    (page_25_sf5_state K bits s).flag_iono_valid = s.flag_iono_valid := by
  unfold page_25_sf5_state
  simp only [health_state_flag_iono_valid]

omit [Mul D] [IntCast D] in
@[simp]
theorem page_25_sf5_state_flag_utc_model_valid (K : Constants D) (bits : Frame)
    (s : Gps_Navigation_Message D) :
    (page_25_sf5_state K bits s).flag_utc_model_valid = s.flag_utc_model_valid := by
  unfold page_25_sf5_state
  simp only [health_state_flag_utc_model_valid]

omit [Mul D] [IntCast D] in
@[simp]
theorem page_25_sf5_state_flag_almanac_valid (K : Constants D) (bits : Frame)
    (s : Gps_Navigation_Message D) :
    (page_25_sf5_state K bits s).flag_almanac_valid = s.flag_almanac_valid := by
  unfold page_25_sf5_state
  simp only [health_state_flag_almanac_valid]

omit [Mul D] [IntCast D] in
@[simp]
theorem page_25_sf5_state_SV_Health (K : Constants D) (bits : Frame)
    (s : Gps_Navigation_Message D) :
    (page_25_sf5_state K bits s).SV_Health = s.SV_Health := by
  unfold page_25_sf5_state
  simp only [health_state_SV_Health]

omit [Mul D] [IntCast D] in
@[simp]
theorem page_25_sf5_state_flag_almanac_week_valid (K : Constants D) (bits : Frame)
    (s : Gps_Navigation_Message D) :
    (page_25_sf5_state K bits s).flag_almanac_week_valid = true := by
  unfold page_25_sf5_state
  simp only [health_state_flag_almanac_week_valid]

omit [Mul D] [IntCast D] in
@[simp]
theorem page_25_sf5_state_i_WN_A (K : Constants D) (bits : Frame)
    (s : Gps_Navigation_Message D) :
    (page_25_sf5_state K bits s).i_WN_A = i32_value K bits .WN_A := by
  unfold page_25_sf5_state
  simp only [health_state_i_WN_A]


@[simp]
theorem almanac_4_state_flag_almanac_valid (K : Constants D) (bits : Frame) (page : Int)
    (s : Gps_Navigation_Message D) :
    (almanac_4_state K bits page s).flag_almanac_valid = true := by
  unfold almanac_4_state
  rfl

@[simp]
theorem almanac_5_state_flag_almanac_valid (K : Constants D) (bits : Frame) (page : Int)
    (s : Gps_Navigation_Message D) :
    (almanac_5_state K bits page s).flag_almanac_valid = true := by
  unfold almanac_5_state
  rfl

@[simp]
theorem page_18_state_flag_iono_valid (K : Constants D) (bits : Frame)
    (s : Gps_Navigation_Message D) :
    (page_18_state K bits s).flag_iono_valid = true := by
  unfold page_18_state
  rfl

@[simp]
theorem page_18_state_flag_utc_model_valid (K : Constants D) (bits : Frame)
    (s : Gps_Navigation_Message D) :
    (page_18_state K bits s).flag_utc_model_valid = true := by
  unfold page_18_state
  rfl

end PassThrough

/-! ## Members a block of the decoder assigns -/

section Assigned

variable {D : Type} [Mul D] [IntCast D]

@[simp]
theorem subframe_1_state_d_TOW_SF1 (K : Constants D) (bits : Frame)
    (s : Gps_Navigation_Message D) :
    (subframe_1_state K bits s).d_TOW_SF1 = i32_times_value K bits .TOW 6 := by
  unfold subframe_1_state
  rfl

@[simp]
theorem subframe_1_state_d_TOW (K : Constants D) (bits : Frame)
    (s : Gps_Navigation_Message D) :
    (subframe_1_state K bits s).d_TOW = i32_times_value K bits .TOW 6 := by
  unfold subframe_1_state
  rfl

@[simp]
theorem subframe_1_state_b_integrity_status_flag (K : Constants D) (bits : Frame)
    (s : Gps_Navigation_Message D) :
    (subframe_1_state K bits s).b_integrity_status_flag = flag_value K bits .INTEGRITY_STATUS_FLAG := by
  unfold subframe_1_state
  rfl

@[simp]
theorem subframe_1_state_b_alert_flag (K : Constants D) (bits : Frame)
    (s : Gps_Navigation_Message D) :
    (subframe_1_state K bits s).b_alert_flag = flag_value K bits .ALERT_FLAG := by
  unfold subframe_1_state
  rfl

@[simp]
theorem subframe_1_state_b_antispoofing_flag (K : Constants D) (bits : Frame)
    (s : Gps_Navigation_Message D) :
    (subframe_1_state K bits s).b_antispoofing_flag = flag_value K bits .ANTI_SPOOFING_FLAG := by
  unfold subframe_1_state
  rfl

@[simp]
theorem subframe_1_state_i_GPS_week (K : Constants D) (bits : Frame)
    (s : Gps_Navigation_Message D) :
    (subframe_1_state K bits s).i_GPS_week = i32_value K bits .GPS_WEEK := by
  unfold subframe_1_state
  rfl

@[simp]
theorem subframe_1_state_i_SV_accuracy (K : Constants D) (bits : Frame)
    (s : Gps_Navigation_Message D) :
    (subframe_1_state K bits s).i_SV_accuracy = i32_value K bits .SV_ACCURACY := by
  unfold subframe_1_state
  rfl

@[simp]
theorem subframe_1_state_i_SV_health (K : Constants D) (bits : Frame)
    (s : Gps_Navigation_Message D) :
    (subframe_1_state K bits s).i_SV_health = i32_value K bits .SV_HEALTH := by
  unfold subframe_1_state
  rfl

@[simp]
theorem subframe_1_state_b_L2_P_data_flag (K : Constants D) (bits : Frame)
    (s : Gps_Navigation_Message D) :
    (subframe_1_state K bits s).b_L2_P_data_flag = flag_value K bits .L2_P_DATA_FLAG := by
  unfold subframe_1_state
  rfl

@[simp]
theorem subframe_1_state_i_code_on_L2 (K : Constants D) (bits : Frame)
    (s : Gps_Navigation_Message D) :
    (subframe_1_state K bits s).i_code_on_L2 = i32_value K bits .CA_OR_P_ON_L2 := by
  unfold subframe_1_state
  rfl

@[simp]
theorem subframe_1_state_d_TGD (K : Constants D) (bits : Frame)
    (s : Gps_Navigation_Message D) :
    (subframe_1_state K bits s).d_TGD = scaled_signed_value K bits .T_GD := by
  unfold subframe_1_state
  rfl

@[simp]
theorem subframe_1_state_d_IODC (K : Constants D) (bits : Frame)
    (s : Gps_Navigation_Message D) :
    (subframe_1_state K bits s).d_IODC = i32_value K bits .IODC := by
  unfold subframe_1_state
  rfl

@[simp]
theorem subframe_1_state_d_Toc (K : Constants D) (bits : Frame)
    (s : Gps_Navigation_Message D) :
    (subframe_1_state K bits s).d_Toc = i32_times_value K bits .T_OC (K.ilsb .T_OC) := by
  unfold subframe_1_state
  rfl

@[simp]
theorem subframe_1_state_d_A_f0 (K : Constants D) (bits : Frame)
    (s : Gps_Navigation_Message D) :
    (subframe_1_state K bits s).d_A_f0 = scaled_signed_value K bits .A_F0 := by
  unfold subframe_1_state
  rfl

@[simp]
theorem subframe_1_state_d_A_f1 (K : Constants D) (bits : Frame)
    (s : Gps_Navigation_Message D) :
    (subframe_1_state K bits s).d_A_f1 = scaled_signed_value K bits .A_F1 := by
  unfold subframe_1_state
  rfl

@[simp]
theorem subframe_1_state_d_A_f2 (K : Constants D) (bits : Frame)
    (s : Gps_Navigation_Message D) :
    (subframe_1_state K bits s).d_A_f2 = scaled_signed_value K bits .A_F2 := by
  unfold subframe_1_state
  rfl

@[simp]
theorem almanac_4_state_a_M_0 (K : Constants D) (bits : Frame) (SV_page : Int)
    (s : Gps_Navigation_Message D) :
    (almanac_4_state K bits SV_page s).a_M_0 = scaled_signed_value K bits .ALM_MZERO := by
  unfold almanac_4_state
  rfl

@[simp]
theorem almanac_4_state_a_ecc (K : Constants D) (bits : Frame) (SV_page : Int)
    (s : Gps_Navigation_Message D) :
    (almanac_4_state K bits SV_page s).a_ecc = scaled_unsigned_value K bits .ALM_ECC := by
  unfold almanac_4_state
  rfl

@[simp]
theorem almanac_4_state_a_sqrtA (K : Constants D) (bits : Frame) (SV_page : Int)
    (s : Gps_Navigation_Message D) :
    (almanac_4_state K bits SV_page s).a_sqrtA = scaled_unsigned_value K bits .ALM_SQUAREA := by
  unfold almanac_4_state
  rfl

@[simp]
theorem almanac_4_state_a_OMEGA_0 (K : Constants D) (bits : Frame) (SV_page : Int)
    (s : Gps_Navigation_Message D) :
    (almanac_4_state K bits SV_page s).a_OMEGA_0 = scaled_signed_value K bits .ALM_OMEGAZERO := by
  unfold almanac_4_state
  rfl

@[simp]
theorem almanac_4_state_a_omega (K : Constants D) (bits : Frame) (SV_page : Int)
    (s : Gps_Navigation_Message D) :
    (almanac_4_state K bits SV_page s).a_omega = scaled_signed_value K bits .ALM_OMEGA := by
  unfold almanac_4_state
  rfl

@[simp]
theorem almanac_4_state_a_OMEGAdot (K : Constants D) (bits : Frame) (SV_page : Int)
    (s : Gps_Navigation_Message D) :
    (almanac_4_state K bits SV_page s).a_OMEGAdot = scaled_signed_value K bits .ALM_OMEGADOT := by
  unfold almanac_4_state
  rfl

@[simp]
theorem almanac_4_state_a_delta_i (K : Constants D) (bits : Frame) (SV_page : Int)
    (s : Gps_Navigation_Message D) :
    (almanac_4_state K bits SV_page s).a_delta_i = scaled_signed_value K bits .ALM_DELTAI := by
  unfold almanac_4_state
  rfl

@[simp]
theorem almanac_4_state_a_af0 (K : Constants D) (bits : Frame) (SV_page : Int)
    (s : Gps_Navigation_Message D) :
    (almanac_4_state K bits SV_page s).a_af0 = scaled_signed_value K bits .ALM_AF0 := by
  unfold almanac_4_state
  rfl

@[simp]
theorem almanac_4_state_a_af1 (K : Constants D) (bits : Frame) (SV_page : Int)
    (s : Gps_Navigation_Message D) :
    (almanac_4_state K bits SV_page s).a_af1 = scaled_signed_value K bits .ALM_AF1 := by
  unfold almanac_4_state
  rfl

@[simp]
theorem almanac_4_state_a_PRN (K : Constants D) (bits : Frame) (SV_page : Int)
    (s : Gps_Navigation_Message D) :
    (almanac_4_state K bits SV_page s).a_PRN = SV_page := by
  unfold almanac_4_state
  rfl

@[simp]
theorem almanac_4_state_i_Toa (K : Constants D) (bits : Frame) (SV_page : Int)
    (s : Gps_Navigation_Message D) :
    (almanac_4_state K bits SV_page s).i_Toa = i32_times_value K bits .ALM_TOA (K.ilsb .ALM_TOA) := by
  unfold almanac_4_state
  rfl

@[simp]
theorem almanac_5_state_a_M_0 (K : Constants D) (bits : Frame) (SV_page_5 : Int)
    (s : Gps_Navigation_Message D) :
    (almanac_5_state K bits SV_page_5 s).a_M_0 = scaled_signed_value K bits .ALM_MZERO := by
  unfold almanac_5_state
  rfl

@[simp]
theorem almanac_5_state_a_ecc (K : Constants D) (bits : Frame) (SV_page_5 : Int)
    (s : Gps_Navigation_Message D) :
    (almanac_5_state K bits SV_page_5 s).a_ecc = scaled_unsigned_value K bits .ALM_ECC := by
  unfold almanac_5_state
  rfl

@[simp]
theorem almanac_5_state_a_sqrtA (K : Constants D) (bits : Frame) (SV_page_5 : Int)
    (s : Gps_Navigation_Message D) :
    (almanac_5_state K bits SV_page_5 s).a_sqrtA = scaled_unsigned_value K bits .ALM_SQUAREA := by
  unfold almanac_5_state
  rfl

@[simp]
theorem almanac_5_state_a_OMEGA_0 (K : Constants D) (bits : Frame) (SV_page_5 : Int)
    (s : Gps_Navigation_Message D) :
    (almanac_5_state K bits SV_page_5 s).a_OMEGA_0 = scaled_signed_value K bits .ALM_OMEGAZERO := by
  unfold almanac_5_state
  rfl

@[simp]
theorem almanac_5_state_a_omega (K : Constants D) (bits : Frame) (SV_page_5 : Int)
    (s : Gps_Navigation_Message D) :
    (almanac_5_state K bits SV_page_5 s).a_omega = scaled_signed_value K bits .ALM_OMEGA := by
  unfold almanac_5_state
  rfl

@[simp]
theorem almanac_5_state_a_OMEGAdot (K : Constants D) (bits : Frame) (SV_page_5 : Int)
    (s : Gps_Navigation_Message D) :
    (almanac_5_state K bits SV_page_5 s).a_OMEGAdot = scaled_signed_value K bits .ALM_OMEGADOT := by
  unfold almanac_5_state
  rfl

@[simp]
theorem almanac_5_state_a_delta_i (K : Constants D) (bits : Frame) (SV_page_5 : Int)
    (s : Gps_Navigation_Message D) :
    (almanac_5_state K bits SV_page_5 s).a_delta_i = scaled_signed_value K bits .ALM_DELTAI := by
  unfold almanac_5_state
  rfl

@[simp]
theorem almanac_5_state_a_af0 (K : Constants D) (bits : Frame) (SV_page_5 : Int)
    (s : Gps_Navigation_Message D) :
    (almanac_5_state K bits SV_page_5 s).a_af0 = scaled_signed_value K bits .ALM_AF0 := by
  unfold almanac_5_state
  rfl

@[simp]
theorem almanac_5_state_a_af1 (K : Constants D) (bits : Frame) (SV_page_5 : Int)
    (s : Gps_Navigation_Message D) :
    (almanac_5_state K bits SV_page_5 s).a_af1 = scaled_signed_value K bits .ALM_AF1 := by
  unfold almanac_5_state
  rfl

@[simp]
theorem almanac_5_state_a_PRN (K : Constants D) (bits : Frame) (SV_page_5 : Int)
    (s : Gps_Navigation_Message D) :
    (almanac_5_state K bits SV_page_5 s).a_PRN = SV_page_5 := by
  unfold almanac_5_state
  rfl

@[simp]
theorem almanac_5_state_i_Toa (K : Constants D) (bits : Frame) (SV_page_5 : Int)
    (s : Gps_Navigation_Message D) :
    (almanac_5_state K bits SV_page_5 s).i_Toa = i32_times_value K bits .ALM_TOA (K.ilsb .ALM_TOA) := by
  unfold almanac_5_state
  rfl

@[simp]
theorem almanac_5_state_SV_Health (K : Constants D) (bits : Frame) (SV_page_5 : Int)
    (s : Gps_Navigation_Message D) :
    (almanac_5_state K bits SV_page_5 s).SV_Health = i32_value K bits .ALM_SVHEALTH := by
  unfold almanac_5_state
  rfl

@[simp]
theorem page_18_state_d_alpha0 (K : Constants D) (bits : Frame)
    (s : Gps_Navigation_Message D) :
    (page_18_state K bits s).d_alpha0 = scaled_signed_value K bits .ALPHA_0 := by
  unfold page_18_state
  rfl

@[simp]
theorem page_18_state_d_alpha1 (K : Constants D) (bits : Frame)
    (s : Gps_Navigation_Message D) :
    (page_18_state K bits s).d_alpha1 = scaled_signed_value K bits .ALPHA_1 := by
  unfold page_18_state
  rfl

@[simp]
theorem page_18_state_d_alpha2 (K : Constants D) (bits : Frame)
    (s : Gps_Navigation_Message D) :
    (page_18_state K bits s).d_alpha2 = scaled_signed_value K bits .ALPHA_2 := by
  unfold page_18_state
  rfl

@[simp]
theorem page_18_state_d_alpha3 (K : Constants D) (bits : Frame)
    (s : Gps_Navigation_Message D) :
    (page_18_state K bits s).d_alpha3 = scaled_signed_value K bits .ALPHA_3 := by
  unfold page_18_state
  rfl

@[simp]
theorem page_18_state_d_beta0 (K : Constants D) (bits : Frame)
    (s : Gps_Navigation_Message D) :
    (page_18_state K bits s).d_beta0 = scaled_signed_value K bits .BETA_0 := by
  unfold page_18_state
  rfl

@[simp]
theorem page_18_state_d_beta1 (K : Constants D) (bits : Frame)
    (s : Gps_Navigation_Message D) :
    (page_18_state K bits s).d_beta1 = scaled_signed_value K bits .BETA_1 := by
  unfold page_18_state
  rfl

@[simp]
theorem page_18_state_d_beta2 (K : Constants D) (bits : Frame)
    (s : Gps_Navigation_Message D) :
    (page_18_state K bits s).d_beta2 = scaled_signed_value K bits .BETA_2 := by
  unfold page_18_state
  rfl

@[simp]
theorem page_18_state_d_beta3 (K : Constants D) (bits : Frame)
    (s : Gps_Navigation_Message D) :
    (page_18_state K bits s).d_beta3 = scaled_signed_value K bits .BETA_3 := by
  unfold page_18_state
  rfl

@[simp]
theorem page_18_state_d_A1 (K : Constants D) (bits : Frame)
    (s : Gps_Navigation_Message D) :
    (page_18_state K bits s).d_A1 = scaled_signed_value K bits .A_1 := by
  unfold page_18_state
  rfl

@[simp]
theorem page_18_state_d_A0 (K : Constants D) (bits : Frame)
    (s : Gps_Navigation_Message D) :
    (page_18_state K bits s).d_A0 = scaled_signed_value K bits .A_0 := by
  unfold page_18_state
  rfl

@[simp]
theorem page_18_state_d_t_OT (K : Constants D) (bits : Frame)
    (s : Gps_Navigation_Message D) :
    (page_18_state K bits s).d_t_OT = i32_times_value K bits .T_OT (K.ilsb .T_OT) := by
  unfold page_18_state
  rfl

@[simp]
theorem page_18_state_i_WN_T (K : Constants D) (bits : Frame)
    (s : Gps_Navigation_Message D) :
    (page_18_state K bits s).i_WN_T = i32_value K bits .WN_T := by
  unfold page_18_state
  rfl

@[simp]
theorem page_18_state_d_DeltaT_LS (K : Constants D) (bits : Frame)
    (s : Gps_Navigation_Message D) :
    (page_18_state K bits s).d_DeltaT_LS = i32_signed_value K bits .DELTAT_LS := by
  unfold page_18_state
  rfl

@[simp]
theorem page_18_state_i_WN_LSF (K : Constants D) (bits : Frame)
    (s : Gps_Navigation_Message D) :
    (page_18_state K bits s).i_WN_LSF = i32_value K bits .WN_LSF := by
  unfold page_18_state
  rfl

@[simp]
theorem page_18_state_i_DN (K : Constants D) (bits : Frame)
    (s : Gps_Navigation_Message D) :
    (page_18_state K bits s).i_DN = i32_value K bits .DN := by
  unfold page_18_state
  rfl

@[simp]
theorem page_18_state_d_DeltaT_LSF (K : Constants D) (bits : Frame)
    (s : Gps_Navigation_Message D) :
    (page_18_state K bits s).d_DeltaT_LSF = i32_signed_value K bits .DELTAT_LSF := by
  unfold page_18_state
  rfl

end Assigned

/-! ## Flags and the almanac week through the page dispatch -/

section Flags

variable {D : Type} [Mul D] [IntCast D]

theorem subframe_4_state_flags (K : Constants D) (bits : Frame) (s : Gps_Navigation_Message D) :
    (subframe_4_state K bits s).flag_iono_valid
        = (if i32_value K bits .SV_PAGE = 56 then true else s.flag_iono_valid)
      ∧ (subframe_4_state K bits s).flag_utc_model_valid
        = (if i32_value K bits .SV_PAGE = 56 then true else s.flag_utc_model_valid)
      ∧ (subframe_4_state K bits s).flag_almanac_valid
        = (if (i32_value K bits .SV_PAGE > 24 ∧ i32_value K bits .SV_PAGE < 33)
              ∧ i32_value K bits .SV_DATA_ID ≠ 0 then true else s.flag_almanac_valid)
      ∧ (subframe_4_state K bits s).flag_almanac_week_valid = s.flag_almanac_week_valid
      ∧ (subframe_4_state K bits s).i_WN_A = s.i_WN_A := by
  unfold subframe_4_state page_25_sf4_step page_18_step almanac_4_step
  by_cases h1 : i32_value K bits .SV_PAGE > 24 ∧ i32_value K bits .SV_PAGE < 33
  · have h3 : i32_value K bits .SV_PAGE ≠ 56 := by omega
    have h4 : i32_value K bits .SV_PAGE ≠ 63 := by omega
    by_cases h2 : i32_value K bits .SV_DATA_ID ≠ 0
    · rw [if_neg h4, if_neg h3, if_pos h1, if_pos h2, if_neg h3, if_neg h3, if_pos ⟨h1, h2⟩]
      simp
    · have h5 : ¬ ((i32_value K bits .SV_PAGE > 24 ∧ i32_value K bits .SV_PAGE < 33)
          ∧ i32_value K bits .SV_DATA_ID ≠ 0) := fun h => h2 h.2
      rw [if_neg h4, if_neg h3, if_pos h1, if_neg h2, if_neg h3, if_neg h3, if_neg h5]
      simp
  · have h5 : ¬ ((i32_value K bits .SV_PAGE > 24 ∧ i32_value K bits .SV_PAGE < 33)
        ∧ i32_value K bits .SV_DATA_ID ≠ 0) := fun h => h1 h.1
    by_cases h3 : i32_value K bits .SV_PAGE = 56
    · have h4 : i32_value K bits .SV_PAGE ≠ 63 := by omega
      rw [if_neg h4, if_pos h3, if_neg h1, if_pos h3, if_pos h3, if_neg h5]
      simp
    · by_cases h4 : i32_value K bits .SV_PAGE = 63
      · rw [if_pos h4, if_neg h3, if_neg h1, if_neg h3, if_neg h3, if_neg h5]
        simp
      · rw [if_neg h4, if_neg h3, if_neg h1, if_neg h3, if_neg h3, if_neg h5]
        simp

theorem subframe_5_state_flags (K : Constants D) (bits : Frame) (s : Gps_Navigation_Message D) :
    (subframe_5_state K bits s).flag_iono_valid = s.flag_iono_valid
      ∧ (subframe_5_state K bits s).flag_utc_model_valid = s.flag_utc_model_valid
      ∧ (subframe_5_state K bits s).flag_almanac_valid
        = (if (i32_value K bits .SV_PAGE > 0 ∧ i32_value K bits .SV_PAGE < 25)
              ∧ i32_value K bits .SV_DATA_ID ≠ 0 then true else s.flag_almanac_valid)
      ∧ (subframe_5_state K bits s).flag_almanac_week_valid
        = (if i32_value K bits .SV_PAGE = 51 then true else s.flag_almanac_week_valid)
      ∧ (subframe_5_state K bits s).i_WN_A
        = (if i32_value K bits .SV_PAGE = 51 then i32_value K bits .WN_A else s.i_WN_A) := by
  unfold subframe_5_state page_25_sf5_step almanac_5_step
  by_cases h1 : i32_value K bits .SV_PAGE > 0 ∧ i32_value K bits .SV_PAGE < 25
  · have h3 : i32_value K bits .SV_PAGE ≠ 51 := by omega
    by_cases h2 : i32_value K bits .SV_DATA_ID ≠ 0
    · rw [if_neg h3, if_pos h1, if_pos h2, if_pos ⟨h1, h2⟩, if_neg h3, if_neg h3]
      simp
    · have h5 : ¬ ((i32_value K bits .SV_PAGE > 0 ∧ i32_value K bits .SV_PAGE < 25)
          ∧ i32_value K bits .SV_DATA_ID ≠ 0) := fun h => h2 h.2
      rw [if_neg h3, if_pos h1, if_neg h2, if_neg h5, if_neg h3, if_neg h3]
      simp
  · have h5 : ¬ ((i32_value K bits .SV_PAGE > 0 ∧ i32_value K bits .SV_PAGE < 25)
        ∧ i32_value K bits .SV_DATA_ID ≠ 0) := fun h => h1 h.1
    by_cases h3 : i32_value K bits .SV_PAGE = 51
    · rw [if_pos h3, if_neg h1, if_neg h5, if_pos h3, if_pos h3]
      simp
    · rw [if_neg h3, if_neg h1, if_neg h5, if_neg h3, if_neg h3]
      simp

theorem switch_state_four (K : Constants D) (bits : Frame) (s : Gps_Navigation_Message D) :
    switch_state K bits 4 s = subframe_4_state K bits s := by
  unfold switch_state
  rw [if_neg (show ¬ ((4 : Int) = 1) by decide), if_neg (show ¬ ((4 : Int) = 2) by decide),
    if_neg (show ¬ ((4 : Int) = 3) by decide), if_pos (show (4 : Int) = 4 from rfl)]

theorem switch_state_five (K : Constants D) (bits : Frame) (s : Gps_Navigation_Message D) :
    switch_state K bits 5 s = subframe_5_state K bits s := by
  unfold switch_state
  rw [if_neg (show ¬ ((5 : Int) = 1) by decide), if_neg (show ¬ ((5 : Int) = 2) by decide),
    if_neg (show ¬ ((5 : Int) = 3) by decide), if_neg (show ¬ ((5 : Int) = 4) by decide),
    if_pos (show (5 : Int) = 5 from rfl)]

theorem switch_state_one (K : Constants D) (bits : Frame) (s : Gps_Navigation_Message D) :
    switch_state K bits 1 s = subframe_1_state K bits s := by
  unfold switch_state
  rw [if_pos (show (1 : Int) = 1 from rfl)]

theorem switch_state_flags (K : Constants D) (bits : Frame) (id : Int)
    (s : Gps_Navigation_Message D) :
    (switch_state K bits id s).flag_iono_valid
        = (if id = 4 ∧ i32_value K bits .SV_PAGE = 56 then true else s.flag_iono_valid)
      ∧ (switch_state K bits id s).flag_utc_model_valid
        = (if id = 4 ∧ i32_value K bits .SV_PAGE = 56 then true else s.flag_utc_model_valid)
      ∧ (switch_state K bits id s).flag_almanac_valid
        = (if i32_value K bits .SV_DATA_ID ≠ 0
              ∧ ((id = 4 ∧ 25 ≤ i32_value K bits .SV_PAGE ∧ i32_value K bits .SV_PAGE ≤ 32)
                ∨ (id = 5 ∧ 1 ≤ i32_value K bits .SV_PAGE ∧ i32_value K bits .SV_PAGE ≤ 24))
            then true else s.flag_almanac_valid)
      ∧ (switch_state K bits id s).flag_almanac_week_valid
        = (if id = 5 ∧ i32_value K bits .SV_PAGE = 51 then true
            else s.flag_almanac_week_valid)
      ∧ (switch_state K bits id s).i_WN_A
        = (if id = 5 ∧ i32_value K bits .SV_PAGE = 51 then i32_value K bits .WN_A
            else s.i_WN_A) := by
  by_cases h1 : id = 1
  · subst h1
    unfold switch_state
    simp
  by_cases h2 : id = 2
  · subst h2
    unfold switch_state
    simp
  by_cases h3 : id = 3
  · subst h3
    unfold switch_state
    simp
  by_cases h4 : id = 4
  · subst h4
    obtain ⟨a1, a2, a3, a4, a5⟩ := subframe_4_state_flags K bits s
    rw [switch_state_four]
    refine ⟨a1.trans (by simp), a2.trans (by simp), a3.trans ?_, a4.trans (by simp),
      a5.trans (by simp)⟩
    refine if_congr ?_ rfl rfl
    constructor
    · rintro ⟨⟨u1, u2⟩, u3⟩
      exact ⟨u3, Or.inl ⟨rfl, by omega, by omega⟩⟩
    · rintro ⟨u3, u | u⟩
      · exact ⟨⟨by omega, by omega⟩, u3⟩
      · omega
  by_cases h5 : id = 5
  · subst h5
    obtain ⟨a1, a2, a3, a4, a5⟩ := subframe_5_state_flags K bits s
    rw [switch_state_five]
    refine ⟨a1.trans (by simp), a2.trans (by simp), a3.trans ?_, a4.trans (by simp),
      a5.trans (by simp)⟩
    refine if_congr ?_ rfl rfl
    constructor
    · rintro ⟨⟨u1, u2⟩, u3⟩
      exact ⟨u3, Or.inr ⟨rfl, by omega, by omega⟩⟩
    · rintro ⟨u3, u | u⟩
      · omega
      · exact ⟨⟨by omega, by omega⟩, u3⟩
  unfold switch_state
  rw [if_neg h1, if_neg h2, if_neg h3, if_neg h4, if_neg h5]
  have c1 : ¬ (id = 4 ∧ i32_value K bits .SV_PAGE = 56) := fun h => h4 h.1
  have c3 : ¬ (id = 5 ∧ i32_value K bits .SV_PAGE = 51) := fun h => h5 h.1
  have c2 : ¬ (i32_value K bits .SV_DATA_ID ≠ 0
      ∧ ((id = 4 ∧ 25 ≤ i32_value K bits .SV_PAGE ∧ i32_value K bits .SV_PAGE ≤ 32)
        ∨ (id = 5 ∧ 1 ≤ i32_value K bits .SV_PAGE ∧ i32_value K bits .SV_PAGE ≤ 24))) := by
    rintro ⟨-, u | u⟩
    · exact h4 u.1
    · exact h5 u.1
  simp only [if_neg c1, if_neg c2, if_neg c3, and_self]

end Flags

/-! ## The page dispatch at a known identifier, page and data identifier -/

section Dispatch

variable {D : Type} [Mul D] [IntCast D]

theorem almanac_4_step_on (K : Constants D) (bits : Frame) (s : Gps_Navigation_Message D)
    (h1 : i32_value K bits .SV_PAGE > 24 ∧ i32_value K bits .SV_PAGE < 33)
    (h2 : i32_value K bits .SV_DATA_ID ≠ 0) :
    almanac_4_step K bits s = almanac_4_state K bits (i32_value K bits .SV_PAGE) s := by
  unfold almanac_4_step
  rw [if_pos h1, if_pos h2]

theorem almanac_4_step_off (K : Constants D) (bits : Frame) (s : Gps_Navigation_Message D)
    (h : ¬ ((i32_value K bits .SV_PAGE > 24 ∧ i32_value K bits .SV_PAGE < 33)
      ∧ i32_value K bits .SV_DATA_ID ≠ 0)) :
    almanac_4_step K bits s = s := by
  unfold almanac_4_step
  by_cases h1 : i32_value K bits .SV_PAGE > 24 ∧ i32_value K bits .SV_PAGE < 33
  · rw [if_pos h1, if_neg (fun h2 => h ⟨h1, h2⟩)]
  · rw [if_neg h1]

theorem almanac_5_step_on (K : Constants D) (bits : Frame) (s : Gps_Navigation_Message D)
    (h1 : i32_value K bits .SV_PAGE > 0 ∧ i32_value K bits .SV_PAGE < 25)
    (h2 : i32_value K bits .SV_DATA_ID ≠ 0) :
    almanac_5_step K bits s = almanac_5_state K bits (i32_value K bits .SV_PAGE) s := by
  unfold almanac_5_step
  rw [if_pos h1, if_pos h2]

theorem almanac_5_step_off (K : Constants D) (bits : Frame) (s : Gps_Navigation_Message D)
    (h : ¬ ((i32_value K bits .SV_PAGE > 0 ∧ i32_value K bits .SV_PAGE < 25)
      ∧ i32_value K bits .SV_DATA_ID ≠ 0)) :
    almanac_5_step K bits s = s := by
  unfold almanac_5_step
  by_cases h1 : i32_value K bits .SV_PAGE > 0 ∧ i32_value K bits .SV_PAGE < 25
  · rw [if_pos h1, if_neg (fun h2 => h ⟨h1, h2⟩)]
  · rw [if_neg h1]

theorem page_18_step_on (K : Constants D) (bits : Frame) (s : Gps_Navigation_Message D)
    (h : i32_value K bits .SV_PAGE = 56) : page_18_step K bits s = page_18_state K bits s := by
  unfold page_18_step
  rw [if_pos h]

theorem page_18_step_off (K : Constants D) (bits : Frame) (s : Gps_Navigation_Message D)
    (h : i32_value K bits .SV_PAGE ≠ 56) : page_18_step K bits s = s := by
  unfold page_18_step
  rw [if_neg h]

omit [Mul D] [IntCast D] in
theorem page_25_sf4_step_off (K : Constants D) (bits : Frame) (s : Gps_Navigation_Message D)
    (h : i32_value K bits .SV_PAGE ≠ 63) : page_25_sf4_step K bits s = s := by
  unfold page_25_sf4_step
  rw [if_neg h]

omit [Mul D] [IntCast D] in
theorem page_25_sf5_step_off (K : Constants D) (bits : Frame) (s : Gps_Navigation_Message D)
    (h : i32_value K bits .SV_PAGE ≠ 51) : page_25_sf5_step K bits s = s := by
  unfold page_25_sf5_step
  rw [if_neg h]

/-- The state after `case 4` on an almanac page with a non-zero data identifier. -/
theorem subframe_4_state_almanac (K : Constants D) (bits : Frame)
    (s : Gps_Navigation_Message D)
    (h1 : i32_value K bits .SV_PAGE > 24 ∧ i32_value K bits .SV_PAGE < 33)
    (h2 : i32_value K bits .SV_DATA_ID ≠ 0) :
    subframe_4_state K bits s
      = almanac_4_state K bits (i32_value K bits .SV_PAGE) (header_4_state K bits s) := by
  unfold subframe_4_state
  rw [almanac_4_step_on K bits _ h1 h2, page_18_step_off K bits _ (by omega),
    page_25_sf4_step_off K bits _ (by omega)]

/-- The state after `case 4` on an almanac page with data identifier zero. -/
theorem subframe_4_state_almanac_zero (K : Constants D) (bits : Frame)
    (s : Gps_Navigation_Message D)
    (h1 : i32_value K bits .SV_PAGE > 24 ∧ i32_value K bits .SV_PAGE < 33)
    (h2 : i32_value K bits .SV_DATA_ID = 0) :
    subframe_4_state K bits s = header_4_state K bits s := by
  unfold subframe_4_state
  rw [almanac_4_step_off K bits _ (fun h => h.2 h2), page_18_step_off K bits _ (by omega),
    page_25_sf4_step_off K bits _ (by omega)]

/-- The state after `case 4` on the page of the ionospheric and UTC data. -/
theorem subframe_4_state_page_18 (K : Constants D) (bits : Frame)
    (s : Gps_Navigation_Message D) (h : i32_value K bits .SV_PAGE = 56) :
    subframe_4_state K bits s = page_18_state K bits (header_4_state K bits s) := by
  unfold subframe_4_state
  rw [almanac_4_step_off K bits _ (fun h1 => by omega), page_18_step_on K bits _ h,
    page_25_sf4_step_off K bits _ (by omega)]

/-- The state after `case 5` on an almanac page with a non-zero data identifier. -/
theorem subframe_5_state_almanac (K : Constants D) (bits : Frame)
    (s : Gps_Navigation_Message D)
    (h1 : i32_value K bits .SV_PAGE > 0 ∧ i32_value K bits .SV_PAGE < 25)
    (h2 : i32_value K bits .SV_DATA_ID ≠ 0) :
    subframe_5_state K bits s
      = almanac_5_state K bits (i32_value K bits .SV_PAGE) (header_5_state K bits s) := by
  unfold subframe_5_state
  rw [almanac_5_step_on K bits _ h1 h2, page_25_sf5_step_off K bits _ (by omega)]

end Dispatch

/-! ## A decode at known selector fields -/

section Selectors

variable {D : Type} [Mul D] [IntCast D]

omit [Mul D] [IntCast D] in
theorem i32_value_of_decoded {K : Constants D} (hK : K.Valid) (subframe : List (Fin 256))
    (bits : Frame) (hb : unpack subframe = Except.ok bits) (f : Field) (u : Nat)
    (h : decoded_field K subframe f = Except.ok u) (hu : u < 2 ^ 31) :
    i32_value K bits f = (u : Int) := by
  unfold i32_value
  rw [decoded_field_raw hK subframe bits hb f u h]
  exact toInt32_of_lt u hu

omit [Mul D] [IntCast D] in
theorem decoded_field_lt_of_width {K : Constants D} (hK : K.Valid) (subframe : List (Fin 256))
    (f : Field) (u : Nat) (h : decoded_field K subframe f = Except.ok u)
    (hw : total_length (K.desc f) ≤ 31) : u < 2 ^ 31 :=
  lt_of_lt_of_le (decoded_field_lt hK subframe f u h (by omega))
    (Nat.pow_le_pow_right (by norm_num) hw)

/-- A decode of an input whose identifier field reads `id`: the returned value
and the state. -/
theorem subframe_decoder_at {K : Constants D} (hK : K.Valid) (s : Gps_Navigation_Message D)
    (subframe : List (Fin 256)) (id : Nat)
    (hid : decoded_field K subframe .SUBFRAME_ID = Except.ok id) (hlt : id < 2 ^ 31) :
    ∃ bits, unpack subframe = Except.ok bits
      ∧ subframe_decoder K s subframe = Except.ok ((id : Int), switch_state K bits (id : Int) s) := by
  obtain ⟨bits, hb, _⟩ := decoded_field_inv K subframe _ _ hid
  refine ⟨bits, hb, ?_⟩
  rw [subframe_decoder_state hK s subframe bits hb,
    i32_value_of_decoded hK subframe bits hb _ id hid hlt]

end Selectors

/-! ## Members of the record `get_ephemeris` returns -/

section EphemerisRecord

variable {D : Type}

theorem get_ephemeris_WN (s : Gps_Navigation_Message D) :
    (get_ephemeris s).1.WN = s.i_GPS_week := rfl

theorem get_ephemeris_af0 (s : Gps_Navigation_Message D) :
    (get_ephemeris s).1.af0 = s.d_A_f0 := rfl

theorem get_ephemeris_af1 (s : Gps_Navigation_Message D) :
    (get_ephemeris s).1.af1 = s.d_A_f1 := rfl

theorem get_ephemeris_af2 (s : Gps_Navigation_Message D) :
    (get_ephemeris s).1.af2 = s.d_A_f2 := rfl

theorem get_ephemeris_TGD (s : Gps_Navigation_Message D) :
    (get_ephemeris s).1.TGD = s.d_TGD := rfl

theorem get_ephemeris_IODC (s : Gps_Navigation_Message D) :
    (get_ephemeris s).1.IODC = s.d_IODC := rfl

theorem get_ephemeris_SV_accuracy (s : Gps_Navigation_Message D) :
    (get_ephemeris s).1.SV_accuracy = s.i_SV_accuracy := rfl

theorem get_ephemeris_SV_health (s : Gps_Navigation_Message D) :
    (get_ephemeris s).1.SV_health = s.i_SV_health := rfl

end EphemerisRecord

/-! ## Flags after a decode at known selector fields -/

section FlagsAtSelectors

variable {D : Type} [Mul D] [IntCast D]

/-- The four validity flags and the almanac week after a decode, in terms of the
identifier, the page selector and the data identifier of the input. -/
theorem subframe_decoder_flags {K : Constants D} (hK : K.Valid)
    (s : Gps_Navigation_Message D) (subframe : List (Fin 256)) (id page did : Nat)
    (hid : decoded_field K subframe .SUBFRAME_ID = Except.ok id) (hi : id < 2 ^ 31)
    (hp : decoded_field K subframe .SV_PAGE = Except.ok page) (hpl : page < 2 ^ 31)
    (hd : decoded_field K subframe .SV_DATA_ID = Except.ok did) (hdl : did < 2 ^ 31) :
    ∃ bits s1, unpack subframe = Except.ok bits
      ∧ subframe_decoder K s subframe = Except.ok ((id : Int), s1)
      ∧ s1.flag_iono_valid = (if id = 4 ∧ page = 56 then true else s.flag_iono_valid)
      ∧ s1.flag_utc_model_valid
          = (if id = 4 ∧ page = 56 then true else s.flag_utc_model_valid)
      ∧ s1.flag_almanac_valid
          = (if did ≠ 0 ∧ ((id = 4 ∧ 25 ≤ page ∧ page ≤ 32) ∨ (id = 5 ∧ 1 ≤ page ∧ page ≤ 24))
              then true else s.flag_almanac_valid)
      ∧ s1.flag_almanac_week_valid
          = (if id = 5 ∧ page = 51 then true else s.flag_almanac_week_valid)
      ∧ s1.i_WN_A = (if id = 5 ∧ page = 51 then i32_value K bits .WN_A else s.i_WN_A) := by
  obtain ⟨bits, hb, hdec⟩ := subframe_decoder_at hK s subframe id hid hi
  have vp := i32_value_of_decoded hK subframe bits hb .SV_PAGE page hp hpl
  have vd := i32_value_of_decoded hK subframe bits hb .SV_DATA_ID did hd hdl
  obtain ⟨a1, a2, a3, a4, a5⟩ := switch_state_flags K bits (id : Int) s
  rw [vp] at a1 a2 a4 a5
  rw [vp, vd] at a3
  refine ⟨bits, _, hb, hdec, a1.trans (if_congr ?_ rfl rfl), a2.trans (if_congr ?_ rfl rfl),
    a3.trans (if_congr ?_ rfl rfl), a4.trans (if_congr ?_ rfl rfl),
    a5.trans (if_congr ?_ rfl rfl)⟩
  · omega
  · omega
  · omega
  · omega
  · omega

end FlagsAtSelectors

/-! ## Readings of frames that agree on a field -/

theorem field_bits_congr (bits1 bits2 : Frame) (parameter : Descriptor)
    (h : AgreeOn bits1 bits2 parameter) :
    field_bits bits1 parameter = field_bits bits2 parameter := by
  unfold field_bits
  exact List.map_congr_left h

theorem raw_unsigned_congr (bits1 bits2 : Frame) (parameter : Descriptor)
    (h : AgreeOn bits1 bits2 parameter) :
    raw_unsigned bits1 parameter = raw_unsigned bits2 parameter := by
  unfold raw_unsigned
  rw [field_bits_congr bits1 bits2 parameter h]

theorem lead_bit_congr (bits1 bits2 : Frame) (parameter : Descriptor)
    (hne : NonEmptyFirst parameter) (h : AgreeOn bits1 bits2 parameter) :
    lead_bit bits1 parameter = lead_bit bits2 parameter := by
  cases parameter with
  | nil => rfl
  | cons p0 ps =>
    have h1 : 1 ≤ p0.2 := hne
    apply h
    simp only [field_positions, List.mem_append, span_positions, List.mem_map, List.mem_range]
    exact Or.inl ⟨0, by omega, by simp⟩

theorem raw_signed_congr (bits1 bits2 : Frame) (parameter : Descriptor)
    (hne : NonEmptyFirst parameter) (h : AgreeOn bits1 bits2 parameter) :
    raw_signed bits1 parameter = raw_signed bits2 parameter := by
  unfold raw_signed
  rw [field_bits_congr bits1 bits2 parameter h, lead_bit_congr bits1 bits2 parameter hne h]

section ValueCongr

variable {D : Type} [Mul D] [IntCast D]

theorem scaled_signed_value_congr {K : Constants D} (hK : K.Valid) (bits1 bits2 : Frame)
    (f : Field) (h : AgreeOn bits1 bits2 (K.desc f)) :
    scaled_signed_value K bits1 f = scaled_signed_value K bits2 f := by
  unfold scaled_signed_value
  rw [raw_signed_congr bits1 bits2 _ (hK f).2 h]

theorem scaled_unsigned_value_congr (K : Constants D) (bits1 bits2 : Frame)
    (f : Field) (h : AgreeOn bits1 bits2 (K.desc f)) :
    scaled_unsigned_value K bits1 f = scaled_unsigned_value K bits2 f := by
  unfold scaled_unsigned_value
  rw [raw_unsigned_congr bits1 bits2 _ h]

omit [Mul D] [IntCast D] in
theorem i32_times_value_congr (K : Constants D) (bits1 bits2 : Frame)
    (f : Field) (c : Int) (h : AgreeOn bits1 bits2 (K.desc f)) :
    i32_times_value K bits1 f c = i32_times_value K bits2 f c := by
  unfold i32_times_value
  rw [raw_unsigned_congr bits1 bits2 _ h]

end ValueCongr

/-! ## The almanac week across a sequence of decodes -/

theorem almanac_validation_true_iff {D : Type} (s : Gps_Navigation_Message D) :
    (almanac_validation s).1 = true ↔ (s.flag_almanac_valid = true ∧ s.i_WN_A > 0) := by
  show (s.flag_almanac_valid && decide (s.i_WN_A > 0)) = true ↔ _
  rw [Bool.and_eq_true, decide_eq_true_eq]

theorem almanac_validation_of_week {D : Type} (s : Gps_Navigation_Message D)
    (h : s.i_WN_A = 0) : (almanac_validation s).1 = false := by
  show (s.flag_almanac_valid && decide (s.i_WN_A > 0)) = false
  rw [h]
  simp

theorem almanac_validation_of_flag {D : Type} (s : Gps_Navigation_Message D)
    (h : s.flag_almanac_valid = false) : (almanac_validation s).1 = false := by
  show (s.flag_almanac_valid && decide (s.i_WN_A > 0)) = false
  rw [h]
  rfl

section WeekSequence

variable {D : Type} [Mul D] [IntCast D]

/-- A decode of any input other than page 51 of subframe 5 keeps `i_WN_A`. -/
theorem subframe_decoder_week {K : Constants D} (hK : K.Valid)
    (hI : total_length (K.desc .SUBFRAME_ID) ≤ 31) (hP : total_length (K.desc .SV_PAGE) ≤ 31)
    (s : Gps_Navigation_Message D) (subframe : List (Fin 256)) (hlen : subframe.length = 40)
    (hne : ¬ (decoded_field K subframe .SUBFRAME_ID = Except.ok 5
      ∧ decoded_field K subframe .SV_PAGE = Except.ok 51)) :
    ∃ i s1, subframe_decoder K s subframe = Except.ok (i, s1) ∧ s1.i_WN_A = s.i_WN_A := by
  have hid := decoded_field_eq K subframe hlen .SUBFRAME_ID (hK _).1
  have hp := decoded_field_eq K subframe hlen .SV_PAGE (hK _).1
  obtain ⟨bits, hb, hdec⟩ := subframe_decoder_at hK s subframe _ hid
    (decoded_field_lt_of_width hK _ _ _ hid hI)
  have vp := i32_value_of_decoded hK subframe bits hb .SV_PAGE _ hp
    (decoded_field_lt_of_width hK _ _ _ hp hP)
  obtain ⟨_, _, _, _, a5⟩ :=
    switch_state_flags K bits ((field_unsigned K subframe .SUBFRAME_ID : Nat) : Int) s
  refine ⟨_, _, hdec, a5.trans (if_neg ?_)⟩
  rw [vp]
  rintro ⟨c1, c2⟩
  apply hne
  rw [hid, hp]
  have d1 : field_unsigned K subframe .SUBFRAME_ID = 5 := by exact_mod_cast c1
  have d2 : field_unsigned K subframe .SV_PAGE = 51 := by exact_mod_cast c2
  rw [d1, d2]
  exact ⟨rfl, rfl⟩

/-- A sequence of decodes without page 51 of subframe 5 keeps `i_WN_A`. -/
theorem decode_all_week {K : Constants D} (hK : K.Valid)
    (hI : total_length (K.desc .SUBFRAME_ID) ≤ 31) (hP : total_length (K.desc .SV_PAGE) ≤ 31)
    (fs : List (List (Fin 256))) :
    ∀ s : Gps_Navigation_Message D,
      (∀ f ∈ fs, f.length = 40 ∧ ¬ (decoded_field K f .SUBFRAME_ID = Except.ok 5
        ∧ decoded_field K f .SV_PAGE = Except.ok 51)) →
      ∃ sN, decode_all K s fs = Except.ok sN ∧ sN.i_WN_A = s.i_WN_A := by
  induction fs with
  | nil => intro s _; exact ⟨s, rfl, rfl⟩
  | cons f fs ih =>
    intro s h
    obtain ⟨hlen, hne⟩ := h f (List.mem_cons_self _ _)
    obtain ⟨i, s1, hdec, hw⟩ := subframe_decoder_week hK hI hP s f hlen hne
    obtain ⟨sN, hN, hwN⟩ := ih s1 (fun g hg => h g (List.mem_cons_of_mem _ hg))
    exact ⟨sN, (decode_all_cons K s s1 i f fs hdec).trans hN, hwN.trans hw⟩

end WeekSequence

/-! ## The accessors on an arbitrary state -/

section Accessors

variable {D : Type}

theorem get_iono_valid (s : Gps_Navigation_Message D) :
    (get_iono s).1.valid = s.flag_iono_valid := rfl

theorem get_utc_model_valid (s : Gps_Navigation_Message D) :
    (get_utc_model s).1.valid = s.flag_utc_model_valid := rfl

theorem get_iono_clears (s : Gps_Navigation_Message D) :
    (get_iono s).2.flag_iono_valid = false := rfl

theorem get_utc_model_clears (s : Gps_Navigation_Message D) :
    (get_utc_model s).2.flag_utc_model_valid = false := rfl

theorem get_iono_again (s : Gps_Navigation_Message D) :
    (get_iono (get_iono s).2).1 = { (get_iono s).1 with valid := false } := rfl

theorem get_utc_model_again (s : Gps_Navigation_Message D) :
    (get_utc_model (get_utc_model s).2).1 = { (get_utc_model s).1 with valid := false } := rfl

theorem get_utc_model_after_iono (s : Gps_Navigation_Message D) :
    (get_utc_model (get_iono s).2).1 = (get_utc_model s).1 := rfl

theorem get_iono_after_utc_model (s : Gps_Navigation_Message D) :
    (get_iono (get_utc_model s).2).1 = (get_iono s).1 := rfl

theorem get_almanac_clears (s : Gps_Navigation_Message D) :
    (get_almanac s).2.flag_almanac_valid = false := rfl

theorem get_ephemeris_state (s : Gps_Navigation_Message D) : (get_ephemeris s).2 = s := rfl

theorem satellite_validation_state (s : Gps_Navigation_Message D) :
    (satellite_validation s).2
      = { s with b_valid_ephemeris_set_flag := (satellite_validation s).1 } := by
  unfold satellite_validation
  by_cases h1 : s.d_TOW_SF1 ≠ 0 ∧ s.d_TOW_SF2 ≠ 0 ∧ s.d_TOW_SF3 ≠ 0
  · by_cases h2 : s.d_IODE_SF2 = s.d_IODE_SF3 ∧ Int.land s.d_IODC 0xFF = s.d_IODE_SF2
        ∧ s.d_IODE_SF2 ≠ -1
    · simp only [if_pos h1, if_pos h2]
    · simp only [if_pos h1, if_neg h2]
  · simp only [if_neg h1]

end Accessors

/-! ## Flags a page decode asserts -/

section PageFlags

variable {D : Type} [Mul D] [IntCast D]

/-- A decode of page 56 of subframe 4 asserts the ionospheric and the UTC flag. -/
theorem decode_page_18_flags {K : Constants D} (hK : K.Valid)
    (s : Gps_Navigation_Message D) (subframe : List (Fin 256))
    (hid : decoded_field K subframe .SUBFRAME_ID = Except.ok 4)
    (hp : decoded_field K subframe .SV_PAGE = Except.ok 56) :
    ∃ s1, subframe_decoder K s subframe = Except.ok (4, s1)
      ∧ s1.flag_iono_valid = true ∧ s1.flag_utc_model_valid = true := by
  obtain ⟨bits, hb, hdec⟩ := subframe_decoder_at hK s subframe 4 hid (by norm_num)
  have e : ((4 : Nat) : Int) = 4 := rfl
  rw [e, switch_state_four] at hdec
  have vp : i32_value K bits .SV_PAGE = 56 :=
    i32_value_of_decoded hK subframe bits hb .SV_PAGE 56 hp (by norm_num)
  rw [subframe_4_state_page_18 K bits s vp] at hdec
  exact ⟨_, hdec, page_18_state_flag_iono_valid _ _ _, page_18_state_flag_utc_model_valid _ _ _⟩

/-- A decode of an almanac page with a non-zero data identifier asserts the
almanac flag. -/
theorem decode_almanac_flag {K : Constants D} (hK : K.Valid)
    (hD : total_length (K.desc .SV_DATA_ID) ≤ 31)
    (s : Gps_Navigation_Message D) (subframe : List (Fin 256)) (id p d : Nat)
    (hid : decoded_field K subframe .SUBFRAME_ID = Except.ok id)
    (hp : decoded_field K subframe .SV_PAGE = Except.ok p)
    (hd : decoded_field K subframe .SV_DATA_ID = Except.ok d)
    (hpage : (id = 4 ∧ 25 ≤ p ∧ p ≤ 32) ∨ (id = 5 ∧ 1 ≤ p ∧ p ≤ 24)) (hd0 : d ≠ 0) :
    ∃ s1, subframe_decoder K s subframe = Except.ok ((id : Int), s1)
      ∧ s1.flag_almanac_valid = true := by
  have hi : id < 2 ^ 31 := lt_of_le_of_lt (show id ≤ 5 by omega) (by norm_num)
  have hpl : p < 2 ^ 31 := lt_of_le_of_lt (show p ≤ 32 by omega) (by norm_num)
  obtain ⟨bits, s1, _, hdec, _, _, a3, _, _⟩ :=
    subframe_decoder_flags hK s subframe id p d hid hi hp hpl hd
      (decoded_field_lt_of_width hK _ _ _ hd hD)
  exact ⟨s1, hdec, a3.trans (if_pos ⟨hd0, hpage⟩)⟩

end PageFlags

/-! ## Decoded subframes and snapshots: claims C11 to C13 -/

/-- C11: with a validated table whose `GPS_WEEK`, `IODC`, `SV_ACCURACY` and
`SV_HEALTH` fields are at most 31 bits wide (so that the narrowing to `int32_t`
keeps their values), for every pre-state and every input whose identifier field
reads 1, `subframe_decoder` returns 1 and `get_ephemeris` called on the
resulting state yields a record whose `WN` is the unsigned reading of
`GPS_WEEK`, whose `af0`, `af1`, `af2` and `TGD` are the signed readings of
`A_F0`, `A_F1`, `A_F2` and `T_GD`, each multiplied once by its scale constant,
and whose `IODC`, `SV_accuracy` and `SV_health` are the unsigned readings of
their fields, unscaled. -/
theorem type_1_ephemeris_snapshot {D : Type} [Mul D] [IntCast D] {K : Constants D}
    (hK : K.Valid) (hW : total_length (K.desc .GPS_WEEK) ≤ 31)
    (hC : total_length (K.desc .IODC) ≤ 31) (hA : total_length (K.desc .SV_ACCURACY) ≤ 31)
    (hH : total_length (K.desc .SV_HEALTH) ≤ 31)
    (s : Gps_Navigation_Message D) (subframe : List (Fin 256))
    (hid : decoded_field K subframe .SUBFRAME_ID = Except.ok 1) :
    ∃ bits s1, unpack subframe = Except.ok bits
      ∧ subframe_decoder K s subframe = Except.ok (1, s1)
      ∧ IsUnsigned K bits .GPS_WEEK (get_ephemeris s1).1.WN
      ∧ IsScaledSigned K bits .A_F0 (get_ephemeris s1).1.af0
      ∧ IsScaledSigned K bits .A_F1 (get_ephemeris s1).1.af1
      ∧ IsScaledSigned K bits .A_F2 (get_ephemeris s1).1.af2
      ∧ IsScaledSigned K bits .T_GD (get_ephemeris s1).1.TGD
      ∧ IsUnsigned K bits .IODC (get_ephemeris s1).1.IODC
      ∧ IsUnsigned K bits .SV_ACCURACY (get_ephemeris s1).1.SV_accuracy
      ∧ IsUnsigned K bits .SV_HEALTH (get_ephemeris s1).1.SV_health := by
  obtain ⟨bits, hb, hdec⟩ := subframe_decoder_at hK s subframe 1 hid (by norm_num)
  have e : ((1 : Nat) : Int) = 1 := rfl
  rw [e, switch_state_one] at hdec
  refine ⟨bits, _, hb, hdec, ?_, ?_, ?_, ?_, ?_, ?_, ?_, ?_⟩
  · rw [get_ephemeris_WN, subframe_1_state_i_GPS_week]
    exact isUnsigned_i32 hK bits _ hW
  · rw [get_ephemeris_af0, subframe_1_state_d_A_f0]
    exact isScaledSigned_value hK bits _
  · rw [get_ephemeris_af1, subframe_1_state_d_A_f1]
    exact isScaledSigned_value hK bits _
  · rw [get_ephemeris_af2, subframe_1_state_d_A_f2]
    exact isScaledSigned_value hK bits _
  · rw [get_ephemeris_TGD, subframe_1_state_d_TGD]
    exact isScaledSigned_value hK bits _
  · rw [get_ephemeris_IODC, subframe_1_state_d_IODC]
    exact isUnsigned_i32 hK bits _ hC
  · rw [get_ephemeris_SV_accuracy, subframe_1_state_i_SV_accuracy]
    exact isUnsigned_i32 hK bits _ hA
  · rw [get_ephemeris_SV_health, subframe_1_state_i_SV_health]
    exact isUnsigned_i32 hK bits _ hH

set_option maxRecDepth 100000 in
theorem type_1_ephemeris_snapshot_witness :
    ∃ bits s1, unpack week_subframe = Except.ok bits
      ∧ subframe_decoder sample_constants zero_state week_subframe = Except.ok (1, s1)
      ∧ IsUnsigned sample_constants bits .GPS_WEEK (get_ephemeris s1).1.WN
      ∧ IsScaledSigned sample_constants bits .A_F0 (get_ephemeris s1).1.af0
      ∧ IsScaledSigned sample_constants bits .A_F1 (get_ephemeris s1).1.af1
      ∧ IsScaledSigned sample_constants bits .A_F2 (get_ephemeris s1).1.af2
      ∧ IsScaledSigned sample_constants bits .T_GD (get_ephemeris s1).1.TGD
      ∧ IsUnsigned sample_constants bits .IODC (get_ephemeris s1).1.IODC
      ∧ IsUnsigned sample_constants bits .SV_ACCURACY (get_ephemeris s1).1.SV_accuracy
      ∧ IsUnsigned sample_constants bits .SV_HEALTH (get_ephemeris s1).1.SV_health :=
  type_1_ephemeris_snapshot sample_constants_valid (by decide) (by decide) (by decide)
    (by decide) zero_state week_subframe (by decide)

/-- C12: with a validated table whose `SV_DATA_ID` field is at most 31 bits wide
and whose `ALM_TOA` field times `ALM_TOA_LSB` fits an `int32_t`, for every
pre-state and every input whose identifier field reads 4 and whose page selector
`p` satisfies `25 ≤ p ≤ 32`: when the data identifier `d` is non-zero, after
`subframe_decoder` the flag `flag_almanac_valid` is true, `a_PRN = p`, `i_Toa`
is the unsigned reading of `ALM_TOA` times `ALM_TOA_LSB`, each of `a_M_0`,
`a_OMEGA_0`, `a_omega`, `a_OMEGAdot`, `a_delta_i`, `a_af0`, `a_af1` is the
signed reading of its field times its scale constant and `a_ecc`, `a_sqrtA`
are the unsigned readings of their fields times their scale constants; when
`d = 0` none of these members and not `flag_almanac_valid` is changed. -/
theorem type_4_almanac_page {D : Type} [Mul D] [IntCast D] {K : Constants D}
    (hK : K.Valid) (hD : total_length (K.desc .SV_DATA_ID) ≤ 31)
    (hT : K.ProductFits .ALM_TOA)
    (s : Gps_Navigation_Message D) (subframe : List (Fin 256)) (p d : Nat)
    (hid : decoded_field K subframe .SUBFRAME_ID = Except.ok 4)
    (hp : decoded_field K subframe .SV_PAGE = Except.ok p) (hp1 : 25 ≤ p) (hp2 : p ≤ 32)
    (hd : decoded_field K subframe .SV_DATA_ID = Except.ok d) :
    ∃ bits s1, unpack subframe = Except.ok bits
      ∧ subframe_decoder K s subframe = Except.ok (4, s1)
      ∧ (d ≠ 0 →
          s1.flag_almanac_valid = true
          ∧ s1.a_PRN = (p : Int)
          ∧ IsUnsignedTimes K bits .ALM_TOA s1.i_Toa
          ∧ IsScaledSigned K bits .ALM_MZERO s1.a_M_0
          ∧ IsScaledSigned K bits .ALM_OMEGAZERO s1.a_OMEGA_0
          ∧ IsScaledSigned K bits .ALM_OMEGA s1.a_omega
          ∧ IsScaledSigned K bits .ALM_OMEGADOT s1.a_OMEGAdot
          ∧ IsScaledSigned K bits .ALM_DELTAI s1.a_delta_i
          ∧ IsScaledSigned K bits .ALM_AF0 s1.a_af0
          ∧ IsScaledSigned K bits .ALM_AF1 s1.a_af1
          ∧ IsScaledUnsigned K bits .ALM_ECC s1.a_ecc
          ∧ IsScaledUnsigned K bits .ALM_SQUAREA s1.a_sqrtA)
      ∧ (d = 0 →
          s1.flag_almanac_valid = s.flag_almanac_valid
          ∧ s1.a_PRN = s.a_PRN
          ∧ s1.i_Toa = s.i_Toa
          ∧ s1.a_M_0 = s.a_M_0
          ∧ s1.a_OMEGA_0 = s.a_OMEGA_0
          ∧ s1.a_omega = s.a_omega
          ∧ s1.a_OMEGAdot = s.a_OMEGAdot
          ∧ s1.a_delta_i = s.a_delta_i
          ∧ s1.a_af0 = s.a_af0
          ∧ s1.a_af1 = s.a_af1
          ∧ s1.a_ecc = s.a_ecc
          ∧ s1.a_sqrtA = s.a_sqrtA) := by
  obtain ⟨bits, hb, hdec⟩ := subframe_decoder_at hK s subframe 4 hid (by norm_num)
  have e : ((4 : Nat) : Int) = 4 := rfl
  rw [e, switch_state_four] at hdec
  have vp := i32_value_of_decoded hK subframe bits hb .SV_PAGE p hp
    (lt_of_le_of_lt hp2 (by norm_num))
  have vd := i32_value_of_decoded hK subframe bits hb .SV_DATA_ID d hd
    (decoded_field_lt_of_width hK _ _ _ hd hD)
  have r1 : i32_value K bits .SV_PAGE > 24 ∧ i32_value K bits .SV_PAGE < 33 := by
    rw [vp]; omega
  refine ⟨bits, _, hb, hdec, ?_, ?_⟩
  · intro hd0
    have r2 : i32_value K bits .SV_DATA_ID ≠ 0 := by
      rw [vd]; exact_mod_cast hd0
    rw [subframe_4_state_almanac K bits s r1 r2]
    refine ⟨almanac_4_state_flag_almanac_valid _ _ _ _, ?_, ?_, ?_, ?_, ?_, ?_, ?_, ?_, ?_,
      ?_, ?_⟩
    · rw [almanac_4_state_a_PRN, vp]
    · rw [almanac_4_state_i_Toa]
      exact isUnsignedTimes_i32 hK bits _ hT
    · rw [almanac_4_state_a_M_0]
      exact isScaledSigned_value hK bits _
    · rw [almanac_4_state_a_OMEGA_0]
      exact isScaledSigned_value hK bits _
    · rw [almanac_4_state_a_omega]
      exact isScaledSigned_value hK bits _
    · rw [almanac_4_state_a_OMEGAdot]
      exact isScaledSigned_value hK bits _
    · rw [almanac_4_state_a_delta_i]
      exact isScaledSigned_value hK bits _
    · rw [almanac_4_state_a_af0]
      exact isScaledSigned_value hK bits _
    · rw [almanac_4_state_a_af1]
      exact isScaledSigned_value hK bits _
    · rw [almanac_4_state_a_ecc]
      exact isScaledUnsigned_value hK bits _
    · rw [almanac_4_state_a_sqrtA]
      exact isScaledUnsigned_value hK bits _
  · intro hd0
    have r2 : i32_value K bits .SV_DATA_ID = 0 := by
      rw [vd, hd0]; rfl
    rw [subframe_4_state_almanac_zero K bits s r1 r2]
    exact ⟨header_4_state_flag_almanac_valid K bits s, header_4_state_a_PRN K bits s,
      header_4_state_i_Toa K bits s, header_4_state_a_M_0 K bits s,
      header_4_state_a_OMEGA_0 K bits s, header_4_state_a_omega K bits s,
      header_4_state_a_OMEGAdot K bits s, header_4_state_a_delta_i K bits s,
      header_4_state_a_af0 K bits s, header_4_state_a_af1 K bits s,
      header_4_state_a_ecc K bits s, header_4_state_a_sqrtA K bits s⟩

set_option maxRecDepth 100000 in
theorem type_4_almanac_page_witness :
    ∃ bits s1, unpack (page_subframe 4 1 25) = Except.ok bits
      ∧ subframe_decoder sample_constants zero_state (page_subframe 4 1 25) = Except.ok (4, s1)
      ∧ (1 ≠ 0 →
          s1.flag_almanac_valid = true
          ∧ s1.a_PRN = (25 : Int)
          ∧ IsUnsignedTimes sample_constants bits .ALM_TOA s1.i_Toa
          ∧ IsScaledSigned sample_constants bits .ALM_MZERO s1.a_M_0
          ∧ IsScaledSigned sample_constants bits .ALM_OMEGAZERO s1.a_OMEGA_0
          ∧ IsScaledSigned sample_constants bits .ALM_OMEGA s1.a_omega
          ∧ IsScaledSigned sample_constants bits .ALM_OMEGADOT s1.a_OMEGAdot
          ∧ IsScaledSigned sample_constants bits .ALM_DELTAI s1.a_delta_i
          ∧ IsScaledSigned sample_constants bits .ALM_AF0 s1.a_af0
          ∧ IsScaledSigned sample_constants bits .ALM_AF1 s1.a_af1
          ∧ IsScaledUnsigned sample_constants bits .ALM_ECC s1.a_ecc
          ∧ IsScaledUnsigned sample_constants bits .ALM_SQUAREA s1.a_sqrtA)
      ∧ (1 = 0 →
          s1.flag_almanac_valid = zero_state.flag_almanac_valid
          ∧ s1.a_PRN = zero_state.a_PRN
          ∧ s1.i_Toa = zero_state.i_Toa
          ∧ s1.a_M_0 = zero_state.a_M_0
          ∧ s1.a_OMEGA_0 = zero_state.a_OMEGA_0
          ∧ s1.a_omega = zero_state.a_omega
          ∧ s1.a_OMEGAdot = zero_state.a_OMEGAdot
          ∧ s1.a_delta_i = zero_state.a_delta_i
          ∧ s1.a_af0 = zero_state.a_af0
          ∧ s1.a_af1 = zero_state.a_af1
          ∧ s1.a_ecc = zero_state.a_ecc
          ∧ s1.a_sqrtA = zero_state.a_sqrtA) :=
  type_4_almanac_page sample_constants_valid (by decide) (by decide) zero_state
    (page_subframe 4 1 25) 25 1 (by decide) (by decide) (by decide) (by decide) (by decide)

/-- C13: with a validated table whose `T_OT` field times `T_OT_LSB` fits an
`int32_t`, whose `WN_T`, `WN_LSF` and `DN` fields are at most 31 bits wide and
whose `DELTAT_LS` and `DELTAT_LSF` fields are at most 32 bits wide, for every
pre-state and every input whose identifier field reads 4 and whose page selector
reads 56, after `subframe_decoder` both `flag_iono_valid` and
`flag_utc_model_valid` are true, `d_alpha0` to `d_alpha3`, `d_beta0` to
`d_beta3`, `d_A0` and `d_A1` are the signed readings of their fields times
their scale constants, `d_t_OT` is the unsigned reading of `T_OT` times
`T_OT_LSB`, `i_WN_T`, `i_WN_LSF` and `i_DN` are the unsigned readings of their
fields, and `d_DeltaT_LS` and `d_DeltaT_LSF` are the signed readings of their
fields, unscaled. -/
theorem type_4_iono_utc_page {D : Type} [Mul D] [IntCast D] {K : Constants D}
    (hK : K.Valid) (hT : K.ProductFits .T_OT)
    (hw1 : total_length (K.desc .WN_T) ≤ 31) (hw2 : total_length (K.desc .WN_LSF) ≤ 31)
    (hw3 : total_length (K.desc .DN) ≤ 31) (hw4 : total_length (K.desc .DELTAT_LS) ≤ 32)
    (hw5 : total_length (K.desc .DELTAT_LSF) ≤ 32)
    (s : Gps_Navigation_Message D) (subframe : List (Fin 256))
    (hid : decoded_field K subframe .SUBFRAME_ID = Except.ok 4)
    (hp : decoded_field K subframe .SV_PAGE = Except.ok 56) :
    ∃ bits s1, unpack subframe = Except.ok bits
      ∧ subframe_decoder K s subframe = Except.ok (4, s1)
      ∧ s1.flag_iono_valid = true
      ∧ s1.flag_utc_model_valid = true
      ∧ IsScaledSigned K bits .ALPHA_0 s1.d_alpha0
      ∧ IsScaledSigned K bits .ALPHA_1 s1.d_alpha1
      ∧ IsScaledSigned K bits .ALPHA_2 s1.d_alpha2
      ∧ IsScaledSigned K bits .ALPHA_3 s1.d_alpha3
      ∧ IsScaledSigned K bits .BETA_0 s1.d_beta0
      ∧ IsScaledSigned K bits .BETA_1 s1.d_beta1
      ∧ IsScaledSigned K bits .BETA_2 s1.d_beta2
      ∧ IsScaledSigned K bits .BETA_3 s1.d_beta3
      ∧ IsScaledSigned K bits .A_0 s1.d_A0
      ∧ IsScaledSigned K bits .A_1 s1.d_A1
      ∧ IsUnsignedTimes K bits .T_OT s1.d_t_OT
      ∧ IsUnsigned K bits .WN_T s1.i_WN_T
      ∧ IsUnsigned K bits .WN_LSF s1.i_WN_LSF
      ∧ IsUnsigned K bits .DN s1.i_DN
      ∧ IsSigned K bits .DELTAT_LS s1.d_DeltaT_LS
      ∧ IsSigned K bits .DELTAT_LSF s1.d_DeltaT_LSF := by
  obtain ⟨bits, hb, hdec⟩ := subframe_decoder_at hK s subframe 4 hid (by norm_num)
  have e : ((4 : Nat) : Int) = 4 := rfl
  rw [e, switch_state_four] at hdec
  have vp : i32_value K bits .SV_PAGE = 56 :=
    i32_value_of_decoded hK subframe bits hb .SV_PAGE 56 hp (by norm_num)
  rw [subframe_4_state_page_18 K bits s vp] at hdec
  refine ⟨bits, _, hb, hdec, page_18_state_flag_iono_valid _ _ _,
    page_18_state_flag_utc_model_valid _ _ _, ?_, ?_, ?_, ?_, ?_, ?_, ?_, ?_, ?_, ?_,
    ?_, ?_, ?_, ?_, ?_, ?_⟩
  · rw [page_18_state_d_alpha0]
    exact isScaledSigned_value hK bits _
  · rw [page_18_state_d_alpha1]
    exact isScaledSigned_value hK bits _
  · rw [page_18_state_d_alpha2]
    exact isScaledSigned_value hK bits _
  · rw [page_18_state_d_alpha3]
    exact isScaledSigned_value hK bits _
  · rw [page_18_state_d_beta0]
    exact isScaledSigned_value hK bits _
  · rw [page_18_state_d_beta1]
    exact isScaledSigned_value hK bits _
  · rw [page_18_state_d_beta2]
    exact isScaledSigned_value hK bits _
  · rw [page_18_state_d_beta3]
    exact isScaledSigned_value hK bits _
  · rw [page_18_state_d_A0]
    exact isScaledSigned_value hK bits _
  · rw [page_18_state_d_A1]
    exact isScaledSigned_value hK bits _
  · rw [page_18_state_d_t_OT]
    exact isUnsignedTimes_i32 hK bits _ hT
  · rw [page_18_state_i_WN_T]
    exact isUnsigned_i32 hK bits _ hw1
  · rw [page_18_state_i_WN_LSF]
    exact isUnsigned_i32 hK bits _ hw2
  · rw [page_18_state_i_DN]
    exact isUnsigned_i32 hK bits _ hw3
  · rw [page_18_state_d_DeltaT_LS]
    exact isSigned_i32 hK bits _ hw4
  · rw [page_18_state_d_DeltaT_LSF]
    exact isSigned_i32 hK bits _ hw5

set_option maxRecDepth 100000 in
theorem type_4_iono_utc_page_witness :
    ∃ bits s1, unpack (page_subframe 4 1 56) = Except.ok bits
      ∧ subframe_decoder sample_constants zero_state (page_subframe 4 1 56) = Except.ok (4, s1)
      ∧ s1.flag_iono_valid = true
      ∧ s1.flag_utc_model_valid = true
      ∧ IsScaledSigned sample_constants bits .ALPHA_0 s1.d_alpha0
      ∧ IsScaledSigned sample_constants bits .ALPHA_1 s1.d_alpha1
      ∧ IsScaledSigned sample_constants bits .ALPHA_2 s1.d_alpha2
      ∧ IsScaledSigned sample_constants bits .ALPHA_3 s1.d_alpha3
      ∧ IsScaledSigned sample_constants bits .BETA_0 s1.d_beta0
      ∧ IsScaledSigned sample_constants bits .BETA_1 s1.d_beta1
      ∧ IsScaledSigned sample_constants bits .BETA_2 s1.d_beta2
      ∧ IsScaledSigned sample_constants bits .BETA_3 s1.d_beta3
      ∧ IsScaledSigned sample_constants bits .A_0 s1.d_A0
      ∧ IsScaledSigned sample_constants bits .A_1 s1.d_A1
      ∧ IsUnsignedTimes sample_constants bits .T_OT s1.d_t_OT
      ∧ IsUnsigned sample_constants bits .WN_T s1.i_WN_T
      ∧ IsUnsigned sample_constants bits .WN_LSF s1.i_WN_LSF
      ∧ IsUnsigned sample_constants bits .DN s1.i_DN
      ∧ IsSigned sample_constants bits .DELTAT_LS s1.d_DeltaT_LS
      ∧ IsSigned sample_constants bits .DELTAT_LSF s1.d_DeltaT_LSF :=
  type_4_iono_utc_page sample_constants_valid (by decide) (by decide) (by decide) (by decide)
    (by decide) (by decide) zero_state (page_subframe 4 1 56) (by decide) (by decide)

/-! ## Validity flags and almanac pages: claims C14 to C16 -/

/-- C14: with a validated table whose `SUBFRAME_ID`, `SV_PAGE` and `SV_DATA_ID`
fields are at most 31 bits wide, for every pre-state and every input with
identifier `id`, page selector `page` and data identifier `did`, after
`subframe_decoder` the flags `flag_iono_valid` and `flag_utc_model_valid` are
true when `id = 4` and `page = 56` and keep their pre-state values otherwise;
`flag_almanac_valid` is true when `did ≠ 0` and either `id = 4` with
`25 ≤ page ≤ 32` or `id = 5` with `1 ≤ page ≤ 24`, and keeps its pre-state
value otherwise; `flag_almanac_week_valid` is true when `id = 5` and
`page = 51` and keeps its pre-state value otherwise. -/
theorem validity_flags_by_page {D : Type} [Mul D] [IntCast D] {K : Constants D}
    (hK : K.Valid) (hI : total_length (K.desc .SUBFRAME_ID) ≤ 31)
    (hP : total_length (K.desc .SV_PAGE) ≤ 31) (hD : total_length (K.desc .SV_DATA_ID) ≤ 31)
    (s : Gps_Navigation_Message D) (subframe : List (Fin 256)) (id page did : Nat)
    (hid : decoded_field K subframe .SUBFRAME_ID = Except.ok id)
    (hp : decoded_field K subframe .SV_PAGE = Except.ok page)
    (hd : decoded_field K subframe .SV_DATA_ID = Except.ok did) :
    ∃ s1, subframe_decoder K s subframe = Except.ok ((id : Int), s1)
      ∧ s1.flag_iono_valid = (if id = 4 ∧ page = 56 then true else s.flag_iono_valid)
      ∧ s1.flag_utc_model_valid
          = (if id = 4 ∧ page = 56 then true else s.flag_utc_model_valid)
      ∧ s1.flag_almanac_valid
          = (if did ≠ 0 ∧ ((id = 4 ∧ 25 ≤ page ∧ page ≤ 32) ∨ (id = 5 ∧ 1 ≤ page ∧ page ≤ 24))
              then true else s.flag_almanac_valid)
      ∧ s1.flag_almanac_week_valid
          = (if id = 5 ∧ page = 51 then true else s.flag_almanac_week_valid) := by
  obtain ⟨bits, s1, _, hdec, a1, a2, a3, a4, _⟩ :=
    subframe_decoder_flags hK s subframe id page did
      hid (decoded_field_lt_of_width hK _ _ _ hid hI)
      hp (decoded_field_lt_of_width hK _ _ _ hp hP)
      hd (decoded_field_lt_of_width hK _ _ _ hd hD)
  exact ⟨s1, hdec, a1, a2, a3, a4⟩

set_option maxRecDepth 100000 in
theorem validity_flags_by_page_witness :
    ∃ s1, subframe_decoder sample_constants zero_state (page_subframe 5 1 51)
        = Except.ok (((5 : Nat) : Int), s1)
      ∧ s1.flag_iono_valid
          = (if 5 = 4 ∧ 51 = 56 then true else zero_state.flag_iono_valid)
      ∧ s1.flag_utc_model_valid
          = (if 5 = 4 ∧ 51 = 56 then true else zero_state.flag_utc_model_valid)
      ∧ s1.flag_almanac_valid
          = (if 1 ≠ 0 ∧ ((5 = 4 ∧ 25 ≤ 51 ∧ 51 ≤ 32) ∨ (5 = 5 ∧ 1 ≤ 51 ∧ 51 ≤ 24))
              then true else zero_state.flag_almanac_valid)
      ∧ s1.flag_almanac_week_valid
          = (if 5 = 5 ∧ 51 = 51 then true else zero_state.flag_almanac_week_valid) :=
  validity_flags_by_page sample_constants_valid (by decide) (by decide) (by decide)
    zero_state (page_subframe 5 1 51) 5 51 1 (by decide) (by decide) (by decide)

/-- C15: with a validated table whose `SV_DATA_ID` and `ALM_SVHEALTH` fields are
at most 31 bits wide, for every pre-state `s` and every two inputs `f4`
(identifier 4, page in `25..32`, non-zero data identifier) and `f5`
(identifier 5, page in `1..24`, non-zero data identifier) whose frames agree on
every bit covered by the descriptors of the ten almanac fields both blocks
read, decoding `f4` from `s` and decoding `f5` from `s` give the same `a_M_0`,
`a_ecc`, `a_sqrtA`, `a_OMEGA_0`, `a_omega`, `a_OMEGAdot`, `a_delta_i`, `a_af0`,
`a_af1` and `i_Toa`, and both set `flag_almanac_valid`; the decode of `f5` sets
`SV_Health` to the unsigned reading of `ALM_SVHEALTH`, the decode of `f4`
leaves `SV_Health` at its pre-state value. -/
theorem almanac_pages_4_and_5_agree {D : Type} [Mul D] [IntCast D] {K : Constants D}
    (hK : K.Valid) (hD : total_length (K.desc .SV_DATA_ID) ≤ 31)
    (hH : total_length (K.desc .ALM_SVHEALTH) ≤ 31)
    (s : Gps_Navigation_Message D) (f4 f5 : List (Fin 256)) (bits4 bits5 : Frame)
    (p4 d4 p5 d5 : Nat)
    (hb4 : unpack f4 = Except.ok bits4) (hb5 : unpack f5 = Except.ok bits5)
    (hid4 : decoded_field K f4 .SUBFRAME_ID = Except.ok 4)
    (hp4 : decoded_field K f4 .SV_PAGE = Except.ok p4) (h25 : 25 ≤ p4) (h32 : p4 ≤ 32)
    (hd4 : decoded_field K f4 .SV_DATA_ID = Except.ok d4) (hz4 : d4 ≠ 0)
    (hid5 : decoded_field K f5 .SUBFRAME_ID = Except.ok 5)
    (hp5 : decoded_field K f5 .SV_PAGE = Except.ok p5) (h1 : 1 ≤ p5) (h24 : p5 ≤ 24)
    (hd5 : decoded_field K f5 .SV_DATA_ID = Except.ok d5) (hz5 : d5 ≠ 0)
    (hagree : ∀ F ∈ almanac_fields, AgreeOn bits4 bits5 (K.desc F)) :
    ∃ s4 s5, subframe_decoder K s f4 = Except.ok (4, s4)
      ∧ subframe_decoder K s f5 = Except.ok (5, s5)
      ∧ s4.a_M_0 = s5.a_M_0
      ∧ s4.a_ecc = s5.a_ecc
      ∧ s4.a_sqrtA = s5.a_sqrtA
      ∧ s4.a_OMEGA_0 = s5.a_OMEGA_0
      ∧ s4.a_omega = s5.a_omega
      ∧ s4.a_OMEGAdot = s5.a_OMEGAdot
      ∧ s4.a_delta_i = s5.a_delta_i
      ∧ s4.a_af0 = s5.a_af0
      ∧ s4.a_af1 = s5.a_af1
      ∧ s4.i_Toa = s5.i_Toa
      ∧ s4.flag_almanac_valid = true
      ∧ s5.flag_almanac_valid = true
      ∧ IsUnsigned K bits5 .ALM_SVHEALTH s5.SV_Health
      ∧ s4.SV_Health = s.SV_Health := by
  obtain ⟨b4, hb4n, hdec4⟩ := subframe_decoder_at hK s f4 4 hid4 (by norm_num)
  obtain ⟨b5, hb5n, hdec5⟩ := subframe_decoder_at hK s f5 5 hid5 (by norm_num)
  have e4 : b4 = bits4 := by
    rw [hb4] at hb4n; exact (Except.ok.inj hb4n).symm
  have e5 : b5 = bits5 := by
    rw [hb5] at hb5n; exact (Except.ok.inj hb5n).symm
  subst e4
  subst e5
  have c4 : ((4 : Nat) : Int) = 4 := rfl
  have c5 : ((5 : Nat) : Int) = 5 := rfl
  rw [c4, switch_state_four] at hdec4
  rw [c5, switch_state_five] at hdec5
  have vp4 := i32_value_of_decoded hK f4 b4 hb4 .SV_PAGE p4 hp4
    (lt_of_le_of_lt h32 (by norm_num))
  have vd4 := i32_value_of_decoded hK f4 b4 hb4 .SV_DATA_ID d4 hd4
    (decoded_field_lt_of_width hK _ _ _ hd4 hD)
  have vp5 := i32_value_of_decoded hK f5 b5 hb5 .SV_PAGE p5 hp5
    (lt_of_le_of_lt h24 (by norm_num))
  have vd5 := i32_value_of_decoded hK f5 b5 hb5 .SV_DATA_ID d5 hd5
    (decoded_field_lt_of_width hK _ _ _ hd5 hD)
  have r4 : i32_value K b4 .SV_PAGE > 24 ∧ i32_value K b4 .SV_PAGE < 33 := by
    rw [vp4]; omega
  have r5 : i32_value K b5 .SV_PAGE > 0 ∧ i32_value K b5 .SV_PAGE < 25 := by
    rw [vp5]; omega
  have z4 : i32_value K b4 .SV_DATA_ID ≠ 0 := by
    rw [vd4]; exact_mod_cast hz4
  have z5 : i32_value K b5 .SV_DATA_ID ≠ 0 := by
    rw [vd5]; exact_mod_cast hz5
  rw [subframe_4_state_almanac K b4 s r4 z4] at hdec4
  rw [subframe_5_state_almanac K b5 s r5 z5] at hdec5
  refine ⟨_, _, hdec4, hdec5, ?_, ?_, ?_, ?_, ?_, ?_, ?_, ?_, ?_, ?_,
    almanac_4_state_flag_almanac_valid _ _ _ _, almanac_5_state_flag_almanac_valid _ _ _ _,
    ?_, ?_⟩
  · exact (almanac_4_state_a_M_0 K b4 _ _).trans
      ((scaled_signed_value_congr hK b4 b5 .ALM_MZERO (hagree _ (by decide))).trans
        (almanac_5_state_a_M_0 K b5 _ _).symm)
  · exact (almanac_4_state_a_ecc K b4 _ _).trans
      ((scaled_unsigned_value_congr K b4 b5 .ALM_ECC (hagree _ (by decide))).trans
        (almanac_5_state_a_ecc K b5 _ _).symm)
  · exact (almanac_4_state_a_sqrtA K b4 _ _).trans
      ((scaled_unsigned_value_congr K b4 b5 .ALM_SQUAREA (hagree _ (by decide))).trans
        (almanac_5_state_a_sqrtA K b5 _ _).symm)
  · exact (almanac_4_state_a_OMEGA_0 K b4 _ _).trans
      ((scaled_signed_value_congr hK b4 b5 .ALM_OMEGAZERO (hagree _ (by decide))).trans
        (almanac_5_state_a_OMEGA_0 K b5 _ _).symm)
  · exact (almanac_4_state_a_omega K b4 _ _).trans
      ((scaled_signed_value_congr hK b4 b5 .ALM_OMEGA (hagree _ (by decide))).trans
        (almanac_5_state_a_omega K b5 _ _).symm)
  · exact (almanac_4_state_a_OMEGAdot K b4 _ _).trans
      ((scaled_signed_value_congr hK b4 b5 .ALM_OMEGADOT (hagree _ (by decide))).trans
        (almanac_5_state_a_OMEGAdot K b5 _ _).symm)
  · exact (almanac_4_state_a_delta_i K b4 _ _).trans
      ((scaled_signed_value_congr hK b4 b5 .ALM_DELTAI (hagree _ (by decide))).trans
        (almanac_5_state_a_delta_i K b5 _ _).symm)
  · exact (almanac_4_state_a_af0 K b4 _ _).trans
      ((scaled_signed_value_congr hK b4 b5 .ALM_AF0 (hagree _ (by decide))).trans
        (almanac_5_state_a_af0 K b5 _ _).symm)
  · exact (almanac_4_state_a_af1 K b4 _ _).trans
      ((scaled_signed_value_congr hK b4 b5 .ALM_AF1 (hagree _ (by decide))).trans
        (almanac_5_state_a_af1 K b5 _ _).symm)
  · exact (almanac_4_state_i_Toa K b4 _ _).trans
      ((i32_times_value_congr K b4 b5 .ALM_TOA _ (hagree _ (by decide))).trans
        (almanac_5_state_i_Toa K b5 _ _).symm)
  · rw [almanac_5_state_SV_Health]
    exact isUnsigned_i32 hK b5 _ hH
  · exact (almanac_4_state_SV_Health K b4 _ _).trans (header_4_state_SV_Health K b4 s)

set_option maxRecDepth 100000 in
theorem almanac_pages_4_and_5_agree_witness :
    ∃ s4 s5, subframe_decoder sample_constants zero_state (page_subframe 4 1 25)
        = Except.ok (4, s4)
      ∧ subframe_decoder sample_constants zero_state (page_subframe 5 1 1) = Except.ok (5, s5)
      ∧ s4.a_M_0 = s5.a_M_0
      ∧ s4.a_ecc = s5.a_ecc
      ∧ s4.a_sqrtA = s5.a_sqrtA
      ∧ s4.a_OMEGA_0 = s5.a_OMEGA_0
      ∧ s4.a_omega = s5.a_omega
      ∧ s4.a_OMEGAdot = s5.a_OMEGAdot
      ∧ s4.a_delta_i = s5.a_delta_i
      ∧ s4.a_af0 = s5.a_af0
      ∧ s4.a_af1 = s5.a_af1
      ∧ s4.i_Toa = s5.i_Toa
      ∧ s4.flag_almanac_valid = true
      ∧ s5.flag_almanac_valid = true
      ∧ IsUnsigned sample_constants (frame_of_words (word (page_subframe 5 1 1))) .ALM_SVHEALTH s5.SV_Health
      ∧ s4.SV_Health = zero_state.SV_Health :=
  almanac_pages_4_and_5_agree sample_constants_valid (by decide) (by decide) zero_state
    (page_subframe 4 1 25) (page_subframe 5 1 1)
    (frame_of_words (word (page_subframe 4 1 25))) (frame_of_words (word (page_subframe 5 1 1)))
    25 1 1 1 (unpack_eq _ (by decide)) (unpack_eq _ (by decide))
    (by decide) (by decide) (by decide) (by decide) (by decide) (by decide)
    (by decide) (by decide) (by decide) (by decide) (by decide) (by decide) (by decide)

/-- C16: for every state `t`, `almanac_validation` returns true if and only if
`flag_almanac_valid` is true and `i_WN_A > 0`, it leaves the state as it was,
and its result does not depend on `flag_almanac_week_valid`; with a validated
table whose `SUBFRAME_ID` and `SV_PAGE` fields are at most 31 bits wide, from a
state `s` whose `i_WN_A` is still 0 (a fresh state) every sequence of 40-byte
inputs none of which is page 51 of subframe 5 decodes to a state on which
`almanac_validation` returns false. -/
theorem almanac_validation_spec {D : Type} [Mul D] [IntCast D] {K : Constants D}
    (hK : K.Valid) (hI : total_length (K.desc .SUBFRAME_ID) ≤ 31)
    (hP : total_length (K.desc .SV_PAGE) ≤ 31)
    (t s : Gps_Navigation_Message D) (fs : List (List (Fin 256)))
    (hfresh : s.i_WN_A = 0)
    (hfs : ∀ f ∈ fs, f.length = 40 ∧ ¬ (decoded_field K f .SUBFRAME_ID = Except.ok 5
      ∧ decoded_field K f .SV_PAGE = Except.ok 51)) :
    ((almanac_validation t).1 = true ↔ (t.flag_almanac_valid = true ∧ t.i_WN_A > 0))
      ∧ (almanac_validation t).2 = t
      ∧ (∀ b, (almanac_validation { t with flag_almanac_week_valid := b }).1
          = (almanac_validation t).1)
      ∧ ∃ sN, decode_all K s fs = Except.ok sN ∧ (almanac_validation sN).1 = false := by
  obtain ⟨sN, hN, hw⟩ := decode_all_week hK hI hP fs s hfs
  exact ⟨almanac_validation_true_iff t, rfl, fun _ => rfl, sN, hN,
    almanac_validation_of_week sN (hw.trans hfresh)⟩

set_option maxRecDepth 100000 in
theorem almanac_validation_spec_witness :
    ((almanac_validation { zero_state with flag_almanac_valid := true, i_WN_A := 3 }).1 = true
        ↔ (({ zero_state with flag_almanac_valid := true, i_WN_A := 3 } :
              Gps_Navigation_Message ℚ).flag_almanac_valid = true
            ∧ ({ zero_state with flag_almanac_valid := true, i_WN_A := 3 } :
              Gps_Navigation_Message ℚ).i_WN_A > 0))
      ∧ (almanac_validation { zero_state with flag_almanac_valid := true, i_WN_A := 3 }).2
          = { zero_state with flag_almanac_valid := true, i_WN_A := 3 }
      ∧ (∀ b, (almanac_validation
            { ({ zero_state with flag_almanac_valid := true, i_WN_A := 3 } :
                Gps_Navigation_Message ℚ) with flag_almanac_week_valid := b }).1
          = (almanac_validation { zero_state with flag_almanac_valid := true, i_WN_A := 3 }).1)
      ∧ ∃ sN, decode_all sample_constants zero_state
            [page_subframe 4 1 25, page_subframe 5 1 1] = Except.ok sN
          ∧ (almanac_validation sN).1 = false :=
  almanac_validation_spec sample_constants_valid (by decide) (by decide)
    { zero_state with flag_almanac_valid := true, i_WN_A := 3 } zero_state
    [page_subframe 4 1 25, page_subframe 5 1 1] rfl (by decide)

/-! ## Snapshot accessors: claims C17 to C20 -/

/-- C17: for every state `t`, `get_iono` returns a record whose `valid` is
`t.flag_iono_valid` and whose eight coefficients are `d_alpha0` to `d_beta3` of
`t`, and leaves `flag_iono_valid = false`; `get_utc_model` returns a record
whose `valid` is `t.flag_utc_model_valid` and whose `A1`, `A0`, `tot`, `WN_T`,
`DeltaT_LS`, `WN_LSF`, `DN`, `DeltaT_LSF` are those of `t`, and leaves
`flag_utc_model_valid = false`. With a validated table, after a decode of page
56 of subframe 4 the first call of each accessor (in either order) returns
`valid = true` and a second consecutive call returns the same data with
`valid = false`. -/
theorem iono_utc_consume_and_invalidate {D : Type} [Mul D] [IntCast D] {K : Constants D}
    (hK : K.Valid) (t s : Gps_Navigation_Message D) (subframe : List (Fin 256))
    (hid : decoded_field K subframe .SUBFRAME_ID = Except.ok 4)
    (hp : decoded_field K subframe .SV_PAGE = Except.ok 56) :
    ((get_iono t).1
        = { alpha0 := t.d_alpha0, alpha1 := t.d_alpha1, alpha2 := t.d_alpha2,
            alpha3 := t.d_alpha3, beta0 := t.d_beta0, beta1 := t.d_beta1,
            beta2 := t.d_beta2, beta3 := t.d_beta3, valid := t.flag_iono_valid }
      ∧ (get_iono t).2.flag_iono_valid = false
      ∧ (get_utc_model t).1
        = { valid := t.flag_utc_model_valid, A1 := t.d_A1, A0 := t.d_A0, tot := t.d_t_OT,
            WN_T := t.i_WN_T, DeltaT_LS := t.d_DeltaT_LS, WN_LSF := t.i_WN_LSF,
            DN := t.i_DN, DeltaT_LSF := t.d_DeltaT_LSF }
      ∧ (get_utc_model t).2.flag_utc_model_valid = false)
    ∧ ∃ s1, subframe_decoder K s subframe = Except.ok (4, s1)
      ∧ (get_iono s1).1.valid = true
      ∧ (get_utc_model s1).1.valid = true
      ∧ (get_iono (get_iono s1).2).1 = { (get_iono s1).1 with valid := false }
      ∧ (get_utc_model (get_utc_model s1).2).1 = { (get_utc_model s1).1 with valid := false }
      ∧ (get_utc_model (get_iono s1).2).1.valid = true
      ∧ (get_iono (get_utc_model s1).2).1.valid = true := by
  obtain ⟨s1, hdec, h1, h2⟩ := decode_page_18_flags hK s subframe hid hp
  refine ⟨⟨rfl, rfl, rfl, rfl⟩, s1, hdec, ?_, ?_, get_iono_again s1, get_utc_model_again s1,
    ?_, ?_⟩
  · exact (get_iono_valid s1).trans h1
  · exact (get_utc_model_valid s1).trans h2
  · rw [get_utc_model_after_iono]
    exact (get_utc_model_valid s1).trans h2
  · rw [get_iono_after_utc_model]
    exact (get_iono_valid s1).trans h1

set_option maxRecDepth 100000 in
theorem iono_utc_consume_and_invalidate_witness :
    ((get_iono zero_state).1
        = { alpha0 := zero_state.d_alpha0, alpha1 := zero_state.d_alpha1,
            alpha2 := zero_state.d_alpha2, alpha3 := zero_state.d_alpha3,
            beta0 := zero_state.d_beta0, beta1 := zero_state.d_beta1,
            beta2 := zero_state.d_beta2, beta3 := zero_state.d_beta3,
            valid := zero_state.flag_iono_valid }
      ∧ (get_iono zero_state).2.flag_iono_valid = false
      ∧ (get_utc_model zero_state).1
        = { valid := zero_state.flag_utc_model_valid, A1 := zero_state.d_A1,
            A0 := zero_state.d_A0, tot := zero_state.d_t_OT, WN_T := zero_state.i_WN_T,
            DeltaT_LS := zero_state.d_DeltaT_LS, WN_LSF := zero_state.i_WN_LSF,
            DN := zero_state.i_DN, DeltaT_LSF := zero_state.d_DeltaT_LSF }
      ∧ (get_utc_model zero_state).2.flag_utc_model_valid = false)
    ∧ ∃ s1, subframe_decoder sample_constants zero_state (page_subframe 4 1 56)
        = Except.ok (4, s1)
      ∧ (get_iono s1).1.valid = true
      ∧ (get_utc_model s1).1.valid = true
      ∧ (get_iono (get_iono s1).2).1 = { (get_iono s1).1 with valid := false }
      ∧ (get_utc_model (get_utc_model s1).2).1 = { (get_utc_model s1).1 with valid := false }
      ∧ (get_utc_model (get_iono s1).2).1.valid = true
      ∧ (get_iono (get_utc_model s1).2).1.valid = true :=
  iono_utc_consume_and_invalidate sample_constants_valid zero_state zero_state
    (page_subframe 4 1 56) (by decide) (by decide)

/-- C18: with a validated table whose `SV_DATA_ID` field is at most 31 bits
wide, for every pre-state, after a `subframe_decoder` call on an almanac page
(identifier 4 with page in `25..32`, or identifier 5 with page in `1..24`) with
a non-zero data identifier `flag_almanac_valid` is true; `get_almanac` then
returns a record whose `SV_health`, `PRN`, `delta_i`, `toa`, `WNa`, `M_0`,
`ecc`, `sqrtA`, `OMEGA_0`, `omega`, `OMEGAdot`, `af0`, `af1` are the state's
`SV_Health`, `a_PRN`, `a_delta_i`, `i_Toa`, `i_WN_A`, `a_M_0`, `a_ecc`,
`a_sqrtA`, `a_OMEGA_0`, `a_omega`, `a_OMEGAdot`, `a_af0`, `a_af1`, and leaves
`flag_almanac_valid = false`, so that `almanac_validation` on the state it
leaves returns false. -/
theorem almanac_single_delivery {D : Type} [Mul D] [IntCast D] {K : Constants D}
    (hK : K.Valid) (hD : total_length (K.desc .SV_DATA_ID) ≤ 31)
    (s : Gps_Navigation_Message D) (subframe : List (Fin 256)) (id p d : Nat)
    (hid : decoded_field K subframe .SUBFRAME_ID = Except.ok id)
    (hp : decoded_field K subframe .SV_PAGE = Except.ok p)
    (hd : decoded_field K subframe .SV_DATA_ID = Except.ok d)
    (hpage : (id = 4 ∧ 25 ≤ p ∧ p ≤ 32) ∨ (id = 5 ∧ 1 ≤ p ∧ p ≤ 24)) (hd0 : d ≠ 0) :
    ∃ s1, subframe_decoder K s subframe = Except.ok ((id : Int), s1)
      ∧ s1.flag_almanac_valid = true
      ∧ (get_almanac s1).1
        = { SV_health := s1.SV_Health, PRN := s1.a_PRN, delta_i := s1.a_delta_i,
            toa := s1.i_Toa, WNa := s1.i_WN_A, M_0 := s1.a_M_0, ecc := s1.a_ecc,
            sqrtA := s1.a_sqrtA, OMEGA_0 := s1.a_OMEGA_0, omega := s1.a_omega,
            OMEGAdot := s1.a_OMEGAdot, af0 := s1.a_af0, af1 := s1.a_af1 }
      ∧ (get_almanac s1).2.flag_almanac_valid = false
      ∧ (almanac_validation (get_almanac s1).2).1 = false := by
  obtain ⟨s1, hdec, h1⟩ := decode_almanac_flag hK hD s subframe id p d hid hp hd hpage hd0
  exact ⟨s1, hdec, h1, rfl, get_almanac_clears s1,
    almanac_validation_of_flag _ (get_almanac_clears s1)⟩

set_option maxRecDepth 100000 in
theorem almanac_single_delivery_witness :
    ∃ s1, subframe_decoder sample_constants zero_state (page_subframe 5 1 1)
        = Except.ok (((5 : Nat) : Int), s1)
      ∧ s1.flag_almanac_valid = true
      ∧ (get_almanac s1).1
        = { SV_health := s1.SV_Health, PRN := s1.a_PRN, delta_i := s1.a_delta_i,
            toa := s1.i_Toa, WNa := s1.i_WN_A, M_0 := s1.a_M_0, ecc := s1.a_ecc,
            sqrtA := s1.a_sqrtA, OMEGA_0 := s1.a_OMEGA_0, omega := s1.a_omega,
            OMEGAdot := s1.a_OMEGAdot, af0 := s1.a_af0, af1 := s1.a_af1 }
      ∧ (get_almanac s1).2.flag_almanac_valid = false
      ∧ (almanac_validation (get_almanac s1).2).1 = false :=
  almanac_single_delivery sample_constants_valid (by decide) zero_state (page_subframe 5 1 1)
    5 1 1 (by decide) (by decide) (by decide) (by decide) (by decide)

/-- C19, the claim as stated fails: on a state for which `satellite_validation`
returns true, `b_valid_ephemeris_set_flag` is still true after
`get_ephemeris`. -/
theorem get_ephemeris_flag_still_set :
    (satellite_validation ready_state).1 = true
      ∧ (get_ephemeris (satellite_validation ready_state).2).2.b_valid_ephemeris_set_flag
          = true := by
  decide

/-- C19, amended: `get_ephemeris` is a `const` member and consumes nothing: for
every pre-state the state after `get_ephemeris` is the pre-state, so
`b_valid_ephemeris_set_flag` keeps its value; called right after
`satellite_validation`, it leaves the flag equal to the value
`satellite_validation` returned. -/
theorem get_ephemeris_keeps_state {D : Type} (s : Gps_Navigation_Message D) :
    (get_ephemeris s).2 = s
      ∧ (get_ephemeris s).2.b_valid_ephemeris_set_flag = s.b_valid_ephemeris_set_flag
      ∧ (get_ephemeris (satellite_validation s).2).2.b_valid_ephemeris_set_flag
          = (satellite_validation s).1 :=
  ⟨rfl, rfl, (congrArg Gps_Navigation_Message.b_valid_ephemeris_set_flag
    (get_ephemeris_state _)).trans (satellite_validation_flag s)⟩

/-- C20, the claim as stated fails: on a state with the three ephemeris
subframes seen and `b_valid_ephemeris_set_flag` false, `satellite_validation`
leaves the flag true. -/
theorem satellite_validation_changes_flag :
    ready_state.b_valid_ephemeris_set_flag = false
      ∧ (satellite_validation ready_state).2.b_valid_ephemeris_set_flag = true := by
  decide

/-- C20, amended: for every pre-state, `satellite_validation` leaves every
member of the decoder state other than `b_valid_ephemeris_set_flag` equal to
its pre-state value, and sets `b_valid_ephemeris_set_flag` to the value it
returns. -/
theorem satellite_validation_frame {D : Type} (s : Gps_Navigation_Message D) :
    (satellite_validation s).2
      = { s with b_valid_ephemeris_set_flag := (satellite_validation s).1 } :=
  satellite_validation_state s

/-! ## The branches of `utc_time` -/

theorem toInt32_of_fits (x : Int) (h : FitsInt32 x) : toInt32 x = x :=
  toInt32_of_range x h.1 h.2

theorem second_of_event (n : Int) (h : FitsInt32 (n * 86400)) :
    toInt32 (toInt32 (toInt32 (n * 24) * 60) * 60) = n * 86400 := by
  obtain ⟨h1, h2⟩ := h
  have a : toInt32 (n * 24) = n * 24 := toInt32_of_range _ (by omega) (by omega)
  rw [a]
  have b : toInt32 (n * 24 * 60) = n * 24 * 60 := toInt32_of_range _ (by omega) (by omega)
  rw [b]
  have c : toInt32 (n * 24 * 60 * 60) = n * 24 * 60 * 60 :=
    toInt32_of_range _ (by omega) (by omega)
  rw [c]
  ring

section UtcLemmas

variable {D : Type} [LinearOrderedField D] [FloorRing D]

theorem trunc_of_nonneg (x : D) (h : 0 ≤ x) : trunc x = ⌊x⌋ := by
  unfold trunc
  rw [if_pos h]

theorem trunc_of_neg (x : D) (h : x < 0) : trunc x = ⌈x⌉ := by
  unfold trunc
  rw [if_neg (not_le.2 h)]

theorem fmod_nonneg (x y : D) (hy : 0 < y) (hx : 0 ≤ x) : 0 ≤ fmod x y ∧ fmod x y < y := by
  unfold fmod
  rw [trunc_of_nonneg _ (div_nonneg hx hy.le)]
  have h1 : ((⌊x / y⌋ : Int) : D) ≤ x / y := Int.floor_le _
  have h2 : x / y < ((⌊x / y⌋ : Int) : D) + 1 := Int.lt_floor_add_one _
  have h3 : ((⌊x / y⌋ : Int) : D) * y ≤ x := (le_div_iff₀ hy).1 h1
  have h4 : x < (((⌊x / y⌋ : Int) : D) + 1) * y := (div_lt_iff₀ hy).1 h2
  constructor
  · linarith
  · linarith

theorem fmod_neg (x y : D) (hy : 0 < y) (hx : x < 0) : -y < fmod x y ∧ fmod x y ≤ 0 := by
  unfold fmod
  rw [trunc_of_neg _ (div_neg_of_neg_of_pos hx hy)]
  have h1 : x / y ≤ ((⌈x / y⌉ : Int) : D) := Int.le_ceil _
  have h2 : ((⌈x / y⌉ : Int) : D) < x / y + 1 := Int.ceil_lt_add_one _
  have h3 : x ≤ ((⌈x / y⌉ : Int) : D) * y := (div_le_iff₀ hy).1 h1
  have h4 : ((⌈x / y⌉ : Int) : D) * y < (x / y + 1) * y := mul_lt_mul_of_pos_right h2 hy
  have h5 : (x / y + 1) * y = x + y := by
    field_simp
  constructor
  · linarith
  · linarith

theorem fmod_abs_lt (x y : D) (hy : 0 < y) : -y < fmod x y ∧ fmod x y < y := by
  rcases le_or_lt 0 x with hx | hx
  · obtain ⟨a, b⟩ := fmod_nonneg x y hy hx
    exact ⟨by linarith, b⟩
  · obtain ⟨a, b⟩ := fmod_neg x y hy hx
    exact ⟨a, by linarith⟩

theorem trunc_fits (z : D) (h1 : -86400 < z) (h2 : z < 86400) :
    -86400 < trunc z ∧ trunc z < 86400 := by
  rcases le_or_lt 0 z with hz | hz
  · rw [trunc_of_nonneg z hz]
    have a : 0 ≤ ⌊z⌋ := Int.floor_nonneg.2 hz
    have b : ⌊z⌋ < 86400 := Int.floor_lt.2 (by exact_mod_cast h2)
    omega
  · rw [trunc_of_neg z hz]
    have a : ⌈z⌉ ≤ 0 := Int.ceil_le.2 (by exact_mod_cast hz.le)
    have b : -86400 < ⌈z⌉ := Int.lt_ceil.2 (by exact_mod_cast h1)
    omega

/-- The `int32_t` value `W` of the branch 20.3.3.5.2.4b without the narrowings. -/
theorem window_value (x : D) :
    toInt32 (toInt32 (trunc (fmod x 86400)) + 43200) = trunc (fmod x 86400) + 43200 := by
  obtain ⟨a, b⟩ := fmod_abs_lt x (86400 : D) (by norm_num)
  obtain ⟨c, d⟩ := trunc_fits _ a b
  have e : toInt32 (trunc (fmod x 86400)) = trunc (fmod x 86400) :=
    toInt32_of_range _ (by omega) (by omega)
  rw [e]
  exact toInt32_of_range _ (by omega) (by omega)

omit [FloorRing D] in
theorem Delta_t_UTC_eq (s : Gps_Navigation_Message D) (leap : Int) (t : D)
    (h : FitsInt32 (s.i_GPS_week - s.i_WN_T)) :
    Delta_t_UTC s leap t
      = (leap : D) + s.d_A0
        + s.d_A1 * (t - (s.d_t_OT : D) + 604800 * ((s.i_GPS_week - s.i_WN_T : Int) : D)) := by
  unfold Delta_t_UTC
  rw [toInt32_of_fits _ h]

theorem t_utc_daytime_future (s : Gps_Navigation_Message D) (t : D)
    (h : FitsInt32 (s.i_WN_LSF - s.i_GPS_week)) (hw : s.i_WN_LSF > s.i_GPS_week) :
    t_utc_daytime s t = fmod (t - Delta_t_UTC s s.d_DeltaT_LS t) 86400 := by
  unfold t_utc_daytime
  simp only []
  rw [toInt32_of_fits _ h, if_pos (by omega), if_pos (by omega)]

theorem t_utc_daytime_past (s : Gps_Navigation_Message D) (t : D)
    (h : FitsInt32 (s.i_WN_LSF - s.i_GPS_week)) (hw : s.i_WN_LSF < s.i_GPS_week) :
    t_utc_daytime s t = fmod (t - Delta_t_UTC s s.d_DeltaT_LSF t) 86400 := by
  unfold t_utc_daytime
  simp only []
  rw [toInt32_of_fits _ h, if_neg (by omega)]

theorem t_utc_daytime_same_week (s : Gps_Navigation_Message D) (t : D)
    (hw : s.i_WN_LSF = s.i_GPS_week) (hd : FitsInt32 (s.i_DN * 86400)) :
    t_utc_daytime s t
      = if t - ((s.i_DN * 86400 : Int) : D) > 21600 then
          fmod (t - Delta_t_UTC s s.d_DeltaT_LSF t) 86400
        else if |t - ((s.i_DN * 86400 : Int) : D)| > 21600 then
          fmod (t - Delta_t_UTC s s.d_DeltaT_LS t) 86400
        else
          fmod ((toInt32 (toInt32 (trunc
              (fmod (t - Delta_t_UTC s s.d_DeltaT_LS t - 43200) 86400)) + 43200) : Int) : D)
            ((toInt32 (toInt32 (86400 + s.d_DeltaT_LSF) - s.d_DeltaT_LS) : Int) : D) := by
  unfold t_utc_daytime
  simp only []
  have e : toInt32 (s.i_WN_LSF - s.i_GPS_week) = 0 := by
    rw [hw, sub_self]; rfl
  rw [e, if_pos (le_refl 0), if_neg (lt_irrefl 0), second_of_event _ hd]

end UtcLemmas

section UtcValue

variable {D : Type} [LinearOrderedField D] [FloorRing D]

theorem utc_time_value (s : Gps_Navigation_Message D) (t : D) :
    (utc_time s t).1 = 43200 * ((⌊t / 43200⌋ : Int) : D) + t_utc_daytime s t := rfl

theorem utc_time_state (s : Gps_Navigation_Message D) (t : D) : (utc_time s t).2 = s := rfl

theorem fmod_eq_self (x y : D) (hy : 0 < y) (h1 : -y < x) (h2 : x < y) : fmod x y = x := by
  unfold fmod
  rcases le_or_lt 0 x with hx | hx
  · rw [trunc_of_nonneg _ (div_nonneg hx hy.le)]
    have e : ⌊x / y⌋ = 0 := by
      rw [Int.floor_eq_iff]
      constructor
      · simpa using div_nonneg hx hy.le
      · simpa using (div_lt_one hy).2 h2
    rw [e]
    simp
  · rw [trunc_of_neg _ (div_neg_of_neg_of_pos hx hy)]
    have e : ⌈x / y⌉ = 0 := by
      rw [Int.ceil_eq_iff]
      constructor
      · have : -1 < x / y := by
          rw [lt_div_iff₀ hy]
          linarith
        simpa using this
      · simpa using (div_neg_of_neg_of_pos hx hy).le
    rw [e]
    simp

/-- The leap-second week in the future: the value of `utc_time`. -/
theorem utc_time_future (s : Gps_Navigation_Message D) (t : D)
    (h1 : FitsInt32 (s.i_WN_LSF - s.i_GPS_week)) (h2 : FitsInt32 (s.i_GPS_week - s.i_WN_T))
    (hw : s.i_WN_LSF > s.i_GPS_week) :
    (utc_time s t).1
      = 43200 * ((⌊t / 43200⌋ : Int) : D)
        + fmod (t - ((s.d_DeltaT_LS : D) + s.d_A0
            + s.d_A1 * (t - (s.d_t_OT : D) + 604800 * ((s.i_GPS_week - s.i_WN_T : Int) : D))))
          86400 := by
  rw [utc_time_value, t_utc_daytime_future s t h1 hw, Delta_t_UTC_eq s _ t h2]

/-- The leap-second week in the past: the value of `utc_time`. -/
theorem utc_time_past (s : Gps_Navigation_Message D) (t : D)
    (h1 : FitsInt32 (s.i_WN_LSF - s.i_GPS_week)) (h2 : FitsInt32 (s.i_GPS_week - s.i_WN_T))
    (hw : s.i_WN_LSF < s.i_GPS_week) :
    (utc_time s t).1
      = 43200 * ((⌊t / 43200⌋ : Int) : D)
        + fmod (t - ((s.d_DeltaT_LSF : D) + s.d_A0
            + s.d_A1 * (t - (s.d_t_OT : D) + 604800 * ((s.i_GPS_week - s.i_WN_T : Int) : D))))
          86400 := by
  rw [utc_time_value, t_utc_daytime_past s t h1 hw, Delta_t_UTC_eq s _ t h2]

end UtcValue

section UtcSameWeek

variable {D : Type} [LinearOrderedField D] [FloorRing D]

/-- The leap-second event in the current week: the day-time component in its
three cases. -/
theorem t_utc_daytime_current (s : Gps_Navigation_Message D) (t : D)
    (hw : s.i_WN_LSF = s.i_GPS_week) (hd : FitsInt32 (86400 * s.i_DN))
    (hl1 : FitsInt32 (86400 + s.d_DeltaT_LSF))
    (hl2 : FitsInt32 (86400 + s.d_DeltaT_LSF - s.d_DeltaT_LS)) :
    (t - ((86400 * s.i_DN : Int) : D) < -21600 →
        t_utc_daytime s t = fmod (t - Delta_t_UTC s s.d_DeltaT_LS t) 86400)
      ∧ (t - ((86400 * s.i_DN : Int) : D) > 21600 →
        t_utc_daytime s t = fmod (t - Delta_t_UTC s s.d_DeltaT_LSF t) 86400)
      ∧ (|t - ((86400 * s.i_DN : Int) : D)| ≤ 21600 →
        t_utc_daytime s t
          = fmod ((trunc (fmod (t - Delta_t_UTC s s.d_DeltaT_LS t - 43200) 86400) + 43200 : Int) : D)
              ((86400 + s.d_DeltaT_LSF - s.d_DeltaT_LS : Int) : D)) := by
  have hd2 : FitsInt32 (s.i_DN * 86400) := by
    rw [mul_comm]; exact hd
  have hc : s.i_DN * 86400 = 86400 * s.i_DN := mul_comm _ _
  have key := t_utc_daytime_same_week s t hw hd2
  rw [hc, window_value, toInt32_of_fits _ hl1, toInt32_of_fits _ hl2] at key
  refine ⟨fun h => ?_, fun h => ?_, fun h => ?_⟩
  · have a : ¬ (t - ((86400 * s.i_DN : Int) : D) > 21600) := by
      intro c
      linarith
    have b : |t - ((86400 * s.i_DN : Int) : D)| > 21600 := by
      rw [gt_iff_lt, lt_abs]
      right
      linarith
    rw [key, if_neg a, if_pos b]
  · rw [key, if_pos h]
  · obtain ⟨h1, h2⟩ := abs_le.1 h
    have a : ¬ (t - ((86400 * s.i_DN : Int) : D) > 21600) := not_lt.2 h2
    have b : ¬ (|t - ((86400 * s.i_DN : Int) : D)| > 21600) := not_lt.2 h
    rw [key, if_neg a, if_neg b]

omit [FloorRing D] in
theorem window_cases (x : D) :
    (x < -21600 ∨ x > 21600 ∨ |x| ≤ 21600)
      ∧ ¬ (x < -21600 ∧ x > 21600) ∧ ¬ (x < -21600 ∧ |x| ≤ 21600)
      ∧ ¬ (x > 21600 ∧ |x| ≤ 21600) := by
  refine ⟨?_, ?_, ?_, ?_⟩
  · rcases lt_or_le x (-21600) with h | h
    · exact Or.inl h
    · rcases lt_or_le 21600 x with h2 | h2
      · exact Or.inr (Or.inl h2)
      · exact Or.inr (Or.inr (abs_le.2 ⟨h, h2⟩))
  · rintro ⟨a, b⟩
    linarith
  · rintro ⟨a, b⟩
    have := (abs_le.1 b).1
    linarith
  · rintro ⟨a, b⟩
    have := (abs_le.1 b).2
    linarith

end UtcSameWeek

/-! ## The health table after a page of health values -/

section HealthLemmas

variable {D : Type}

theorem health_update_of_not_mem (K : Constants D) (bits : Frame) (table : List (Nat × Field))
    (v : Nat) (hv : v ∉ table.map Prod.fst) :
    ∀ h : Nat → Int, health_update K bits table h v = h v := by
  induction table with
  | nil => intro h; rfl
  | cons p ps ih =>
    intro h
    have h1 : v ≠ p.1 := fun e => hv (by simp [e])
    have h2 : v ∉ ps.map Prod.fst := fun e => hv (by simp only [List.map_cons]; exact List.mem_cons_of_mem _ e)
    show health_update K bits ps (Function.update h p.1 (i32_value K bits p.2)) v = h v
    rw [ih h2, Function.update_noteq h1]

theorem health_update_of_mem (K : Constants D) (bits : Frame) (table : List (Nat × Field))
    (hnd : (table.map Prod.fst).Nodup) (p : Nat × Field) (hp : p ∈ table) :
    ∀ h : Nat → Int, health_update K bits table h p.1 = i32_value K bits p.2 := by
  induction table with
  | nil => cases hp
  | cons q qs ih =>
    intro h
    rw [List.map_cons, List.nodup_cons] at hnd
    show health_update K bits qs (Function.update h q.1 (i32_value K bits q.2)) p.1 = _
    rcases List.mem_cons.1 hp with e | e
    · subst e
      rw [health_update_of_not_mem K bits qs p.1 hnd.1, Function.update_same]
    · exact ih hnd.2 e _

theorem health_states_eq (K : Constants D) (bits : Frame) (table : List (Nat × Field)) :
    ∀ s : Gps_Navigation_Message D,
      health_states K bits table s
        = { s with almanacHealth := health_update K bits table s.almanacHealth } := by
  induction table with
  | nil => intro s; rfl
  | cons p ps ih =>
    intro s
    show health_states K bits ps (health_state K bits p.1 p.2 s) = _
    rw [ih]
    rfl

theorem page_25_sf4_state_eq (K : Constants D) (bits : Frame) (s : Gps_Navigation_Message D) :
    page_25_sf4_state K bits s
      = { s with almanacHealth := health_update K bits health_fields_4 s.almanacHealth } := by
  rw [← health_states_eq]
  rfl

theorem page_25_sf5_state_eq (K : Constants D) (bits : Frame) (s : Gps_Navigation_Message D) :
    page_25_sf5_state K bits s
      = { s with
          i_Toa := i32_times_value K bits .T_OA (K.ilsb .T_OA),
          i_WN_A := i32_value K bits .WN_A,
          flag_almanac_week_valid := true,
          almanacHealth := health_update K bits health_fields_5 s.almanacHealth } := by
  have h := health_states_eq K bits health_fields_5
    { s with
      i_Toa := i32_times_value K bits .T_OA (K.ilsb .T_OA),
      i_WN_A := i32_value K bits .WN_A,
      flag_almanac_week_valid := true }
  exact Eq.trans rfl h

end HealthLemmas

/-! ## The other pages of subframes 4 and 5 -/

section OtherPages

variable {D : Type} [Mul D] [IntCast D]

theorem switch_state_two (K : Constants D) (bits : Frame) (s : Gps_Navigation_Message D) :
    switch_state K bits 2 s = subframe_2_state K bits s := by
  unfold switch_state
  rw [if_neg (show ¬ ((2 : Int) = 1) by decide), if_pos (show (2 : Int) = 2 from rfl)]

theorem switch_state_three (K : Constants D) (bits : Frame) (s : Gps_Navigation_Message D) :
    switch_state K bits 3 s = subframe_3_state K bits s := by
  unfold switch_state
  rw [if_neg (show ¬ ((3 : Int) = 1) by decide), if_neg (show ¬ ((3 : Int) = 2) by decide),
    if_pos (show (3 : Int) = 3 from rfl)]

omit [Mul D] [IntCast D] in
theorem page_25_sf4_step_on (K : Constants D) (bits : Frame) (s : Gps_Navigation_Message D)
    (h : i32_value K bits .SV_PAGE = 63) :
    page_25_sf4_step K bits s = page_25_sf4_state K bits s := by
  unfold page_25_sf4_step
  rw [if_pos h]

omit [Mul D] [IntCast D] in
theorem page_25_sf5_step_on (K : Constants D) (bits : Frame) (s : Gps_Navigation_Message D)
    (h : i32_value K bits .SV_PAGE = 51) :
    page_25_sf5_step K bits s = page_25_sf5_state K bits s := by
  unfold page_25_sf5_step
  rw [if_pos h]

/-- The state after `case 4` on a page no block of the dispatch handles. -/
theorem subframe_4_state_other (K : Constants D) (bits : Frame)
    (s : Gps_Navigation_Message D)
    (h1 : ¬ ((i32_value K bits .SV_PAGE > 24 ∧ i32_value K bits .SV_PAGE < 33)
      ∧ i32_value K bits .SV_DATA_ID ≠ 0))
    (h2 : i32_value K bits .SV_PAGE ≠ 56) (h3 : i32_value K bits .SV_PAGE ≠ 63) :
    subframe_4_state K bits s = header_4_state K bits s := by
  unfold subframe_4_state
  rw [almanac_4_step_off K bits _ h1, page_18_step_off K bits _ h2,
    page_25_sf4_step_off K bits _ h3]

/-- The state after `case 4` on the health page. -/
theorem subframe_4_state_page_25 (K : Constants D) (bits : Frame)
    (s : Gps_Navigation_Message D) (h : i32_value K bits .SV_PAGE = 63) :
    subframe_4_state K bits s = page_25_sf4_state K bits (header_4_state K bits s) := by
  unfold subframe_4_state
  rw [almanac_4_step_off K bits _ (fun h1 => by omega), page_18_step_off K bits _ (by omega),
    page_25_sf4_step_on K bits _ h]

/-- The state after `case 5` on the page of the reference week. -/
theorem subframe_5_state_page_25 (K : Constants D) (bits : Frame)
    (s : Gps_Navigation_Message D) (h : i32_value K bits .SV_PAGE = 51) :
    subframe_5_state K bits s = page_25_sf5_state K bits (header_5_state K bits s) := by
  unfold subframe_5_state
  rw [almanac_5_step_off K bits _ (fun h1 => by omega), page_25_sf5_step_on K bits _ h]

end OtherPages

/-! ## Members a decode leaves alone, as one equation -/

section Frames

variable {D : Type}

theorem header_4_state_frame (K : Constants D) (bits : Frame) (s : Gps_Navigation_Message D) :
    header_4_state K bits s
      = { s with
          d_TOW_SF4 := (header_4_state K bits s).d_TOW_SF4,
          d_TOW := (header_4_state K bits s).d_TOW,
          b_integrity_status_flag := (header_4_state K bits s).b_integrity_status_flag,
          b_alert_flag := (header_4_state K bits s).b_alert_flag,
          b_antispoofing_flag := (header_4_state K bits s).b_antispoofing_flag } := by
  unfold header_4_state
  rfl

theorem health_page_4_frame (s t s1 : Gps_Navigation_Message D) (a b : Int) (f1 f2 f3 : Bool)
    (H : Nat → Int)
    (ht : t = { s with
      d_TOW_SF4 := a, d_TOW := b, b_integrity_status_flag := f1, b_alert_flag := f2,
      b_antispoofing_flag := f3 })
    (h1 : s1 = { t with almanacHealth := H }) :
    s1 = { s with
        d_TOW_SF4 := s1.d_TOW_SF4, d_TOW := s1.d_TOW,
        b_integrity_status_flag := s1.b_integrity_status_flag,
        b_alert_flag := s1.b_alert_flag,
        b_antispoofing_flag := s1.b_antispoofing_flag,
        almanacHealth := s1.almanacHealth }
      ∧ s1.almanacHealth = H := by
  subst ht
  subst h1
  exact ⟨rfl, rfl⟩

theorem health_page_5_frame (s t s1 : Gps_Navigation_Message D) (a b : Int) (f1 f2 f3 : Bool)
    (toa wna : Int) (H : Nat → Int)
    (ht : t = { s with
      d_TOW_SF5 := a, d_TOW := b, b_integrity_status_flag := f1, b_alert_flag := f2,
      b_antispoofing_flag := f3 })
    (h1 : s1 = { t with
      i_Toa := toa, i_WN_A := wna, flag_almanac_week_valid := true, almanacHealth := H }) :
    s1 = { s with
        d_TOW_SF5 := s1.d_TOW_SF5, d_TOW := s1.d_TOW,
        b_integrity_status_flag := s1.b_integrity_status_flag,
        b_alert_flag := s1.b_alert_flag,
        b_antispoofing_flag := s1.b_antispoofing_flag,
        i_Toa := s1.i_Toa, i_WN_A := s1.i_WN_A, flag_almanac_week_valid := true,
        almanacHealth := s1.almanacHealth }
      ∧ s1.almanacHealth = H ∧ s1.i_Toa = toa ∧ s1.i_WN_A = wna
      ∧ (get_almanac s1).1 = { (get_almanac s).1 with toa := s1.i_Toa, WNa := s1.i_WN_A } := by
  subst ht
  subst h1
  exact ⟨rfl, rfl, rfl, rfl, rfl⟩

theorem header_4_state_almanacHealth (K : Constants D) (bits : Frame)
    (s : Gps_Navigation_Message D) :
    (header_4_state K bits s).almanacHealth = s.almanacHealth := by
  unfold header_4_state
  rfl

theorem header_5_state_almanacHealth (K : Constants D) (bits : Frame)
    (s : Gps_Navigation_Message D) :
    (header_5_state K bits s).almanacHealth = s.almanacHealth := by
  unfold header_5_state
  rfl

/-- The state after the health page of subframe 4. -/
theorem page_25_sf4_frame (K : Constants D) (bits : Frame) (s s1 : Gps_Navigation_Message D)
    (h : s1 = page_25_sf4_state K bits (header_4_state K bits s)) :
    s1 = { s with
        d_TOW_SF4 := s1.d_TOW_SF4, d_TOW := s1.d_TOW,
        b_integrity_status_flag := s1.b_integrity_status_flag,
        b_alert_flag := s1.b_alert_flag,
        b_antispoofing_flag := s1.b_antispoofing_flag,
        almanacHealth := s1.almanacHealth }
      ∧ s1.almanacHealth = health_update K bits health_fields_4 s.almanacHealth := by
  have h1 := h.trans (page_25_sf4_state_eq K bits (header_4_state K bits s))
  rw [header_4_state_almanacHealth] at h1
  exact health_page_4_frame s (header_4_state K bits s) s1
    (i32_times_value K bits .TOW 6) (i32_times_value K bits .TOW 6)
    (flag_value K bits .INTEGRITY_STATUS_FLAG) (flag_value K bits .ALERT_FLAG)
    (flag_value K bits .ANTI_SPOOFING_FLAG) _ rfl h1

/-- The state after the reference-week page of subframe 5. -/
theorem page_25_sf5_frame (K : Constants D) (bits : Frame) (s s1 : Gps_Navigation_Message D)
    (h : s1 = page_25_sf5_state K bits (header_5_state K bits s)) :
    s1 = { s with
        d_TOW_SF5 := s1.d_TOW_SF5, d_TOW := s1.d_TOW,
        b_integrity_status_flag := s1.b_integrity_status_flag,
        b_alert_flag := s1.b_alert_flag,
        b_antispoofing_flag := s1.b_antispoofing_flag,
        i_Toa := s1.i_Toa, i_WN_A := s1.i_WN_A, flag_almanac_week_valid := true,
        almanacHealth := s1.almanacHealth }
      ∧ s1.almanacHealth = health_update K bits health_fields_5 s.almanacHealth
      ∧ s1.i_Toa = i32_times_value K bits .T_OA (K.ilsb .T_OA)
      ∧ s1.i_WN_A = i32_value K bits .WN_A
      ∧ (get_almanac s1).1 = { (get_almanac s).1 with toa := s1.i_Toa, WNa := s1.i_WN_A } := by
  have h1 := h.trans (page_25_sf5_state_eq K bits (header_5_state K bits s))
  rw [header_5_state_almanacHealth] at h1
  exact health_page_5_frame s (header_5_state K bits s) s1
    (i32_times_value K bits .TOW 6) (i32_times_value K bits .TOW 6)
    (flag_value K bits .INTEGRITY_STATUS_FLAG) (flag_value K bits .ALERT_FLAG)
    (flag_value K bits .ANTI_SPOOFING_FLAG) _ _ _ rfl h1

end Frames

/-! ## Members the ephemeris subframes assign -/

section EphemerisFrames

variable {D : Type} [Mul D] [IntCast D]

theorem subframe_1_state_frame (K : Constants D) (bits : Frame) (s : Gps_Navigation_Message D) :
    subframe_1_state K bits s
      = { s with
          d_TOW_SF1 := (subframe_1_state K bits s).d_TOW_SF1,
          d_TOW := (subframe_1_state K bits s).d_TOW,
          b_integrity_status_flag := (subframe_1_state K bits s).b_integrity_status_flag,
          b_alert_flag := (subframe_1_state K bits s).b_alert_flag,
          b_antispoofing_flag := (subframe_1_state K bits s).b_antispoofing_flag,
          i_GPS_week := (subframe_1_state K bits s).i_GPS_week,
          i_SV_accuracy := (subframe_1_state K bits s).i_SV_accuracy,
          i_SV_health := (subframe_1_state K bits s).i_SV_health,
          b_L2_P_data_flag := (subframe_1_state K bits s).b_L2_P_data_flag,
          i_code_on_L2 := (subframe_1_state K bits s).i_code_on_L2,
          d_TGD := (subframe_1_state K bits s).d_TGD,
          d_IODC := (subframe_1_state K bits s).d_IODC,
          d_Toc := (subframe_1_state K bits s).d_Toc,
          d_A_f0 := (subframe_1_state K bits s).d_A_f0,
          d_A_f1 := (subframe_1_state K bits s).d_A_f1,
          d_A_f2 := (subframe_1_state K bits s).d_A_f2 } := by
  unfold subframe_1_state
  rfl

theorem subframe_2_state_frame (K : Constants D) (bits : Frame) (s : Gps_Navigation_Message D) :
    subframe_2_state K bits s
      = { s with
          d_TOW_SF2 := (subframe_2_state K bits s).d_TOW_SF2,
          d_TOW := (subframe_2_state K bits s).d_TOW,
          b_integrity_status_flag := (subframe_2_state K bits s).b_integrity_status_flag,
          b_alert_flag := (subframe_2_state K bits s).b_alert_flag,
          b_antispoofing_flag := (subframe_2_state K bits s).b_antispoofing_flag,
          d_IODE_SF2 := (subframe_2_state K bits s).d_IODE_SF2,
          d_Crs := (subframe_2_state K bits s).d_Crs,
          d_Delta_n := (subframe_2_state K bits s).d_Delta_n,
          d_M_0 := (subframe_2_state K bits s).d_M_0,
          d_Cuc := (subframe_2_state K bits s).d_Cuc,
          d_e_eccentricity := (subframe_2_state K bits s).d_e_eccentricity,
          d_Cus := (subframe_2_state K bits s).d_Cus,
          d_sqrt_A := (subframe_2_state K bits s).d_sqrt_A,
          d_Toe := (subframe_2_state K bits s).d_Toe,
          b_fit_interval_flag := (subframe_2_state K bits s).b_fit_interval_flag,
          i_AODO := (subframe_2_state K bits s).i_AODO } := by
  unfold subframe_2_state
  rfl

theorem subframe_3_state_frame (K : Constants D) (bits : Frame) (s : Gps_Navigation_Message D) :
    subframe_3_state K bits s
      = { s with
          d_TOW_SF3 := (subframe_3_state K bits s).d_TOW_SF3,
          d_TOW := (subframe_3_state K bits s).d_TOW,
          b_integrity_status_flag := (subframe_3_state K bits s).b_integrity_status_flag,
          b_alert_flag := (subframe_3_state K bits s).b_alert_flag,
          b_antispoofing_flag := (subframe_3_state K bits s).b_antispoofing_flag,
          d_Cic := (subframe_3_state K bits s).d_Cic,
          d_OMEGA0 := (subframe_3_state K bits s).d_OMEGA0,
          d_Cis := (subframe_3_state K bits s).d_Cis,
          d_i_0 := (subframe_3_state K bits s).d_i_0,
          d_Crc := (subframe_3_state K bits s).d_Crc,
          d_OMEGA := (subframe_3_state K bits s).d_OMEGA,
          d_OMEGA_DOT := (subframe_3_state K bits s).d_OMEGA_DOT,
          d_IODE_SF3 := (subframe_3_state K bits s).d_IODE_SF3,
          d_IDOT := (subframe_3_state K bits s).d_IDOT } := by
  unfold subframe_3_state
  rfl

end EphemerisFrames

/-! ## The ephemeris-consistency property across calls -/

section ConsistencyLemmas

variable {D : Type}

theorem ephemerisConsistent_of_view (s s1 : Gps_Navigation_Message D)
    (h : ephemeris_view s1 = ephemeris_view s) (hs : EphemerisConsistent s) :
    EphemerisConsistent s1 := by
  unfold ephemeris_view at h
  simp only [Prod.mk.injEq] at h
  obtain ⟨e1, e2, e3, e4, e5, e6, e7⟩ := h
  unfold EphemerisConsistent at hs ⊢
  rw [e1, e2, e3, e4, e5, e6, e7]
  exact hs

theorem satellite_validation_consistent (s : Gps_Navigation_Message D) :
    EphemerisConsistent (satellite_validation s).2 := by
  intro h
  rw [satellite_validation_flag] at h
  obtain ⟨a1, a2, a3, a4, a5, _⟩ := (satellite_validation_true_iff s).1 h
  have e := satellite_validation_state s
  have c1 : (satellite_validation s).2.d_IODE_SF2 = s.d_IODE_SF2 := by
    rw [e]
  have c2 : (satellite_validation s).2.d_IODE_SF3 = s.d_IODE_SF3 := by
    rw [e]
  have c3 : (satellite_validation s).2.d_IODC = s.d_IODC := by
    rw [e]
  have c4 : (satellite_validation s).2.d_TOW_SF1 = s.d_TOW_SF1 := by
    rw [e]
  have c5 : (satellite_validation s).2.d_TOW_SF2 = s.d_TOW_SF2 := by
    rw [e]
  have c6 : (satellite_validation s).2.d_TOW_SF3 = s.d_TOW_SF3 := by
    rw [e]
  rw [c1, c2, c3, c4, c5, c6]
  exact ⟨a4, by rw [← a4]; exact a5.symm, a1, a2, a3⟩

theorem get_almanac_view (s : Gps_Navigation_Message D) :
    ephemeris_view (get_almanac s).2 = ephemeris_view s := rfl

theorem get_iono_view (s : Gps_Navigation_Message D) :
    ephemeris_view (get_iono s).2 = ephemeris_view s := rfl

theorem get_utc_model_view (s : Gps_Navigation_Message D) :
    ephemeris_view (get_utc_model s).2 = ephemeris_view s := rfl

theorem header_4_state_view (K : Constants D) (bits : Frame) (s : Gps_Navigation_Message D) :
    ephemeris_view (header_4_state K bits s) = ephemeris_view s := by
  unfold header_4_state ephemeris_view
  rfl

theorem header_5_state_view (K : Constants D) (bits : Frame) (s : Gps_Navigation_Message D) :
    ephemeris_view (header_5_state K bits s) = ephemeris_view s := by
  unfold header_5_state ephemeris_view
  rfl

theorem page_25_sf4_state_view (K : Constants D) (bits : Frame)
    (s : Gps_Navigation_Message D) :
    ephemeris_view (page_25_sf4_state K bits s) = ephemeris_view s := by
  rw [page_25_sf4_state_eq]
  rfl

theorem page_25_sf5_state_view (K : Constants D) (bits : Frame)
    (s : Gps_Navigation_Message D) :
    ephemeris_view (page_25_sf5_state K bits s) = ephemeris_view s := by
  rw [page_25_sf5_state_eq]
  unfold ephemeris_view
  rfl

theorem page_25_sf4_step_view (K : Constants D) (bits : Frame)
    (s : Gps_Navigation_Message D) :
    ephemeris_view (page_25_sf4_step K bits s) = ephemeris_view s := by
  by_cases h : i32_value K bits .SV_PAGE = 63
  · rw [page_25_sf4_step_on K bits s h]
    exact page_25_sf4_state_view K bits s
  · rw [page_25_sf4_step_off K bits s h]

theorem page_25_sf5_step_view (K : Constants D) (bits : Frame)
    (s : Gps_Navigation_Message D) :
    ephemeris_view (page_25_sf5_step K bits s) = ephemeris_view s := by
  by_cases h : i32_value K bits .SV_PAGE = 51
  · rw [page_25_sf5_step_on K bits s h]
    exact page_25_sf5_state_view K bits s
  · rw [page_25_sf5_step_off K bits s h]

end ConsistencyLemmas

section ConsistencyDecoder

variable {D : Type} [Mul D] [IntCast D]

theorem almanac_4_state_view (K : Constants D) (bits : Frame) (page : Int)
    (s : Gps_Navigation_Message D) :
    ephemeris_view (almanac_4_state K bits page s) = ephemeris_view s := by
  unfold almanac_4_state ephemeris_view
  rfl

theorem almanac_5_state_view (K : Constants D) (bits : Frame) (page : Int)
    (s : Gps_Navigation_Message D) :
    ephemeris_view (almanac_5_state K bits page s) = ephemeris_view s := by
  unfold almanac_5_state ephemeris_view
  rfl

theorem page_18_state_view (K : Constants D) (bits : Frame) (s : Gps_Navigation_Message D) :
    ephemeris_view (page_18_state K bits s) = ephemeris_view s := by
  unfold page_18_state ephemeris_view
  rfl

theorem almanac_4_step_view (K : Constants D) (bits : Frame) (s : Gps_Navigation_Message D) :
    ephemeris_view (almanac_4_step K bits s) = ephemeris_view s := by
  by_cases h : (i32_value K bits .SV_PAGE > 24 ∧ i32_value K bits .SV_PAGE < 33)
      ∧ i32_value K bits .SV_DATA_ID ≠ 0
  · rw [almanac_4_step_on K bits s h.1 h.2]
    exact almanac_4_state_view K bits _ s
  · rw [almanac_4_step_off K bits s h]

theorem almanac_5_step_view (K : Constants D) (bits : Frame) (s : Gps_Navigation_Message D) :
    ephemeris_view (almanac_5_step K bits s) = ephemeris_view s := by
  by_cases h : (i32_value K bits .SV_PAGE > 0 ∧ i32_value K bits .SV_PAGE < 25)
      ∧ i32_value K bits .SV_DATA_ID ≠ 0
  · rw [almanac_5_step_on K bits s h.1 h.2]
    exact almanac_5_state_view K bits _ s
  · rw [almanac_5_step_off K bits s h]

theorem page_18_step_view (K : Constants D) (bits : Frame) (s : Gps_Navigation_Message D) :
    ephemeris_view (page_18_step K bits s) = ephemeris_view s := by
  by_cases h : i32_value K bits .SV_PAGE = 56
  · rw [page_18_step_on K bits s h]
    exact page_18_state_view K bits s
  · rw [page_18_step_off K bits s h]

theorem subframe_4_state_view (K : Constants D) (bits : Frame)
    (s : Gps_Navigation_Message D) :
    ephemeris_view (subframe_4_state K bits s) = ephemeris_view s := by
  unfold subframe_4_state
  exact (page_25_sf4_step_view K bits _).trans ((page_18_step_view K bits _).trans
    ((almanac_4_step_view K bits _).trans (header_4_state_view K bits s)))

theorem subframe_5_state_view (K : Constants D) (bits : Frame)
    (s : Gps_Navigation_Message D) :
    ephemeris_view (subframe_5_state K bits s) = ephemeris_view s := by
  unfold subframe_5_state
  exact (page_25_sf5_step_view K bits _).trans
    ((almanac_5_step_view K bits _).trans (header_5_state_view K bits s))

/-- Outside the identifiers 1 to 3 the switch leaves the members of the
ephemeris-consistency property alone. -/
theorem switch_state_view (K : Constants D) (bits : Frame) (id : Int)
    (s : Gps_Navigation_Message D) (h : ¬ (1 ≤ id ∧ id ≤ 3)) :
    ephemeris_view (switch_state K bits id s) = ephemeris_view s := by
  by_cases h4 : id = 4
  · subst h4
    rw [switch_state_four]
    exact subframe_4_state_view K bits s
  by_cases h5 : id = 5
  · subst h5
    rw [switch_state_five]
    exact subframe_5_state_view K bits s
  unfold switch_state
  rw [if_neg (by omega), if_neg (by omega), if_neg (by omega), if_neg h4, if_neg h5]

/-- The switch never assigns `b_valid_ephemeris_set_flag`. -/
theorem subframe_2_state_ready_flag (K : Constants D) (bits : Frame)
    (s : Gps_Navigation_Message D) :
    (subframe_2_state K bits s).b_valid_ephemeris_set_flag = s.b_valid_ephemeris_set_flag
      ∧ (subframe_2_state K bits s).d_IODE_SF3 = s.d_IODE_SF3
      ∧ (subframe_2_state K bits s).d_IODE_SF2 = i32_value K bits .IODE_SF2 := by
  unfold subframe_2_state
  exact ⟨rfl, rfl, rfl⟩

end ConsistencyDecoder

/-! ## Conversion to UTC: claims C21 to C24 -/

/-- C21: with exact arithmetic, for every state in which the `int32_t`
differences `i_WN_LSF - i_GPS_week` and `i_GPS_week - i_WN_T` do not overflow
and `i_WN_LSF > i_GPS_week`, and for every input `t`,
`utc_time(t) = 43200 * floor(t / 43200) + fmod(t - D, 86400)` with
`D = d_DeltaT_LS + d_A0 + d_A1 * (t - d_t_OT + 604800 * (i_GPS_week - i_WN_T))`;
the members `d_DeltaT_LSF` and `i_DN` do not influence the result. -/
theorem utc_time_leap_week_future {D : Type} [LinearOrderedField D] [FloorRing D]
    (s : Gps_Navigation_Message D) (t : D)
    (h1 : FitsInt32 (s.i_WN_LSF - s.i_GPS_week)) (h2 : FitsInt32 (s.i_GPS_week - s.i_WN_T))
    (hw : s.i_WN_LSF > s.i_GPS_week) :
    (utc_time s t).1
        = 43200 * ((⌊t / 43200⌋ : Int) : D)
          + fmod (t - ((s.d_DeltaT_LS : D) + s.d_A0
              + s.d_A1 * (t - (s.d_t_OT : D)
                  + 604800 * ((s.i_GPS_week - s.i_WN_T : Int) : D))))
            86400
      ∧ ∀ x y : Int,
          (utc_time { s with d_DeltaT_LSF := x, i_DN := y } t).1 = (utc_time s t).1 := by
  refine ⟨utc_time_future s t h1 h2 hw, fun x y => ?_⟩
  rw [utc_time_future s t h1 h2 hw,
    utc_time_future { s with d_DeltaT_LSF := x, i_DN := y } t h1 h2 hw]

theorem utc_time_leap_week_future_witness :
    (utc_time (utc_state 102) 50000).1
        = 43200 * ((⌊(50000 : ℚ) / 43200⌋ : Int) : ℚ)
          + fmod (50000 - (((utc_state 102).d_DeltaT_LS : ℚ) + (utc_state 102).d_A0
              + (utc_state 102).d_A1 * (50000 - ((utc_state 102).d_t_OT : ℚ)
                  + 604800 * (((utc_state 102).i_GPS_week - (utc_state 102).i_WN_T : Int) : ℚ))))
            86400
      ∧ ∀ x y : Int,
          (utc_time { utc_state 102 with d_DeltaT_LSF := x, i_DN := y } 50000).1
            = (utc_time (utc_state 102) 50000).1 :=
  utc_time_leap_week_future (utc_state 102) 50000 (by decide) (by decide) (by decide)

/-- C22: with exact arithmetic, for every state in which the `int32_t`
differences `i_WN_LSF - i_GPS_week` and `i_GPS_week - i_WN_T` do not overflow
and `i_WN_LSF < i_GPS_week`, and for every input `t`,
`utc_time(t) = 43200 * floor(t / 43200) + fmod(t - D', 86400)` with
`D' = d_DeltaT_LSF + d_A0 + d_A1 * (t - d_t_OT + 604800 * (i_GPS_week - i_WN_T))`;
the result does not depend on `d_DeltaT_LS` or on `i_DN`. -/
theorem utc_time_leap_week_past {D : Type} [LinearOrderedField D] [FloorRing D]
    (s : Gps_Navigation_Message D) (t : D)
    (h1 : FitsInt32 (s.i_WN_LSF - s.i_GPS_week)) (h2 : FitsInt32 (s.i_GPS_week - s.i_WN_T))
    (hw : s.i_WN_LSF < s.i_GPS_week) :
    (utc_time s t).1
        = 43200 * ((⌊t / 43200⌋ : Int) : D)
          + fmod (t - ((s.d_DeltaT_LSF : D) + s.d_A0
              + s.d_A1 * (t - (s.d_t_OT : D)
                  + 604800 * ((s.i_GPS_week - s.i_WN_T : Int) : D))))
            86400
      ∧ ∀ x y : Int,
          (utc_time { s with d_DeltaT_LS := x, i_DN := y } t).1 = (utc_time s t).1 := by
  refine ⟨utc_time_past s t h1 h2 hw, fun x y => ?_⟩
  rw [utc_time_past s t h1 h2 hw,
    utc_time_past { s with d_DeltaT_LS := x, i_DN := y } t h1 h2 hw]

theorem utc_time_leap_week_past_witness :
    (utc_time (utc_state 98) 50000).1
        = 43200 * ((⌊(50000 : ℚ) / 43200⌋ : Int) : ℚ)
          + fmod (50000 - (((utc_state 98).d_DeltaT_LSF : ℚ) + (utc_state 98).d_A0
              + (utc_state 98).d_A1 * (50000 - ((utc_state 98).d_t_OT : ℚ)
                  + 604800 * (((utc_state 98).i_GPS_week - (utc_state 98).i_WN_T : Int) : ℚ))))
            86400
      ∧ ∀ x y : Int,
          (utc_time { utc_state 98 with d_DeltaT_LS := x, i_DN := y } 50000).1
            = (utc_time (utc_state 98) 50000).1 :=
  utc_time_leap_week_past (utc_state 98) 50000 (by decide) (by decide) (by decide)

/-- C23: with exact arithmetic, for every state with `i_WN_LSF = i_GPS_week` in
which the `int32_t` expressions `i_GPS_week - i_WN_T`, `86400 * i_DN`,
`86400 + d_DeltaT_LSF` and `86400 + d_DeltaT_LSF - d_DeltaT_LS` do not overflow,
and for every `t`, writing `e = 86400 * i_DN` and `D`, `D'` for the offsets
before and after the event, `utc_time(t)` is `43200 * floor(t / 43200)` plus
(i) `fmod(t - D, 86400)` when `t - e < -21600`, (ii) `fmod(t - D', 86400)` when
`t - e > 21600`, (iii) `fmod(W, 86400 + d_DeltaT_LSF - d_DeltaT_LS)` with
`W = trunc(fmod(t - D - 43200, 86400)) + 43200` when `|t - e| ≤ 21600`, both
boundaries included; exactly one of the three cases holds. -/
theorem utc_time_leap_week_current {D : Type} [LinearOrderedField D] [FloorRing D]
    (s : Gps_Navigation_Message D) (t : D)
    (hw : s.i_WN_LSF = s.i_GPS_week) (h2 : FitsInt32 (s.i_GPS_week - s.i_WN_T))
    (hd : FitsInt32 (86400 * s.i_DN)) (hl1 : FitsInt32 (86400 + s.d_DeltaT_LSF))
    (hl2 : FitsInt32 (86400 + s.d_DeltaT_LSF - s.d_DeltaT_LS)) :
    (t - ((86400 * s.i_DN : Int) : D) < -21600 →
        (utc_time s t).1
          = 43200 * ((⌊t / 43200⌋ : Int) : D)
            + fmod (t - ((s.d_DeltaT_LS : D) + s.d_A0
                + s.d_A1 * (t - (s.d_t_OT : D)
                    + 604800 * ((s.i_GPS_week - s.i_WN_T : Int) : D)))) 86400)
      ∧ (t - ((86400 * s.i_DN : Int) : D) > 21600 →
        (utc_time s t).1
          = 43200 * ((⌊t / 43200⌋ : Int) : D)
            + fmod (t - ((s.d_DeltaT_LSF : D) + s.d_A0
                + s.d_A1 * (t - (s.d_t_OT : D)
                    + 604800 * ((s.i_GPS_week - s.i_WN_T : Int) : D)))) 86400)
      ∧ (|t - ((86400 * s.i_DN : Int) : D)| ≤ 21600 →
        (utc_time s t).1
          = 43200 * ((⌊t / 43200⌋ : Int) : D)
            + fmod ((trunc (fmod (t - ((s.d_DeltaT_LS : D) + s.d_A0
                + s.d_A1 * (t - (s.d_t_OT : D)
                    + 604800 * ((s.i_GPS_week - s.i_WN_T : Int) : D))) - 43200) 86400) + 43200 : Int) : D)
                (((86400 + s.d_DeltaT_LSF - s.d_DeltaT_LS : Int)) : D))
      ∧ (t - ((86400 * s.i_DN : Int) : D) < -21600 ∨ t - ((86400 * s.i_DN : Int) : D) > 21600 ∨ |t - ((86400 * s.i_DN : Int) : D)| ≤ 21600)
      ∧ ¬ (t - ((86400 * s.i_DN : Int) : D) < -21600 ∧ t - ((86400 * s.i_DN : Int) : D) > 21600)
      ∧ ¬ (t - ((86400 * s.i_DN : Int) : D) < -21600 ∧ |t - ((86400 * s.i_DN : Int) : D)| ≤ 21600)
      ∧ ¬ (t - ((86400 * s.i_DN : Int) : D) > 21600 ∧ |t - ((86400 * s.i_DN : Int) : D)| ≤ 21600) := by
  obtain ⟨a, b, c⟩ := t_utc_daytime_current s t hw hd hl1 hl2
  obtain ⟨d1, d2, d3, d4⟩ := window_cases (t - ((86400 * s.i_DN : Int) : D))
  refine ⟨fun h => ?_, fun h => ?_, fun h => ?_, d1, d2, d3, d4⟩
  · rw [utc_time_value, a h, Delta_t_UTC_eq s _ t h2]
  · rw [utc_time_value, b h, Delta_t_UTC_eq s _ t h2]
  · rw [utc_time_value, c h, Delta_t_UTC_eq s _ t h2]

theorem utc_time_leap_week_current_witness :
    ((604800 : ℚ) - ((86400 * (utc_state 100).i_DN : Int) : ℚ) < -21600 →
        (utc_time (utc_state 100) (604800 : ℚ)).1
          = 43200 * ((⌊(604800 : ℚ) / 43200⌋ : Int) : ℚ)
            + fmod ((604800 : ℚ) - (((utc_state 100).d_DeltaT_LS : ℚ) + (utc_state 100).d_A0
                + (utc_state 100).d_A1 * ((604800 : ℚ) - ((utc_state 100).d_t_OT : ℚ)
                    + 604800 * (((utc_state 100).i_GPS_week - (utc_state 100).i_WN_T : Int) : ℚ)))) 86400)
      ∧ ((604800 : ℚ) - ((86400 * (utc_state 100).i_DN : Int) : ℚ) > 21600 →
        (utc_time (utc_state 100) (604800 : ℚ)).1
          = 43200 * ((⌊(604800 : ℚ) / 43200⌋ : Int) : ℚ)
            + fmod ((604800 : ℚ) - (((utc_state 100).d_DeltaT_LSF : ℚ) + (utc_state 100).d_A0
                + (utc_state 100).d_A1 * ((604800 : ℚ) - ((utc_state 100).d_t_OT : ℚ)
                    + 604800 * (((utc_state 100).i_GPS_week - (utc_state 100).i_WN_T : Int) : ℚ)))) 86400)
      ∧ (|(604800 : ℚ) - ((86400 * (utc_state 100).i_DN : Int) : ℚ)| ≤ 21600 →
        (utc_time (utc_state 100) (604800 : ℚ)).1
          = 43200 * ((⌊(604800 : ℚ) / 43200⌋ : Int) : ℚ)
            + fmod ((trunc (fmod ((604800 : ℚ) - (((utc_state 100).d_DeltaT_LS : ℚ) + (utc_state 100).d_A0
                + (utc_state 100).d_A1 * ((604800 : ℚ) - ((utc_state 100).d_t_OT : ℚ)
                    + 604800 * (((utc_state 100).i_GPS_week - (utc_state 100).i_WN_T : Int) : ℚ))) - 43200) 86400) + 43200 : Int) : ℚ)
                (((86400 + (utc_state 100).d_DeltaT_LSF - (utc_state 100).d_DeltaT_LS : Int)) : ℚ))
      ∧ ((604800 : ℚ) - ((86400 * (utc_state 100).i_DN : Int) : ℚ) < -21600 ∨ (604800 : ℚ) - ((86400 * (utc_state 100).i_DN : Int) : ℚ) > 21600 ∨ |(604800 : ℚ) - ((86400 * (utc_state 100).i_DN : Int) : ℚ)| ≤ 21600)
      ∧ ¬ ((604800 : ℚ) - ((86400 * (utc_state 100).i_DN : Int) : ℚ) < -21600 ∧ (604800 : ℚ) - ((86400 * (utc_state 100).i_DN : Int) : ℚ) > 21600)
      ∧ ¬ ((604800 : ℚ) - ((86400 * (utc_state 100).i_DN : Int) : ℚ) < -21600 ∧ |(604800 : ℚ) - ((86400 * (utc_state 100).i_DN : Int) : ℚ)| ≤ 21600)
      ∧ ¬ ((604800 : ℚ) - ((86400 * (utc_state 100).i_DN : Int) : ℚ) > 21600 ∧ |(604800 : ℚ) - ((86400 * (utc_state 100).i_DN : Int) : ℚ)| ≤ 21600) :=
  utc_time_leap_week_current (utc_state 100) 604800 (by decide) (by decide) (by decide)
    (by decide) (by decide)

/-- C24, the code at a failing input: with 17 leap seconds and the leap-second
week two weeks ahead, the day-time component of `utc_time(5)`, that is
`utc_time(5) - 43200 * floor(5 / 43200)`, is `fmod(5 - 17, 86400) = -12`, which
is outside `[0, 86400)`: `fmod` keeps the sign of its first argument. -/
theorem utc_time_daytime_negative :
    (utc_time (utc_state 102) 5).1 - 43200 * ((⌊(5 : ℚ) / 43200⌋ : Int) : ℚ) = -12
      ∧ ¬ (0 ≤ (utc_time (utc_state 102) 5).1 - 43200 * ((⌊(5 : ℚ) / 43200⌋ : Int) : ℚ)) := by
  have h := utc_time_future (utc_state 102) (5 : ℚ) (by decide) (by decide) (by decide)
  have e1 : (utc_state 102).d_DeltaT_LS = 17 := rfl
  have e2 : (utc_state 102).d_A0 = 0 := rfl
  have e3 : (utc_state 102).d_A1 = 0 := rfl
  rw [e1, e2, e3] at h
  have e4 : (5 : ℚ) - (((17 : Int) : ℚ) + 0
      + 0 * (5 - ((utc_state 102).d_t_OT : ℚ)
          + 604800 * (((utc_state 102).i_GPS_week - (utc_state 102).i_WN_T : Int) : ℚ)))
      = -12 := by
    norm_num
  rw [e4, fmod_eq_self (-12 : ℚ) 86400 (by norm_num) (by norm_num) (by norm_num)] at h
  rw [h]
  constructor
  · ring
  · norm_num

/-! ## Members written by the ephemeris subframes: claim C25 -/

/-- C25: with a validated table, for every pre-state and every input whose
identifier field reads `k` in `1..3`, `subframe_decoder` changes only `d_TOW`,
`d_TOW_SFk`, the three status flags and the members of type `k` (type 1: week,
accuracy, health, the two L2 members, `d_TGD`, `d_IODC`, `d_Toc`, `d_A_f0` to
`d_A_f2`; type 2: `d_IODE_SF2`, `d_Crs`, `d_Delta_n`, `d_M_0`, `d_Cuc`,
eccentricity, `d_Cus`, `d_sqrt_A`, `d_Toe`, the fit-interval flag, `i_AODO`;
type 3: `d_Cic`, `d_OMEGA0`, `d_Cis`, `d_i_0`, `d_Crc`, `d_OMEGA`,
`d_OMEGA_DOT`, `d_IODE_SF3`, `d_IDOT`): the state after the call is the state
before it with these members replaced, so every member of the other two
ephemeris types and every almanac, ionospheric, UTC, health-table and
validity-flag member keeps its value. -/
theorem ephemeris_subframe_members {D : Type} [Mul D] [IntCast D] {K : Constants D}
    (hK : K.Valid) (s : Gps_Navigation_Message D) (subframe : List (Fin 256)) (k : Nat)
    (hid : decoded_field K subframe .SUBFRAME_ID = Except.ok k) (h1 : 1 ≤ k) (h3 : k ≤ 3) :
    ∃ s1, subframe_decoder K s subframe = Except.ok ((k : Int), s1)
      ∧ (k = 1 →
        s1 = { s with
            d_TOW_SF1 := s1.d_TOW_SF1,
            d_TOW := s1.d_TOW,
            b_integrity_status_flag := s1.b_integrity_status_flag,
            b_alert_flag := s1.b_alert_flag,
            b_antispoofing_flag := s1.b_antispoofing_flag,
            i_GPS_week := s1.i_GPS_week,
            i_SV_accuracy := s1.i_SV_accuracy,
            i_SV_health := s1.i_SV_health,
            b_L2_P_data_flag := s1.b_L2_P_data_flag,
            i_code_on_L2 := s1.i_code_on_L2,
            d_TGD := s1.d_TGD,
            d_IODC := s1.d_IODC,
            d_Toc := s1.d_Toc,
            d_A_f0 := s1.d_A_f0,
            d_A_f1 := s1.d_A_f1,
            d_A_f2 := s1.d_A_f2 })
      ∧ (k = 2 →
        s1 = { s with
            d_TOW_SF2 := s1.d_TOW_SF2,
            d_TOW := s1.d_TOW,
            b_integrity_status_flag := s1.b_integrity_status_flag,
            b_alert_flag := s1.b_alert_flag,
            b_antispoofing_flag := s1.b_antispoofing_flag,
            d_IODE_SF2 := s1.d_IODE_SF2,
            d_Crs := s1.d_Crs,
            d_Delta_n := s1.d_Delta_n,
            d_M_0 := s1.d_M_0,
            d_Cuc := s1.d_Cuc,
            d_e_eccentricity := s1.d_e_eccentricity,
            d_Cus := s1.d_Cus,
            d_sqrt_A := s1.d_sqrt_A,
            d_Toe := s1.d_Toe,
            b_fit_interval_flag := s1.b_fit_interval_flag,
            i_AODO := s1.i_AODO })
      ∧ (k = 3 →
        s1 = { s with
            d_TOW_SF3 := s1.d_TOW_SF3,
            d_TOW := s1.d_TOW,
            b_integrity_status_flag := s1.b_integrity_status_flag,
            b_alert_flag := s1.b_alert_flag,
            b_antispoofing_flag := s1.b_antispoofing_flag,
            d_Cic := s1.d_Cic,
            d_OMEGA0 := s1.d_OMEGA0,
            d_Cis := s1.d_Cis,
            d_i_0 := s1.d_i_0,
            d_Crc := s1.d_Crc,
            d_OMEGA := s1.d_OMEGA,
            d_OMEGA_DOT := s1.d_OMEGA_DOT,
            d_IODE_SF3 := s1.d_IODE_SF3,
            d_IDOT := s1.d_IDOT }) := by
  obtain ⟨bits, hb, hdec⟩ := subframe_decoder_at hK s subframe k hid
    (lt_of_le_of_lt h3 (by norm_num))
  obtain rfl | rfl | rfl : k = 1 ∨ k = 2 ∨ k = 3 := by omega
  · have e : ((1 : Nat) : Int) = 1 := rfl
    rw [e, switch_state_one] at hdec
    exact ⟨_, hdec, fun _ => subframe_1_state_frame K bits s, fun h => absurd h (by decide),
      fun h => absurd h (by decide)⟩
  · have e : ((2 : Nat) : Int) = 2 := rfl
    rw [e, switch_state_two] at hdec
    exact ⟨_, hdec, fun h => absurd h (by decide), fun _ => subframe_2_state_frame K bits s,
      fun h => absurd h (by decide)⟩
  · have e : ((3 : Nat) : Int) = 3 := rfl
    rw [e, switch_state_three] at hdec
    exact ⟨_, hdec, fun h => absurd h (by decide), fun h => absurd h (by decide),
      fun _ => subframe_3_state_frame K bits s⟩

set_option maxRecDepth 100000 in
theorem ephemeris_subframe_members_witness :
    ∃ s1, subframe_decoder sample_constants ready_state (sample_subframe 2) = Except.ok (((2 : Nat) : Int), s1)
      ∧ ((2 : Nat) = 1 →
        s1 = { ready_state with
            d_TOW_SF1 := s1.d_TOW_SF1,
            d_TOW := s1.d_TOW,
            b_integrity_status_flag := s1.b_integrity_status_flag,
            b_alert_flag := s1.b_alert_flag,
            b_antispoofing_flag := s1.b_antispoofing_flag,
            i_GPS_week := s1.i_GPS_week,
            i_SV_accuracy := s1.i_SV_accuracy,
            i_SV_health := s1.i_SV_health,
            b_L2_P_data_flag := s1.b_L2_P_data_flag,
            i_code_on_L2 := s1.i_code_on_L2,
            d_TGD := s1.d_TGD,
            d_IODC := s1.d_IODC,
            d_Toc := s1.d_Toc,
            d_A_f0 := s1.d_A_f0,
            d_A_f1 := s1.d_A_f1,
            d_A_f2 := s1.d_A_f2 })
      ∧ ((2 : Nat) = 2 →
        s1 = { ready_state with
            d_TOW_SF2 := s1.d_TOW_SF2,
            d_TOW := s1.d_TOW,
            b_integrity_status_flag := s1.b_integrity_status_flag,
            b_alert_flag := s1.b_alert_flag,
            b_antispoofing_flag := s1.b_antispoofing_flag,
            d_IODE_SF2 := s1.d_IODE_SF2,
            d_Crs := s1.d_Crs,
            d_Delta_n := s1.d_Delta_n,
            d_M_0 := s1.d_M_0,
            d_Cuc := s1.d_Cuc,
            d_e_eccentricity := s1.d_e_eccentricity,
            d_Cus := s1.d_Cus,
            d_sqrt_A := s1.d_sqrt_A,
            d_Toe := s1.d_Toe,
            b_fit_interval_flag := s1.b_fit_interval_flag,
            i_AODO := s1.i_AODO })
      ∧ ((2 : Nat) = 3 →
        s1 = { ready_state with
            d_TOW_SF3 := s1.d_TOW_SF3,
            d_TOW := s1.d_TOW,
            b_integrity_status_flag := s1.b_integrity_status_flag,
            b_alert_flag := s1.b_alert_flag,
            b_antispoofing_flag := s1.b_antispoofing_flag,
            d_Cic := s1.d_Cic,
            d_OMEGA0 := s1.d_OMEGA0,
            d_Cis := s1.d_Cis,
            d_i_0 := s1.d_i_0,
            d_Crc := s1.d_Crc,
            d_OMEGA := s1.d_OMEGA,
            d_OMEGA_DOT := s1.d_OMEGA_DOT,
            d_IODE_SF3 := s1.d_IODE_SF3,
            d_IDOT := s1.d_IDOT }) :=
  ephemeris_subframe_members sample_constants_valid ready_state (sample_subframe 2) 2
    (by decide) (by decide) (by decide)

/-! ## The ephemeris-consistency property: claim C26 -/

set_option maxRecDepth 100000 in
/-- C26, the claim as stated fails: from the all-zero state, decode a consistent
set of subframes 1, 2 and 3, call `satellite_validation` (it returns true and
sets the flag), then decode a subframe 2 with another issue of data: the state
reached has `b_valid_ephemeris_set_flag` true and `d_IODE_SF2 ≠ d_IODE_SF3`. -/
theorem ephemeris_flag_survives_new_issue :
    ∃ s3 s4, decode_all sample_constants zero_state
          [sample_subframe 1, sample_subframe 2, sample_subframe 3] = Except.ok s3
      ∧ (satellite_validation s3).1 = true
      ∧ subframe_decoder sample_constants (satellite_validation s3).2 issue_subframe
          = Except.ok (2, s4)
      ∧ s4.b_valid_ephemeris_set_flag = true
      ∧ s4.d_IODE_SF2 ≠ s4.d_IODE_SF3
      ∧ ¬ EphemerisConsistent s4 := by
  have hK := sample_constants_valid
  obtain ⟨s3, hs3, a1, a2, a3, a4, a5, a6⟩ :=
    decode_all_ephemeris sample_constants (sample_subframe 1) (sample_subframe 2)
      (sample_subframe 3) _ _ _ _ _ _ (by decide) (by decide) (by decide)
      (decode_step_1 hK (sample_subframe 1) (by decide) 1 0 (by decide) (by decide))
      (decode_step_2 hK (sample_subframe 2) (by decide) 1 0 (by decide) (by decide))
      (decode_step_3 hK (sample_subframe 3) (by decide) 1 0 (by decide) (by decide))
      [sample_subframe 1, sample_subframe 2, sample_subframe 3] (by simp) zero_state
  rw [if_pos (by simp)] at a1 a2 a3 a4 a5 a6
  have hv : (satellite_validation s3).1 = true := by
    rw [satellite_validation_true_iff, a1, a2, a3, a4, a5, a6]
    decide
  have hf : (satellite_validation s3).2.b_valid_ephemeris_set_flag = true :=
    (satellite_validation_flag s3).trans hv
  have h3 : (satellite_validation s3).2.d_IODE_SF3 = s3.d_IODE_SF3 := by
    rw [satellite_validation_state s3]
  obtain ⟨bits, hb, hdec⟩ :=
    subframe_decoder_at hK (satellite_validation s3).2 issue_subframe 2 (by decide)
      (by norm_num)
  have e : ((2 : Nat) : Int) = 2 := rfl
  rw [e, switch_state_two] at hdec
  obtain ⟨b1, b2, b3⟩ := subframe_2_state_ready_flag sample_constants bits
    (satellite_validation s3).2
  have v := i32_value_of_decoded hK issue_subframe bits hb .IODE_SF2 1 (by decide)
    (by norm_num)
  have c2 : (subframe_2_state sample_constants bits (satellite_validation s3).2).d_IODE_SF2
      = 1 := by
    rw [b3, v]; rfl
  have c3 : (subframe_2_state sample_constants bits (satellite_validation s3).2).d_IODE_SF3
      = 0 := by
    rw [b2, h3, a6]; rfl
  have hne : (subframe_2_state sample_constants bits (satellite_validation s3).2).d_IODE_SF2
      ≠ (subframe_2_state sample_constants bits (satellite_validation s3).2).d_IODE_SF3 := by
    rw [c2, c3]; decide
  exact ⟨s3, _, hs3, hv, hdec, b1.trans hf, hne, fun h => hne (h (b1.trans hf)).1⟩

/-- C26, amended: in the state `satellite_validation` leaves, if
`b_valid_ephemeris_set_flag` is true then
`d_IODE_SF2 = d_IODE_SF3 = (d_IODC & 0xFF)` and `d_TOW_SF1`, `d_TOW_SF2`,
`d_TOW_SF3` are non-zero; with a validated table whose identifier field is at
most 31 bits wide, the property is kept by `almanac_validation`, by the four
accessors and by every `subframe_decoder` call on an input whose identifier is
not 1, 2 or 3. -/
theorem ephemeris_consistency_kept {D : Type} [Mul D] [IntCast D] {K : Constants D}
    (hK : K.Valid) (hI : total_length (K.desc .SUBFRAME_ID) ≤ 31)
    (s t : Gps_Navigation_Message D) (ht : EphemerisConsistent t)
    (subframe : List (Fin 256)) (id : Nat)
    (hid : decoded_field K subframe .SUBFRAME_ID = Except.ok id)
    (hne : ¬ (1 ≤ id ∧ id ≤ 3)) :
    EphemerisConsistent (satellite_validation s).2
      ∧ EphemerisConsistent (almanac_validation t).2
      ∧ EphemerisConsistent (get_ephemeris t).2
      ∧ EphemerisConsistent (get_almanac t).2
      ∧ EphemerisConsistent (get_iono t).2
      ∧ EphemerisConsistent (get_utc_model t).2
      ∧ ∃ t1, subframe_decoder K t subframe = Except.ok ((id : Int), t1)
          ∧ EphemerisConsistent t1 := by
  obtain ⟨bits, _, hdec⟩ := subframe_decoder_at hK t subframe id hid
    (decoded_field_lt_of_width hK _ _ _ hid hI)
  refine ⟨satellite_validation_consistent s, ht, ht,
    ephemerisConsistent_of_view t _ (get_almanac_view t) ht,
    ephemerisConsistent_of_view t _ (get_iono_view t) ht,
    ephemerisConsistent_of_view t _ (get_utc_model_view t) ht, _, hdec, ?_⟩
  exact ephemerisConsistent_of_view t _ (switch_state_view K bits _ t (by omega)) ht

set_option maxRecDepth 100000 in
theorem ephemeris_consistency_kept_witness :
    EphemerisConsistent (satellite_validation ready_state).2
      ∧ EphemerisConsistent (almanac_validation (satellite_validation ready_state).2).2
      ∧ EphemerisConsistent (get_ephemeris (satellite_validation ready_state).2).2
      ∧ EphemerisConsistent (get_almanac (satellite_validation ready_state).2).2
      ∧ EphemerisConsistent (get_iono (satellite_validation ready_state).2).2
      ∧ EphemerisConsistent (get_utc_model (satellite_validation ready_state).2).2
      ∧ ∃ t1, subframe_decoder sample_constants (satellite_validation ready_state).2
            (page_subframe 4 1 25) = Except.ok (((4 : Nat) : Int), t1)
          ∧ EphemerisConsistent t1 :=
  ephemeris_consistency_kept sample_constants_valid (by decide) ready_state
    (satellite_validation ready_state).2 (by decide) (page_subframe 4 1 25) 4 (by decide)
    (by decide)

/-! ## The single-bit reader: claim C27 -/

theorem read_bool_first_bit (bits : Frame) (o n : Int) (ps : Descriptor)
    (h1 : 1 ≤ o) (h2 : o ≤ 300) :
    read_navigation_bool bits ((o, n) :: ps) = Except.ok (bits (300 - o).toNat) :=
  test_in_range bits _ (by unfold GPS_SUBFRAME_BITS; omega) (by unfold GPS_SUBFRAME_BITS; omega)

theorem read_unsigned_one_bit (bits : Frame) (o : Int) (h1 : 1 ≤ o) (h2 : o ≤ 300) :
    read_navigation_unsigned bits [(o, 1)]
      = Except.ok (if bits (300 - o).toNat then 1 else 0) := by
  have hr : InRange [(o, 1)] := by
    intro p hp
    rw [List.mem_singleton] at hp
    subst hp
    exact ⟨h1, by show o + 1 - 1 ≤ 300; omega⟩
  rw [read_unsigned_ok bits _ hr]
  unfold raw_unsigned field_bits field_positions span_positions
  have e : List.range 1 = [0] := rfl
  cases hb : bits (300 - o).toNat <;> simp [field_positions, shift_or, e, hb]

/-- C27: for every frame and every non-empty descriptor whose first offset `o`
satisfies `1 ≤ o ≤ 300`, `read_navigation_bool` returns the frame bit at index
`300 - o`; that bit is set exactly when `read_navigation_unsigned` of the
one-bit descriptor `{(o, 1)}` returns 1; the result is the same whatever the
length of the first span and whatever the later spans are. -/
theorem read_navigation_bool_first_position (bits : Frame) (o n : Int) (ps : Descriptor)
    (h1 : 1 ≤ o) (h2 : o ≤ 300) :
    read_navigation_bool bits ((o, n) :: ps) = Except.ok (bits (300 - o).toNat)
      ∧ (∃ u, read_navigation_unsigned bits [(o, 1)] = Except.ok u
          ∧ bits (300 - o).toNat = decide (u = 1))
      ∧ ∀ (m : Int) (qs : Descriptor),
          read_navigation_bool bits ((o, m) :: qs) = read_navigation_bool bits ((o, n) :: ps) := by
  refine ⟨read_bool_first_bit bits o n ps h1 h2, ⟨_, read_unsigned_one_bit bits o h1 h2, ?_⟩,
    fun m qs => rfl⟩
  cases bits (300 - o).toNat <;> rfl

theorem read_navigation_bool_first_position_witness :
    read_navigation_bool sample_frame ((18, 0) :: [(1, 3)])
        = Except.ok (sample_frame (300 - 18 : Int).toNat)
      ∧ (∃ u, read_navigation_unsigned sample_frame [(18, 1)] = Except.ok u
          ∧ sample_frame (300 - 18 : Int).toNat = decide (u = 1))
      ∧ ∀ (m : Int) (qs : Descriptor),
          read_navigation_bool sample_frame ((18, m) :: qs)
            = read_navigation_bool sample_frame ((18, 0) :: [(1, 3)]) :=
  read_navigation_bool_first_position sample_frame 18 0 [(1, 3)] (by decide) (by decide)

/-! ## Pages of subframes 4 and 5: claims C28 to C30 -/

/-- C28: with a validated table whose `SV_PAGE` and `SV_DATA_ID` fields are at
most 31 bits wide, for every pre-state and every input with identifier 4 whose
page selector `p` is not 56, not 63 and not an almanac page (`25..32` with a
non-zero data identifier), the reserved pages 52 and 57 among them,
`subframe_decoder` changes no member other than `d_TOW_SF4`, `d_TOW` and the
three status flags. -/
theorem type_4_other_pages {D : Type} [Mul D] [IntCast D] {K : Constants D}
    (hK : K.Valid) (hP : total_length (K.desc .SV_PAGE) ≤ 31)
    (hD : total_length (K.desc .SV_DATA_ID) ≤ 31)
    (s : Gps_Navigation_Message D) (subframe : List (Fin 256)) (p d : Nat)
    (hid : decoded_field K subframe .SUBFRAME_ID = Except.ok 4)
    (hp : decoded_field K subframe .SV_PAGE = Except.ok p)
    (hd : decoded_field K subframe .SV_DATA_ID = Except.ok d)
    (h56 : p ≠ 56) (h63 : p ≠ 63) (halm : ¬ ((25 ≤ p ∧ p ≤ 32) ∧ d ≠ 0)) :
    ∃ s1, subframe_decoder K s subframe = Except.ok (4, s1)
      ∧ s1 = { s with
          d_TOW_SF4 := s1.d_TOW_SF4,
          d_TOW := s1.d_TOW,
          b_integrity_status_flag := s1.b_integrity_status_flag,
          b_alert_flag := s1.b_alert_flag,
          b_antispoofing_flag := s1.b_antispoofing_flag } := by
  obtain ⟨bits, hb, hdec⟩ := subframe_decoder_at hK s subframe 4 hid (by norm_num)
  have e : ((4 : Nat) : Int) = 4 := rfl
  rw [e, switch_state_four] at hdec
  have vp := i32_value_of_decoded hK subframe bits hb .SV_PAGE p hp
    (decoded_field_lt_of_width hK _ _ _ hp hP)
  have vd := i32_value_of_decoded hK subframe bits hb .SV_DATA_ID d hd
    (decoded_field_lt_of_width hK _ _ _ hd hD)
  have r1 : ¬ ((i32_value K bits .SV_PAGE > 24 ∧ i32_value K bits .SV_PAGE < 33)
      ∧ i32_value K bits .SV_DATA_ID ≠ 0) := by
    rw [vp, vd]
    rintro ⟨⟨a, b⟩, c⟩
    exact halm ⟨⟨by omega, by omega⟩, by exact_mod_cast c⟩
  have r2 : i32_value K bits .SV_PAGE ≠ 56 := by
    rw [vp]; exact_mod_cast h56
  have r3 : i32_value K bits .SV_PAGE ≠ 63 := by
    rw [vp]; exact_mod_cast h63
  rw [subframe_4_state_other K bits s r1 r2 r3] at hdec
  exact ⟨_, hdec, header_4_state_frame K bits s⟩

set_option maxRecDepth 100000 in
theorem type_4_other_pages_witness :
    ∃ s1, subframe_decoder sample_constants zero_state (page_subframe 4 1 52)
        = Except.ok (4, s1)
      ∧ s1 = { zero_state with
          d_TOW_SF4 := s1.d_TOW_SF4,
          d_TOW := s1.d_TOW,
          b_integrity_status_flag := s1.b_integrity_status_flag,
          b_alert_flag := s1.b_alert_flag,
          b_antispoofing_flag := s1.b_antispoofing_flag } :=
  type_4_other_pages sample_constants_valid (by decide) (by decide) zero_state
    (page_subframe 4 1 52) 52 1 (by decide) (by decide) (by decide) (by decide) (by decide)
    (by decide)

/-- C29: with a validated table whose `SV_PAGE` field and `HEALTH_SV25` to
`HEALTH_SV32` fields are at most 31 bits wide, for every pre-state and every
input with identifier 4 and page selector 63, after `subframe_decoder`
`almanacHealth[v]` is the unsigned reading of `HEALTH_SVv` for every `v` in
`25..32` and is unchanged for every other `v` (so for `1..24`), and no member
other than `almanacHealth`, `d_TOW_SF4`, `d_TOW` and the three status flags
changes: no validity flag and no almanac, ionospheric or UTC member. -/
theorem type_4_health_page {D : Type} [Mul D] [IntCast D] {K : Constants D}
    (hK : K.Valid)
    (hH : ∀ q ∈ health_fields_4, total_length (K.desc q.2) ≤ 31)
    (s : Gps_Navigation_Message D) (subframe : List (Fin 256))
    (hid : decoded_field K subframe .SUBFRAME_ID = Except.ok 4)
    (hp : decoded_field K subframe .SV_PAGE = Except.ok 63) :
    ∃ bits s1, unpack subframe = Except.ok bits
      ∧ subframe_decoder K s subframe = Except.ok (4, s1)
      ∧ (∀ q ∈ health_fields_4, IsUnsigned K bits q.2 (s1.almanacHealth q.1))
      ∧ (∀ v, ¬ (25 ≤ v ∧ v ≤ 32) → s1.almanacHealth v = s.almanacHealth v)
      ∧ s1 = { s with
          d_TOW_SF4 := s1.d_TOW_SF4,
          d_TOW := s1.d_TOW,
          b_integrity_status_flag := s1.b_integrity_status_flag,
          b_alert_flag := s1.b_alert_flag,
          b_antispoofing_flag := s1.b_antispoofing_flag,
          almanacHealth := s1.almanacHealth } := by
  obtain ⟨bits, hb, hdec⟩ := subframe_decoder_at hK s subframe 4 hid (by norm_num)
  have e : ((4 : Nat) : Int) = 4 := rfl
  rw [e, switch_state_four] at hdec
  have vp : i32_value K bits .SV_PAGE = 63 :=
    i32_value_of_decoded hK subframe bits hb .SV_PAGE 63 hp (by norm_num)
  rw [subframe_4_state_page_25 K bits s vp] at hdec
  obtain ⟨fr, hh⟩ := page_25_sf4_frame K bits s _ rfl
  refine ⟨bits, _, hb, hdec, ?_, ?_, fr⟩
  · intro q hq
    rw [hh, health_update_of_mem K bits health_fields_4 (by decide) q hq]
    exact isUnsigned_i32 hK bits _ (hH q hq)
  · intro v hv
    rw [hh]
    apply health_update_of_not_mem
    simp only [health_fields_4, List.map_cons, List.map_nil, List.mem_cons, List.mem_singleton,
      List.not_mem_nil, or_false]
    omega

set_option maxRecDepth 100000 in
theorem type_4_health_page_witness :
    ∃ bits s1, unpack (page_subframe 4 1 63) = Except.ok bits
      ∧ subframe_decoder sample_constants zero_state (page_subframe 4 1 63) = Except.ok (4, s1)
      ∧ (∀ q ∈ health_fields_4, IsUnsigned sample_constants bits q.2 (s1.almanacHealth q.1))
      ∧ (∀ v, ¬ (25 ≤ v ∧ v ≤ 32) → s1.almanacHealth v = zero_state.almanacHealth v)
      ∧ s1 = { zero_state with
          d_TOW_SF4 := s1.d_TOW_SF4,
          d_TOW := s1.d_TOW,
          b_integrity_status_flag := s1.b_integrity_status_flag,
          b_alert_flag := s1.b_alert_flag,
          b_antispoofing_flag := s1.b_antispoofing_flag,
          almanacHealth := s1.almanacHealth } :=
  type_4_health_page sample_constants_valid (by decide) zero_state (page_subframe 4 1 63)
    (by decide) (by decide)

/-- C30: with a validated table whose `WN_A` field and `HEALTH_SV1` to
`HEALTH_SV24` fields are at most 31 bits wide and whose `T_OA` field times
`T_OA_LSB` fits an `int32_t`, for every pre-state and every input with
identifier 5 and page selector 51, after `subframe_decoder` `i_WN_A` is the
unsigned reading of `WN_A`, `i_Toa` is the unsigned reading of `T_OA` times
`T_OA_LSB`, `flag_almanac_week_valid` is true, `almanacHealth[v]` is the
unsigned reading of `HEALTH_SVv` for every `v` in `1..24` and unchanged for
every other `v` (so for `25..32`); no other member changes apart from
`d_TOW_SF5`, `d_TOW` and the three status flags, so `flag_almanac_valid` and
the other almanac members keep their values and the record `get_almanac`
returns afterwards is the pending one with `toa` and `WNa` overwritten. -/
theorem type_5_reference_week_page {D : Type} [Mul D] [IntCast D] {K : Constants D}
    (hK : K.Valid) (hW : total_length (K.desc .WN_A) ≤ 31) (hT : K.ProductFits .T_OA)
    (hH : ∀ q ∈ health_fields_5, total_length (K.desc q.2) ≤ 31)
    (s : Gps_Navigation_Message D) (subframe : List (Fin 256))
    (hid : decoded_field K subframe .SUBFRAME_ID = Except.ok 5)
    (hp : decoded_field K subframe .SV_PAGE = Except.ok 51) :
    ∃ bits s1, unpack subframe = Except.ok bits
      ∧ subframe_decoder K s subframe = Except.ok (5, s1)
      ∧ IsUnsigned K bits .WN_A s1.i_WN_A
      ∧ IsUnsignedTimes K bits .T_OA s1.i_Toa
      ∧ s1.flag_almanac_week_valid = true
      ∧ (∀ q ∈ health_fields_5, IsUnsigned K bits q.2 (s1.almanacHealth q.1))
      ∧ (∀ v, ¬ (1 ≤ v ∧ v ≤ 24) → s1.almanacHealth v = s.almanacHealth v)
      ∧ s1 = { s with
          d_TOW_SF5 := s1.d_TOW_SF5,
          d_TOW := s1.d_TOW,
          b_integrity_status_flag := s1.b_integrity_status_flag,
          b_alert_flag := s1.b_alert_flag,
          b_antispoofing_flag := s1.b_antispoofing_flag,
          i_Toa := s1.i_Toa,
          i_WN_A := s1.i_WN_A,
          flag_almanac_week_valid := true,
          almanacHealth := s1.almanacHealth }
      ∧ (get_almanac s1).1 = { (get_almanac s).1 with toa := s1.i_Toa, WNa := s1.i_WN_A } := by
  obtain ⟨bits, hb, hdec⟩ := subframe_decoder_at hK s subframe 5 hid (by norm_num)
  have e : ((5 : Nat) : Int) = 5 := rfl
  rw [e, switch_state_five] at hdec
  have vp : i32_value K bits .SV_PAGE = 51 :=
    i32_value_of_decoded hK subframe bits hb .SV_PAGE 51 hp (by norm_num)
  rw [subframe_5_state_page_25 K bits s vp] at hdec
  obtain ⟨fr, hh, htoa, hwna, halm⟩ := page_25_sf5_frame K bits s _ rfl
  refine ⟨bits, _, hb, hdec, ?_, ?_, ?_, ?_, ?_, fr, halm⟩
  · rw [hwna]
    exact isUnsigned_i32 hK bits _ hW
  · rw [htoa]
    exact isUnsignedTimes_i32 hK bits _ hT
  · exact page_25_sf5_state_flag_almanac_week_valid K bits _
  · intro q hq
    rw [hh, health_update_of_mem K bits health_fields_5 (by decide) q hq]
    exact isUnsigned_i32 hK bits _ (hH q hq)
  · intro v hv
    rw [hh]
    apply health_update_of_not_mem
    simp only [health_fields_5, List.map_cons, List.map_nil, List.mem_cons, List.mem_singleton,
      List.not_mem_nil, or_false]
    omega

set_option maxRecDepth 100000 in
theorem type_5_reference_week_page_witness :
    ∃ bits s1, unpack (page_subframe 5 1 51) = Except.ok bits
      ∧ subframe_decoder sample_constants zero_state (page_subframe 5 1 51) = Except.ok (5, s1)
      ∧ IsUnsigned sample_constants bits .WN_A s1.i_WN_A
      ∧ IsUnsignedTimes sample_constants bits .T_OA s1.i_Toa
      ∧ s1.flag_almanac_week_valid = true
      ∧ (∀ q ∈ health_fields_5, IsUnsigned sample_constants bits q.2 (s1.almanacHealth q.1))
      ∧ (∀ v, ¬ (1 ≤ v ∧ v ≤ 24) → s1.almanacHealth v = zero_state.almanacHealth v)
      ∧ s1 = { zero_state with
          d_TOW_SF5 := s1.d_TOW_SF5,
          d_TOW := s1.d_TOW,
          b_integrity_status_flag := s1.b_integrity_status_flag,
          b_alert_flag := s1.b_alert_flag,
          b_antispoofing_flag := s1.b_antispoofing_flag,
          i_Toa := s1.i_Toa,
          i_WN_A := s1.i_WN_A,
          flag_almanac_week_valid := true,
          almanacHealth := s1.almanacHealth }
      ∧ (get_almanac s1).1 = { (get_almanac zero_state).1 with toa := s1.i_Toa, WNa := s1.i_WN_A } :=
  type_5_reference_week_page sample_constants_valid (by decide) (by decide) (by decide)
    zero_state (page_subframe 5 1 51) (by decide) (by decide)

/-! ## Reads inside and outside the frame -/

theorem result_eq_error {α : Type} (x : Result α) (h : ∀ a, x ≠ Except.ok a) :
    x = Except.error Fault.out_of_range := by
  cases x with
  | ok a => exact absurd rfl (h a)
  | error e => cases e; rfl

theorem test_out_of_range (bits : Frame) (pos : Int) (h : ¬ (0 ≤ pos ∧ pos < 300)) :
    bits.test pos = Except.error Fault.out_of_range := by
  unfold Frame.test GPS_SUBFRAME_BITS
  rw [if_neg h]
  rfl

theorem foldlM_ok_step {α β : Type} (f : β → α → Result β) (l : List α) :
    ∀ (b r : β), l.foldlM f b = Except.ok r → ∀ a ∈ l, ∃ b1 b2, f b1 a = Except.ok b2 := by
  induction l with
  | nil => intro b r _ a ha; cases ha
  | cons x xs ih =>
    intro b r h a ha
    rw [List.foldlM_cons] at h
    cases hx : f b x with
    | error e => rw [hx] at h; cases h
    | ok b1 =>
      rw [hx] at h
      rcases List.mem_cons.1 ha with e | e
      · subst e
        exact ⟨b, b1, hx⟩
      · exact ih b1 r h a e

/-- A span that leaves the frame makes its loop fault. -/
theorem read_span_fault (bits : Frame) (v : Nat) (p : Int × Int) (j : Nat)
    (hj : j < p.2.toNat) (hout : ¬ (0 ≤ 300 - p.1 - (j : Int) ∧ 300 - p.1 - (j : Int) < 300)) :
    read_span bits v p = Except.error Fault.out_of_range := by
  apply result_eq_error
  intro r h
  unfold read_span at h
  obtain ⟨b1, b2, hb⟩ := foldlM_ok_step _ _ _ _ h j (List.mem_range.2 hj)
  have ht : bits.test (GPS_SUBFRAME_BITS - p.1 - (j : Int))
      = Except.error Fault.out_of_range :=
    test_out_of_range bits _ (by unfold GPS_SUBFRAME_BITS; exact hout)
  rw [ht] at hb
  cases hb

/-- A descriptor with a span that leaves the frame makes the outer loop fault. -/
theorem read_spans_fault (bits : Frame) (v : Nat) (parameter : Descriptor) (p : Int × Int)
    (hp : p ∈ parameter) (j : Nat) (hj : j < p.2.toNat)
    (hout : ¬ (0 ≤ 300 - p.1 - (j : Int) ∧ 300 - p.1 - (j : Int) < 300)) :
    read_spans bits v parameter = Except.error Fault.out_of_range := by
  apply result_eq_error
  intro r h
  unfold read_spans at h
  obtain ⟨b1, b2, hb⟩ := foldlM_ok_step _ _ _ _ h p hp
  rw [read_span_fault bits b1 p j hj hout] at hb
  cases hb

theorem read_signed_fault (bits : Frame) (parameter : Descriptor) (p : Int × Int)
    (hp : p ∈ parameter) (j : Nat) (hj : j < p.2.toNat)
    (hout : ¬ (0 ≤ 300 - p.1 - (j : Int) ∧ 300 - p.1 - (j : Int) < 300)) :
    read_navigation_signed bits parameter = Except.error Fault.out_of_range := by
  cases parameter with
  | nil => rfl
  | cons p0 ps =>
    simp only [read_navigation_signed]
    cases bits.test (GPS_SUBFRAME_BITS - p0.1) with
    | error e => cases e; rfl
    | ok b0 =>
      simp only [ok_bind]
      rw [read_spans_fault bits _ (p0 :: ps) p hp j hj hout]
      rfl

/-- The index a bad span touches outside the frame. -/
theorem bad_span_index (p : Int × Int) (h1 : 1 ≤ p.2)
    (hbad : p.1 = 0 ∨ p.1 + p.2 - 1 > 300) :
    ∃ j : Nat, j < p.2.toNat
      ∧ ¬ (0 ≤ 300 - p.1 - (j : Int) ∧ 300 - p.1 - (j : Int) < 300) := by
  rcases hbad with h | h
  · exact ⟨0, by omega, by rw [h]; omega⟩
  · refine ⟨(p.2 - 1).toNat, by omega, ?_⟩
    have : (((p.2 - 1).toNat : Nat) : Int) = p.2 - 1 := Int.toNat_of_nonneg (by omega)
    rw [this]
    omega

/-- The signed reader on a validated descriptor whose first offset is inside
the frame. -/
theorem read_signed_in_range (bits : Frame) (p0 : Int × Int) (ps : Descriptor)
    (hr : InRange (p0 :: ps)) (h0 : p0.1 ≤ 300) :
    read_navigation_signed bits (p0 :: ps) = Except.ok (raw_signed bits (p0 :: ps)) := by
  have hp := hr p0 (List.mem_cons_self _ _)
  have ht : bits.test (GPS_SUBFRAME_BITS - p0.1) = Except.ok (bits (300 - p0.1).toNat) :=
    test_in_range bits _ (by unfold GPS_SUBFRAME_BITS; omega)
      (by unfold GPS_SUBFRAME_BITS; omega)
  simp only [read_navigation_signed, ht, read_spans_eq bits _ hr, ok_bind, pure_eq_ok,
    raw_signed, lead_bit]

/-! ## Concatenation of descriptors -/

theorem field_positions_append (A B : Descriptor) :
    field_positions (A ++ B) = field_positions A ++ field_positions B := by
  induction A with
  | nil => rfl
  | cons p ps ih => simp [field_positions, ih]

theorem field_bits_append (bits : Frame) (A B : Descriptor) :
    field_bits bits (A ++ B) = field_bits bits A ++ field_bits bits B := by
  simp [field_bits, field_positions_append]

theorem total_length_append (A B : Descriptor) :
    total_length (A ++ B) = total_length A + total_length B := by
  simp [total_length]

theorem binary_value_append (l1 l2 : List Bool) :
    binary_value (l1 ++ l2) = binary_value l1 * 2 ^ l2.length + binary_value l2 := by
  unfold binary_value
  rw [List.foldl_append, foldl_value_eq]
  rfl

theorem inRange_append (A B : Descriptor) (hA : InRange A) (hB : InRange B) :
    InRange (A ++ B) := by
  intro p hp
  rcases List.mem_append.1 hp with h | h
  · exact hA p h
  · exact hB p h

/-! ## Bit-field reader: claims C31 and C32 -/

/-- C31, the claim as stated fails: the descriptor `{(301, 0)}` has offset
`≥ 1`, length `≥ 0` and `offset + length - 1 ≤ 300`, yet
`read_navigation_signed` takes the sign from frame index `300 - 301 = -1`,
outside `0..299`, and the checked access faults. -/
theorem read_signed_empty_span_fault :
    InRange [(301, 0)] ∧ (∀ p ∈ [((301 : Int), (0 : Int))], 0 ≤ p.2)
      ∧ read_navigation_signed zero_frame [(301, 0)] = Except.error Fault.out_of_range := by
  decide

/-- C31, amended: for every frame and every descriptor in which every span has
`offset ≥ 1` and `offset + length - 1 ≤ 300`, every frame index the spans cover
lies in `0..299` and `read_navigation_unsigned` returns a value; so does
`read_navigation_signed` when the descriptor is non-empty and its first offset
is at most 300 (as it is when the first span is not empty), the index of the
sign bit being in `0..299` as well. Conversely, in any descriptor, a span of
length `≥ 1` with offset 0 or with `offset + length - 1 > 300` touches an index
outside `0..299`, and both readers fault. -/
theorem reads_in_range_iff_validated (bits : Frame) (parameter : Descriptor)
    (hr : InRange parameter) :
    (∀ i ∈ field_positions parameter, 0 ≤ i ∧ i < 300)
      ∧ (∃ u, read_navigation_unsigned bits parameter = Except.ok u)
      ∧ (∀ p0 ps, parameter = p0 :: ps → p0.1 ≤ 300 →
          (0 ≤ 300 - p0.1 ∧ 300 - p0.1 < 300)
            ∧ ∃ v, read_navigation_signed bits parameter = Except.ok v)
      ∧ (∀ (q : Descriptor) (p : Int × Int), p ∈ q → 1 ≤ p.2 →
          (p.1 = 0 ∨ p.1 + p.2 - 1 > 300) →
          (∃ i ∈ span_positions p, ¬ (0 ≤ i ∧ i < 300))
            ∧ read_navigation_unsigned bits q = Except.error Fault.out_of_range
            ∧ read_navigation_signed bits q = Except.error Fault.out_of_range) := by
  refine ⟨field_positions_mem parameter hr, ⟨_, read_unsigned_ok bits parameter hr⟩, ?_, ?_⟩
  · intro p0 ps hp h0
    subst hp
    have h1 := (hr p0 (List.mem_cons_self _ _)).1
    exact ⟨⟨by omega, by omega⟩, _, read_signed_in_range bits p0 ps hr h0⟩
  · intro q p hp h1 hbad
    obtain ⟨j, hj, hout⟩ := bad_span_index p h1 hbad
    refine ⟨⟨300 - p.1 - (j : Int), ?_, hout⟩, read_spans_fault bits 0 q p hp j hj hout,
      read_signed_fault bits q p hp j hj hout⟩
    unfold span_positions
    exact List.mem_map.2 ⟨j, List.mem_range.2 hj, rfl⟩

theorem reads_in_range_iff_validated_witness :
    (∀ i ∈ field_positions [(83, 2), (211, 8)], 0 ≤ i ∧ i < 300)
      ∧ (∃ u, read_navigation_unsigned sample_frame [(83, 2), (211, 8)] = Except.ok u)
      ∧ (∀ p0 ps, [((83 : Int), (2 : Int)), (211, 8)] = p0 :: ps → p0.1 ≤ 300 →
          (0 ≤ 300 - p0.1 ∧ 300 - p0.1 < 300)
            ∧ ∃ v, read_navigation_signed sample_frame [(83, 2), (211, 8)] = Except.ok v)
      ∧ (∀ (q : Descriptor) (p : Int × Int), p ∈ q → 1 ≤ p.2 →
          (p.1 = 0 ∨ p.1 + p.2 - 1 > 300) →
          (∃ i ∈ span_positions p, ¬ (0 ≤ i ∧ i < 300))
            ∧ read_navigation_unsigned sample_frame q = Except.error Fault.out_of_range
            ∧ read_navigation_signed sample_frame q = Except.error Fault.out_of_range) :=
  reads_in_range_iff_validated sample_frame [(83, 2), (211, 8)] (by decide)

/-- C32: for every frame and every two descriptors `A` and `B` with in-range
spans and total lengths `a` and `b`, `a + b ≤ 64`, the unsigned reading of
`A ++ B` is the reading of `A` times `2^b` plus the reading of `B`; so the low
`b` bits of the reading of `A ++ B` are the reading of `B` alone. -/
theorem read_unsigned_concatenation (bits : Frame) (A B : Descriptor)
    (hA : InRange A) (hB : InRange B) (hn : total_length A + total_length B ≤ 64) :
    ∃ u a b, read_navigation_unsigned bits (A ++ B) = Except.ok u
      ∧ read_navigation_unsigned bits A = Except.ok a
      ∧ read_navigation_unsigned bits B = Except.ok b
      ∧ u = a * 2 ^ total_length B + b
      ∧ u % 2 ^ total_length B = b := by
  have hu := read_unsigned_eq bits (A ++ B) (inRange_append A B hA hB)
    (by rw [total_length_append]; exact hn)
  have ha := read_unsigned_eq bits A hA (by omega)
  have hb := read_unsigned_eq bits B hB (by omega)
  have e : binary_value (field_bits bits (A ++ B))
      = binary_value (field_bits bits A) * 2 ^ total_length B
        + binary_value (field_bits bits B) := by
    rw [field_bits_append, binary_value_append, field_bits_length]
  have hlt : binary_value (field_bits bits B) < 2 ^ total_length B := by
    have := binary_value_lt (field_bits bits B)
    rwa [field_bits_length] at this
  refine ⟨_, _, _, hu, ha, hb, e, ?_⟩
  rw [e, Nat.mul_add_mod_of_lt hlt]

theorem read_unsigned_concatenation_witness :
    ∃ u a b, read_navigation_unsigned sample_frame ([(83, 2)] ++ [(211, 8)]) = Except.ok u
      ∧ read_navigation_unsigned sample_frame [(83, 2)] = Except.ok a
      ∧ read_navigation_unsigned sample_frame [(211, 8)] = Except.ok b
      ∧ u = a * 2 ^ total_length [(211, 8)] + b
      ∧ u % 2 ^ total_length [(211, 8)] = b :=
  read_unsigned_concatenation sample_frame [(83, 2)] [(211, 8)] (by decide) (by decide)
    (by decide)

/-! ## Validator and accessors: claims C36, C38 and C40 -/

theorem land_255_range (x : Int) : 0 ≤ Int.land x 0xFF ∧ Int.land x 0xFF ≤ 255 := by
  rw [land_255]
  omega

theorem satellite_validation_sentinel_free {D : Type} (s : Gps_Navigation_Message D) :
    satellite_validation s = satellite_validation_without_sentinel s := by
  unfold satellite_validation satellite_validation_without_sentinel
  by_cases h1 : s.d_TOW_SF1 ≠ 0 ∧ s.d_TOW_SF2 ≠ 0 ∧ s.d_TOW_SF3 ≠ 0
  · by_cases h2 : s.d_IODE_SF2 = s.d_IODE_SF3 ∧ Int.land s.d_IODC 0xFF = s.d_IODE_SF2
    · have h3 : s.d_IODE_SF2 = s.d_IODE_SF3 ∧ Int.land s.d_IODC 0xFF = s.d_IODE_SF2
          ∧ s.d_IODE_SF2 ≠ -1 := by
        refine ⟨h2.1, h2.2, ?_⟩
        have := land_255_range s.d_IODC
        rw [h2.2] at this
        omega
      simp only [if_pos h1, if_pos h2, if_pos h3]
    · have h3 : ¬ (s.d_IODE_SF2 = s.d_IODE_SF3 ∧ Int.land s.d_IODC 0xFF = s.d_IODE_SF2
          ∧ s.d_IODE_SF2 ≠ -1) := fun h => h2 ⟨h.1, h.2.1⟩
      simp only [if_pos h1, if_neg h2, if_neg h3]
  · simp only [if_neg h1]

/-- C36: for all integer values of `d_IODC`, `d_IODE_SF2`, `d_IODE_SF3` and of
the three transmission times (so for all 32-bit values), `satellite_validation`
returns true if and only if `d_TOW_SF1`, `d_TOW_SF2`, `d_TOW_SF3` are non-zero,
`d_IODE_SF2 = d_IODE_SF3` and `(d_IODC & 0xFF) = d_IODE_SF2`: `d_IODC & 0xFF`
lies in `0..255` and so never equals `-1`; the function with the conjunct
`d_IODE_SF2 != -1` dropped returns the same value and leaves the same state. -/
theorem satellite_validation_sentinel_redundant {D : Type} (s : Gps_Navigation_Message D) :
    ((satellite_validation s).1 = true ↔
        (s.d_TOW_SF1 ≠ 0 ∧ s.d_TOW_SF2 ≠ 0 ∧ s.d_TOW_SF3 ≠ 0 ∧ s.d_IODE_SF2 = s.d_IODE_SF3
          ∧ Int.land s.d_IODC 0xFF = s.d_IODE_SF2))
      ∧ (0 ≤ Int.land s.d_IODC 0xFF ∧ Int.land s.d_IODC 0xFF ≤ 255)
      ∧ Int.land s.d_IODC 0xFF ≠ -1
      ∧ satellite_validation s = satellite_validation_without_sentinel s := by
  have hr := land_255_range s.d_IODC
  refine ⟨?_, hr, by omega, satellite_validation_sentinel_free s⟩
  rw [satellite_validation_true_iff]
  constructor
  · rintro ⟨a1, a2, a3, a4, a5, _⟩
    exact ⟨a1, a2, a3, a4, a5⟩
  · rintro ⟨a1, a2, a3, a4, a5⟩
    refine ⟨a1, a2, a3, a4, a5, ?_⟩
    rw [← a5]
    omega

/-- C38: each flag-clearing accessor changes one member only: the state after
`get_almanac` is the state before it with `flag_almanac_valid` false, the state
after `get_iono` is the state before it with `flag_iono_valid` false, the state
after `get_utc_model` is the state before it with `flag_utc_model_valid` false;
so `get_iono` leaves `flag_utc_model_valid` and `get_utc_model` leaves
`flag_iono_valid` as it was, and no decoded data member is altered. -/
theorem accessors_clear_one_flag {D : Type} (s : Gps_Navigation_Message D) :
    (get_almanac s).2 = { s with flag_almanac_valid := false }
      ∧ (get_iono s).2 = { s with flag_iono_valid := false }
      ∧ (get_utc_model s).2 = { s with flag_utc_model_valid := false }
      ∧ (get_iono s).2.flag_utc_model_valid = s.flag_utc_model_valid
      ∧ (get_utc_model s).2.flag_iono_valid = s.flag_iono_valid :=
  ⟨rfl, rfl, rfl, rfl, rfl⟩

/-! ## Transmission times across a decode -/

section TowView

variable {D : Type} [Mul D] [IntCast D]

theorem subframe_1_state_tow (K : Constants D) (bits : Frame) (s : Gps_Navigation_Message D) :
    tow_view (subframe_1_state K bits s)
      = (i32_times_value K bits .TOW 6, s.d_TOW_SF2, s.d_TOW_SF3, s.d_TOW_SF4, s.d_TOW_SF5,
          i32_times_value K bits .TOW 6) := by
  unfold subframe_1_state tow_view
  rfl

theorem subframe_2_state_tow (K : Constants D) (bits : Frame) (s : Gps_Navigation_Message D) :
    tow_view (subframe_2_state K bits s)
      = (s.d_TOW_SF1, i32_times_value K bits .TOW 6, s.d_TOW_SF3, s.d_TOW_SF4, s.d_TOW_SF5,
          i32_times_value K bits .TOW 6) := by
  unfold subframe_2_state tow_view
  rfl

theorem subframe_3_state_tow (K : Constants D) (bits : Frame) (s : Gps_Navigation_Message D) :
    tow_view (subframe_3_state K bits s)
      = (s.d_TOW_SF1, s.d_TOW_SF2, i32_times_value K bits .TOW 6, s.d_TOW_SF4, s.d_TOW_SF5,
          i32_times_value K bits .TOW 6) := by
  unfold subframe_3_state tow_view
  rfl

omit [Mul D] [IntCast D] in
theorem header_4_state_tow (K : Constants D) (bits : Frame) (s : Gps_Navigation_Message D) :
    tow_view (header_4_state K bits s)
      = (s.d_TOW_SF1, s.d_TOW_SF2, s.d_TOW_SF3, i32_times_value K bits .TOW 6, s.d_TOW_SF5,
          i32_times_value K bits .TOW 6) := by
  unfold header_4_state tow_view
  rfl

omit [Mul D] [IntCast D] in
theorem header_5_state_tow (K : Constants D) (bits : Frame) (s : Gps_Navigation_Message D) :
    tow_view (header_5_state K bits s)
      = (s.d_TOW_SF1, s.d_TOW_SF2, s.d_TOW_SF3, s.d_TOW_SF4, i32_times_value K bits .TOW 6,
          i32_times_value K bits .TOW 6) := by
  unfold header_5_state tow_view
  rfl

theorem almanac_4_state_tow (K : Constants D) (bits : Frame) (page : Int)
    (s : Gps_Navigation_Message D) :
    tow_view (almanac_4_state K bits page s) = tow_view s := by
  unfold almanac_4_state tow_view
  rfl

theorem almanac_5_state_tow (K : Constants D) (bits : Frame) (page : Int)
    (s : Gps_Navigation_Message D) :
    tow_view (almanac_5_state K bits page s) = tow_view s := by
  unfold almanac_5_state tow_view
  rfl

theorem page_18_state_tow (K : Constants D) (bits : Frame) (s : Gps_Navigation_Message D) :
    tow_view (page_18_state K bits s) = tow_view s := by
  unfold page_18_state tow_view
  rfl

omit [Mul D] [IntCast D] in
theorem page_25_sf4_state_tow (K : Constants D) (bits : Frame)
    (s : Gps_Navigation_Message D) :
    tow_view (page_25_sf4_state K bits s) = tow_view s := by
  rw [page_25_sf4_state_eq]
  rfl

omit [Mul D] [IntCast D] in
theorem page_25_sf5_state_tow (K : Constants D) (bits : Frame)
    (s : Gps_Navigation_Message D) :
    tow_view (page_25_sf5_state K bits s) = tow_view s := by
  rw [page_25_sf5_state_eq]
  unfold tow_view
  rfl

theorem subframe_4_state_tow (K : Constants D) (bits : Frame) (s : Gps_Navigation_Message D) :
    tow_view (subframe_4_state K bits s)
      = (s.d_TOW_SF1, s.d_TOW_SF2, s.d_TOW_SF3, i32_times_value K bits .TOW 6, s.d_TOW_SF5,
          i32_times_value K bits .TOW 6) := by
  have a1 : tow_view (almanac_4_step K bits (header_4_state K bits s))
      = tow_view (header_4_state K bits s) := by
    by_cases h : (i32_value K bits .SV_PAGE > 24 ∧ i32_value K bits .SV_PAGE < 33)
        ∧ i32_value K bits .SV_DATA_ID ≠ 0
    · rw [almanac_4_step_on K bits _ h.1 h.2]
      exact almanac_4_state_tow K bits _ _
    · rw [almanac_4_step_off K bits _ h]
  have a2 : tow_view (page_18_step K bits (almanac_4_step K bits (header_4_state K bits s)))
      = tow_view (almanac_4_step K bits (header_4_state K bits s)) := by
    by_cases h : i32_value K bits .SV_PAGE = 56
    · rw [page_18_step_on K bits _ h]
      exact page_18_state_tow K bits _
    · rw [page_18_step_off K bits _ h]
  have a3 : tow_view (subframe_4_state K bits s)
      = tow_view (page_18_step K bits (almanac_4_step K bits (header_4_state K bits s))) := by
    unfold subframe_4_state
    by_cases h : i32_value K bits .SV_PAGE = 63
    · rw [page_25_sf4_step_on K bits _ h]
      exact page_25_sf4_state_tow K bits _
    · rw [page_25_sf4_step_off K bits _ h]
  exact a3.trans (a2.trans (a1.trans (header_4_state_tow K bits s)))

theorem subframe_5_state_tow (K : Constants D) (bits : Frame) (s : Gps_Navigation_Message D) :
    tow_view (subframe_5_state K bits s)
      = (s.d_TOW_SF1, s.d_TOW_SF2, s.d_TOW_SF3, s.d_TOW_SF4, i32_times_value K bits .TOW 6,
          i32_times_value K bits .TOW 6) := by
  have a1 : tow_view (almanac_5_step K bits (header_5_state K bits s))
      = tow_view (header_5_state K bits s) := by
    by_cases h : (i32_value K bits .SV_PAGE > 0 ∧ i32_value K bits .SV_PAGE < 25)
        ∧ i32_value K bits .SV_DATA_ID ≠ 0
    · rw [almanac_5_step_on K bits _ h.1 h.2]
      exact almanac_5_state_tow K bits _ _
    · rw [almanac_5_step_off K bits _ h]
  have a3 : tow_view (subframe_5_state K bits s)
      = tow_view (almanac_5_step K bits (header_5_state K bits s)) := by
    unfold subframe_5_state
    by_cases h : i32_value K bits .SV_PAGE = 51
    · rw [page_25_sf5_step_on K bits _ h]
      exact page_25_sf5_state_tow K bits _
    · rw [page_25_sf5_step_off K bits _ h]
  exact a3.trans (a1.trans (header_5_state_tow K bits s))

/-- The transmission times after the switch at an identifier in 1..5. -/
theorem switch_state_tow (K : Constants D) (bits : Frame) (id : Int)
    (s : Gps_Navigation_Message D) (h1 : 1 ≤ id) (h5 : id ≤ 5) :
    tow_view (switch_state K bits id s)
      = (if id = 1 then i32_times_value K bits .TOW 6 else s.d_TOW_SF1,
          if id = 2 then i32_times_value K bits .TOW 6 else s.d_TOW_SF2,
          if id = 3 then i32_times_value K bits .TOW 6 else s.d_TOW_SF3,
          if id = 4 then i32_times_value K bits .TOW 6 else s.d_TOW_SF4,
          if id = 5 then i32_times_value K bits .TOW 6 else s.d_TOW_SF5,
          i32_times_value K bits .TOW 6) := by
  have hk : id = 1 ∨ id = 2 ∨ id = 3 ∨ id = 4 ∨ id = 5 := by omega
  rcases hk with e | e | e | e | e
  · subst e
    rw [switch_state_one, subframe_1_state_tow]
    simp
  · subst e
    rw [switch_state_two, subframe_2_state_tow]
    simp
  · subst e
    rw [switch_state_three, subframe_3_state_tow]
    simp
  · subst e
    rw [switch_state_four, subframe_4_state_tow]
    simp
  · subst e
    rw [switch_state_five, subframe_5_state_tow]
    simp

end TowView

/-! ## Transmission time bookkeeping: claim C33 -/

/-- C33: for every pre-state and every input whose identifier field reads `k`
in 1..5 and whose `TOW` field reads `tow` (the field being at most 28 bits wide,
so that the product by 6 fits `int32_t`), `subframe_decoder` returns `k` and
leaves `d_TOW_SFk = d_TOW = 6 * tow`, the other four per-type times as they
were; the member `tow` of the record `get_ephemeris` returns afterwards is
`6 * tow`, also for the types 4 and 5. -/
theorem transmission_time_bookkeeping {D : Type} [Mul D] [IntCast D] {K : Constants D}
    (hK : K.Valid) (hT : total_length (K.desc .TOW) ≤ 28)
    (s : Gps_Navigation_Message D) (f : List (Fin 256)) (k tow : Nat)
    (hid : decoded_field K f .SUBFRAME_ID = Except.ok k) (h1 : 1 ≤ k) (h5 : k ≤ 5)
    (ht : decoded_field K f .TOW = Except.ok tow) :
    ∃ s1, subframe_decoder K s f = Except.ok ((k : Int), s1)
      ∧ s1.d_TOW = 6 * (tow : Int)
      ∧ s1.d_TOW_SF1 = (if k = 1 then 6 * (tow : Int) else s.d_TOW_SF1)
      ∧ s1.d_TOW_SF2 = (if k = 2 then 6 * (tow : Int) else s.d_TOW_SF2)
      ∧ s1.d_TOW_SF3 = (if k = 3 then 6 * (tow : Int) else s.d_TOW_SF3)
      ∧ s1.d_TOW_SF4 = (if k = 4 then 6 * (tow : Int) else s.d_TOW_SF4)
      ∧ s1.d_TOW_SF5 = (if k = 5 then 6 * (tow : Int) else s.d_TOW_SF5)
      ∧ (get_ephemeris s1).1.tow = 6 * (tow : Int) := by
  obtain ⟨bits, hb, hdec⟩ := subframe_decoder_at hK s f k hid (by omega)
  have hlt : tow < 2 ^ 28 :=
    lt_of_lt_of_le (decoded_field_lt hK f .TOW tow ht (by omega))
      (Nat.pow_le_pow_right (by norm_num) hT)
  have hv : i32_times_value K bits .TOW 6 = 6 * (tow : Int) := by
    unfold i32_times_value
    rw [decoded_field_raw hK f bits hb .TOW tow ht]
    exact tow_times_six tow hlt
  have hw := switch_state_tow K bits (k : Int) s (by omega) (by omega)
  rw [hv] at hw
  unfold tow_view at hw
  have c1 : ((k : Int) = 1) ↔ k = 1 := by omega
  have c2 : ((k : Int) = 2) ↔ k = 2 := by omega
  have c3 : ((k : Int) = 3) ↔ k = 3 := by omega
  have c4 : ((k : Int) = 4) ↔ k = 4 := by omega
  have c5 : ((k : Int) = 5) ↔ k = 5 := by omega
  simp only [Prod.mk.injEq, c1, c2, c3, c4, c5] at hw
  obtain ⟨e1, e2, e3, e4, e5, e6⟩ := hw
  exact ⟨_, hdec, e6, e1, e2, e3, e4, e5, e6⟩

set_option maxRecDepth 100000 in
theorem transmission_time_bookkeeping_witness :
    ∃ s1, subframe_decoder sample_constants zero_state (page_subframe 4 1 25)
        = Except.ok (((4 : Nat) : Int), s1)
      ∧ s1.d_TOW = 6 * ((1 : Nat) : Int)
      ∧ s1.d_TOW_SF1 = (if 4 = 1 then 6 * ((1 : Nat) : Int) else zero_state.d_TOW_SF1)
      ∧ s1.d_TOW_SF2 = (if 4 = 2 then 6 * ((1 : Nat) : Int) else zero_state.d_TOW_SF2)
      ∧ s1.d_TOW_SF3 = (if 4 = 3 then 6 * ((1 : Nat) : Int) else zero_state.d_TOW_SF3)
      ∧ s1.d_TOW_SF4 = (if 4 = 4 then 6 * ((1 : Nat) : Int) else zero_state.d_TOW_SF4)
      ∧ s1.d_TOW_SF5 = (if 4 = 5 then 6 * ((1 : Nat) : Int) else zero_state.d_TOW_SF5)
      ∧ (get_ephemeris s1).1.tow = 6 * ((1 : Nat) : Int) :=
  transmission_time_bookkeeping sample_constants_valid (by decide) zero_state
    (page_subframe 4 1 25) 4 1 (by decide) (by decide) (by decide) (by decide)

/-! ## The almanac flag and vehicle number across a call -/

section AlmanacView

variable {D : Type} [Mul D] [IntCast D]

theorem subframe_1_state_almanac (K : Constants D) (bits : Frame)
    (s : Gps_Navigation_Message D) :
    almanac_view (subframe_1_state K bits s) = almanac_view s := by
  unfold subframe_1_state almanac_view
  rfl

theorem subframe_2_state_almanac (K : Constants D) (bits : Frame)
    (s : Gps_Navigation_Message D) :
    almanac_view (subframe_2_state K bits s) = almanac_view s := by
  unfold subframe_2_state almanac_view
  rfl

theorem subframe_3_state_almanac (K : Constants D) (bits : Frame)
    (s : Gps_Navigation_Message D) :
    almanac_view (subframe_3_state K bits s) = almanac_view s := by
  unfold subframe_3_state almanac_view
  rfl

omit [Mul D] [IntCast D] in
theorem header_4_state_almanac (K : Constants D) (bits : Frame)
    (s : Gps_Navigation_Message D) :
    almanac_view (header_4_state K bits s) = almanac_view s := by
  unfold header_4_state almanac_view
  rfl

omit [Mul D] [IntCast D] in
theorem header_5_state_almanac (K : Constants D) (bits : Frame)
    (s : Gps_Navigation_Message D) :
    almanac_view (header_5_state K bits s) = almanac_view s := by
  unfold header_5_state almanac_view
  rfl

theorem almanac_4_state_almanac (K : Constants D) (bits : Frame) (page : Int)
    (s : Gps_Navigation_Message D) :
    almanac_view (almanac_4_state K bits page s) = (true, page) := by
  unfold almanac_4_state almanac_view
  rfl

theorem almanac_5_state_almanac (K : Constants D) (bits : Frame) (page : Int)
    (s : Gps_Navigation_Message D) :
    almanac_view (almanac_5_state K bits page s) = (true, page) := by
  unfold almanac_5_state almanac_view
  rfl

theorem page_18_state_almanac (K : Constants D) (bits : Frame)
    (s : Gps_Navigation_Message D) :
    almanac_view (page_18_state K bits s) = almanac_view s := by
  unfold page_18_state almanac_view
  rfl

omit [Mul D] [IntCast D] in
theorem page_25_sf4_state_almanac (K : Constants D) (bits : Frame)
    (s : Gps_Navigation_Message D) :
    almanac_view (page_25_sf4_state K bits s) = almanac_view s := by
  rw [page_25_sf4_state_eq]
  rfl

omit [Mul D] [IntCast D] in
theorem page_25_sf5_state_almanac (K : Constants D) (bits : Frame)
    (s : Gps_Navigation_Message D) :
    almanac_view (page_25_sf5_state K bits s) = almanac_view s := by
  rw [page_25_sf5_state_eq]
  unfold almanac_view
  rfl

theorem subframe_4_state_almanac_view (K : Constants D) (bits : Frame)
    (s : Gps_Navigation_Message D) :
    almanac_view (subframe_4_state K bits s)
      = (if (i32_value K bits .SV_PAGE > 24 ∧ i32_value K bits .SV_PAGE < 33)
            ∧ i32_value K bits .SV_DATA_ID ≠ 0
          then (true, i32_value K bits .SV_PAGE) else almanac_view s) := by
  have a1 : almanac_view (almanac_4_step K bits (header_4_state K bits s))
      = (if (i32_value K bits .SV_PAGE > 24 ∧ i32_value K bits .SV_PAGE < 33)
            ∧ i32_value K bits .SV_DATA_ID ≠ 0
          then (true, i32_value K bits .SV_PAGE) else almanac_view s) := by
    by_cases h : (i32_value K bits .SV_PAGE > 24 ∧ i32_value K bits .SV_PAGE < 33)
        ∧ i32_value K bits .SV_DATA_ID ≠ 0
    · rw [almanac_4_step_on K bits _ h.1 h.2, if_pos h]
      exact almanac_4_state_almanac K bits _ _
    · rw [almanac_4_step_off K bits _ h, if_neg h]
      exact header_4_state_almanac K bits s
  have a2 : almanac_view (page_18_step K bits (almanac_4_step K bits (header_4_state K bits s)))
      = almanac_view (almanac_4_step K bits (header_4_state K bits s)) := by
    by_cases h : i32_value K bits .SV_PAGE = 56
    · rw [page_18_step_on K bits _ h]
      exact page_18_state_almanac K bits _
    · rw [page_18_step_off K bits _ h]
  have a3 : almanac_view (subframe_4_state K bits s)
      = almanac_view (page_18_step K bits
          (almanac_4_step K bits (header_4_state K bits s))) := by
    unfold subframe_4_state
    by_cases h : i32_value K bits .SV_PAGE = 63
    · rw [page_25_sf4_step_on K bits _ h]
      exact page_25_sf4_state_almanac K bits _
    · rw [page_25_sf4_step_off K bits _ h]
  exact a3.trans (a2.trans a1)

theorem subframe_5_state_almanac_view (K : Constants D) (bits : Frame)
    (s : Gps_Navigation_Message D) :
    almanac_view (subframe_5_state K bits s)
      = (if (i32_value K bits .SV_PAGE > 0 ∧ i32_value K bits .SV_PAGE < 25)
            ∧ i32_value K bits .SV_DATA_ID ≠ 0
          then (true, i32_value K bits .SV_PAGE) else almanac_view s) := by
  have a1 : almanac_view (almanac_5_step K bits (header_5_state K bits s))
      = (if (i32_value K bits .SV_PAGE > 0 ∧ i32_value K bits .SV_PAGE < 25)
            ∧ i32_value K bits .SV_DATA_ID ≠ 0
          then (true, i32_value K bits .SV_PAGE) else almanac_view s) := by
    by_cases h : (i32_value K bits .SV_PAGE > 0 ∧ i32_value K bits .SV_PAGE < 25)
        ∧ i32_value K bits .SV_DATA_ID ≠ 0
    · rw [almanac_5_step_on K bits _ h.1 h.2, if_pos h]
      exact almanac_5_state_almanac K bits _ _
    · rw [almanac_5_step_off K bits _ h, if_neg h]
      exact header_5_state_almanac K bits s
  have a3 : almanac_view (subframe_5_state K bits s)
      = almanac_view (almanac_5_step K bits (header_5_state K bits s)) := by
    unfold subframe_5_state
    by_cases h : i32_value K bits .SV_PAGE = 51
    · rw [page_25_sf5_step_on K bits _ h]
      exact page_25_sf5_state_almanac K bits _
    · rw [page_25_sf5_step_off K bits _ h]
  exact a3.trans a1

/-- The almanac flag and vehicle number after the switch: written by an almanac
page of type 4 with a number in 25..32, written by an almanac page of type 5
with a number in 1..24, or left as they were. -/
theorem switch_state_almanac (K : Constants D) (bits : Frame) (id : Int)
    (s : Gps_Navigation_Message D) :
    (id = 4 ∧ almanac_view (switch_state K bits id s) = (true, i32_value K bits .SV_PAGE)
        ∧ 25 ≤ i32_value K bits .SV_PAGE ∧ i32_value K bits .SV_PAGE ≤ 32)
      ∨ (id = 5 ∧ almanac_view (switch_state K bits id s) = (true, i32_value K bits .SV_PAGE)
        ∧ 1 ≤ i32_value K bits .SV_PAGE ∧ i32_value K bits .SV_PAGE ≤ 24)
      ∨ almanac_view (switch_state K bits id s) = almanac_view s := by
  by_cases h1 : id = 1
  · subst h1
    rw [switch_state_one]
    exact Or.inr (Or.inr (subframe_1_state_almanac K bits s))
  by_cases h2 : id = 2
  · subst h2
    rw [switch_state_two]
    exact Or.inr (Or.inr (subframe_2_state_almanac K bits s))
  by_cases h3 : id = 3
  · subst h3
    rw [switch_state_three]
    exact Or.inr (Or.inr (subframe_3_state_almanac K bits s))
  by_cases h4 : id = 4
  · subst h4
    rw [switch_state_four, subframe_4_state_almanac_view]
    by_cases h : (i32_value K bits .SV_PAGE > 24 ∧ i32_value K bits .SV_PAGE < 33)
        ∧ i32_value K bits .SV_DATA_ID ≠ 0
    · rw [if_pos h]
      exact Or.inl ⟨rfl, rfl, by omega, by omega⟩
    · rw [if_neg h]
      exact Or.inr (Or.inr rfl)
  by_cases h5 : id = 5
  · subst h5
    rw [switch_state_five, subframe_5_state_almanac_view]
    by_cases h : (i32_value K bits .SV_PAGE > 0 ∧ i32_value K bits .SV_PAGE < 25)
        ∧ i32_value K bits .SV_DATA_ID ≠ 0
    · rw [if_pos h]
      exact Or.inr (Or.inl ⟨rfl, rfl, by omega, by omega⟩)
    · rw [if_neg h]
      exact Or.inr (Or.inr rfl)
  refine Or.inr (Or.inr ?_)
  unfold switch_state
  rw [if_neg h1, if_neg h2, if_neg h3, if_neg h4, if_neg h5]

omit [Mul D] [IntCast D] in
theorem almanacNumbered_of_view (s s1 : Gps_Navigation_Message D)
    (h : almanac_view s1 = almanac_view s) (hs : AlmanacNumbered s) : AlmanacNumbered s1 := by
  unfold almanac_view at h
  simp only [Prod.mk.injEq] at h
  unfold AlmanacNumbered at hs ⊢
  rw [h.1, h.2]
  exact hs

omit [Mul D] [IntCast D] in
theorem almanacNumbered_of_written (s1 : Gps_Navigation_Message D) (p : Int)
    (h : almanac_view s1 = (true, p)) (h1 : 1 ≤ p) (h2 : p ≤ 32) : AlmanacNumbered s1 := by
  unfold almanac_view at h
  simp only [Prod.mk.injEq] at h
  unfold AlmanacNumbered
  rw [h.2]
  exact fun _ => ⟨h1, h2⟩

theorem switch_state_numbered (K : Constants D) (bits : Frame) (id : Int)
    (s : Gps_Navigation_Message D) (hs : AlmanacNumbered s) :
    AlmanacNumbered (switch_state K bits id s) := by
  rcases switch_state_almanac K bits id s with ⟨_, e, a, b⟩ | ⟨_, e, a, b⟩ | e
  · exact almanacNumbered_of_written _ _ e (by omega) (by omega)
  · exact almanacNumbered_of_written _ _ e (by omega) (by omega)
  · exact almanacNumbered_of_view s _ e hs

omit [Mul D] [IntCast D] in
theorem satellite_validation_almanac (s : Gps_Navigation_Message D) :
    almanac_view (satellite_validation s).2 = almanac_view s := by
  rw [satellite_validation_state]
  rfl

omit [Mul D] [IntCast D] in
theorem ok_bind_snd {A B : Type} (a : A) (b : B) :
    (do let r ← (Except.ok (a, b) : Result (A × B)); pure r.2) = (Except.ok b : Result B) :=
  rfl

/-- One call succeeds on a well-formed input and keeps the invariant. -/
theorem call_numbered {K : Constants D} (hK : K.Valid) (c : Call)
    (s : Gps_Navigation_Message D) (hc : c.WellFormed) (hs : AlmanacNumbered s) :
    ∃ s1, c.run K s = Except.ok s1 ∧ AlmanacNumbered s1 := by
  cases c with
  | subframe_decoder f =>
    have hlen : f.length = 40 := hc
    refine ⟨switch_state K (frame_of_words (word f))
      (i32_value K (frame_of_words (word f)) .SUBFRAME_ID) s, ?_, ?_⟩
    · show (do let r ← subframe_decoder K s f; pure r.2) = _
      rw [subframe_decoder_state hK s f _ (unpack_eq f hlen)]
      exact ok_bind_snd _ _
    · exact switch_state_numbered K _ _ s hs
  | satellite_validation =>
    exact ⟨_, rfl, almanacNumbered_of_view s _ (satellite_validation_almanac s) hs⟩
  | almanac_validation => exact ⟨_, rfl, hs⟩
  | get_ephemeris => exact ⟨_, rfl, hs⟩
  | get_almanac =>
    refine ⟨_, rfl, ?_⟩
    intro h
    exact absurd h (by rw [get_almanac_clears]; exact Bool.false_ne_true)
  | get_iono => exact ⟨_, rfl, almanacNumbered_of_view s _ rfl hs⟩
  | get_utc_model => exact ⟨_, rfl, almanacNumbered_of_view s _ rfl hs⟩

theorem run_calls_numbered {K : Constants D} (hK : K.Valid) (cs : List Call) :
    ∀ s : Gps_Navigation_Message D, (∀ c ∈ cs, c.WellFormed) → AlmanacNumbered s →
      ∃ s1, run_calls K s cs = Except.ok s1 ∧ AlmanacNumbered s1 := by
  induction cs with
  | nil => exact fun s _ hs => ⟨s, rfl, hs⟩
  | cons c cs ih =>
    intro s hcs hs
    obtain ⟨s1, e1, n1⟩ := call_numbered hK c s (hcs c (List.mem_cons_self _ _)) hs
    obtain ⟨s2, e2, n2⟩ := ih s1 (fun d hd => hcs d (List.mem_cons_of_mem _ hd)) n1
    refine ⟨s2, ?_, n2⟩
    show (do let t ← c.run K s; run_calls K t cs) = _
    rw [e1]
    exact e2

end AlmanacView

/-! ## Flags and the almanac record across calls: claims C37, C39 and C40 -/

section ReadyFlag

variable {D : Type} [Mul D] [IntCast D]

/-- The switch never assigns `b_valid_ephemeris_set_flag`, whatever the
identifier. -/
theorem switch_state_ready_flag (K : Constants D) (bits : Frame) (id : Int)
    (s : Gps_Navigation_Message D) :
    (switch_state K bits id s).b_valid_ephemeris_set_flag = s.b_valid_ephemeris_set_flag := by
  by_cases h1 : id = 1
  · subst h1
    rw [switch_state_one]
    unfold subframe_1_state
    rfl
  by_cases h2 : id = 2
  · subst h2
    rw [switch_state_two]
    exact (subframe_2_state_ready_flag K bits s).1
  by_cases h3 : id = 3
  · subst h3
    rw [switch_state_three]
    unfold subframe_3_state
    rfl
  have h := switch_state_view K bits id s (by omega)
  unfold ephemeris_view at h
  simp only [Prod.mk.injEq] at h
  exact h.1

theorem flag_kept_of_ite (c : Prop) [Decidable c] (a b : Bool)
    (h : a = if c then true else b) (hb : b = true) : a = true := by
  rw [h, hb]
  exact ite_self true

end ReadyFlag

/-- C37: for every pre-state and every 40-byte input, `subframe_decoder`
returns and none of `flag_almanac_valid`, `flag_almanac_week_valid`,
`flag_iono_valid`, `flag_utc_model_valid` goes from true to false, and
`b_valid_ephemeris_set_flag` keeps its value; so when `satellite_validation`
has returned true, the state after a following decode of any input, a Type 2
frame with another IODE included, still has `b_valid_ephemeris_set_flag` set. -/
theorem decoding_keeps_validity {D : Type} [Mul D] [IntCast D] {K : Constants D}
    (hK : K.Valid) (s : Gps_Navigation_Message D) (f : List (Fin 256))
    (hlen : f.length = 40) :
    ∃ id s1, subframe_decoder K s f = Except.ok (id, s1)
      ∧ (s.flag_almanac_valid = true → s1.flag_almanac_valid = true)
      ∧ (s.flag_almanac_week_valid = true → s1.flag_almanac_week_valid = true)
      ∧ (s.flag_iono_valid = true → s1.flag_iono_valid = true)
      ∧ (s.flag_utc_model_valid = true → s1.flag_utc_model_valid = true)
      ∧ s1.b_valid_ephemeris_set_flag = s.b_valid_ephemeris_set_flag
      ∧ ((satellite_validation s).1 = true →
          ∃ s2, subframe_decoder K (satellite_validation s).2 f = Except.ok (id, s2)
            ∧ s2.b_valid_ephemeris_set_flag = true) := by
  have hdec := fun t => subframe_decoder_state hK t f _ (unpack_eq f hlen)
  obtain ⟨a1, a2, a3, a4, _⟩ := switch_state_flags K (frame_of_words (word f))
    (i32_value K (frame_of_words (word f)) .SUBFRAME_ID) s
  refine ⟨_, _, hdec s, flag_kept_of_ite _ _ _ a3, flag_kept_of_ite _ _ _ a4,
    flag_kept_of_ite _ _ _ a1, flag_kept_of_ite _ _ _ a2,
    switch_state_ready_flag K _ _ s, ?_⟩
  intro hv
  refine ⟨_, hdec _, ?_⟩
  rw [switch_state_ready_flag, satellite_validation_flag]
  exact hv

set_option maxRecDepth 100000 in
theorem decoding_keeps_validity_witness :
    ∃ id s1, subframe_decoder sample_constants ready_state issue_subframe = Except.ok (id, s1)
      ∧ (ready_state.flag_almanac_valid = true → s1.flag_almanac_valid = true)
      ∧ (ready_state.flag_almanac_week_valid = true → s1.flag_almanac_week_valid = true)
      ∧ (ready_state.flag_iono_valid = true → s1.flag_iono_valid = true)
      ∧ (ready_state.flag_utc_model_valid = true → s1.flag_utc_model_valid = true)
      ∧ s1.b_valid_ephemeris_set_flag = ready_state.b_valid_ephemeris_set_flag
      ∧ ((satellite_validation ready_state).1 = true →
          ∃ s2, subframe_decoder sample_constants (satellite_validation ready_state).2
              issue_subframe = Except.ok (id, s2)
            ∧ s2.b_valid_ephemeris_set_flag = true) :=
  decoding_keeps_validity sample_constants_valid ready_state issue_subframe (by decide)

/-- C39: from a state with `flag_almanac_valid = false`, every sequence of
`subframe_decoder` calls on 40-byte inputs, validator calls and accessor calls
runs to a state in which `flag_almanac_valid = true` implies
`1 <= a_PRN <= 32`, and `a_PRN` is the `PRN` of the record `get_almanac`
delivers; a single decode from any state either is of type 4 and leaves the flag
set with `a_PRN` in 25..32, or is of type 5 and leaves the flag set with `a_PRN`
in 1..24, or leaves the flag and `a_PRN` as they were. -/
theorem almanac_vehicle_number_invariant {D : Type} [Mul D] [IntCast D] {K : Constants D}
    (hK : K.Valid) (s0 : Gps_Navigation_Message D) (h0 : s0.flag_almanac_valid = false)
    (cs : List Call) (hcs : ∀ c ∈ cs, c.WellFormed)
    (t : Gps_Navigation_Message D) (f : List (Fin 256)) (hlen : f.length = 40) :
    (∃ s, run_calls K s0 cs = Except.ok s
        ∧ (s.flag_almanac_valid = true → 1 ≤ s.a_PRN ∧ s.a_PRN ≤ 32)
        ∧ (get_almanac s).1.PRN = s.a_PRN)
      ∧ (∃ id t1, subframe_decoder K t f = Except.ok (id, t1)
        ∧ ((id = 4 ∧ t1.flag_almanac_valid = true ∧ 25 ≤ t1.a_PRN ∧ t1.a_PRN ≤ 32)
          ∨ (id = 5 ∧ t1.flag_almanac_valid = true ∧ 1 ≤ t1.a_PRN ∧ t1.a_PRN ≤ 24)
          ∨ (t1.flag_almanac_valid = t.flag_almanac_valid ∧ t1.a_PRN = t.a_PRN))) := by
  constructor
  · have hs : AlmanacNumbered s0 := by
      intro h
      rw [h0] at h
      exact absurd h Bool.false_ne_true
    obtain ⟨s, e, n⟩ := run_calls_numbered hK cs s0 hcs hs
    exact ⟨s, e, n, rfl⟩
  · refine ⟨_, _, subframe_decoder_state hK t f _ (unpack_eq f hlen), ?_⟩
    rcases switch_state_almanac K (frame_of_words (word f))
      (i32_value K (frame_of_words (word f)) .SUBFRAME_ID) t with ⟨i, e, a, b⟩ | ⟨i, e, a, b⟩ | e
    · unfold almanac_view at e
      simp only [Prod.mk.injEq] at e
      exact Or.inl ⟨i, e.1, by rw [e.2]; exact a, by rw [e.2]; exact b⟩
    · unfold almanac_view at e
      simp only [Prod.mk.injEq] at e
      exact Or.inr (Or.inl ⟨i, e.1, by rw [e.2]; exact a, by rw [e.2]; exact b⟩)
    · unfold almanac_view at e
      simp only [Prod.mk.injEq] at e
      exact Or.inr (Or.inr e)

set_option maxRecDepth 100000 in
theorem almanac_vehicle_number_invariant_witness :
    (∃ s, run_calls sample_constants zero_state
          [Call.subframe_decoder (page_subframe 5 1 3), Call.get_almanac,
            Call.subframe_decoder (page_subframe 4 1 25), Call.almanac_validation]
          = Except.ok s
        ∧ (s.flag_almanac_valid = true → 1 ≤ s.a_PRN ∧ s.a_PRN ≤ 32)
        ∧ (get_almanac s).1.PRN = s.a_PRN)
      ∧ (∃ id t1, subframe_decoder sample_constants zero_state (page_subframe 4 1 25)
          = Except.ok (id, t1)
        ∧ ((id = 4 ∧ t1.flag_almanac_valid = true ∧ 25 ≤ t1.a_PRN ∧ t1.a_PRN ≤ 32)
          ∨ (id = 5 ∧ t1.flag_almanac_valid = true ∧ 1 ≤ t1.a_PRN ∧ t1.a_PRN ≤ 24)
          ∨ (t1.flag_almanac_valid = zero_state.flag_almanac_valid
            ∧ t1.a_PRN = zero_state.a_PRN))) :=
  almanac_vehicle_number_invariant sample_constants_valid zero_state rfl
    [Call.subframe_decoder (page_subframe 5 1 3), Call.get_almanac,
      Call.subframe_decoder (page_subframe 4 1 25), Call.almanac_validation]
    (by decide) zero_state (page_subframe 4 1 25) (by decide)

/-- C40: for every pre-state, after a decode of a Type 5 almanac page for
vehicle `p` in 1..24 followed by a decode of a Type 4 almanac page for vehicle
`q` in 25..32 (data identifiers non-zero), the record `get_almanac` returns has
`PRN = q` and its `SV_health` is the unsigned `ALM_SVHEALTH` value of the
Type 5 frame, the value the first decode left in `SV_Health`: the Type 4 decode
does not write that member. -/
theorem almanac_health_stale {D : Type} [Mul D] [IntCast D] {K : Constants D}
    (hK : K.Valid) (hD : total_length (K.desc .SV_DATA_ID) ≤ 31)
    (hH : total_length (K.desc .ALM_SVHEALTH) ≤ 31)
    (s : Gps_Navigation_Message D) (f5 f4 : List (Fin 256)) (bits5 : Frame)
    (p d5 q d4 : Nat)
    (hb5 : unpack f5 = Except.ok bits5)
    (hid5 : decoded_field K f5 .SUBFRAME_ID = Except.ok 5)
    (hp5 : decoded_field K f5 .SV_PAGE = Except.ok p) (h1 : 1 ≤ p) (h24 : p ≤ 24)
    (hd5 : decoded_field K f5 .SV_DATA_ID = Except.ok d5) (hz5 : d5 ≠ 0)
    (hid4 : decoded_field K f4 .SUBFRAME_ID = Except.ok 4)
    (hp4 : decoded_field K f4 .SV_PAGE = Except.ok q) (h25 : 25 ≤ q) (h32 : q ≤ 32)
    (hd4 : decoded_field K f4 .SV_DATA_ID = Except.ok d4) (hz4 : d4 ≠ 0) :
    ∃ s1 s2, subframe_decoder K s f5 = Except.ok (5, s1)
      ∧ subframe_decoder K s1 f4 = Except.ok (4, s2)
      ∧ s1.a_PRN = (p : Int)
      ∧ s2.flag_almanac_valid = true
      ∧ (get_almanac s2).1.PRN = (q : Int)
      ∧ (get_almanac s2).1.SV_health = s1.SV_Health
      ∧ IsUnsigned K bits5 .ALM_SVHEALTH (get_almanac s2).1.SV_health := by
  obtain ⟨b5, hb5n, hdec5⟩ := subframe_decoder_at hK s f5 5 hid5 (by norm_num)
  have e5 : b5 = bits5 := by
    rw [hb5] at hb5n; exact (Except.ok.inj hb5n).symm
  subst e5
  have c4 : ((4 : Nat) : Int) = 4 := rfl
  have c5 : ((5 : Nat) : Int) = 5 := rfl
  rw [c5, switch_state_five] at hdec5
  have vp5 := i32_value_of_decoded hK f5 b5 hb5 .SV_PAGE p hp5
    (lt_of_le_of_lt h24 (by norm_num))
  have vd5 := i32_value_of_decoded hK f5 b5 hb5 .SV_DATA_ID d5 hd5
    (decoded_field_lt_of_width hK _ _ _ hd5 hD)
  have r5 : i32_value K b5 .SV_PAGE > 0 ∧ i32_value K b5 .SV_PAGE < 25 := by
    rw [vp5]; omega
  have z5 : i32_value K b5 .SV_DATA_ID ≠ 0 := by
    rw [vd5]; exact_mod_cast hz5
  rw [subframe_5_state_almanac K b5 s r5 z5] at hdec5
  obtain ⟨b4, hb4, hdec4⟩ := subframe_decoder_at hK
    (almanac_5_state K b5 (i32_value K b5 .SV_PAGE) (header_5_state K b5 s)) f4 4 hid4
    (by norm_num)
  rw [c4, switch_state_four] at hdec4
  have vp4 := i32_value_of_decoded hK f4 b4 hb4 .SV_PAGE q hp4
    (lt_of_le_of_lt h32 (by norm_num))
  have vd4 := i32_value_of_decoded hK f4 b4 hb4 .SV_DATA_ID d4 hd4
    (decoded_field_lt_of_width hK _ _ _ hd4 hD)
  have r4 : i32_value K b4 .SV_PAGE > 24 ∧ i32_value K b4 .SV_PAGE < 33 := by
    rw [vp4]; omega
  have z4 : i32_value K b4 .SV_DATA_ID ≠ 0 := by
    rw [vd4]; exact_mod_cast hz4
  rw [subframe_4_state_almanac K b4 _ r4 z4] at hdec4
  have g1 : ∀ t : Gps_Navigation_Message D, (get_almanac t).1.PRN = t.a_PRN := fun _ => rfl
  have g2 : ∀ t : Gps_Navigation_Message D, (get_almanac t).1.SV_health = t.SV_Health :=
    fun _ => rfl
  have k1 : (almanac_4_state K b4 (i32_value K b4 .SV_PAGE) (header_4_state K b4
      (almanac_5_state K b5 (i32_value K b5 .SV_PAGE) (header_5_state K b5 s)))).SV_Health
      = (almanac_5_state K b5 (i32_value K b5 .SV_PAGE) (header_5_state K b5 s)).SV_Health :=
    (almanac_4_state_SV_Health K b4 _ _).trans (header_4_state_SV_Health K b4 _)
  refine ⟨_, _, hdec5, hdec4, ?_, almanac_4_state_flag_almanac_valid _ _ _ _, ?_, ?_, ?_⟩
  · rw [almanac_5_state_a_PRN, vp5]
  · rw [g1, almanac_4_state_a_PRN, vp4]
  · rw [g2]
    exact k1
  · rw [g2, k1, almanac_5_state_SV_Health]
    exact isUnsigned_i32 hK b5 _ hH

set_option maxRecDepth 100000 in
theorem almanac_health_stale_witness :
    ∃ s1 s2, subframe_decoder sample_constants zero_state (page_subframe 5 1 3)
        = Except.ok (5, s1)
      ∧ subframe_decoder sample_constants s1 (page_subframe 4 1 25) = Except.ok (4, s2)
      ∧ s1.a_PRN = ((3 : Nat) : Int)
      ∧ s2.flag_almanac_valid = true
      ∧ (get_almanac s2).1.PRN = ((25 : Nat) : Int)
      ∧ (get_almanac s2).1.SV_health = s1.SV_Health
      ∧ IsUnsigned sample_constants (frame_of_words (word (page_subframe 5 1 3)))
          .ALM_SVHEALTH (get_almanac s2).1.SV_health :=
  almanac_health_stale sample_constants_valid (by decide) (by decide) zero_state
    (page_subframe 5 1 3) (page_subframe 4 1 25)
    (frame_of_words (word (page_subframe 5 1 3))) 3 1 25 1 (unpack_eq _ (by decide))
    (by decide) (by decide) (by decide) (by decide) (by decide) (by decide)
    (by decide) (by decide) (by decide) (by decide) (by decide) (by decide)

/-! ## Writing the same members again -/

section Twice

/-- Writing the header members of type 4 and then the almanac members, twice, gives the state
  after writing them once. -/
theorem almanac_4_twice {D : Type} (s t1 t2 t3 t4 : Gps_Navigation_Message D)
    {h1 h2 : Int} {h3 h4 h5 : Bool} {g1 g2 g3 g4 g5 g6 g7 g8 g9 : D} {g10 g11 : Int} {g12 : Bool}
    (e1 : t1 = { s with
      d_TOW_SF4 := h1, d_TOW := h2, b_integrity_status_flag := h3, b_alert_flag := h4,
      b_antispoofing_flag := h5 })
    (e2 : t2 = { t1 with
      a_M_0 := g1, a_ecc := g2, a_sqrtA := g3, a_OMEGA_0 := g4, a_omega := g5, a_OMEGAdot := g6,
      a_delta_i := g7, a_af0 := g8, a_af1 := g9, a_PRN := g10, i_Toa := g11,
      flag_almanac_valid := g12 })
    (e3 : t3 = { t2 with
      d_TOW_SF4 := h1, d_TOW := h2, b_integrity_status_flag := h3, b_alert_flag := h4,
      b_antispoofing_flag := h5 })
    (e4 : t4 = { t3 with
      a_M_0 := g1, a_ecc := g2, a_sqrtA := g3, a_OMEGA_0 := g4, a_omega := g5, a_OMEGAdot := g6,
      a_delta_i := g7, a_af0 := g8, a_af1 := g9, a_PRN := g10, i_Toa := g11,
      flag_almanac_valid := g12 }) :
    t4 = t2 := by
  subst e1 e2 e3 e4
  rfl

/-- Writing the header members of type 4 and then the ionospheric and UTC members, twice, gives
  the state after writing them once. -/
theorem page_18_twice {D : Type} (s t1 t2 t3 t4 : Gps_Navigation_Message D)
    {h1 h2 : Int} {h3 h4 h5 : Bool} {g1 g2 g3 g4 g5 g6 g7 g8 g9 g10 : D} {g11 g12 g13 g14 g15 g16
      : Int} {g17 g18 : Bool}
    (e1 : t1 = { s with
      d_TOW_SF4 := h1, d_TOW := h2, b_integrity_status_flag := h3, b_alert_flag := h4,
      b_antispoofing_flag := h5 })
    (e2 : t2 = { t1 with
      d_alpha0 := g1, d_alpha1 := g2, d_alpha2 := g3, d_alpha3 := g4, d_beta0 := g5,
      d_beta1 := g6, d_beta2 := g7, d_beta3 := g8, d_A1 := g9, d_A0 := g10, d_t_OT := g11,
      i_WN_T := g12, d_DeltaT_LS := g13, i_WN_LSF := g14, i_DN := g15, d_DeltaT_LSF := g16,
      flag_iono_valid := g17, flag_utc_model_valid := g18 })
    (e3 : t3 = { t2 with
      d_TOW_SF4 := h1, d_TOW := h2, b_integrity_status_flag := h3, b_alert_flag := h4,
      b_antispoofing_flag := h5 })
    (e4 : t4 = { t3 with
      d_alpha0 := g1, d_alpha1 := g2, d_alpha2 := g3, d_alpha3 := g4, d_beta0 := g5,
      d_beta1 := g6, d_beta2 := g7, d_beta3 := g8, d_A1 := g9, d_A0 := g10, d_t_OT := g11,
      i_WN_T := g12, d_DeltaT_LS := g13, i_WN_LSF := g14, i_DN := g15, d_DeltaT_LSF := g16,
      flag_iono_valid := g17, flag_utc_model_valid := g18 }) :
    t4 = t2 := by
  subst e1 e2 e3 e4
  rfl

/-- Writing the header members of type 4 and then the health table, twice with the same table,
  gives the state after writing them once. -/
theorem health_4_twice {D : Type} (s t1 t2 t3 t4 : Gps_Navigation_Message D)
    {h1 h2 : Int} {h3 h4 h5 : Bool} {g1 : Nat → Int} {q : Nat → Int}
    (e1 : t1 = { s with
      d_TOW_SF4 := h1, d_TOW := h2, b_integrity_status_flag := h3, b_alert_flag := h4,
      b_antispoofing_flag := h5 })
    (e2 : t2 = { t1 with
      almanacHealth := g1 })
    (e3 : t3 = { t2 with
      d_TOW_SF4 := h1, d_TOW := h2, b_integrity_status_flag := h3, b_alert_flag := h4,
      b_antispoofing_flag := h5 })
    (e4 : t4 = { t3 with
      almanacHealth := q }) (eq : q = g1) :
    t4 = t2 := by
  subst e1 e2 e3 e4 eq
  rfl

/-- Writing the header members of type 5 and then the almanac members, twice, gives the state
  after writing them once. -/
theorem almanac_5_twice {D : Type} (s t1 t2 t3 t4 : Gps_Navigation_Message D)
    {h1 h2 : Int} {h3 h4 h5 : Bool} {g1 g2 g3 g4 g5 g6 g7 g8 g9 : D} {g10 g11 g12 : Int} {g13 :
      Bool}
    (e1 : t1 = { s with
      d_TOW_SF5 := h1, d_TOW := h2, b_integrity_status_flag := h3, b_alert_flag := h4,
      b_antispoofing_flag := h5 })
    (e2 : t2 = { t1 with
      a_M_0 := g1, a_ecc := g2, a_sqrtA := g3, a_OMEGA_0 := g4, a_omega := g5, a_OMEGAdot := g6,
      a_delta_i := g7, a_af0 := g8, a_af1 := g9, a_PRN := g10, i_Toa := g11, SV_Health := g12,
      flag_almanac_valid := g13 })
    (e3 : t3 = { t2 with
      d_TOW_SF5 := h1, d_TOW := h2, b_integrity_status_flag := h3, b_alert_flag := h4,
      b_antispoofing_flag := h5 })
    (e4 : t4 = { t3 with
      a_M_0 := g1, a_ecc := g2, a_sqrtA := g3, a_OMEGA_0 := g4, a_omega := g5, a_OMEGAdot := g6,
      a_delta_i := g7, a_af0 := g8, a_af1 := g9, a_PRN := g10, i_Toa := g11, SV_Health := g12,
      flag_almanac_valid := g13 }) :
    t4 = t2 := by
  subst e1 e2 e3 e4
  rfl

/-- Writing the header members of type 5 and then the reference week and the health table, twice
  with the same values, gives the state after writing them once. -/
theorem health_5_twice {D : Type} (s t1 t2 t3 t4 : Gps_Navigation_Message D)
    {h1 h2 : Int} {h3 h4 h5 : Bool} {g1 g2 : Int} {g3 : Bool} {g4 : Nat → Int} {q : Nat → Int}
    (e1 : t1 = { s with
      d_TOW_SF5 := h1, d_TOW := h2, b_integrity_status_flag := h3, b_alert_flag := h4,
      b_antispoofing_flag := h5 })
    (e2 : t2 = { t1 with
      i_Toa := g1, i_WN_A := g2, flag_almanac_week_valid := g3, almanacHealth := g4 })
    (e3 : t3 = { t2 with
      d_TOW_SF5 := h1, d_TOW := h2, b_integrity_status_flag := h3, b_alert_flag := h4,
      b_antispoofing_flag := h5 })
    (e4 : t4 = { t3 with
      i_Toa := g1, i_WN_A := g2, flag_almanac_week_valid := g3, almanacHealth := q }) (eq : q =
      g4) :
    t4 = t2 := by
  subst e1 e2 e3 e4 eq
  rfl

variable {D : Type} [Mul D] [IntCast D]

theorem subframe_1_state_twice (K : Constants D) (bits : Frame)
    (s : Gps_Navigation_Message D) :
    subframe_1_state K bits (subframe_1_state K bits s) = subframe_1_state K bits s := by
  unfold subframe_1_state
  rfl

theorem subframe_2_state_twice (K : Constants D) (bits : Frame)
    (s : Gps_Navigation_Message D) :
    subframe_2_state K bits (subframe_2_state K bits s) = subframe_2_state K bits s := by
  unfold subframe_2_state
  rfl

theorem subframe_3_state_twice (K : Constants D) (bits : Frame)
    (s : Gps_Navigation_Message D) :
    subframe_3_state K bits (subframe_3_state K bits s) = subframe_3_state K bits s := by
  unfold subframe_3_state
  rfl

omit [Mul D] [IntCast D] in
theorem header_4_state_twice (K : Constants D) (bits : Frame)
    (s : Gps_Navigation_Message D) :
    header_4_state K bits (header_4_state K bits s) = header_4_state K bits s := by
  unfold header_4_state
  rfl

omit [Mul D] [IntCast D] in
theorem header_5_state_twice (K : Constants D) (bits : Frame)
    (s : Gps_Navigation_Message D) :
    header_5_state K bits (header_5_state K bits s) = header_5_state K bits s := by
  unfold header_5_state
  rfl

theorem almanac_4_state_twice (K : Constants D) (bits : Frame) (page : Int)
    (s : Gps_Navigation_Message D) :
    almanac_4_state K bits page (header_4_state K bits
        (almanac_4_state K bits page (header_4_state K bits s)))
      = almanac_4_state K bits page (header_4_state K bits s) :=
  almanac_4_twice s (header_4_state K bits s)
    (almanac_4_state K bits page (header_4_state K bits s))
    (header_4_state K bits (almanac_4_state K bits page (header_4_state K bits s)))
    (almanac_4_state K bits page (header_4_state K bits
      (almanac_4_state K bits page (header_4_state K bits s)))) rfl rfl rfl rfl

theorem almanac_5_state_twice (K : Constants D) (bits : Frame) (page : Int)
    (s : Gps_Navigation_Message D) :
    almanac_5_state K bits page (header_5_state K bits
        (almanac_5_state K bits page (header_5_state K bits s)))
      = almanac_5_state K bits page (header_5_state K bits s) :=
  almanac_5_twice s (header_5_state K bits s)
    (almanac_5_state K bits page (header_5_state K bits s))
    (header_5_state K bits (almanac_5_state K bits page (header_5_state K bits s)))
    (almanac_5_state K bits page (header_5_state K bits
      (almanac_5_state K bits page (header_5_state K bits s)))) rfl rfl rfl rfl

theorem page_18_state_twice (K : Constants D) (bits : Frame)
    (s : Gps_Navigation_Message D) :
    page_18_state K bits (header_4_state K bits
        (page_18_state K bits (header_4_state K bits s)))
      = page_18_state K bits (header_4_state K bits s) :=
  page_18_twice s (header_4_state K bits s)
    (page_18_state K bits (header_4_state K bits s))
    (header_4_state K bits (page_18_state K bits (header_4_state K bits s)))
    (page_18_state K bits (header_4_state K bits
      (page_18_state K bits (header_4_state K bits s)))) rfl rfl rfl rfl

omit [Mul D] [IntCast D] in
/-- Assigning the entries of a table with distinct indices twice gives the table
after assigning them once. -/
theorem health_update_twice (K : Constants D) (bits : Frame) (table : List (Nat × Field))
    (hnd : (table.map Prod.fst).Nodup) (h : Nat → Int) :
    health_update K bits table (health_update K bits table h) = health_update K bits table h := by
  funext v
  by_cases hv : v ∈ table.map Prod.fst
  · obtain ⟨p, hp, e⟩ := List.mem_map.1 hv
    subst e
    rw [health_update_of_mem K bits table hnd p hp, health_update_of_mem K bits table hnd p hp]
  · rw [health_update_of_not_mem K bits table v hv, health_update_of_not_mem K bits table v hv]

omit [Mul D] [IntCast D] in
theorem page_25_sf4_state_almanacHealth (K : Constants D) (bits : Frame)
    (s : Gps_Navigation_Message D) :
    (page_25_sf4_state K bits s).almanacHealth
      = health_update K bits health_fields_4 s.almanacHealth := by
  rw [page_25_sf4_state_eq]

omit [Mul D] [IntCast D] in
theorem page_25_sf5_state_almanacHealth (K : Constants D) (bits : Frame)
    (s : Gps_Navigation_Message D) :
    (page_25_sf5_state K bits s).almanacHealth
      = health_update K bits health_fields_5 s.almanacHealth := by
  rw [page_25_sf5_state_eq]

omit [Mul D] [IntCast D] in
theorem page_25_sf4_state_twice (K : Constants D) (bits : Frame)
    (s : Gps_Navigation_Message D) :
    page_25_sf4_state K bits (header_4_state K bits
        (page_25_sf4_state K bits (header_4_state K bits s)))
      = page_25_sf4_state K bits (header_4_state K bits s) :=
  health_4_twice s (header_4_state K bits s)
    (page_25_sf4_state K bits (header_4_state K bits s))
    (header_4_state K bits (page_25_sf4_state K bits (header_4_state K bits s)))
    (page_25_sf4_state K bits (header_4_state K bits
      (page_25_sf4_state K bits (header_4_state K bits s))))
    rfl (page_25_sf4_state_eq K bits _) rfl (page_25_sf4_state_eq K bits _)
    (by rw [header_4_state_almanacHealth, page_25_sf4_state_almanacHealth,
      health_update_twice K bits _ (by decide)])

omit [Mul D] [IntCast D] in
theorem page_25_sf5_state_twice (K : Constants D) (bits : Frame)
    (s : Gps_Navigation_Message D) :
    page_25_sf5_state K bits (header_5_state K bits
        (page_25_sf5_state K bits (header_5_state K bits s)))
      = page_25_sf5_state K bits (header_5_state K bits s) :=
  health_5_twice s (header_5_state K bits s)
    (page_25_sf5_state K bits (header_5_state K bits s))
    (header_5_state K bits (page_25_sf5_state K bits (header_5_state K bits s)))
    (page_25_sf5_state K bits (header_5_state K bits
      (page_25_sf5_state K bits (header_5_state K bits s))))
    rfl (page_25_sf5_state_eq K bits _) rfl (page_25_sf5_state_eq K bits _)
    (by rw [header_5_state_almanacHealth, page_25_sf5_state_almanacHealth,
      health_update_twice K bits _ (by decide)])

end Twice

/-! ## Decoding the same input twice -/

section DecodeTwice

variable {D : Type} [Mul D] [IntCast D]

/-- The state after `case 5` on a page no block of the dispatch handles. -/
theorem subframe_5_state_other (K : Constants D) (bits : Frame)
    (s : Gps_Navigation_Message D)
    (h1 : ¬ ((i32_value K bits .SV_PAGE > 0 ∧ i32_value K bits .SV_PAGE < 25)
      ∧ i32_value K bits .SV_DATA_ID ≠ 0))
    (h2 : i32_value K bits .SV_PAGE ≠ 51) :
    subframe_5_state K bits s = header_5_state K bits s := by
  unfold subframe_5_state
  rw [almanac_5_step_off K bits _ h1, page_25_sf5_step_off K bits _ h2]

/-- A state function that is a composite `G ∘ H` at every state and satisfies
`G (H (G (H s))) = G (H s)` gives the same state when applied twice. -/
theorem twice_of_composite {S : Type} (F C : S → S) (s : S) (hF : ∀ t, F t = C t)
    (hC : C (C s) = C s) : F (F s) = F s := by
  rw [hF (F s), hF s]
  exact hC

theorem subframe_4_state_twice (K : Constants D) (bits : Frame)
    (s : Gps_Navigation_Message D) :
    subframe_4_state K bits (subframe_4_state K bits s) = subframe_4_state K bits s := by
  by_cases ha : (i32_value K bits .SV_PAGE > 24 ∧ i32_value K bits .SV_PAGE < 33)
      ∧ i32_value K bits .SV_DATA_ID ≠ 0
  · exact twice_of_composite (subframe_4_state K bits)
      (fun t => almanac_4_state K bits (i32_value K bits .SV_PAGE) (header_4_state K bits t)) s
      (fun t => subframe_4_state_almanac K bits t ha.1 ha.2)
      (almanac_4_state_twice K bits _ s)
  by_cases hb : i32_value K bits .SV_PAGE = 56
  · exact twice_of_composite (subframe_4_state K bits)
      (fun t => page_18_state K bits (header_4_state K bits t)) s
      (fun t => subframe_4_state_page_18 K bits t hb) (page_18_state_twice K bits s)
  by_cases hc : i32_value K bits .SV_PAGE = 63
  · exact twice_of_composite (subframe_4_state K bits)
      (fun t => page_25_sf4_state K bits (header_4_state K bits t)) s
      (fun t => subframe_4_state_page_25 K bits t hc) (page_25_sf4_state_twice K bits s)
  · exact twice_of_composite (subframe_4_state K bits) (header_4_state K bits) s
      (fun t => subframe_4_state_other K bits t ha hb hc) (header_4_state_twice K bits s)

theorem subframe_5_state_twice (K : Constants D) (bits : Frame)
    (s : Gps_Navigation_Message D) :
    subframe_5_state K bits (subframe_5_state K bits s) = subframe_5_state K bits s := by
  by_cases ha : (i32_value K bits .SV_PAGE > 0 ∧ i32_value K bits .SV_PAGE < 25)
      ∧ i32_value K bits .SV_DATA_ID ≠ 0
  · exact twice_of_composite (subframe_5_state K bits)
      (fun t => almanac_5_state K bits (i32_value K bits .SV_PAGE) (header_5_state K bits t)) s
      (fun t => subframe_5_state_almanac K bits t ha.1 ha.2)
      (almanac_5_state_twice K bits _ s)
  by_cases hb : i32_value K bits .SV_PAGE = 51
  · exact twice_of_composite (subframe_5_state K bits)
      (fun t => page_25_sf5_state K bits (header_5_state K bits t)) s
      (fun t => subframe_5_state_page_25 K bits t hb) (page_25_sf5_state_twice K bits s)
  · exact twice_of_composite (subframe_5_state K bits) (header_5_state K bits) s
      (fun t => subframe_5_state_other K bits t ha hb) (header_5_state_twice K bits s)

/-- The switch applied twice to the same frame and identifier gives the state
after one application. -/
theorem switch_state_twice (K : Constants D) (bits : Frame) (id : Int)
    (s : Gps_Navigation_Message D) :
    switch_state K bits id (switch_state K bits id s) = switch_state K bits id s := by
  by_cases h1 : id = 1
  · subst h1
    exact twice_of_composite (switch_state K bits 1) (subframe_1_state K bits) s
      (fun t => switch_state_one K bits t) (subframe_1_state_twice K bits s)
  by_cases h2 : id = 2
  · subst h2
    exact twice_of_composite (switch_state K bits 2) (subframe_2_state K bits) s
      (fun t => switch_state_two K bits t) (subframe_2_state_twice K bits s)
  by_cases h3 : id = 3
  · subst h3
    exact twice_of_composite (switch_state K bits 3) (subframe_3_state K bits) s
      (fun t => switch_state_three K bits t) (subframe_3_state_twice K bits s)
  by_cases h4 : id = 4
  · subst h4
    exact twice_of_composite (switch_state K bits 4) (subframe_4_state K bits) s
      (fun t => switch_state_four K bits t) (subframe_4_state_twice K bits s)
  by_cases h5 : id = 5
  · subst h5
    exact twice_of_composite (switch_state K bits 5) (subframe_5_state K bits) s
      (fun t => switch_state_five K bits t) (subframe_5_state_twice K bits s)
  · have e : ∀ t : Gps_Navigation_Message D, switch_state K bits id t = t := by
      intro t
      unfold switch_state
      rw [if_neg h1, if_neg h2, if_neg h3, if_neg h4, if_neg h5]
    exact twice_of_composite (switch_state K bits id) (fun t => t) s e rfl

end DecodeTwice

/-! ## Decoding twice and in either order: claims C34 and C35 -/

/-- C34: for every pre-state `s` and every 40-byte input `f`, decoding `f`
returns an identifier and a state `s1`, and decoding `f` again from `s1`
returns the same identifier and the same state `s1`. -/
theorem decoding_idempotent {D : Type} [Mul D] [IntCast D] {K : Constants D}
    (hK : K.Valid) (s : Gps_Navigation_Message D) (f : List (Fin 256))
    (hlen : f.length = 40) :
    ∃ id s1, subframe_decoder K s f = Except.ok (id, s1)
      ∧ subframe_decoder K s1 f = Except.ok (id, s1) := by
  have hdec := fun t => subframe_decoder_state hK t f _ (unpack_eq f hlen)
  refine ⟨_, _, hdec s, ?_⟩
  rw [hdec, switch_state_twice]

set_option maxRecDepth 100000 in
theorem decoding_idempotent_witness :
    ∃ id s1, subframe_decoder sample_constants zero_state (page_subframe 4 1 25)
        = Except.ok (id, s1)
      ∧ subframe_decoder sample_constants s1 (page_subframe 4 1 25) = Except.ok (id, s1) :=
  decoding_idempotent sample_constants_valid zero_state (page_subframe 4 1 25) (by decide)

/-! ## Two ephemeris subframes in either order -/

section EitherOrder

/-- Writing the members of type 1 and those of type 2 in either order gives states that differ in
  `d_TOW` and the status flags only, which hold the values written last. -/
theorem ephemeris_1_2_order {D : Type} (s a b ab ba : Gps_Navigation_Message D)
    {u1 u2 : Int} {u3 u4 u5 : Bool} {u6 u7 u8 : Int} {u9 : Bool} {u10 : Int} {u11 : D} {u12 u13 :
      Int} {u14 u15 u16 : D} {v1 v2 : Int} {v3 v4 v5 : Bool} {v6 : Int} {v7 v8 v9 v10 v11 v12 v13
      : D} {v14 : Int} {v15 : Bool} {v16 : Int}
    (ea : a = { s with
      d_TOW_SF1 := u1, d_TOW := u2, b_integrity_status_flag := u3, b_alert_flag := u4,
      b_antispoofing_flag := u5, i_GPS_week := u6, i_SV_accuracy := u7, i_SV_health := u8,
      b_L2_P_data_flag := u9, i_code_on_L2 := u10, d_TGD := u11, d_IODC := u12, d_Toc := u13,
      d_A_f0 := u14, d_A_f1 := u15, d_A_f2 := u16 })
    (eb : b = { s with
      d_TOW_SF2 := v1, d_TOW := v2, b_integrity_status_flag := v3, b_alert_flag := v4,
      b_antispoofing_flag := v5, d_IODE_SF2 := v6, d_Crs := v7, d_Delta_n := v8, d_M_0 := v9,
      d_Cuc := v10, d_e_eccentricity := v11, d_Cus := v12, d_sqrt_A := v13, d_Toe := v14,
      b_fit_interval_flag := v15, i_AODO := v16 })
    (eab : ab = { a with
      d_TOW_SF2 := v1, d_TOW := v2, b_integrity_status_flag := v3, b_alert_flag := v4,
      b_antispoofing_flag := v5, d_IODE_SF2 := v6, d_Crs := v7, d_Delta_n := v8, d_M_0 := v9,
      d_Cuc := v10, d_e_eccentricity := v11, d_Cus := v12, d_sqrt_A := v13, d_Toe := v14,
      b_fit_interval_flag := v15, i_AODO := v16 })
    (eba : ba = { b with
      d_TOW_SF1 := u1, d_TOW := u2, b_integrity_status_flag := u3, b_alert_flag := u4,
      b_antispoofing_flag := u5, i_GPS_week := u6, i_SV_accuracy := u7, i_SV_health := u8,
      b_L2_P_data_flag := u9, i_code_on_L2 := u10, d_TGD := u11, d_IODC := u12, d_Toc := u13,
      d_A_f0 := u14, d_A_f1 := u15, d_A_f2 := u16 }) :
    EqualUpToTime ab ba ∧ EqualUpToTime ba ab ∧ SameTime ab b ∧ SameTime ba a := by
  subst ea eb eab eba
  exact ⟨rfl, rfl, ⟨rfl, rfl, rfl, rfl⟩, ⟨rfl, rfl, rfl, rfl⟩⟩

/-- Writing the members of type 1 and those of type 3 in either order gives states that differ in
  `d_TOW` and the status flags only, which hold the values written last. -/
theorem ephemeris_1_3_order {D : Type} (s a b ab ba : Gps_Navigation_Message D)
    {u1 u2 : Int} {u3 u4 u5 : Bool} {u6 u7 u8 : Int} {u9 : Bool} {u10 : Int} {u11 : D} {u12 u13 :
      Int} {u14 u15 u16 : D} {v1 v2 : Int} {v3 v4 v5 : Bool} {v6 v7 v8 v9 v10 v11 v12 : D} {v13 :
      Int} {v14 : D}
    (ea : a = { s with
      d_TOW_SF1 := u1, d_TOW := u2, b_integrity_status_flag := u3, b_alert_flag := u4,
      b_antispoofing_flag := u5, i_GPS_week := u6, i_SV_accuracy := u7, i_SV_health := u8,
      b_L2_P_data_flag := u9, i_code_on_L2 := u10, d_TGD := u11, d_IODC := u12, d_Toc := u13,
      d_A_f0 := u14, d_A_f1 := u15, d_A_f2 := u16 })
    (eb : b = { s with
      d_TOW_SF3 := v1, d_TOW := v2, b_integrity_status_flag := v3, b_alert_flag := v4,
      b_antispoofing_flag := v5, d_Cic := v6, d_OMEGA0 := v7, d_Cis := v8, d_i_0 := v9,
      d_Crc := v10, d_OMEGA := v11, d_OMEGA_DOT := v12, d_IODE_SF3 := v13, d_IDOT := v14 })
    (eab : ab = { a with
      d_TOW_SF3 := v1, d_TOW := v2, b_integrity_status_flag := v3, b_alert_flag := v4,
      b_antispoofing_flag := v5, d_Cic := v6, d_OMEGA0 := v7, d_Cis := v8, d_i_0 := v9,
      d_Crc := v10, d_OMEGA := v11, d_OMEGA_DOT := v12, d_IODE_SF3 := v13, d_IDOT := v14 })
    (eba : ba = { b with
      d_TOW_SF1 := u1, d_TOW := u2, b_integrity_status_flag := u3, b_alert_flag := u4,
      b_antispoofing_flag := u5, i_GPS_week := u6, i_SV_accuracy := u7, i_SV_health := u8,
      b_L2_P_data_flag := u9, i_code_on_L2 := u10, d_TGD := u11, d_IODC := u12, d_Toc := u13,
      d_A_f0 := u14, d_A_f1 := u15, d_A_f2 := u16 }) :
    EqualUpToTime ab ba ∧ EqualUpToTime ba ab ∧ SameTime ab b ∧ SameTime ba a := by
  subst ea eb eab eba
  exact ⟨rfl, rfl, ⟨rfl, rfl, rfl, rfl⟩, ⟨rfl, rfl, rfl, rfl⟩⟩

/-- Writing the members of type 2 and those of type 3 in either order gives states that differ in
  `d_TOW` and the status flags only, which hold the values written last. -/
theorem ephemeris_2_3_order {D : Type} (s a b ab ba : Gps_Navigation_Message D)
    {u1 u2 : Int} {u3 u4 u5 : Bool} {u6 : Int} {u7 u8 u9 u10 u11 u12 u13 : D} {u14 : Int} {u15 :
      Bool} {u16 : Int} {v1 v2 : Int} {v3 v4 v5 : Bool} {v6 v7 v8 v9 v10 v11 v12 : D} {v13 : Int}
      {v14 : D}
    (ea : a = { s with
      d_TOW_SF2 := u1, d_TOW := u2, b_integrity_status_flag := u3, b_alert_flag := u4,
      b_antispoofing_flag := u5, d_IODE_SF2 := u6, d_Crs := u7, d_Delta_n := u8, d_M_0 := u9,
      d_Cuc := u10, d_e_eccentricity := u11, d_Cus := u12, d_sqrt_A := u13, d_Toe := u14,
      b_fit_interval_flag := u15, i_AODO := u16 })
    (eb : b = { s with
      d_TOW_SF3 := v1, d_TOW := v2, b_integrity_status_flag := v3, b_alert_flag := v4,
      b_antispoofing_flag := v5, d_Cic := v6, d_OMEGA0 := v7, d_Cis := v8, d_i_0 := v9,
      d_Crc := v10, d_OMEGA := v11, d_OMEGA_DOT := v12, d_IODE_SF3 := v13, d_IDOT := v14 })
    (eab : ab = { a with
      d_TOW_SF3 := v1, d_TOW := v2, b_integrity_status_flag := v3, b_alert_flag := v4,
      b_antispoofing_flag := v5, d_Cic := v6, d_OMEGA0 := v7, d_Cis := v8, d_i_0 := v9,
      d_Crc := v10, d_OMEGA := v11, d_OMEGA_DOT := v12, d_IODE_SF3 := v13, d_IDOT := v14 })
    (eba : ba = { b with
      d_TOW_SF2 := u1, d_TOW := u2, b_integrity_status_flag := u3, b_alert_flag := u4,
      b_antispoofing_flag := u5, d_IODE_SF2 := u6, d_Crs := u7, d_Delta_n := u8, d_M_0 := u9,
      d_Cuc := u10, d_e_eccentricity := u11, d_Cus := u12, d_sqrt_A := u13, d_Toe := u14,
      b_fit_interval_flag := u15, i_AODO := u16 }) :
    EqualUpToTime ab ba ∧ EqualUpToTime ba ab ∧ SameTime ab b ∧ SameTime ba a := by
  subst ea eb eab eba
  exact ⟨rfl, rfl, ⟨rfl, rfl, rfl, rfl⟩, ⟨rfl, rfl, rfl, rfl⟩⟩

variable {D : Type} [Mul D] [IntCast D]

theorem subframe_1_2_order (K : Constants D) (b1 b2 : Frame)
    (s : Gps_Navigation_Message D) :
    EqualUpToTime (subframe_2_state K b2 (subframe_1_state K b1 s))
        (subframe_1_state K b1 (subframe_2_state K b2 s))
      ∧ EqualUpToTime (subframe_1_state K b1 (subframe_2_state K b2 s))
        (subframe_2_state K b2 (subframe_1_state K b1 s))
      ∧ SameTime (subframe_2_state K b2 (subframe_1_state K b1 s))
        (subframe_2_state K b2 s)
      ∧ SameTime (subframe_1_state K b1 (subframe_2_state K b2 s))
        (subframe_1_state K b1 s) :=
  ephemeris_1_2_order s (subframe_1_state K b1 s) (subframe_2_state K b2 s)
    (subframe_2_state K b2 (subframe_1_state K b1 s))
    (subframe_1_state K b1 (subframe_2_state K b2 s)) rfl rfl rfl rfl

theorem subframe_1_3_order (K : Constants D) (b1 b3 : Frame)
    (s : Gps_Navigation_Message D) :
    EqualUpToTime (subframe_3_state K b3 (subframe_1_state K b1 s))
        (subframe_1_state K b1 (subframe_3_state K b3 s))
      ∧ EqualUpToTime (subframe_1_state K b1 (subframe_3_state K b3 s))
        (subframe_3_state K b3 (subframe_1_state K b1 s))
      ∧ SameTime (subframe_3_state K b3 (subframe_1_state K b1 s))
        (subframe_3_state K b3 s)
      ∧ SameTime (subframe_1_state K b1 (subframe_3_state K b3 s))
        (subframe_1_state K b1 s) :=
  ephemeris_1_3_order s (subframe_1_state K b1 s) (subframe_3_state K b3 s)
    (subframe_3_state K b3 (subframe_1_state K b1 s))
    (subframe_1_state K b1 (subframe_3_state K b3 s)) rfl rfl rfl rfl

theorem subframe_2_3_order (K : Constants D) (b2 b3 : Frame)
    (s : Gps_Navigation_Message D) :
    EqualUpToTime (subframe_3_state K b3 (subframe_2_state K b2 s))
        (subframe_2_state K b2 (subframe_3_state K b3 s))
      ∧ EqualUpToTime (subframe_2_state K b2 (subframe_3_state K b3 s))
        (subframe_3_state K b3 (subframe_2_state K b2 s))
      ∧ SameTime (subframe_3_state K b3 (subframe_2_state K b2 s))
        (subframe_3_state K b3 s)
      ∧ SameTime (subframe_2_state K b2 (subframe_3_state K b3 s))
        (subframe_2_state K b2 s) :=
  ephemeris_2_3_order s (subframe_2_state K b2 s) (subframe_3_state K b3 s)
    (subframe_3_state K b3 (subframe_2_state K b2 s))
    (subframe_2_state K b2 (subframe_3_state K b3 s)) rfl rfl rfl rfl

/-- The switch at two different identifiers of 1..3, on two frames, in either
order. -/
theorem switch_state_order (K : Constants D) (bf bg : Frame) (k l : Int)
    (s : Gps_Navigation_Message D) (hk : 1 ≤ k ∧ k ≤ 3) (hl : 1 ≤ l ∧ l ≤ 3) (hkl : k ≠ l) :
    EqualUpToTime (switch_state K bg l (switch_state K bf k s))
        (switch_state K bf k (switch_state K bg l s))
      ∧ SameTime (switch_state K bg l (switch_state K bf k s)) (switch_state K bg l s)
      ∧ SameTime (switch_state K bf k (switch_state K bg l s)) (switch_state K bf k s) := by
  have hc : (k = 1 ∧ l = 2) ∨ (k = 2 ∧ l = 1) ∨ (k = 1 ∧ l = 3) ∨ (k = 3 ∧ l = 1)
      ∨ (k = 2 ∧ l = 3) ∨ (k = 3 ∧ l = 2) := by omega
  rcases hc with ⟨e1, e2⟩ | ⟨e1, e2⟩ | ⟨e1, e2⟩ | ⟨e1, e2⟩ | ⟨e1, e2⟩ | ⟨e1, e2⟩
  · subst e1 e2
    simp only [switch_state_one, switch_state_two]
    obtain ⟨a1, _, a3, a4⟩ := subframe_1_2_order K bf bg s
    exact ⟨a1, a3, a4⟩
  · subst e1 e2
    simp only [switch_state_two, switch_state_one]
    obtain ⟨_, a2, a3, a4⟩ := subframe_1_2_order K bg bf s
    exact ⟨a2, a4, a3⟩
  · subst e1 e2
    simp only [switch_state_one, switch_state_three]
    obtain ⟨a1, _, a3, a4⟩ := subframe_1_3_order K bf bg s
    exact ⟨a1, a3, a4⟩
  · subst e1 e2
    simp only [switch_state_three, switch_state_one]
    obtain ⟨_, a2, a3, a4⟩ := subframe_1_3_order K bg bf s
    exact ⟨a2, a4, a3⟩
  · subst e1 e2
    simp only [switch_state_two, switch_state_three]
    obtain ⟨a1, _, a3, a4⟩ := subframe_2_3_order K bf bg s
    exact ⟨a1, a3, a4⟩
  · subst e1 e2
    simp only [switch_state_three, switch_state_two]
    obtain ⟨_, a2, a3, a4⟩ := subframe_2_3_order K bg bf s
    exact ⟨a2, a4, a3⟩

end EitherOrder

/-- C35: for every pre-state and every two inputs `f` and `g` whose identifier
fields read two different values `k` and `l` of 1..3, the four decodes return,
and the state after `f` then `g` is the state after `g` then `f` except for
`d_TOW` and the three status flags; these four members are, after `f` then `g`,
those a decode of `g` alone leaves, and after `g` then `f` those a decode of `f`
alone leaves. -/
theorem ephemeris_order_independent {D : Type} [Mul D] [IntCast D] {K : Constants D}
    (hK : K.Valid) (s : Gps_Navigation_Message D) (f g : List (Fin 256)) (k l : Nat)
    (hf : decoded_field K f .SUBFRAME_ID = Except.ok k)
    (hg : decoded_field K g .SUBFRAME_ID = Except.ok l)
    (hk : 1 ≤ k ∧ k ≤ 3) (hl : 1 ≤ l ∧ l ≤ 3) (hkl : k ≠ l) :
    ∃ s_f s_fg s_g s_gf,
      subframe_decoder K s f = Except.ok ((k : Int), s_f)
      ∧ subframe_decoder K s_f g = Except.ok ((l : Int), s_fg)
      ∧ subframe_decoder K s g = Except.ok ((l : Int), s_g)
      ∧ subframe_decoder K s_g f = Except.ok ((k : Int), s_gf)
      ∧ s_fg = { s_gf with
          d_TOW := s_fg.d_TOW,
          b_integrity_status_flag := s_fg.b_integrity_status_flag,
          b_alert_flag := s_fg.b_alert_flag,
          b_antispoofing_flag := s_fg.b_antispoofing_flag }
      ∧ (s_fg.d_TOW = s_g.d_TOW
        ∧ s_fg.b_integrity_status_flag = s_g.b_integrity_status_flag
        ∧ s_fg.b_alert_flag = s_g.b_alert_flag
        ∧ s_fg.b_antispoofing_flag = s_g.b_antispoofing_flag)
      ∧ (s_gf.d_TOW = s_f.d_TOW
        ∧ s_gf.b_integrity_status_flag = s_f.b_integrity_status_flag
        ∧ s_gf.b_alert_flag = s_f.b_alert_flag
        ∧ s_gf.b_antispoofing_flag = s_f.b_antispoofing_flag) := by
  obtain ⟨bf, hbf, _⟩ := subframe_decoder_at hK s f k hf (by omega)
  obtain ⟨bg, hbg, _⟩ := subframe_decoder_at hK s g l hg (by omega)
  have df : ∀ t : Gps_Navigation_Message D,
      subframe_decoder K t f = Except.ok ((k : Int), switch_state K bf (k : Int) t) := by
    intro t
    obtain ⟨b, hb, h⟩ := subframe_decoder_at hK t f k hf (by omega)
    rw [hbf] at hb
    cases hb
    exact h
  have dg : ∀ t : Gps_Navigation_Message D,
      subframe_decoder K t g = Except.ok ((l : Int), switch_state K bg (l : Int) t) := by
    intro t
    obtain ⟨b, hb, h⟩ := subframe_decoder_at hK t g l hg (by omega)
    rw [hbg] at hb
    cases hb
    exact h
  obtain ⟨a1, a2, a3⟩ := switch_state_order K bf bg (k : Int) (l : Int) s
    (by omega) (by omega) (by omega)
  exact ⟨_, _, _, _, df s, dg _, dg s, df _, a1, a2, a3⟩

set_option maxRecDepth 100000 in
theorem ephemeris_order_independent_witness :
    ∃ s_f s_fg s_g s_gf,
      subframe_decoder sample_constants zero_state week_subframe
        = Except.ok (((1 : Nat) : Int), s_f)
      ∧ subframe_decoder sample_constants s_f issue_subframe = Except.ok (((2 : Nat) : Int), s_fg)
      ∧ subframe_decoder sample_constants zero_state issue_subframe
        = Except.ok (((2 : Nat) : Int), s_g)
      ∧ subframe_decoder sample_constants s_g week_subframe = Except.ok (((1 : Nat) : Int), s_gf)
      ∧ s_fg = { s_gf with
          d_TOW := s_fg.d_TOW,
          b_integrity_status_flag := s_fg.b_integrity_status_flag,
          b_alert_flag := s_fg.b_alert_flag,
          b_antispoofing_flag := s_fg.b_antispoofing_flag }
      ∧ (s_fg.d_TOW = s_g.d_TOW
        ∧ s_fg.b_integrity_status_flag = s_g.b_integrity_status_flag
        ∧ s_fg.b_alert_flag = s_g.b_alert_flag
        ∧ s_fg.b_antispoofing_flag = s_g.b_antispoofing_flag)
      ∧ (s_gf.d_TOW = s_f.d_TOW
        ∧ s_gf.b_integrity_status_flag = s_f.b_integrity_status_flag
        ∧ s_gf.b_alert_flag = s_f.b_alert_flag
        ∧ s_gf.b_antispoofing_flag = s_f.b_antispoofing_flag) :=
  ephemeris_order_independent sample_constants_valid zero_state week_subframe issue_subframe
    1 2 (by decide) (by decide) (by decide) (by decide) (by decide)

end GpsNav
